import Mathlib

/-!
# Battery isolator controller: drivers, relay guard and main loop

A shallow embedding of `Firmware/Drivers/outputs_driver.c`,
`Firmware/Drivers/inputs_driver.c`, `Firmware/Drivers/led_driver.c` and
`Firmware/main.c`, with the value functions of the bootstrap and ADC drivers.
The C globals of each translation unit become fields of a record that is passed
explicitly; what the hardware supplies (conversion results, input pins) is an
argument.  `uint8_t` / `uint16_t` objects
are natural numbers; every C operation that could leave the range of its type
is written with an explicit `% 256` / `% 65536`, and a C condition `if(x)` is
written `x ≠ 0`.
-/

namespace IsolatorController

/-! ## outputs_driver.h -/

abbrev OUT_ISOL : Nat := 1
abbrev OUT_IGNC : Nat := 2

abbrev OUT_TYPE_OD : Nat := 1
abbrev OUT_TYPE_OS : Nat := 2
abbrev OUT_TYPE_PP : Nat := 3

/-- Output configuration, `outConfigDef`. -/
structure outConfigDef where
  type : Nat
  inv : Nat
  ext_fault_en : Nat
deriving DecidableEq

abbrev ISOL_OVERVOLATGE_LIMIT : Nat := 0
abbrev ISOL_UNDERVOLATGE_LIMIT : Nat := 0
abbrev ISOL_QDROP_LIMIT : Nat := 500
abbrev ISOL_OCP_DELAY : Nat := 2
abbrev ISOL_FAULT_COOLDOWN_TIME : Nat := 2000
abbrev ISOL_OCP_DEAD_TIME : Nat := 0
abbrev ISOL_FAULT_RETRY_TIMEOUT : Nat := 2000

abbrev IGNC_OVERVOLATGE_LIMIT : Nat := 0
abbrev IGNC_UNDERVOLATGE_LIMIT : Nat := 0
abbrev IGNC_QDROP_LIMIT : Nat := 500
abbrev IGNC_OCP_DELAY : Nat := 2
abbrev IGNC_FAULT_COOLDOWN_TIME : Nat := 2000
abbrev IGNC_OCP_DEAD_TIME : Nat := 0
abbrev IGNC_FAULT_RETRY_TIMEOUT : Nat := 2000

abbrev OUT_FAULT_EXEC_DELAY_LIMIT : Nat := 5

/-! ## outputs_driver.c: private definitions and state -/

abbrev HWOUT_HIZ : Nat := 0
abbrev HWOUT_LOW : Nat := 1
abbrev HWOUT_HIGH : Nat := 2

/-- Protection state of one channel, `ProtectionDef`.  All fields are `uint8_t`
except `cooldown_timer` and `retry_timer`, which are `uint16_t`. -/
structure ProtectionDef where
  ocp_warning : Nat
  ovp_warning : Nat
  uvp_warning : Nat
  ocp_counter : Nat
  cooldown_timer : Nat
  ext_fault : Nat
  fault : Nat
  delay_exec : Nat
  ocp_deadtime : Nat
  retry_flag : Nat
  fault_cnt : Nat
  retry_timer : Nat
deriving DecidableEq

/-- Command and hardware status of one channel, `SatusDef` (all `uint8_t`). -/
structure SatusDef where
  hw : Nat
  target : Nat
  real : Nat
  en : Nat
deriving DecidableEq

/-- The file-scope variables of `outputs_driver.c`, together with the four
PORTB pins the driver writes: PB0 = IGNC_N (ignition low side), PB1 = ISOL_N
(isolator low side), PB6 = IGNC_P (ignition high side), PB7 = ISOL_P (isolator
high side).  A pin is `true` when its PORTB bit is set. -/
structure OutDrv where
  igncState : SatusDef
  igncCfg : outConfigDef
  igncProt : ProtectionDef
  isolState : SatusDef
  isolCfg : outConfigDef
  isolProt : ProtectionDef
  PB0 : Bool
  PB1 : Bool
  PB6 : Bool
  PB7 : Bool
deriving DecidableEq

/-- All-zero protection state, as written by `OUTDRV_Init`. -/
def protZero : ProtectionDef :=
  { ocp_warning := 0, ovp_warning := 0, uvp_warning := 0, ocp_counter := 0,
    cooldown_timer := 0, ext_fault := 0, fault := 0, delay_exec := 0,
    ocp_deadtime := 0, retry_flag := 0, fault_cnt := 0, retry_timer := 0 }

/-! ## outputs_driver.c: functions -/

/-- Embedding of `OUTDRV_Init`: `HAL_Init` (pins low, both `hw` levels HiZ), then
the reset of both channels and the copy of the two configurations. -/
def OUTDRV_Init (pIsolCfg pIgncCfg : outConfigDef) : OutDrv :=
  { igncState := { hw := HWOUT_HIZ, target := 0, real := 0, en := 0 }
    igncCfg := { type := pIgncCfg.type, inv := pIgncCfg.inv,
                 ext_fault_en := pIgncCfg.ext_fault_en }
    igncProt := protZero
    isolState := { hw := HWOUT_HIZ, target := 0, real := 0, en := 0 }
    isolCfg := { type := pIsolCfg.type, inv := pIsolCfg.inv,
                 ext_fault_en := pIsolCfg.ext_fault_en }
    isolProt := protZero
    PB0 := false, PB1 := false, PB6 := false, PB7 := false }

/-- Embedding of `OUTDRV_SetOutput`. -/
def OUTDRV_SetOutput (d : OutDrv) (ch : Nat) : OutDrv :=
  if ch = OUT_ISOL then { d with isolState := { d.isolState with target := 1 } }
  else if ch = OUT_IGNC then { d with igncState := { d.igncState with target := 1 } }
  else d

/-- Embedding of `OUTDRV_ResetOutput`. -/
def OUTDRV_ResetOutput (d : OutDrv) (ch : Nat) : OutDrv :=
  if ch = OUT_ISOL then { d with isolState := { d.isolState with target := 0 } }
  else if ch = OUT_IGNC then { d with igncState := { d.igncState with target := 0 } }
  else d

/-- Embedding of `OUTDRV_EnableOutput`. -/
def OUTDRV_EnableOutput (d : OutDrv) (ch : Nat) : OutDrv :=
  if ch = OUT_ISOL then { d with isolState := { d.isolState with en := 1 } }
  else if ch = OUT_IGNC then { d with igncState := { d.igncState with en := 1 } }
  else d

/-- Embedding of `OUTDRV_DisableOutput`. -/
def OUTDRV_DisableOutput (d : OutDrv) (ch : Nat) : OutDrv :=
  if ch = OUT_ISOL then { d with isolState := { d.isolState with en := 0 } }
  else if ch = OUT_IGNC then { d with igncState := { d.igncState with en := 0 } }
  else d

/-- Embedding of `OUTDRV_GetRealOutput`. -/
def OUTDRV_GetRealOutput (d : OutDrv) (ch : Nat) : Nat :=
  if ch = OUT_ISOL then d.isolState.real
  else if ch = OUT_IGNC then d.igncState.real
  else 0

/-- Embedding of `OUTDRV_GetFault`. -/
def OUTDRV_GetFault (d : OutDrv) (ch : Nat) : Nat :=
  if ch = OUT_ISOL then
    (if d.isolProt.fault ≠ 0 ∨ d.isolProt.ext_fault ≠ 0 then 1 else 0)
  else if ch = OUT_IGNC then
    (if d.igncProt.fault ≠ 0 ∨ d.igncProt.ext_fault ≠ 0 then 1 else 0)
  else 0

/-- Embedding of `OUTDRV_GetRetryFlag`. -/
def OUTDRV_GetRetryFlag (d : OutDrv) (ch : Nat) : Nat :=
  if ch = OUT_ISOL then (if d.isolProt.retry_flag ≠ 0 then 1 else 0)
  else if ch = OUT_IGNC then (if d.igncProt.retry_flag ≠ 0 then 1 else 0)
  else 0

/-- Embedding of `OUTDRV_ResetRetryFlag`. -/
def OUTDRV_ResetRetryFlag (d : OutDrv) (ch : Nat) : OutDrv :=
  if ch = OUT_ISOL then { d with isolProt := { d.isolProt with retry_flag := 0 } }
  else if ch = OUT_IGNC then { d with igncProt := { d.igncProt with retry_flag := 0 } }
  else d

/-- Embedding of `OUTDRV_GetFaultCount`. -/
def OUTDRV_GetFaultCount (d : OutDrv) (ch : Nat) : Nat :=
  if ch = OUT_ISOL then d.isolProt.fault_cnt
  else if ch = OUT_IGNC then d.igncProt.fault_cnt
  else 0

/-- Embedding of `OUTDRV_SetExtFault`. -/
def OUTDRV_SetExtFault (d : OutDrv) (ch : Nat) : OutDrv :=
  if ch = OUT_ISOL then
    (if d.isolCfg.ext_fault_en ≠ 0 then { d with isolProt := { d.isolProt with ext_fault := 1 } }
     else { d with isolProt := { d.isolProt with ext_fault := 0 } })
  else if ch = OUT_IGNC then
    (if d.igncCfg.ext_fault_en ≠ 0 then { d with igncProt := { d.igncProt with ext_fault := 1 } }
     else { d with igncProt := { d.igncProt with ext_fault := 0 } })
  else d

/-- Embedding of `OUTDRV_ResetExtFault`. -/
def OUTDRV_ResetExtFault (d : OutDrv) (ch : Nat) : OutDrv :=
  if ch = OUT_ISOL then { d with isolProt := { d.isolProt with ext_fault := 0 } }
  else if ch = OUT_IGNC then { d with igncProt := { d.igncProt with ext_fault := 0 } }
  else d

/-- Embedding of `OUTDRV_DelayFaultExecution`. -/
def OUTDRV_DelayFaultExecution (d : OutDrv) (ch : Nat) (cycles : Nat) : OutDrv :=
  let cycles := if cycles > OUT_FAULT_EXEC_DELAY_LIMIT then OUT_FAULT_EXEC_DELAY_LIMIT else cycles
  if ch = OUT_ISOL then { d with isolProt := { d.isolProt with delay_exec := cycles } }
  else if ch = OUT_IGNC then { d with igncProt := { d.igncProt with delay_exec := cycles } }
  else d

/-- Embedding of `StateToHWLevel`. -/
def StateToHWLevel (cfg : outConfigDef) (state : Nat) : Nat :=
  if cfg.type = OUT_TYPE_PP then
    (if state ≠ 0 then (if cfg.inv ≠ 0 then HWOUT_LOW else HWOUT_HIGH)
     else (if cfg.inv ≠ 0 then HWOUT_HIGH else HWOUT_LOW))
  else if cfg.type = OUT_TYPE_OD then
    (if state ≠ 0 then HWOUT_LOW else HWOUT_HIZ)
  else if cfg.type = OUT_TYPE_OS then
    (if state ≠ 0 then HWOUT_HIGH else HWOUT_HIZ)
  else HWOUT_HIZ

/-- Embedding of `HAL_SetIgnition`. -/
def HAL_SetIgnition (d : OutDrv) (level : Nat) : OutDrv :=
  let d := if level ≠ d.igncState.hw then
      { d with igncProt := { d.igncProt with ocp_deadtime := IGNC_OCP_DEAD_TIME } }
    else d
  if level = HWOUT_HIGH then
    { d with PB0 := false, PB6 := true, igncState := { d.igncState with hw := HWOUT_HIGH } }
  else if level = HWOUT_LOW then
    { d with PB6 := false, PB0 := true, igncState := { d.igncState with hw := HWOUT_LOW } }
  else
    { d with PB6 := false, PB0 := false, igncState := { d.igncState with hw := HWOUT_HIZ } }

/-- Embedding of `HAL_SetIsolator`. -/
def HAL_SetIsolator (d : OutDrv) (level : Nat) : OutDrv :=
  let d := if level ≠ d.isolState.hw then
      { d with isolProt := { d.isolProt with ocp_deadtime := ISOL_OCP_DEAD_TIME } }
    else d
  if level = HWOUT_HIGH then
    { d with PB1 := false, PB7 := true, isolState := { d.isolState with hw := HWOUT_HIGH } }
  else if level = HWOUT_LOW then
    { d with PB7 := false, PB1 := true, isolState := { d.isolState with hw := HWOUT_LOW } }
  else
    { d with PB7 := false, PB1 := false, isolState := { d.isolState with hw := HWOUT_HIZ } }

/-- The ignition half of `OUTDRV_ProcessLogic` (its first `if` chain). -/
def ProcessLogicIgnition (d : OutDrv) : OutDrv :=
  if d.igncProt.delay_exec ≠ 0 then
    { d with igncProt := { d.igncProt with delay_exec := d.igncProt.delay_exec - 1 } }
  else if d.igncProt.fault ≠ 0 ∨ d.igncProt.ext_fault ≠ 0 ∨ d.igncState.en = 0 then
    let d := HAL_SetIgnition d HWOUT_HIZ
    { d with igncState := { d.igncState with real := 0 } }
  else
    let d := HAL_SetIgnition d (StateToHWLevel d.igncCfg d.igncState.target)
    { d with igncState := { d.igncState with real := d.igncState.target } }

/-- The isolator half of `OUTDRV_ProcessLogic` (its second `if` chain). -/
def ProcessLogicIsolator (d : OutDrv) : OutDrv :=
  if d.isolProt.delay_exec ≠ 0 then
    { d with isolProt := { d.isolProt with delay_exec := d.isolProt.delay_exec - 1 } }
  else if d.isolProt.fault ≠ 0 ∨ d.isolProt.ext_fault ≠ 0 ∨ d.isolState.en = 0 then
    let d := HAL_SetIsolator d HWOUT_HIZ
    { d with isolState := { d.isolState with real := 0 } }
  else
    let d := HAL_SetIsolator d (StateToHWLevel d.isolCfg d.isolState.target)
    { d with isolState := { d.isolState with real := d.isolState.target } }

/-- Embedding of `OUTDRV_ProcessLogic`: the ignition chain, then the isolator
chain. -/
def OUTDRV_ProcessLogic (d : OutDrv) : OutDrv :=
  ProcessLogicIsolator (ProcessLogicIgnition d)

/-! ### Protection processing

`ProcessIgnitionProtection` and `ProcessIsolatorProtection` have the same text
up to the names of the configuration constants and of the channel's variables.
Their body is embedded block by block (the blocks are those the source marks
with comments), each block taking the constants it uses as arguments; the two
functions below instantiate the blocks with the constants each of them names in
the source. -/

/-- The block "Calculate mosfet voltage drop": the `uint16_t drop` computed
from the asserted hardware level and the two `uint16_t` voltages.  The
subtraction is guarded by `volt_pwrsrc > volt_out`, so it does not wrap. -/
def mosfetDrop (hw volt_pwrsrc volt_out : Nat) : Nat :=
  if hw = HWOUT_HIGH ∧ volt_pwrsrc > volt_out then volt_pwrsrc - volt_out
  else if hw = HWOUT_LOW then volt_out
  else 0

/-- The blocks "Check Over-Voltage warning", "Check Under-Voltage warning" and
"Check Over-Current warning".  `ovl`, `uvl`, `ql` stand for
`*_OVERVOLATGE_LIMIT`, `*_UNDERVOLATGE_LIMIT`, `*_QDROP_LIMIT`. -/
def checkWarnings (ovl uvl ql : Nat) (volt_pwrsrc drop : Nat) (p : ProtectionDef) :
    ProtectionDef :=
  { p with
    ovp_warning := if volt_pwrsrc > ovl ∧ ovl ≠ 0 then 1 else 0
    uvp_warning := if volt_pwrsrc < uvl ∧ uvl ≠ 0 then 1 else 0
    ocp_warning := if drop > ql ∧ ql ≠ 0 then 1 else 0 }

/-- The leaky bucket of the block "OCP delay": the new value of the `uint8_t`
counter, given the warning flag and the dead-time as they are when the block
is entered.  `x` is a `uint16_t`, `inc` and `dtop` are `uint8_t`. -/
def ocpCounterNext (ql drop : Nat) (ocp_warning ocp_deadtime ocp_counter : Nat) : Nat :=
  if ocp_warning ≠ 0 ∧ ocp_deadtime = 0 then
    -- Calculate increment
    let x := (drop / ql) % 65536
    let x := if x > 255 then 255 else x
    let inc := x % 256
    -- Saturated add
    let dtop := (255 - ocp_counter) % 256
    if inc > dtop then 255 else (ocp_counter + inc) % 256
  else
    -- Saturated subtraction
    if ocp_counter ≠ 0 then ocp_counter - 1 else ocp_counter

/-- The blocks "Do delay calculations" and "OCP delay": the dead-time is
decremented first, the bucket then tests the decremented value. -/
def ocpDelay (ql drop : Nat) (p : ProtectionDef) : ProtectionDef :=
  let deadtime := if p.ocp_deadtime ≠ 0 then p.ocp_deadtime - 1 else p.ocp_deadtime
  { p with
    ocp_deadtime := deadtime
    ocp_counter := ocpCounterNext ql drop p.ocp_warning deadtime p.ocp_counter }

/-- The block "Check fault".  `delay`, `cooldown`, `retry` stand for the
constants compared with `ocp_counter`, loaded into `cooldown_timer` and loaded
into `retry_timer`. -/
def checkFault (delay cooldown retry : Nat) (p : ProtectionDef) : ProtectionDef :=
  if p.ovp_warning ≠ 0 ∨ p.uvp_warning ≠ 0 ∨ p.ocp_counter > delay then
    { p with
      fault_cnt := if p.fault = 0 ∧ p.fault_cnt < 255 then p.fault_cnt + 1 else p.fault_cnt
      fault := 1
      cooldown_timer := if p.cooldown_timer = 0 then cooldown else p.cooldown_timer }
  else
    -- Wait for fault cooldown time
    if p.cooldown_timer ≠ 0 then { p with cooldown_timer := p.cooldown_timer - 1 }
    else
      -- Fault ended
      if p.fault ≠ 0 then { p with fault := 0, retry_flag := 1, retry_timer := retry }
      else
        if p.retry_timer ≠ 0 then { p with retry_timer := p.retry_timer - 1 }
        else { p with fault_cnt := 0 }

/-- Embedding of `ProcessIgnitionProtection`: the new driver state and the returned fault
indicator.  As in the source, the fault check compares `ocp_counter` with
`ISOL_OCP_DELAY`. -/
def ProcessIgnitionProtection (d : OutDrv) (volt_pwrsrc volt_out : Nat) : OutDrv × Nat :=
  let drop := mosfetDrop d.igncState.hw volt_pwrsrc volt_out
  let p := checkWarnings IGNC_OVERVOLATGE_LIMIT IGNC_UNDERVOLATGE_LIMIT IGNC_QDROP_LIMIT
    volt_pwrsrc drop d.igncProt
  let p := ocpDelay IGNC_QDROP_LIMIT drop p
  let p := checkFault ISOL_OCP_DELAY IGNC_FAULT_COOLDOWN_TIME IGNC_FAULT_RETRY_TIMEOUT p
  ({ d with igncProt := p }, p.fault)

/-- Embedding of `ProcessIsolatorProtection`: the new driver state and the returned fault
indicator. -/
def ProcessIsolatorProtection (d : OutDrv) (volt_pwrsrc volt_out : Nat) : OutDrv × Nat :=
  let drop := mosfetDrop d.isolState.hw volt_pwrsrc volt_out
  let p := checkWarnings ISOL_OVERVOLATGE_LIMIT ISOL_UNDERVOLATGE_LIMIT ISOL_QDROP_LIMIT
    volt_pwrsrc drop d.isolProt
  let p := ocpDelay ISOL_QDROP_LIMIT drop p
  let p := checkFault ISOL_OCP_DELAY ISOL_FAULT_COOLDOWN_TIME ISOL_FAULT_RETRY_TIMEOUT p
  ({ d with isolProt := p }, p.fault)

/-- Embedding of `OUTDRV_ProcessProtection`. -/
def OUTDRV_ProcessProtection (d : OutDrv) (u_bat u_isol u_alt u_ignc : Nat) : OutDrv :=
  let d := (ProcessIsolatorProtection d u_bat u_isol).1
  (ProcessIgnitionProtection d u_alt u_ignc).1

/-! ## inputs_driver.h, inputs_driver.c -/

abbrev IN_MASTER : Nat := 1
abbrev IN_KILL : Nat := 2

abbrev IN_PULL_NONE : Nat := 0
abbrev IN_PULL_DOWN : Nat := 1
abbrev IN_PULL_UP : Nat := 2

abbrev IN_ACT_LOW : Nat := 0
abbrev IN_ACT_HIGH : Nat := 1

/-- Input configuration, `inCfgDef` (all `uint8_t`). -/
structure inCfgDef where
  act_level : Nat
  dbnc_limit : Nat
  pull : Nat
deriving DecidableEq

/-- Input state, `inStateDef` (all `uint8_t`). -/
structure inStateDef where
  level : Nat
  changed : Nat
  blocked : Nat
  dbnc_timer : Nat
deriving DecidableEq

/-- The file-scope variables of `inputs_driver.c` and the two PORTD pins that
power the pull networks: PD0 = MASTER_UP, PD1 = EXTKILL_UP. -/
structure InDrv where
  mstr : inStateDef
  mstr_cfg : inCfgDef
  kill : inStateDef
  kill_cfg : inCfgDef
  PD0 : Bool
  PD1 : Bool
deriving DecidableEq

/-- Embedding of `HAL_SetMasterPull`. -/
def HAL_SetMasterPull (s : InDrv) (side : Nat) : InDrv :=
  if side = IN_PULL_UP then { s with PD0 := true } else { s with PD0 := false }

/-- Embedding of `HAL_SetKillPull`. -/
def HAL_SetKillPull (s : InDrv) (side : Nat) : InDrv :=
  if side = IN_PULL_UP then { s with PD1 := true } else { s with PD1 := false }

/-- The assignments "Set not-active level" and "Reset values" shared by
`INDRV_Init`, `INDRV_Sleep` and `INDRV_Wake`, with the value then given to
`blocked`. -/
def inactiveState (cfg : inCfgDef) (blocked : Nat) : inStateDef :=
  { level := if cfg.act_level ≠ 0 then 0 else 1, changed := 0, blocked := blocked,
    dbnc_timer := 0 }

/-- Embedding of `INDRV_Init`. -/
def INDRV_Init (pMstrCfg pKillCfg : inCfgDef) : InDrv :=
  let s : InDrv :=
    { mstr := inactiveState pMstrCfg 0, mstr_cfg := pMstrCfg,
      kill := inactiveState pKillCfg 0, kill_cfg := pKillCfg,
      PD0 := false, PD1 := false }
  HAL_SetKillPull (HAL_SetMasterPull s s.mstr_cfg.pull) s.kill_cfg.pull

/-- One channel of `INDRV_ReadAll`: `raw` is the value returned by
`HAL_ReadMaster` / `HAL_ReadKill` (0 or 1). -/
def readChannel (cfg : inCfgDef) (st : inStateDef) (raw : Nat) : inStateDef :=
  if st.blocked = 0 then
    let temp := if raw ≠ 0 then 1 else 0
    let st : inStateDef :=
      if st.level ≠ temp then { st with dbnc_timer := (st.dbnc_timer + 1) % 256 }
      else { st with dbnc_timer := 0 }
    if st.dbnc_timer > cfg.dbnc_limit then { st with level := temp, changed := 1 } else st
  else st

/-- Embedding of `INDRV_ReadAll`; `pind2` and `pind3` are the PIND bits of the master and
of the kill signal at the time of the call. -/
def INDRV_ReadAll (s : InDrv) (pind2 pind3 : Bool) : InDrv :=
  { s with
    mstr := readChannel s.mstr_cfg s.mstr (if pind2 then 1 else 0)
    kill := readChannel s.kill_cfg s.kill (if pind3 then 1 else 0) }

/-- Embedding of `INDRV_Sleep`. -/
def INDRV_Sleep (s : InDrv) (ch : Nat) : InDrv :=
  if ch = IN_MASTER then
    { HAL_SetMasterPull s IN_PULL_NONE with mstr := inactiveState s.mstr_cfg 1 }
  else if ch = IN_KILL then
    { HAL_SetKillPull s IN_PULL_NONE with kill := inactiveState s.kill_cfg 1 }
  else s

/-- Embedding of `INDRV_Wake`. -/
def INDRV_Wake (s : InDrv) (ch : Nat) : InDrv :=
  if ch = IN_MASTER then
    { HAL_SetMasterPull s s.mstr_cfg.pull with mstr := inactiveState s.mstr_cfg 0 }
  else if ch = IN_KILL then
    { HAL_SetKillPull s s.kill_cfg.pull with kill := inactiveState s.kill_cfg 0 }
  else s

/-- Embedding of `INDRV_GetInput`. -/
def INDRV_GetInput (s : InDrv) (ch : Nat) : Nat :=
  if ch = 1 then
    (if s.mstr.blocked = 0 ∧ s.mstr.level = s.mstr_cfg.act_level then 1 else 0)
  else if ch = 2 then
    (if s.kill.blocked = 0 ∧ s.kill.level = s.kill_cfg.act_level then 1 else 0)
  else 0

/-- Embedding of `INDRV_GetInputChange`. -/
def INDRV_GetInputChange (s : InDrv) (ch : Nat) : Nat :=
  if ch = 1 then s.mstr.changed else if ch = 2 then s.kill.changed else 0

/-- Embedding of `INDRV_ResetInputChange`. -/
def INDRV_ResetInputChange (s : InDrv) (ch : Nat) : InDrv :=
  if ch = 1 then { s with mstr := { s.mstr with changed := 0 } }
  else if ch = 2 then { s with kill := { s.kill with changed := 0 } }
  else s

/-! ## led_driver.h, led_driver.c -/

abbrev LED_OFF : Nat := 0
abbrev LED_SOLID : Nat := 1
abbrev LED_FLASH : Nat := 2

/-- The file-scope variables of `led_driver.c` (`mode` is `uint8_t`, the other
two `uint16_t`) and the PORTB pin PB2 = LED_CTRL. -/
structure LedDrv where
  mode : Nat
  timer : Nat
  flash_t : Nat
  PB2 : Bool
deriving DecidableEq

/-- Embedding of `LEDDRV_Init`. -/
def LEDDRV_Init : LedDrv := { mode := LED_OFF, timer := 0, flash_t := 0, PB2 := false }

/-- Embedding of `LEDDRV_Off`. -/
def LEDDRV_Off (l : LedDrv) : LedDrv := { l with mode := LED_OFF, timer := 0 }

/-- Embedding of `LEDDRV_OnSolid`. -/
def LEDDRV_OnSolid (l : LedDrv) : LedDrv := { l with mode := LED_SOLID, timer := 0 }

/-- Embedding of `LEDDRV_Flashing`. -/
def LEDDRV_Flashing (l : LedDrv) (t : Nat) : LedDrv :=
  let t := if t < 2 then 2 else t
  { l with mode := LED_FLASH, flash_t := t / 2 }

/-- Embedding of `LEDDRV_Process`. -/
def LEDDRV_Process (l : LedDrv) : LedDrv :=
  if l.mode = LED_SOLID then { l with PB2 := true }
  else if l.mode = LED_FLASH then
    (if l.timer ≠ 0 then { l with timer := l.timer - 1 }
     else { l with PB2 := !l.PB2, timer := l.flash_t })
  else { l with PB2 := false }

/-! ## bootstrap_driver.c, adc_driver.c -/

/-- Embedding of `BSDRV_GetBootstrap`, as a function of the latched nibble
`bootstraps`. -/
def BSDRV_GetBootstrap (bootstraps : Nat) (ch : Nat) : Nat :=
  if ch = 0 then (if bootstraps % 2 ≠ 0 then 0 else 1)
  else if ch = 1 then (if bootstraps / 2 % 2 ≠ 0 then 0 else 1)
  else if ch = 2 then (if bootstraps / 4 % 2 ≠ 0 then 0 else 1)
  else if ch = 3 then (if bootstraps / 8 % 2 ≠ 0 then 0 else 1)
  else if ch = 255 then 15 - bootstraps % 16
  else 0

abbrev ADC_BATU : Nat := 0
abbrev ADC_ISOL : Nat := 1
abbrev ADC_IGNC : Nat := 2
abbrev ADC_ALTU : Nat := 3

/-- What the environment supplies to one pass of `DataGathering`: the four
conversion results stored by `ADCDRV_MeasureAll` (the ADC is awake for the
whole run of `main`) and the two PIND bits read by `INDRV_ReadAll`. -/
structure Sample where
  bat_mon : Nat
  isol_mon : Nat
  ign_mon : Nat
  alt_mon : Nat
  pind2 : Bool
  pind3 : Bool
deriving DecidableEq

/-- Embedding of `ADCDRV_GetValue`: the stored conversion result times 20, in
`uint16_t`. -/
def ADCDRV_GetValue (a : Sample) (ch : Nat) : Nat :=
  if ch = 0 then (a.bat_mon * 20) % 65536
  else if ch = 1 then (a.isol_mon * 20) % 65536
  else if ch = 2 then (a.ign_mon * 20) % 65536
  else if ch = 3 then (a.alt_mon * 20) % 65536
  else 0

/-! ## main.c -/

abbrev SLEEP : Nat := 0
abbrev STARTUP : Nat := 1
abbrev ACTIVE : Nat := 2
abbrev KILLING : Nat := 3
abbrev LOCKOUT : Nat := 4

abbrev ISOLATOR_DROP_LIMIT : Nat := 500
abbrev ISOLATOR_DROP_DELAY : Nat := 20
abbrev ISOLATOR_OCP_COOLDOWN : Nat := 1000
abbrev ISOLATOR_OCP_DEADTIME : Nat := 5

abbrev ALTERNATOR_ACT_VOLTAGE : Nat := 10000

abbrev LOCKOUT_TIMEOUT : Nat := 5000
abbrev LOCKOUT_LED_TIMEOUT : Nat := 30000

abbrev KILL_DELAY_EXTERNAL : Nat := 100
abbrev KILL_DELAY_MASTER : Nat := 100

abbrev MASTER_DEBOUNCE : Nat := 10
abbrev KILL_DEBOUNCE : Nat := 10

abbrev IGNC_FAULT_CNT_LIMIT : Nat := 5

/-- The variables of `main.c`: its file-scope variables, then the `static`
locals of `Startup_Procedure` (`startup_*`), `Kill_Procedure` (`kill_*`),
`Lockout_Procedure` (`lockout_*`) and `IsolatorOCP` (`ocp_fault`,
`ocp_counter`, `cooldown_timer`). -/
structure MainVars where
  sys_state : Nat
  master_act : Nat
  kill_act : Nat
  u_bat : Nat
  u_alt : Nat
  u_isol : Nat
  u_ignc : Nat
  u_relay_drop : Nat
  isolator_act : Nat
  isolator_act_change : Nat
  ignition_act : Nat
  alternator_act : Nat
  relay_ocp_en : Nat
  relay_ocp_deadtime : Nat
  startup_step : Nat
  startup_timeout : Nat
  kill_step : Nat
  kill_timeout : Nat
  lockout_step : Nat
  lockout_timeout : Nat
  lockout_led_timeout : Nat
  ocp_fault : Nat
  ocp_counter : Nat
  cooldown_timer : Nat
deriving DecidableEq

/-- The whole program state: the variables of `main.c` and of the three
drivers it calls. -/
structure Sys where
  m : MainVars
  out : OutDrv
  inp : InDrv
  led : LedDrv
deriving DecidableEq

/-- One pass of the loop body of `DataGathering`. -/
def DataGatheringPass (s : Sys) (a : Sample) : Sys :=
  let u_bat := ADCDRV_GetValue a ADC_BATU
  let u_alt := ADCDRV_GetValue a ADC_ALTU
  let inp := INDRV_ReadAll s.inp a.pind2 a.pind3
  let i := OUTDRV_GetRealOutput s.out OUT_ISOL
  { s with
    inp := inp
    m := { s.m with
      u_bat := u_bat
      u_alt := u_alt
      u_isol := ADCDRV_GetValue a ADC_ISOL
      u_ignc := ADCDRV_GetValue a ADC_IGNC
      master_act := INDRV_GetInput inp IN_MASTER
      kill_act := INDRV_GetInput inp IN_KILL
      isolator_act_change := if s.m.isolator_act ≠ i then 1 else s.m.isolator_act_change
      isolator_act := i
      ignition_act := OUTDRV_GetRealOutput s.out OUT_IGNC
      u_relay_drop := if u_alt > u_bat then u_alt - u_bat else u_bat - u_alt
      alternator_act := if u_alt > u_bat then 1 else 0 } }

/-- Embedding of `DataGathering(cycles)`, the environment supplying one `Sample`
per pass. -/
def DataGathering (s : Sys) (samples : List Sample) : Sys :=
  samples.foldl DataGatheringPass s

/-- Embedding of `Startup_Procedure`: the new state and the returned next system
state. -/
def Startup_Procedure (s : Sys) : Sys × Nat :=
  if s.m.startup_step = 0 then
    -- Wake up inputs, give N ticks for wakeup
    ({ s with
       inp := INDRV_Wake s.inp IN_KILL
       led := LEDDRV_OnSolid s.led
       m := { s.m with startup_timeout := 100, startup_step := 1 } }, STARTUP)
  else if s.m.startup_step = 1 then
    -- wait for timeout
    (if s.m.startup_timeout ≠ 0 then
       { s with m := { s.m with startup_timeout := s.m.startup_timeout - 1 } }
     else { s with m := { s.m with startup_step := 2 } }, STARTUP)
  else if s.m.startup_step = 2 then
    if s.m.master_act = 0 ∨ s.m.kill_act ≠ 0 then
      ({ s with m := { s.m with startup_step := 0 } }, LOCKOUT)
    else
      -- Turn on isolator, and give N ticks to catch errors
      ({ s with
         out := OUTDRV_SetOutput (OUTDRV_EnableOutput s.out OUT_ISOL) OUT_ISOL
         m := { s.m with startup_timeout := 200, startup_step := 3 } }, STARTUP)
  else if s.m.startup_step = 3 then
    if s.m.master_act = 0 ∨ s.m.kill_act ≠ 0 ∨ OUTDRV_GetFault s.out OUT_ISOL ≠ 0 then
      -- abort startup
      ({ s with
         out := OUTDRV_DisableOutput (OUTDRV_ResetOutput s.out OUT_ISOL) OUT_ISOL
         m := { s.m with startup_step := 0 } }, LOCKOUT)
    else if s.m.startup_timeout ≠ 0 then
      ({ s with m := { s.m with startup_timeout := s.m.startup_timeout - 1 } }, STARTUP)
    else
      -- Turn on ignition, and give N ticks to catch errors
      ({ s with
         out := OUTDRV_SetOutput (OUTDRV_EnableOutput s.out OUT_IGNC) OUT_IGNC
         m := { s.m with startup_timeout := 200, startup_step := 4 } }, STARTUP)
  else if s.m.startup_step = 4 then
    if s.m.master_act = 0 ∨ s.m.kill_act ≠ 0 ∨ OUTDRV_GetFault s.out OUT_ISOL ≠ 0 ∨
        OUTDRV_GetFault s.out OUT_IGNC ≠ 0 then
      -- abort startup
      ({ s with
         out := OUTDRV_DisableOutput (OUTDRV_DisableOutput
           (OUTDRV_ResetOutput (OUTDRV_ResetOutput s.out OUT_ISOL) OUT_IGNC) OUT_ISOL) OUT_IGNC
         m := { s.m with startup_step := 0 } }, LOCKOUT)
    else if s.m.startup_timeout ≠ 0 then
      ({ s with m := { s.m with startup_timeout := s.m.startup_timeout - 1 } }, STARTUP)
    else ({ s with m := { s.m with startup_step := 0 } }, ACTIVE)
  else (s, STARTUP)

/-- Embedding of `Kill_Procedure`: the new state and the returned next system state. -/
def Kill_Procedure (s : Sys) : Sys × Nat :=
  if s.m.kill_step = 0 then
    -- Turn off ignition
    ({ s with
       led := LEDDRV_Flashing s.led 200
       out := OUTDRV_ResetOutput s.out OUT_IGNC
       m := { s.m with
         kill_timeout := if s.m.kill_act ≠ 0 then KILL_DELAY_EXTERNAL else KILL_DELAY_MASTER
         kill_step := 1 } }, KILLING)
  else if s.m.kill_step = 1 then
    -- Wait for alternator rundown
    let step := if s.m.u_alt < ALTERNATOR_ACT_VOLTAGE then 2 else s.m.kill_step
    -- If kill activated, then reduce timeout
    let timeout := if s.m.kill_timeout > KILL_DELAY_EXTERNAL ∧ s.m.kill_act ≠ 0
      then KILL_DELAY_EXTERNAL else s.m.kill_timeout
    -- If rundown not detected after timeout, shut down anyway
    (if timeout ≠ 0 then { s with m := { s.m with kill_step := step, kill_timeout := timeout - 1 } }
     else { s with m := { s.m with kill_step := 2, kill_timeout := timeout } }, KILLING)
  else if s.m.kill_step = 2 then
    -- Turn off isolator
    ({ s with
       out := OUTDRV_ResetOutput s.out OUT_ISOL
       m := { s.m with kill_step := 3, kill_timeout := 100 } }, KILLING)
  else if s.m.kill_step = 3 then
    if s.m.kill_timeout ≠ 0 then
      ({ s with m := { s.m with kill_timeout := s.m.kill_timeout - 1 } }, KILLING)
    else
      -- Disable outputs
      ({ s with
         out := OUTDRV_DisableOutput (OUTDRV_DisableOutput s.out OUT_ISOL) OUT_IGNC
         m := { s.m with kill_step := 0 } }, LOCKOUT)
  else (s, KILLING)

/-- Embedding of `Lockout_Procedure`: the new state and the returned next system
state. -/
def Lockout_Procedure (s : Sys) : Sys × Nat :=
  if s.m.lockout_step = 0 then
    -- Disable outputs, set KILL to sleep
    ({ s with
       out := OUTDRV_DisableOutput (OUTDRV_DisableOutput
         (OUTDRV_ResetOutput (OUTDRV_ResetOutput s.out OUT_ISOL) OUT_IGNC) OUT_ISOL) OUT_IGNC
       inp := INDRV_Sleep s.inp IN_KILL
       led := LEDDRV_Flashing s.led 1000
       m := { s.m with
         lockout_led_timeout := LOCKOUT_LED_TIMEOUT
         lockout_timeout := LOCKOUT_TIMEOUT
         lockout_step := 1 } }, LOCKOUT)
  else
    -- LED turns off either when master is off, or after timeout
    let s : Sys :=
      if s.m.lockout_led_timeout ≠ 0 then
        { s with m := { s.m with lockout_led_timeout := s.m.lockout_led_timeout - 1 } }
      else { s with led := LEDDRV_Off s.led }
    -- Wait for master to be off for N cycles
    if s.m.master_act ≠ 0 then
      ({ s with m := { s.m with lockout_timeout := LOCKOUT_TIMEOUT } }, LOCKOUT)
    else if s.m.lockout_timeout ≠ 0 then
      ({ s with m := { s.m with lockout_timeout := s.m.lockout_timeout - 1 } }, LOCKOUT)
    else
      -- Lockout ended
      ({ s with
         led := LEDDRV_Off s.led
         m := { s.m with lockout_step := 0, lockout_led_timeout := 0 } }, SLEEP)

/-- Embedding of `IsolatorOCP`: the new variables of `main.c` and the returned fault
status.  The bucket is the block `ocpCounterNext`, here with
`ISOLATOR_DROP_LIMIT`, fed with the decremented `relay_ocp_deadtime`. -/
def IsolatorOCP (m : MainVars) : MainVars × Nat :=
  -- Adjust relay drop
  let drop := if m.isolator_act ≠ 0 then m.u_relay_drop else 0
  -- Check Over-Current warning
  let ocp_warning := if drop > ISOLATOR_DROP_LIMIT ∧ ISOLATOR_DROP_LIMIT ≠ 0 then 1 else 0
  -- Do delay calculations
  let deadtime := if m.relay_ocp_deadtime ≠ 0 then m.relay_ocp_deadtime - 1
    else m.relay_ocp_deadtime
  -- OCP Delay
  let counter := ocpCounterNext ISOLATOR_DROP_LIMIT drop ocp_warning deadtime m.ocp_counter
  -- Check fault
  let m : MainVars := { m with relay_ocp_deadtime := deadtime, ocp_counter := counter }
  let m : MainVars :=
    if counter > ISOLATOR_DROP_DELAY then
      { m with
        ocp_fault := 1
        cooldown_timer := if m.cooldown_timer = 0 then ISOLATOR_OCP_COOLDOWN
          else m.cooldown_timer }
    else
      -- Wait for fault cooldown time
      if m.cooldown_timer ≠ 0 then { m with cooldown_timer := m.cooldown_timer - 1 }
      else { m with ocp_fault := 0 }
  (m, m.ocp_fault)

/-- Loop body, "Output protection processing" up to the relay dead-time
insertion. -/
def loopProtection (s : Sys) : Sys :=
  let out := OUTDRV_ProcessProtection s.out s.m.u_bat s.m.u_isol s.m.u_alt s.m.u_ignc
  let m : MainVars :=
    if s.m.isolator_act_change ≠ 0 then
      -- Insert OCP dead time, after output state change
      { s.m with relay_ocp_deadtime := ISOLATOR_OCP_DEADTIME, isolator_act_change := 0 }
    else s.m
  { s with out := out, m := m }

/-- Loop body, first escalation: isolator channel fault while ACTIVE. -/
def loopIsolFault (s : Sys) : Sys :=
  if OUTDRV_GetFault s.out OUT_ISOL ≠ 0 ∧ s.m.sys_state = ACTIVE then
    { s with
      out := OUTDRV_DelayFaultExecution s.out OUT_ISOL 2
      m := { s.m with sys_state := KILLING, kill_act := 1 } }
  else s

/-- Loop body, second escalation: `IsolatorOCP()` is the first operand of the
`&&` chain, so it runs on every tick. -/
def loopRelayOCP (s : Sys) : Sys :=
  let r := IsolatorOCP s.m
  if r.2 ≠ 0 ∧ r.1.relay_ocp_en ≠ 0 ∧ r.1.sys_state = ACTIVE then
    { s with m := { r.1 with sys_state := KILLING, kill_act := 1 } }
  else { s with m := r.1 }

/-- Loop body, third escalation: ignition fault count while ACTIVE. -/
def loopFaultCount (s : Sys) : Sys :=
  if OUTDRV_GetFaultCount s.out OUT_IGNC > IGNC_FAULT_CNT_LIMIT ∧ s.m.sys_state = ACTIVE then
    { s with m := { s.m with sys_state := KILLING, kill_act := 1 } }
  else s

/-- Loop body, "State machine": the `switch(sys_state)`. -/
def loopStateMachine (s : Sys) : Sys :=
  if s.m.sys_state = SLEEP then
    (if s.m.master_act ≠ 0 then { s with m := { s.m with sys_state := STARTUP } }
     else { s with m := { s.m with sys_state := SLEEP } })
  else if s.m.sys_state = STARTUP then
    let r := Startup_Procedure s
    { r.1 with m := { r.1.m with sys_state := r.2 } }
  else if s.m.sys_state = ACTIVE then
    (if s.m.master_act = 0 ∨ s.m.kill_act ≠ 0 then { s with m := { s.m with sys_state := KILLING } }
     else { s with m := { s.m with sys_state := ACTIVE } })
  else if s.m.sys_state = KILLING then
    let r := Kill_Procedure s
    { r.1 with m := { r.1.m with sys_state := r.2 } }
  else if s.m.sys_state = LOCKOUT then
    let r := Lockout_Procedure s
    { r.1 with m := { r.1.m with sys_state := r.2 } }
  else { s with m := { s.m with sys_state := KILLING } }

/-- One iteration of the `while(1)` loop of `main` (one tick), up to and
including the state machine: the state on which this tick's
`OUTDRV_ProcessLogic` then runs. -/
def loopControl (s : Sys) (a : Sample) : Sys :=
  loopStateMachine (loopFaultCount (loopRelayOCP (loopIsolFault
    (loopProtection (DataGathering s [a])))))

/-- One iteration of the `while(1)` loop of `main` (one tick). -/
def mainLoop (s : Sys) (a : Sample) : Sys :=
  let s := loopControl s a
  let s : Sys := { s with out := OUTDRV_ProcessLogic s.out }
  { s with led := LEDDRV_Process s.led }

/-- The part of `main` from its start up to the call `DataGathering(100)`
(not included).  `bootstraps` is the nibble latched by `BSDRV_Latch`. -/
def mainSetup (bootstraps : Nat) : Sys :=
  let led := LEDDRV_Process (LEDDRV_OnSolid LEDDRV_Init)
  let relay_ocp_en := if BSDRV_GetBootstrap bootstraps 3 ≠ 0 then 0 else 1
  -- Inputs setup
  let mstrSwCfg : inCfgDef :=
    { act_level := IN_ACT_LOW, pull := IN_PULL_UP, dbnc_limit := MASTER_DEBOUNCE }
  let killSwCfg : inCfgDef :=
    { act_level := if BSDRV_GetBootstrap bootstraps 2 ≠ 0 then IN_ACT_HIGH else IN_ACT_LOW
      pull := IN_PULL_UP, dbnc_limit := KILL_DEBOUNCE }
  let inp := INDRV_Wake (INDRV_Wake (INDRV_Init mstrSwCfg killSwCfg) IN_MASTER) IN_KILL
  -- Outputs setup
  let isolCfg : outConfigDef :=
    { type := if BSDRV_GetBootstrap bootstraps 0 ≠ 0 then OUT_TYPE_OD else OUT_TYPE_OS
      inv := 0, ext_fault_en := 1 }
  let igncCfg : outConfigDef :=
    { type := if BSDRV_GetBootstrap bootstraps 1 ≠ 0 then OUT_TYPE_OD else OUT_TYPE_OS
      inv := 0, ext_fault_en := 0 }
  let out := OUTDRV_Init isolCfg igncCfg
  -- Set initial target values
  let out := OUTDRV_ResetOutput (OUTDRV_ResetOutput (OUTDRV_DisableOutput
    (OUTDRV_DisableOutput out OUT_ISOL) OUT_IGNC) OUT_ISOL) OUT_IGNC
  -- Apply output states
  let out := OUTDRV_ProcessLogic out
  let m : MainVars :=
    { sys_state := 0, master_act := 0, kill_act := 0, u_bat := 12000, u_alt := 0, u_isol := 0,
      u_ignc := 0, u_relay_drop := 0, isolator_act := 0, isolator_act_change := 0,
      ignition_act := 0, alternator_act := 0, relay_ocp_en := relay_ocp_en,
      relay_ocp_deadtime := 0, startup_step := 0, startup_timeout := 0, kill_step := 0,
      kill_timeout := 0, lockout_step := 0, lockout_timeout := 0, lockout_led_timeout := 0,
      ocp_fault := 0, ocp_counter := 0, cooldown_timer := 0 }
  { m := m, out := out, inp := inp, led := led }

/-- The part of `main` before the loop: `mainSetup`, then `DataGathering(100)`
on the `samples` the environment supplies (one `Sample` per pass), the choice
of the first system state, `INDRV_Sleep(IN_KILL)` and `LEDDRV_Off`. -/
def mainInit (bootstraps : Nat) (samples : List Sample) : Sys :=
  let s := DataGathering (mainSetup bootstraps) samples
  let s : Sys :=
    { s with m := { s.m with
        sys_state := if s.m.master_act ≠ 0 ∨ s.m.kill_act ≠ 0 then LOCKOUT else SLEEP } }
  -- Set everything to sleep
  { s with inp := INDRV_Sleep s.inp IN_KILL, led := LEDDRV_Off s.led }

/-- The states `main` can be in at the top of its loop: the state left by the
initialisation (for any bootstrap nibble and any 100 samples), and every state
one more iteration leads to, for any sample. -/
inductive Reachable : Sys → Prop
  | init (bootstraps : Nat) (samples : List Sample) (h : samples.length = 100) :
      Reachable (mainInit bootstraps samples)
  | loop (s : Sys) (a : Sample) (h : Reachable s) : Reachable (mainLoop s a)

/-- Two facts that hold at the top of every iteration of the main loop: outside
KILLING the procedure `Kill_Procedure` is at its sub-step 0, and the ignition
channel has no pending `delay_exec` (the application delays the fault
execution of the isolator only). -/
def TickInv (s : Sys) : Prop :=
  (s.m.sys_state ≠ KILLING → s.m.kill_step = 0) ∧ s.out.igncProt.delay_exec = 0

/-- The state of a tick after "Input data gathering" and "Output protection
processing", on which the three escalation tests of the loop body run. -/
def tickProtected (s : Sys) (a : Sample) : Sys :=
  loopProtection (DataGathering s [a])

/-- The state of a tick on which the `switch(sys_state)` of the loop body runs:
after data gathering, protection processing and the three escalation tests. -/
def tickEscalated (s : Sys) (a : Sample) : Sys :=
  loopFaultCount (loopRelayOCP (loopIsolFault (tickProtected s a)))

/-- The state after `n` ticks of the main loop from `s`, tick `k` (counted from
0) reading the sample `samples k`. -/
def tickRun (s : Sys) (samples : Nat → Sample) : Nat → Sys
  | 0 => s
  | n + 1 => mainLoop (tickRun s samples n) (samples n)

/-! ## Call sequences of the procedures of `main.c` -/

/-- What the program may change between two calls of `Kill_Procedure`, relating
the state `s` left by a call to the state `t` the next call starts from: all
but the procedure's static locals `step` and `timeout` and the targets of the
two outputs (which in KILLING nothing else writes); in particular the inputs
`master_act`, `kill_act` and `u_alt` may take any values. -/
def KillFrame (s t : Sys) : Prop :=
  t.m.kill_step = s.m.kill_step ∧ t.m.kill_timeout = s.m.kill_timeout ∧
  t.out.isolState.target = s.out.isolState.target ∧
  t.out.igncState.target = s.out.igncState.target

/-- A sequence of calls of `Kill_Procedure` starting at its sub-step 0: `pre n`
is the state on which call `n` (counted from 0) runs. -/
def KillCalls (pre : Nat → Sys) : Prop :=
  (pre 0).m.kill_step = 0 ∧ ∀ n, KillFrame (Kill_Procedure (pre n)).1 (pre (n + 1))

/-- What the program may change between two calls of `Lockout_Procedure`: all
but the procedure's static locals `step` and `timeout`; in particular
`master_act` may take any value at each call. -/
def LockoutFrame (s t : Sys) : Prop :=
  t.m.lockout_step = s.m.lockout_step ∧ t.m.lockout_timeout = s.m.lockout_timeout

/-- A sequence of calls of `Lockout_Procedure` starting at its sub-step 0:
`pre n` is the state on which call `n` (counted from 0) runs. -/
def LockoutCalls (pre : Nat → Sys) : Prop :=
  (pre 0).m.lockout_step = 0 ∧ ∀ n, LockoutFrame (Lockout_Procedure (pre n)).1 (pre (n + 1))

/-- The states on which back-to-back calls of `Kill_Procedure` run, from `s`. -/
def killIter (s : Sys) : Nat → Sys
  | 0 => s
  | n + 1 => (Kill_Procedure (killIter s n)).1

/-- The states on which back-to-back calls of `Lockout_Procedure` run, from
`s`. -/
def lockoutIter (s : Sys) : Nat → Sys
  | 0 => s
  | n + 1 => (Lockout_Procedure (lockoutIter s n)).1

/-! ## The control part of the program state

The state machine of `main` and `OUTDRV_ProcessLogic` decide which outputs are
driven from a small part of the state only, collected in `Ctl`.  The effect of
the three procedures on this part is written out in `startupCtl`, `killCtl`
and `lockoutCtl` and proved equal to that of the embedded procedures. -/

/-- The control part of the state: the system state, the static locals `step`
of `Startup_Procedure` and `Kill_Procedure` and `timeout` of
`Startup_Procedure`, the status of the two channels, their `delay_exec` and the
four PORTB pins. -/
structure Ctl where
  sys_state : Nat
  startup_step : Nat
  startup_timeout : Nat
  kill_step : Nat
  isol : SatusDef
  ignc : SatusDef
  isol_delay : Nat
  ignc_delay : Nat
  PB0 : Bool
  PB1 : Bool
  PB6 : Bool
  PB7 : Bool
deriving DecidableEq

/-- The control part of a program state. -/
def ctlOf (s : Sys) : Ctl :=
  { sys_state := s.m.sys_state, startup_step := s.m.startup_step,
    startup_timeout := s.m.startup_timeout, kill_step := s.m.kill_step,
    isol := s.out.isolState, ignc := s.out.igncState,
    isol_delay := s.out.isolProt.delay_exec, ignc_delay := s.out.igncProt.delay_exec,
    PB0 := s.out.PB0, PB1 := s.out.PB1, PB6 := s.out.PB6, PB7 := s.out.PB7 }

/-- The effect of `Startup_Procedure` on the control part; the abort tests are
read from the state `s` the procedure runs on. -/
def startupCtl (c : Ctl) (s : Sys) : Ctl × Nat :=
  if c.startup_step = 0 then
    ({ c with startup_timeout := 100, startup_step := 1 }, STARTUP)
  else if c.startup_step = 1 then
    (if c.startup_timeout ≠ 0 then { c with startup_timeout := c.startup_timeout - 1 }
     else { c with startup_step := 2 }, STARTUP)
  else if c.startup_step = 2 then
    if s.m.master_act = 0 ∨ s.m.kill_act ≠ 0 then ({ c with startup_step := 0 }, LOCKOUT)
    else
      ({ c with
         isol := { c.isol with en := 1, target := 1 }
         startup_timeout := 200, startup_step := 3 }, STARTUP)
  else if c.startup_step = 3 then
    if s.m.master_act = 0 ∨ s.m.kill_act ≠ 0 ∨ OUTDRV_GetFault s.out OUT_ISOL ≠ 0 then
      ({ c with isol := { c.isol with target := 0, en := 0 }, startup_step := 0 }, LOCKOUT)
    else if c.startup_timeout ≠ 0 then
      ({ c with startup_timeout := c.startup_timeout - 1 }, STARTUP)
    else
      ({ c with
         ignc := { c.ignc with en := 1, target := 1 }
         startup_timeout := 200, startup_step := 4 }, STARTUP)
  else if c.startup_step = 4 then
    if s.m.master_act = 0 ∨ s.m.kill_act ≠ 0 ∨ OUTDRV_GetFault s.out OUT_ISOL ≠ 0 ∨
        OUTDRV_GetFault s.out OUT_IGNC ≠ 0 then
      ({ c with
         isol := { c.isol with target := 0, en := 0 }
         ignc := { c.ignc with target := 0, en := 0 }
         startup_step := 0 }, LOCKOUT)
    else if c.startup_timeout ≠ 0 then
      ({ c with startup_timeout := c.startup_timeout - 1 }, STARTUP)
    else ({ c with startup_step := 0 }, ACTIVE)
  else (c, STARTUP)

/-- The effect of `Kill_Procedure` on the control part; `s` is the state the
procedure runs on. -/
def killCtl (c : Ctl) (s : Sys) : Ctl × Nat :=
  if c.kill_step = 0 then
    ({ c with ignc := { c.ignc with target := 0 }, kill_step := 1 }, KILLING)
  else if c.kill_step = 1 then
    (if (if s.m.kill_timeout > KILL_DELAY_EXTERNAL ∧ s.m.kill_act ≠ 0
          then KILL_DELAY_EXTERNAL else s.m.kill_timeout) ≠ 0 then
       { c with kill_step := if s.m.u_alt < ALTERNATOR_ACT_VOLTAGE then 2 else c.kill_step }
     else { c with kill_step := 2 }, KILLING)
  else if c.kill_step = 2 then
    ({ c with isol := { c.isol with target := 0 }, kill_step := 3 }, KILLING)
  else if c.kill_step = 3 then
    if s.m.kill_timeout ≠ 0 then (c, KILLING)
    else
      ({ c with
         isol := { c.isol with en := 0 }
         ignc := { c.ignc with en := 0 }
         kill_step := 0 }, LOCKOUT)
  else (c, KILLING)

/-- The effect of `Lockout_Procedure` on the control part; `s` is the state the
procedure runs on. -/
def lockoutCtl (c : Ctl) (s : Sys) : Ctl × Nat :=
  if s.m.lockout_step = 0 then
    ({ c with
       isol := { c.isol with target := 0, en := 0 }
       ignc := { c.ignc with target := 0, en := 0 } }, LOCKOUT)
  else if s.m.master_act ≠ 0 then (c, LOCKOUT)
  else if s.m.lockout_timeout ≠ 0 then (c, LOCKOUT)
  else (c, SLEEP)

/-- The effect of the `switch(sys_state)` of the loop body on the control part. -/
def smCtl (c : Ctl) (s : Sys) : Ctl :=
  if c.sys_state = SLEEP then
    (if s.m.master_act ≠ 0 then { c with sys_state := STARTUP }
     else { c with sys_state := SLEEP })
  else if c.sys_state = STARTUP then
    { (startupCtl c s).1 with sys_state := (startupCtl c s).2 }
  else if c.sys_state = ACTIVE then
    (if s.m.master_act = 0 ∨ s.m.kill_act ≠ 0 then { c with sys_state := KILLING }
     else { c with sys_state := ACTIVE })
  else if c.sys_state = KILLING then
    { (killCtl c s).1 with sys_state := (killCtl c s).2 }
  else if c.sys_state = LOCKOUT then
    { (lockoutCtl c s).1 with sys_state := (lockoutCtl c s).2 }
  else { c with sys_state := KILLING }

/-- The isolator channel is off: disabled, commanded off, not driven, its
half-bridge at HiZ with both pins low. -/
def isolOff (c : Ctl) : Prop :=
  c.isol.en = 0 ∧ c.isol.target = 0 ∧ c.isol.real = 0 ∧ c.isol.hw = HWOUT_HIZ ∧
  c.PB1 = false ∧ c.PB7 = false

/-- The ignition channel is off: disabled, commanded off, not driven, its
half-bridge at HiZ with both pins low. -/
def igncOff (c : Ctl) : Prop :=
  c.ignc.en = 0 ∧ c.ignc.target = 0 ∧ c.ignc.real = 0 ∧ c.ignc.hw = HWOUT_HIZ ∧
  c.PB0 = false ∧ c.PB6 = false

/-- The invariant of the main loop on the control part, at the top of the
loop body and up to the `switch(sys_state)`:
the system state is one of the five named states; the ignition has no pending
`delay_exec`; outside STARTUP and KILLING the procedures are at sub-step 0 and
the isolator has no pending `delay_exec`; in SLEEP and LOCKOUT both channels
are off; in STARTUP both channels are off up to sub-step 2 and the ignition is
off at sub-step 3; in KILLING the pending `delay_exec` of the isolator is at
most `2 - kill_step`, the ignition target is 0 from sub-step 1 on and the
isolator target is 0 at sub-step 3. -/
def SafeCtl (c : Ctl) : Prop :=
  c.sys_state ≤ 4 ∧ c.ignc_delay = 0 ∧
  (c.sys_state ≠ STARTUP → c.startup_step = 0) ∧
  (c.sys_state ≠ KILLING → c.kill_step = 0 ∧ c.isol_delay = 0) ∧
  (c.sys_state = SLEEP ∨ c.sys_state = LOCKOUT → isolOff c ∧ igncOff c) ∧
  (c.sys_state = STARTUP → c.startup_step ≤ 4 ∧
    (c.startup_step ≤ 2 → isolOff c ∧ igncOff c) ∧ (c.startup_step = 3 → igncOff c)) ∧
  (c.sys_state = KILLING → c.kill_step ≤ 3 ∧ c.isol_delay ≤ 2 - c.kill_step ∧
    (1 ≤ c.kill_step → c.ignc.target = 0) ∧ (c.kill_step = 3 → c.isol.target = 0))

/-- The invariant between the `switch(sys_state)` and `OUTDRV_ProcessLogic`:
as `SafeCtl`, with "off" weakened to "disabled and commanded off" where the
switch has just switched a channel off, and one more tick of `delay_exec`. -/
def MidCtl (c : Ctl) : Prop :=
  c.sys_state ≤ 4 ∧ c.ignc_delay = 0 ∧
  (c.sys_state ≠ STARTUP → c.startup_step = 0) ∧
  (c.sys_state ≠ KILLING → c.kill_step = 0 ∧ c.isol_delay = 0) ∧
  (c.sys_state = SLEEP ∨ c.sys_state = LOCKOUT →
    c.isol.en = 0 ∧ c.isol.target = 0 ∧ c.ignc.en = 0 ∧ c.ignc.target = 0) ∧
  (c.sys_state = STARTUP → c.startup_step ≤ 4 ∧
    (c.startup_step ≤ 2 → isolOff c ∧ igncOff c) ∧ (c.startup_step = 3 → igncOff c)) ∧
  (c.sys_state = KILLING → c.kill_step ≤ 3 ∧ c.isol_delay ≤ 3 - c.kill_step ∧
    (1 ≤ c.kill_step → c.ignc.target = 0) ∧ (c.kill_step = 3 → c.isol.target = 0))

/-- The invariant on program states. -/
def SafeInv (s : Sys) : Prop := SafeCtl (ctlOf s)

/-- What `OUTDRV_ProcessLogic` does to the control part `c`, giving `c'`: it
leaves the state machine's variables, `en` and `target` as they are; a channel
with a pending `delay_exec` only has it decremented; a channel without one is
put to HiZ with both pins low and `real = 0` when it is disabled. -/
def PLRel (c c' : Ctl) : Prop :=
  c'.sys_state = c.sys_state ∧ c'.startup_step = c.startup_step ∧
  c'.startup_timeout = c.startup_timeout ∧ c'.kill_step = c.kill_step ∧
  (c'.isol.en = c.isol.en ∧ c'.isol.target = c.isol.target ∧
    (c.isol_delay ≠ 0 → c'.isol = c.isol ∧ c'.PB1 = c.PB1 ∧ c'.PB7 = c.PB7 ∧
      c'.isol_delay = c.isol_delay - 1) ∧
    (c.isol_delay = 0 → c'.isol_delay = 0 ∧
      (c.isol.en = 0 → c'.isol.real = 0 ∧ c'.isol.hw = HWOUT_HIZ ∧
        c'.PB1 = false ∧ c'.PB7 = false))) ∧
  (c'.ignc.en = c.ignc.en ∧ c'.ignc.target = c.ignc.target ∧
    (c.ignc_delay ≠ 0 → c'.ignc = c.ignc ∧ c'.PB0 = c.PB0 ∧ c'.PB6 = c.PB6 ∧
      c'.ignc_delay = c.ignc_delay - 1) ∧
    (c.ignc_delay = 0 → c'.ignc_delay = 0 ∧
      (c.ignc.en = 0 → c'.ignc.real = 0 ∧ c'.ignc.hw = HWOUT_HIZ ∧
        c'.PB0 = false ∧ c'.PB6 = false)))

/-- Where the start-up sequence stands `k` ticks after a tick counter was
started in SLEEP, when nothing aborts it: one tick to leave SLEEP, then the
sub-steps of `Startup_Procedure` with their waits of 100, 200 and 200 ticks.
The isolator is on from tick 104, the ignition from tick 305, and the system
is ACTIVE at tick 506. -/
def StartupPhase (k : Nat) (c : Ctl) : Prop :=
  (k = 0 → c.sys_state = SLEEP) ∧
  (1 ≤ k → k ≤ 505 → c.sys_state = STARTUP) ∧
  (k = 1 → c.startup_step = 0) ∧
  (2 ≤ k → k ≤ 102 → c.startup_step = 1 ∧ c.startup_timeout = 102 - k) ∧
  (k = 103 → c.startup_step = 2) ∧
  (104 ≤ k → k ≤ 304 → c.startup_step = 3 ∧ c.startup_timeout = 304 - k) ∧
  (305 ≤ k → k ≤ 505 → c.startup_step = 4 ∧ c.startup_timeout = 505 - k) ∧
  (104 ≤ k → c.isol.en = 1 ∧ c.isol.target = 1 ∧ c.isol.real = 1) ∧
  (305 ≤ k → c.ignc.en = 1 ∧ c.ignc.target = 1 ∧ c.ignc.real = 1) ∧
  (506 ≤ k → c.sys_state = ACTIVE)

/-! ## Runs of the outputs driver

The protection functions are called from the main loop, once per tick, and
between two calls the application may call any of the other public functions
of the driver.  A run of the driver is modelled accordingly. -/

/-- A call of a public function of the outputs driver that changes its state,
other than `OUTDRV_Init` and `OUTDRV_ProcessProtection`. -/
inductive DrvCall where
  | SetOutput (ch : Nat)
  | ResetOutput (ch : Nat)
  | SetExtFault (ch : Nat)
  | ResetExtFault (ch : Nat)
  | EnableOutput (ch : Nat)
  | DisableOutput (ch : Nat)
  | DelayFaultExecution (ch : Nat) (cycles : Nat)
  | ProcessLogic
  | ResetRetryFlag (ch : Nat)
deriving DecidableEq

/-- The effect of one call. -/
def DrvCall.run (d : OutDrv) : DrvCall → OutDrv
  | .SetOutput ch => OUTDRV_SetOutput d ch
  | .ResetOutput ch => OUTDRV_ResetOutput d ch
  | .SetExtFault ch => OUTDRV_SetExtFault d ch
  | .ResetExtFault ch => OUTDRV_ResetExtFault d ch
  | .EnableOutput ch => OUTDRV_EnableOutput d ch
  | .DisableOutput ch => OUTDRV_DisableOutput d ch
  | .DelayFaultExecution ch cycles => OUTDRV_DelayFaultExecution d ch cycles
  | .ProcessLogic => OUTDRV_ProcessLogic d
  | .ResetRetryFlag ch => OUTDRV_ResetRetryFlag d ch

/-- The effect of a sequence of calls, first to last. -/
def runCalls (d : OutDrv) (calls : List DrvCall) : OutDrv :=
  calls.foldl DrvCall.run d

/-- One protection step of a run: the calls made since the previous step, then
`OUTDRV_ProcessProtection` on four `uint16_t` voltages. -/
structure ProtStep where
  calls : List DrvCall
  u_bat : Nat
  u_isol : Nat
  u_alt : Nat
  u_ignc : Nat

/-- The driver state after one protection step. -/
def protStep (d : OutDrv) (e : ProtStep) : OutDrv :=
  OUTDRV_ProcessProtection (runCalls d e.calls) e.u_bat e.u_isol e.u_alt e.u_ignc

/-- The driver state after `n` protection steps of the run `env`, starting from
the state set by `OUTDRV_Init`. -/
def protRun (isolCfg igncCfg : outConfigDef) (env : Nat → ProtStep) : Nat → OutDrv
  | 0 => OUTDRV_Init isolCfg igncCfg
  | n + 1 => protStep (protRun isolCfg igncCfg env n) (env n)

/-- The protection state of the isolator after one call of
`ProcessIsolatorProtection`. -/
def isolAfter (d : OutDrv) (volt_pwrsrc volt_out : Nat) : ProtectionDef :=
  (ProcessIsolatorProtection d volt_pwrsrc volt_out).1.isolProt

/-- The protection state of the ignition after one call of
`ProcessIgnitionProtection`. -/
def igncAfter (d : OutDrv) (volt_pwrsrc volt_out : Nat) : ProtectionDef :=
  (ProcessIgnitionProtection d volt_pwrsrc volt_out).1.igncProt

/-- The protection state of the isolator on entry to the block "Check fault" of
`ProcessIsolatorProtection`. -/
def isolPre (d : OutDrv) (volt_pwrsrc volt_out : Nat) : ProtectionDef :=
  ocpDelay ISOL_QDROP_LIMIT (mosfetDrop d.isolState.hw volt_pwrsrc volt_out)
    (checkWarnings ISOL_OVERVOLATGE_LIMIT ISOL_UNDERVOLATGE_LIMIT ISOL_QDROP_LIMIT
      volt_pwrsrc (mosfetDrop d.isolState.hw volt_pwrsrc volt_out) d.isolProt)

/-- The protection state of the ignition on entry to the block "Check fault" of
`ProcessIgnitionProtection`. -/
def igncPre (d : OutDrv) (volt_pwrsrc volt_out : Nat) : ProtectionDef :=
  ocpDelay IGNC_QDROP_LIMIT (mosfetDrop d.igncState.hw volt_pwrsrc volt_out)
    (checkWarnings IGNC_OVERVOLATGE_LIMIT IGNC_UNDERVOLATGE_LIMIT IGNC_QDROP_LIMIT
      volt_pwrsrc (mosfetDrop d.igncState.hw volt_pwrsrc volt_out) d.igncProt)

/-- The drop monitored by `IsolatorOCP` (block "Adjust relay drop"). -/
def relayDrop (m : MainVars) : Nat :=
  if m.isolator_act ≠ 0 then m.u_relay_drop else 0

/-- Two protection states agree on the four fields that only the block
"Check fault" writes. -/
def SameCore (p q : ProtectionDef) : Prop :=
  q.fault = p.fault ∧ q.cooldown_timer = p.cooldown_timer ∧
  q.fault_cnt = p.fault_cnt ∧ q.retry_timer = p.retry_timer

/-- A sequence of protection states that starts with `fault`, `cooldown_timer`
and `fault_cnt` at 0 and in which each state is the result of the block
"Check fault" on a state that agrees with the previous one on the four fields
that block writes. -/
def FaultChain (cooldown retry : Nat) (f : Nat → ProtectionDef) : Prop :=
  (f 0).fault = 0 ∧ (f 0).cooldown_timer = 0 ∧ (f 0).fault_cnt = 0 ∧
  ∀ n, ∃ delay q, SameCore (f n) q ∧ f (n + 1) = checkFault delay cooldown retry q

/-! ## Runs of the inputs driver -/

/-- The configured inactive level of a channel: the value the block "Set
not-active level" of `INDRV_Init`, `INDRV_Sleep` and `INDRV_Wake` gives to
`level`. -/
def inactiveLevel (cfg : inCfgDef) : Nat :=
  if cfg.act_level ≠ 0 then 0 else 1

/-- The value `temp` that `INDRV_ReadAll` compares with `level` when the pin
reads `pin`. -/
def pinLevel (pin : Bool) : Nat :=
  if pin then 1 else 0

/-- The driver state after `n` calls of `INDRV_ReadAll`, call `j` (counted from
0) reading the PIND bits `pins j` (master bit, kill bit). -/
def readAllRun (s : InDrv) (pins : Nat → Bool × Bool) : Nat → InDrv
  | 0 => s
  | n + 1 => INDRV_ReadAll (readAllRun s pins n) (pins n).1 (pins n).2

/-- The state of one channel after `n` samples, sample `j` (counted from 0)
reading `raws j`. -/
def readChannelRun (cfg : inCfgDef) (st : inStateDef) (raws : Nat → Nat) : Nat → inStateDef
  | 0 => st
  | n + 1 => readChannel cfg (readChannelRun cfg st raws n) (raws n)

/-- The states of the inputs driver that can be reached from `INDRV_Init` (any
two configurations) by `INDRV_ReadAll` (any pin values), `INDRV_Sleep`,
`INDRV_Wake` and `INDRV_ResetInputChange` (any channel argument). -/
inductive InReach : InDrv → Prop
  | init (pMstrCfg pKillCfg : inCfgDef) : InReach (INDRV_Init pMstrCfg pKillCfg)
  | readAll (s : InDrv) (pind2 pind3 : Bool) (h : InReach s) :
      InReach (INDRV_ReadAll s pind2 pind3)
  | sleep (s : InDrv) (ch : Nat) (h : InReach s) : InReach (INDRV_Sleep s ch)
  | wake (s : InDrv) (ch : Nat) (h : InReach s) : InReach (INDRV_Wake s ch)
  | resetChange (s : InDrv) (ch : Nat) (h : InReach s) :
      InReach (INDRV_ResetInputChange s ch)

/-- Configuration of the master switch as set by `main`: active low, pull-up,
debounce limit 10. -/
def exMstrCfg : inCfgDef :=
  { act_level := IN_ACT_LOW, dbnc_limit := MASTER_DEBOUNCE, pull := IN_PULL_UP }

/-- The inputs driver right after `INDRV_Init` with both switches configured as
`exMstrCfg`: both levels inactive (1), nothing blocked. -/
def exIn : InDrv := INDRV_Init exMstrCfg exMstrCfg

/-- The state `exIn` with the master level latched active (0). -/
def exInActive : InDrv :=
  { exIn with mstr := { level := 0, changed := 1, blocked := 0, dbnc_timer := 0 } }

/-- Pins of a run in which both signals read low (active) on every sample. -/
def pinsLow : Nat → Bool × Bool := fun _ => (false, false)

/-- Pins of a run in which both signals read low (active) on the first 9
samples and high (inactive) afterwards. -/
def pinsGlitch : Nat → Bool × Bool := fun j => (decide (9 ≤ j), decide (9 ≤ j))

/-- The state `exIn` with the master level latched active (0), its change flag
set and 9 differing samples counted. -/
def exInMid : InDrv :=
  { exIn with mstr := { level := 0, changed := 1, blocked := 0, dbnc_timer := 9 } }

/-- Pins of a run in which both signals read high (inactive) on every sample. -/
def pinsHigh : Nat → Bool × Bool := fun _ => (true, true)

/-! ## Concrete states used to instantiate the theorems -/

/-- A driver state with both channels open-source, enabled, commanded on and
driven high, and no protection history. -/
def exOn : OutDrv :=
  { igncState := { hw := HWOUT_HIGH, target := 1, real := 1, en := 1 }
    igncCfg := { type := OUT_TYPE_OS, inv := 0, ext_fault_en := 0 }
    igncProt := protZero
    isolState := { hw := HWOUT_HIGH, target := 1, real := 1, en := 1 }
    isolCfg := { type := OUT_TYPE_OS, inv := 0, ext_fault_en := 1 }
    isolProt := protZero
    PB0 := false, PB1 := false, PB6 := true, PB7 := true }

/-- The state `exOn` with a protection fault on the isolator and an external
fault flag on the ignition. -/
def exFaulted : OutDrv :=
  { exOn with
    isolProt := { protZero with fault := 1 }
    igncProt := { protZero with ext_fault := 1 } }

/-- The state `exOn` with one tick of dead-time left on both channels. -/
def exDeadtime1 : OutDrv :=
  { exOn with
    isolProt := { protZero with ocp_deadtime := 1 }
    igncProt := { protZero with ocp_deadtime := 1 } }

/-- The state `exOn` with three ticks of dead-time left on both channels. -/
def exDeadtime3 : OutDrv :=
  { exOn with
    isolProt := { protZero with ocp_deadtime := 3, ocp_counter := 7 }
    igncProt := { protZero with ocp_deadtime := 3, ocp_counter := 7 } }

/-- Variables of `main.c` with the isolator on, a relay drop of 1000 mV and a
relay dead-time of `deadtime` ticks left; everything else 0. -/
def exRelay (deadtime counter : Nat) : MainVars :=
  { sys_state := ACTIVE, master_act := 1, kill_act := 0, u_bat := 12000, u_alt := 11000,
    u_isol := 0, u_ignc := 0, u_relay_drop := 1000, isolator_act := 1,
    isolator_act_change := 0, ignition_act := 1, alternator_act := 0, relay_ocp_en := 1,
    relay_ocp_deadtime := deadtime, startup_step := 0, startup_timeout := 0, kill_step := 0,
    kill_timeout := 0, lockout_step := 0, lockout_timeout := 0, lockout_led_timeout := 0,
    ocp_fault := 0, ocp_counter := counter, cooldown_timer := 0 }

/-- Configuration of the example run: open-source, not inverted. -/
def runCfg : outConfigDef := { type := OUT_TYPE_OS, inv := 0, ext_fault_en := 0 }

/-- The quiet step of the example run: no call, supply and output both at
12000 mV on both channels (no drop). -/
def runQuiet : ProtStep :=
  { calls := [], u_bat := 12000, u_isol := 12000, u_alt := 12000, u_ignc := 12000 }

/-- The example run: before the first protection step both outputs are enabled,
commanded on and applied, and that step sees a drop of 1500 mV on both
channels; every later step is quiet. -/
def runEnv (n : Nat) : ProtStep :=
  if n = 0 then
    { calls := [DrvCall.EnableOutput OUT_ISOL, DrvCall.SetOutput OUT_ISOL,
        DrvCall.EnableOutput OUT_IGNC, DrvCall.SetOutput OUT_IGNC, DrvCall.ProcessLogic],
      u_bat := 12000, u_isol := 10500, u_alt := 12000, u_ignc := 10500 }
  else runQuiet

/-- Protection state met in the example run. -/
def runProt (w c cd f cnt rf rt : Nat) : ProtectionDef :=
  { ocp_warning := w, ovp_warning := 0, uvp_warning := 0, ocp_counter := c,
    cooldown_timer := cd, ext_fault := 0, fault := f, delay_exec := 0, ocp_deadtime := 0,
    retry_flag := rf, fault_cnt := cnt, retry_timer := rt }

/-- Driver state met in the example run: both channels driven high, with the
same protection state. -/
def runState (w c cd f cnt rf rt : Nat) : OutDrv :=
  { igncState := { hw := HWOUT_HIGH, target := 1, real := 1, en := 1 }
    igncCfg := runCfg
    igncProt := runProt w c cd f cnt rf rt
    isolState := { hw := HWOUT_HIGH, target := 1, real := 1, en := 1 }
    isolCfg := runCfg
    isolProt := runProt w c cd f cnt rf rt
    PB0 := false, PB1 := false, PB6 := true, PB7 := true }

/-! ## The example run of the main loop -/

/-- The state after the loop body has run on each sample in turn. -/
def mainLoopRun (s : Sys) (samples : List Sample) : Sys :=
  samples.foldl mainLoop s

/-- A sample with all four voltages at 12000 mV (conversion result 600), the
master signal high (inactive) and the kill signal high (inactive). -/
def smpOff : Sample :=
  { bat_mon := 600, isol_mon := 600, ign_mon := 600, alt_mon := 600,
    pind2 := true, pind3 := true }

/-- A sample with all four voltages at 12000 mV, the master signal low (active)
and the kill signal high (inactive). -/
def smpOn : Sample :=
  { bat_mon := 600, isol_mon := 600, ign_mon := 600, alt_mon := 600,
    pind2 := false, pind3 := true }

/-- The sample `smpOn` with the isolator output at 0 V, which makes a drop of
12000 mV across the high-side switch of an isolator driven high. -/
def smpShort : Sample :=
  { bat_mon := 600, isol_mon := 0, ign_mon := 600, alt_mon := 600,
    pind2 := false, pind3 := true }

/-- An output channel that is off, disabled and at HiZ. -/
def chOff : SatusDef := { hw := HWOUT_HIZ, target := 0, real := 0, en := 0 }

/-- An output channel that is enabled, commanded on and driven high. -/
def chOn : SatusDef := { hw := HWOUT_HIGH, target := 1, real := 1, en := 1 }

/-- Variables of `main.c` met in the example run: all voltages 12000 mV, no
relay drop, the procedures `Kill_Procedure` and `Lockout_Procedure` and the
relay guard at rest. -/
def exMain (sys_state master_act startup_step startup_timeout isolator_act relay_ocp_deadtime
    ignition_act : Nat) : MainVars :=
  { sys_state := sys_state, master_act := master_act, kill_act := 0, u_bat := 12000,
    u_alt := 12000, u_isol := 12000, u_ignc := 12000, u_relay_drop := 0,
    isolator_act := isolator_act, isolator_act_change := 0, ignition_act := ignition_act,
    alternator_act := 0, relay_ocp_en := 1, relay_ocp_deadtime := relay_ocp_deadtime,
    startup_step := startup_step, startup_timeout := startup_timeout, kill_step := 0,
    kill_timeout := 0, lockout_step := 0, lockout_timeout := 0, lockout_led_timeout := 0,
    ocp_fault := 0, ocp_counter := 0, cooldown_timer := 0 }

/-- Program states met in the example run: open-source outputs without
protection history, debounce limits of 10, active-low switches. -/
def exSys (m : MainVars) (isol ignc : SatusDef) (mstr : inStateDef) (kill_blocked : Nat)
    (led_mode : Nat) (pb2 : Bool) : Sys :=
  { m := m
    out :=
      { igncState := ignc
        igncCfg := { type := OUT_TYPE_OS, inv := 0, ext_fault_en := 0 }
        igncProt := protZero
        isolState := isol
        isolCfg := { type := OUT_TYPE_OS, inv := 0, ext_fault_en := 1 }
        isolProt := protZero
        PB0 := false, PB1 := false
        PB6 := decide (ignc.hw = HWOUT_HIGH), PB7 := decide (isol.hw = HWOUT_HIGH) }
    inp :=
      { mstr := mstr
        mstr_cfg := { act_level := IN_ACT_LOW, dbnc_limit := MASTER_DEBOUNCE, pull := IN_PULL_UP }
        kill := { level := 1, changed := 0, blocked := kill_blocked, dbnc_timer := 0 }
        kill_cfg := { act_level := IN_ACT_LOW, dbnc_limit := KILL_DEBOUNCE, pull := IN_PULL_UP }
        PD0 := true, PD1 := decide (kill_blocked = 0) }
    led := { mode := led_mode, timer := 0, flash_t := 0, PB2 := pb2 } }

/-- The state of the example run in ACTIVE: both outputs on. -/
def exActive : Sys :=
  exSys (exMain ACTIVE 1 0 0 1 0 1) chOn chOn
    { level := 0, changed := 1, blocked := 0, dbnc_timer := 0 } 0 LED_SOLID true

/-- The state of the example run 10 ticks into the wait of sub-step 1 of
`Startup_Procedure`, the master signal having read high (inactive) on these 10
ticks: the master level is still latched active, one sample short of the
debounce limit. -/
def exStartupWait : Sys :=
  exSys (exMain STARTUP 1 1 90 0 0 0) chOff chOff
    { level := 0, changed := 1, blocked := 0, dbnc_timer := 10 } 0 LED_SOLID true

/-- A state at sub-step 0 of `Startup_Procedure` with the master switch
inactive. -/
def exStartup0 : Sys :=
  exSys (exMain STARTUP 0 0 0 0 0 0) chOff chOff
    { level := 1, changed := 1, blocked := 0, dbnc_timer := 0 } 1 LED_OFF false

/-- The state `exActive` with the master switch read inactive and the state
machine in LOCKOUT: both outputs are still on. -/
def exLockout : Sys :=
  exSys (exMain LOCKOUT 0 0 0 1 0 1) chOn chOn
    { level := 1, changed := 1, blocked := 0, dbnc_timer := 0 } 0 LED_SOLID true

/-- The state of the example run at the end of the wait of sub-step 3 of
`Startup_Procedure`: the isolator is on, the ignition still off. -/
def exStartup3 : Sys :=
  exSys (exMain STARTUP 1 3 0 1 0 0) chOn chOff
    { level := 0, changed := 1, blocked := 0, dbnc_timer := 0 } 0 LED_SOLID true

/-- The state of the example run after the 10 ticks of `run_debounce`: SLEEP,
both outputs off, the master signal one sample short of being latched active. -/
def exSleepArmed : Sys :=
  exSys (exMain SLEEP 0 0 0 0 0 0) chOff chOff
    { level := 1, changed := 0, blocked := 0, dbnc_timer := 10 } 1 LED_OFF false

/-- The states of the example run from `exSleepArmed` on, tick by tick, with the
master switch on, the kill switch off and all voltages at 12000 mV: one tick
latches the master switch and leaves SLEEP, 505 ticks are spent in
`Startup_Procedure`, and the state is `exActive` from tick 506 on. -/
def exStartupRun (k : Nat) : Sys :=
  if k = 0 then exSleepArmed
  else if k = 1 then
    exSys (exMain STARTUP 1 0 0 0 0 0) chOff chOff
      { level := 0, changed := 1, blocked := 0, dbnc_timer := 11 } 1 LED_OFF false
  else if k ≤ 102 then
    exSys (exMain STARTUP 1 1 (102 - k) 0 0 0) chOff chOff
      { level := 0, changed := 1, blocked := 0, dbnc_timer := 0 } 0 LED_SOLID true
  else if k = 103 then
    exSys (exMain STARTUP 1 2 0 0 0 0) chOff chOff
      { level := 0, changed := 1, blocked := 0, dbnc_timer := 0 } 0 LED_SOLID true
  else if k = 104 then
    exSys (exMain STARTUP 1 3 200 0 0 0) chOn chOff
      { level := 0, changed := 1, blocked := 0, dbnc_timer := 0 } 0 LED_SOLID true
  else if k ≤ 304 then
    exSys (exMain STARTUP 1 3 (304 - k) 1 (109 - k) 0) chOn chOff
      { level := 0, changed := 1, blocked := 0, dbnc_timer := 0 } 0 LED_SOLID true
  else if k = 305 then
    exSys (exMain STARTUP 1 4 200 1 0 0) chOn chOn
      { level := 0, changed := 1, blocked := 0, dbnc_timer := 0 } 0 LED_SOLID true
  else if k ≤ 505 then
    exSys (exMain STARTUP 1 4 (505 - k) 1 0 1) chOn chOn
      { level := 0, changed := 1, blocked := 0, dbnc_timer := 0 } 0 LED_SOLID true
  else exActive

/-! ## Concrete states for the drive logic and the state switch -/

/-- The state `exActive` with `sys_state` set to 7, a value that names no
state. -/
def exUnknown : Sys := { exActive with m := { exActive.m with sys_state := 7 } }

/-- The state `exDeadtime3` with both targets at 0: both channels are still
driven high, with three ticks of dead-time left. -/
def exDeadtime3Off : OutDrv :=
  { exDeadtime3 with
    isolState := { exDeadtime3.isolState with target := 0 }
    igncState := { exDeadtime3.igncState with target := 0 } }

/-- The state `exFaulted` (both channels driven high, one with a protection
fault, the other with an external fault flag) with two ticks of `delay_exec`
and three ticks of dead-time pending on both channels. -/
def exDelayed : OutDrv :=
  { exFaulted with
    isolProt := { exFaulted.isolProt with delay_exec := 2, ocp_deadtime := 3 }
    igncProt := { exFaulted.igncProt with delay_exec := 2, ocp_deadtime := 3 } }

/-! ## Reachable states of the outputs driver -/

/-- The states of the outputs driver that can be reached from `OUTDRV_Init`
(any two configurations) by calls of its public functions (any arguments, in
any order). -/
inductive OutReach : OutDrv → Prop
  | init (pIsolCfg pIgncCfg : outConfigDef) : OutReach (OUTDRV_Init pIsolCfg pIgncCfg)
  | call (d : OutDrv) (c : DrvCall) (h : OutReach d) : OutReach (c.run d)
  | protection (d : OutDrv) (u_bat u_isol u_alt u_ignc : Nat) (h : OutReach d) :
      OutReach (OUTDRV_ProcessProtection d u_bat u_isol u_alt u_ignc)

/-- The calls that lead from the state set by `OUTDRV_Init` to `exOn`. -/
def exOnCalls : List DrvCall :=
  [DrvCall.EnableOutput OUT_ISOL, DrvCall.SetOutput OUT_ISOL, DrvCall.EnableOutput OUT_IGNC,
    DrvCall.SetOutput OUT_IGNC, DrvCall.ProcessLogic]

/-- An external fault flag is set only on a channel whose configuration
permits it. -/
def ExtFaultPermitted (d : OutDrv) : Prop :=
  (d.isolProt.ext_fault ≠ 0 → d.isolCfg.ext_fault_en ≠ 0) ∧
  (d.igncProt.ext_fault ≠ 0 → d.igncCfg.ext_fault_en ≠ 0)

/-! ## Reachable states of the relay guard -/

/-- The states of the variables of `main.c` that the relay guard can meet: its
static locals `ocp_fault`, `ocp_counter` and `cooldown_timer` start at 0 and
are written by `IsolatorOCP` only, while between two calls the program may give
any values to all other variables (`isolator_act`, `u_relay_drop`,
`relay_ocp_deadtime` among them). -/
inductive GuardReach : MainVars → Prop
  | init (m : MainVars) (h1 : m.ocp_fault = 0) (h2 : m.ocp_counter = 0)
      (h3 : m.cooldown_timer = 0) : GuardReach m
  | step (m : MainVars) (h : GuardReach m) : GuardReach (IsolatorOCP m).1
  | env (m m' : MainVars) (h : GuardReach m) (h1 : m'.ocp_fault = m.ocp_fault)
      (h2 : m'.ocp_counter = m.ocp_counter) (h3 : m'.cooldown_timer = m.cooldown_timer) :
      GuardReach m'

/-- The state on which `IsolatorOCP` runs in a tick of the main loop: after
data gathering, protection processing and the first escalation test. -/
def tickGuarded (s : Sys) (a : Sample) : Sys :=
  loopIsolFault (tickProtected s a)

/-- Variables of `main.c` with the isolator off, a relay drop of 1000 mV, the
guard's counter at `counter` and its fault output clear. -/
def exRelayOff (counter : Nat) : MainVars :=
  { exRelay 0 counter with isolator_act := 0 }

/-! ## Runs of the outputs driver from a given state -/

/-- The driver state after `n` protection steps of the run `env`, starting from
the state `d`. -/
def protFrom (d : OutDrv) (env : Nat → ProtStep) : Nat → OutDrv
  | 0 => d
  | n + 1 => protStep (protFrom d env n) (env n)

/-- The conduction drop that protection step `k` (counted from 0) of the run
`env` from `d` computes for the isolator: the block "Calculate mosfet voltage
drop" on the level asserted when the step runs. -/
def isolDropAt (d : OutDrv) (env : Nat → ProtStep) (k : Nat) : Nat :=
  mosfetDrop (runCalls (protFrom d env k) (env k).calls).isolState.hw (env k).u_bat
    (env k).u_isol

/-- A run in which every protection step follows a call of
`OUTDRV_ProcessLogic` and sees a drop of 600 mV on the isolator. -/
def runDrop600 : Nat → ProtStep := fun _ =>
  { calls := [DrvCall.ProcessLogic], u_bat := 12000, u_isol := 11400, u_alt := 12000,
    u_ignc := 12000 }

/-! ## The isolator fault in the main loop -/

/-- What the main loop keeps true of the isolator's fault indicators at the
top of its body: the external fault flag is never set (`main` does not call
`OUTDRV_SetExtFault`), a clear fault has no cooldown pending, and in ACTIVE the
fault is clear (a fault seen in STARTUP aborts the start-up, a fault seen in
ACTIVE leaves ACTIVE in the same tick). -/
def FaultInv (s : Sys) : Prop :=
  s.out.isolProt.ext_fault = 0 ∧
  (s.out.isolProt.fault = 0 → s.out.isolProt.cooldown_timer = 0) ∧
  (s.m.sys_state = ACTIVE → s.out.isolProt.fault = 0)

/-- Samples of a run in which the isolator output reads 0 V on every tick. -/
def smpShortRun : Nat → Sample := fun _ => smpShort

/-! ## A level change right after a commit -/

/-- Pins of a run in which the master signal reads low (active) on the first
11 samples and high (inactive) afterwards, the kill signal high throughout. -/
def pinsBounce : Nat → Bool × Bool := fun j => (decide (11 ≤ j), true)

/-! ## The protection step with its limits as parameters -/

/-- The six constants a protection function is written with. -/
structure ProtLimits where
  ovl : Nat
  uvl : Nat
  ql : Nat
  delay : Nat
  cooldown : Nat
  retry : Nat
deriving DecidableEq

/-- The limits `outputs_driver.h` configures for the isolator channel. -/
def isolLimits : ProtLimits :=
  { ovl := ISOL_OVERVOLATGE_LIMIT, uvl := ISOL_UNDERVOLATGE_LIMIT, ql := ISOL_QDROP_LIMIT,
    delay := ISOL_OCP_DELAY, cooldown := ISOL_FAULT_COOLDOWN_TIME,
    retry := ISOL_FAULT_RETRY_TIMEOUT }

/-- The limits `outputs_driver.h` configures for the ignition channel. -/
def igncLimits : ProtLimits :=
  { ovl := IGNC_OVERVOLATGE_LIMIT, uvl := IGNC_UNDERVOLATGE_LIMIT, ql := IGNC_QDROP_LIMIT,
    delay := IGNC_OCP_DELAY, cooldown := IGNC_FAULT_COOLDOWN_TIME,
    retry := IGNC_FAULT_RETRY_TIMEOUT }

/-- The limits the text of `ProcessIgnitionProtection` names: those of the
ignition channel, except that the fault check compares `ocp_counter` with
`ISOL_OCP_DELAY`. -/
def igncLimitsNamed : ProtLimits := { igncLimits with delay := ISOL_OCP_DELAY }

/-- The body the two protection functions share, as a function of the
channel's hardware level and protection state, of the two voltages and of the
limits: the blocks of the source in their order.  The result is the new
protection state and the returned fault indicator. -/
def protectionStep (L : ProtLimits) (hw : Nat) (p : ProtectionDef)
    (volt_pwrsrc volt_out : Nat) : ProtectionDef × Nat :=
  let drop := mosfetDrop hw volt_pwrsrc volt_out
  let p := checkWarnings L.ovl L.uvl L.ql volt_pwrsrc drop p
  let p := ocpDelay L.ql drop p
  let p := checkFault L.delay L.cooldown L.retry p
  (p, p.fault)

/-- A driver state in which the two channels have different histories: the
isolator is driven high with an episode behind it, the ignition is at rest. -/
def exMixed : OutDrv :=
  { exOn with
    isolProt := { protZero with ocp_counter := 7, fault := 1, fault_cnt := 3, cooldown_timer := 12 } }

/-- The state `exMixed` with the two channels exchanged. -/
def exMixedSwap : OutDrv :=
  { exMixed with
    igncState := exMixed.isolState, igncProt := exMixed.isolProt
    isolState := exMixed.igncState, isolProt := exMixed.igncProt }

/-! ## The lockout dwell and the ignition's fault history -/

/-- The ranges the main loop keeps the ignition's `ocp_counter` (a `uint8_t`),
`cooldown_timer` and `retry_timer` in. -/
def IgncBounded (p : ProtectionDef) : Prop :=
  p.ocp_counter ≤ 255 ∧ p.cooldown_timer ≤ IGNC_FAULT_COOLDOWN_TIME ∧
  p.retry_timer ≤ IGNC_FAULT_RETRY_TIMEOUT

/-- A bound on the number of protection steps the ignition channel needs,
while it is held at HiZ, to forget a fault episode: as long as the counter is
above `ISOL_OCP_DELAY + 1` the next step still sees it above the threshold, so
the counter has to decay first, then the cooldown timer runs out, one step
clears the fault, the retry timer runs out and one more step clears
`fault_cnt`. -/
def igncSettle (p : ProtectionDef) : Nat :=
  if p.ocp_counter > ISOL_OCP_DELAY + 1 then
    (p.ocp_counter - (ISOL_OCP_DELAY + 1)) +
      (IGNC_FAULT_COOLDOWN_TIME + 1 + IGNC_FAULT_RETRY_TIMEOUT + 1)
  else
    p.cooldown_timer +
      (if p.fault ≠ 0 then 1 + IGNC_FAULT_RETRY_TIMEOUT + 1
       else p.retry_timer + (if p.fault_cnt ≠ 0 then 1 else 0))

/-- What the main loop keeps true of the lockout dwell at the top of its body:
the ignition's counter and timers are in range; outside LOCKOUT the procedure
`Lockout_Procedure` is at its sub-step 0; in LOCKOUT past sub-step 0 the dwell
timeout still covers the steps the ignition needs to forget its fault episode;
and in SLEEP the episode is forgotten. -/
def DwellInv (s : Sys) : Prop :=
  IgncBounded s.out.igncProt ∧
  (s.m.sys_state ≠ LOCKOUT → s.m.lockout_step = 0) ∧
  (s.m.sys_state = LOCKOUT → s.m.lockout_step ≠ 0 →
    igncSettle s.out.igncProt ≤ s.m.lockout_timeout) ∧
  (s.m.sys_state = SLEEP → igncSettle s.out.igncProt = 0)

/-- A sample with all four voltages at 12000 mV, the master signal high
(inactive) and the kill signal low (active). -/
def smpKill : Sample :=
  { bat_mon := 600, isol_mon := 600, ign_mon := 600, alt_mon := 600,
    pind2 := true, pind3 := false }

/-- The state left by the initialisation when the kill switch is held active
during `DataGathering(100)`: LOCKOUT, both outputs off, the kill input put to
sleep, `kill_act` still set from the last pass. -/
def exBootLock : Sys :=
  { exSys (exMain LOCKOUT 0 0 0 0 0 0) chOff chOff
      { level := 1, changed := 0, blocked := 0, dbnc_timer := 0 } 1 LED_OFF true with
    m := { exMain LOCKOUT 0 0 0 0 0 0 with kill_act := 1 } }

/-- States of the lockout dwell: LOCKOUT past sub-step 0 with the master switch
off, both outputs off without protection history, the LED flashing with a
half-period of 500 ticks. -/
def exDwellAt (timeout led_timeout led_timer : Nat) (pb2 : Bool) : Sys :=
  { exSys (exMain LOCKOUT 0 0 0 0 0 0) chOff chOff
      { level := 1, changed := 0, blocked := 0, dbnc_timer := 0 } 1 LED_FLASH pb2 with
    m := { exMain LOCKOUT 0 0 0 0 0 0 with
      lockout_step := 1, lockout_timeout := timeout, lockout_led_timeout := led_timeout }
    led := { mode := LED_FLASH, timer := led_timer, flash_t := 500, PB2 := pb2 } }

/-- The state `k` ticks after the tick that ran sub-step 0 of
`Lockout_Procedure` from `exBootLock`, the master switch staying off: the dwell
timeout has counted down from 5000, the LED toggles every 501 ticks. -/
def exDwell (k : Nat) : Sys :=
  exDwellAt (5000 - k) (30000 - k) (500 - k % 501) (decide (k / 501 % 2 = 1))

/-! # Theorems -/

/-! ## Lemmas on the blocks of the protection functions -/

section blocks
variable (delay cooldown retry : Nat) (p : ProtectionDef)

@[simp] theorem checkFault_ocp_warning : (checkFault delay cooldown retry p).ocp_warning = p.ocp_warning := by
  unfold checkFault; split_ifs <;> rfl
@[simp] theorem checkFault_ovp_warning : (checkFault delay cooldown retry p).ovp_warning = p.ovp_warning := by
  unfold checkFault; split_ifs <;> rfl
@[simp] theorem checkFault_uvp_warning : (checkFault delay cooldown retry p).uvp_warning = p.uvp_warning := by
  unfold checkFault; split_ifs <;> rfl
@[simp] theorem checkFault_ocp_counter : (checkFault delay cooldown retry p).ocp_counter = p.ocp_counter := by
  unfold checkFault; split_ifs <;> rfl
@[simp] theorem checkFault_ext_fault : (checkFault delay cooldown retry p).ext_fault = p.ext_fault := by
  unfold checkFault; split_ifs <;> rfl
@[simp] theorem checkFault_delay_exec : (checkFault delay cooldown retry p).delay_exec = p.delay_exec := by
  unfold checkFault; split_ifs <;> rfl
@[simp] theorem checkFault_ocp_deadtime : (checkFault delay cooldown retry p).ocp_deadtime = p.ocp_deadtime := by
  unfold checkFault; split_ifs <;> rfl

theorem checkFault_fault : (checkFault delay cooldown retry p).fault =
    if p.ovp_warning ≠ 0 ∨ p.uvp_warning ≠ 0 ∨ p.ocp_counter > delay then 1
    else if p.cooldown_timer ≠ 0 then p.fault else 0 := by
  unfold checkFault; split_ifs <;> simp_all

theorem checkFault_cooldown_timer : (checkFault delay cooldown retry p).cooldown_timer =
    if p.ovp_warning ≠ 0 ∨ p.uvp_warning ≠ 0 ∨ p.ocp_counter > delay then
      (if p.cooldown_timer = 0 then cooldown else p.cooldown_timer)
    else p.cooldown_timer - 1 := by
  unfold checkFault; split_ifs <;> simp_all

theorem checkFault_fault_cnt : (checkFault delay cooldown retry p).fault_cnt =
    if p.ovp_warning ≠ 0 ∨ p.uvp_warning ≠ 0 ∨ p.ocp_counter > delay then
      (if p.fault = 0 ∧ p.fault_cnt < 255 then p.fault_cnt + 1 else p.fault_cnt)
    else if p.cooldown_timer = 0 ∧ p.fault = 0 ∧ p.retry_timer = 0 then 0 else p.fault_cnt := by
  unfold checkFault; split_ifs <;> simp_all

theorem checkFault_retry_timer : (checkFault delay cooldown retry p).retry_timer =
    if p.ovp_warning ≠ 0 ∨ p.uvp_warning ≠ 0 ∨ p.ocp_counter > delay then p.retry_timer
    else if p.cooldown_timer ≠ 0 then p.retry_timer
    else if p.fault ≠ 0 then retry else p.retry_timer - 1 := by
  unfold checkFault; split_ifs <;> simp_all

theorem checkFault_retry_flag : (checkFault delay cooldown retry p).retry_flag =
    if ¬ (p.ovp_warning ≠ 0 ∨ p.uvp_warning ≠ 0 ∨ p.ocp_counter > delay) ∧
        p.cooldown_timer = 0 ∧ p.fault ≠ 0 then 1 else p.retry_flag := by
  unfold checkFault; split_ifs <;> simp_all

theorem checkFault_cnt_edge (h : p.fault_cnt < 256) :
    (p.fault = 0 → (checkFault delay cooldown retry p).fault ≠ 0 →
      (checkFault delay cooldown retry p).fault_cnt = min 255 (p.fault_cnt + 1)) ∧
    (p.fault ≠ 0 → (checkFault delay cooldown retry p).fault_cnt = p.fault_cnt) ∧
    (p.fault_cnt < (checkFault delay cooldown retry p).fault_cnt →
      p.fault = 0 ∧ (checkFault delay cooldown retry p).fault ≠ 0) := by
  rw [checkFault_fault, checkFault_fault_cnt]
  simp only [min_def]
  refine ⟨fun h0 h1 => ?_, fun h0 => ?_, fun h0 => ?_⟩
  · split_ifs at h1 ⊢ <;> omega
  · split_ifs <;> omega
  · split_ifs at h0 ⊢ <;> omega

end blocks

theorem ocpCounterNext_eq (ql drop w dt c : Nat) (hdrop : drop < 65536) (hc : c < 256) :
    ocpCounterNext ql drop w dt c =
      if w ≠ 0 ∧ dt = 0 then min 255 (c + min 255 (drop / ql)) else c - 1 := by
  have hx : drop / ql < 65536 := lt_of_le_of_lt (Nat.div_le_self drop ql) hdrop
  unfold ocpCounterNext
  generalize drop / ql = x at hx ⊢
  simp only [min_def]
  split_ifs <;> omega

theorem mosfetDrop_lt (hw vp vo : Nat) (hvp : vp < 65536) (hvo : vo < 65536) :
    mosfetDrop hw vp vo < 65536 := by
  unfold mosfetDrop; split_ifs <;> omega


/-! ## Lemmas on the drive logic and on runs of the driver -/

theorem ProcessLogicIsolator_ignc (d : OutDrv) :
    (ProcessLogicIsolator d).igncState = d.igncState ∧
    (ProcessLogicIsolator d).igncProt = d.igncProt ∧
    (ProcessLogicIsolator d).igncCfg = d.igncCfg ∧
    (ProcessLogicIsolator d).PB0 = d.PB0 ∧ (ProcessLogicIsolator d).PB6 = d.PB6 := by
  unfold ProcessLogicIsolator HAL_SetIsolator
  split_ifs <;> simp

theorem ProcessLogicIgnition_isol (d : OutDrv) :
    (ProcessLogicIgnition d).isolState = d.isolState ∧
    (ProcessLogicIgnition d).isolProt = d.isolProt ∧
    (ProcessLogicIgnition d).isolCfg = d.isolCfg ∧
    (ProcessLogicIgnition d).PB1 = d.PB1 ∧ (ProcessLogicIgnition d).PB7 = d.PB7 := by
  unfold ProcessLogicIgnition HAL_SetIgnition
  split_ifs <;> simp

theorem SameCore.refl (p : ProtectionDef) : SameCore p p := ⟨rfl, rfl, rfl, rfl⟩

theorem SameCore.trans {p q r : ProtectionDef} (h1 : SameCore p q) (h2 : SameCore q r) :
    SameCore p r := by
  obtain ⟨a1, a2, a3, a4⟩ := h1
  obtain ⟨b1, b2, b3, b4⟩ := h2
  exact ⟨b1.trans a1, b2.trans a2, b3.trans a3, b4.trans a4⟩

theorem HAL_SetIsolator_isolProt (d : OutDrv) (level : Nat) :
    (HAL_SetIsolator d level).isolProt =
      if level ≠ d.isolState.hw then { d.isolProt with ocp_deadtime := ISOL_OCP_DEAD_TIME }
      else d.isolProt := by
  unfold HAL_SetIsolator
  by_cases h : level ≠ d.isolState.hw <;> simp only [h, if_true, if_false] <;> split_ifs <;> rfl

theorem HAL_SetIsolator_igncProt (d : OutDrv) (level : Nat) :
    (HAL_SetIsolator d level).igncProt = d.igncProt := by
  unfold HAL_SetIsolator
  by_cases h : level ≠ d.isolState.hw <;> simp only [h, if_true, if_false] <;> split_ifs <;> rfl

theorem HAL_SetIgnition_igncProt (d : OutDrv) (level : Nat) :
    (HAL_SetIgnition d level).igncProt =
      if level ≠ d.igncState.hw then { d.igncProt with ocp_deadtime := IGNC_OCP_DEAD_TIME }
      else d.igncProt := by
  unfold HAL_SetIgnition
  by_cases h : level ≠ d.igncState.hw <;> simp only [h, if_true, if_false] <;> split_ifs <;> rfl

theorem HAL_SetIgnition_isolProt (d : OutDrv) (level : Nat) :
    (HAL_SetIgnition d level).isolProt = d.isolProt := by
  unfold HAL_SetIgnition
  by_cases h : level ≠ d.igncState.hw <;> simp only [h, if_true, if_false] <;> split_ifs <;> rfl

theorem ProcessLogicIsolator_core (d : OutDrv) :
    SameCore d.isolProt (ProcessLogicIsolator d).isolProt ∧
    (ProcessLogicIsolator d).igncProt = d.igncProt := by
  unfold ProcessLogicIsolator SameCore
  split_ifs <;> simp only [HAL_SetIsolator_isolProt, HAL_SetIsolator_igncProt] <;>
    (try split_ifs) <;> simp

theorem ProcessLogicIgnition_core (d : OutDrv) :
    SameCore d.igncProt (ProcessLogicIgnition d).igncProt ∧
    (ProcessLogicIgnition d).isolProt = d.isolProt := by
  unfold ProcessLogicIgnition SameCore
  split_ifs <;> simp only [HAL_SetIgnition_isolProt, HAL_SetIgnition_igncProt] <;>
    (try split_ifs) <;> simp

theorem ProcessLogic_core (d : OutDrv) :
    SameCore d.isolProt (OUTDRV_ProcessLogic d).isolProt ∧
    SameCore d.igncProt (OUTDRV_ProcessLogic d).igncProt := by
  unfold OUTDRV_ProcessLogic
  have h1 := ProcessLogicIgnition_core d
  have h2 := ProcessLogicIsolator_core (ProcessLogicIgnition d)
  constructor
  · rw [← h1.2]; exact h2.1
  · rw [h2.2]; exact h1.1

theorem DrvCall_run_core (d : OutDrv) (c : DrvCall) :
    SameCore d.isolProt (c.run d).isolProt ∧ SameCore d.igncProt (c.run d).igncProt := by
  cases c with
  | ProcessLogic => exact ProcessLogic_core d
  | SetOutput ch => simp only [DrvCall.run]; unfold OUTDRV_SetOutput SameCore; split_ifs <;> simp
  | ResetOutput ch => simp only [DrvCall.run]; unfold OUTDRV_ResetOutput SameCore; split_ifs <;> simp
  | SetExtFault ch => simp only [DrvCall.run]; unfold OUTDRV_SetExtFault SameCore; split_ifs <;> simp
  | ResetExtFault ch => simp only [DrvCall.run]; unfold OUTDRV_ResetExtFault SameCore; split_ifs <;> simp
  | EnableOutput ch => simp only [DrvCall.run]; unfold OUTDRV_EnableOutput SameCore; split_ifs <;> simp
  | DisableOutput ch => simp only [DrvCall.run]; unfold OUTDRV_DisableOutput SameCore; split_ifs <;> simp
  | DelayFaultExecution ch n =>
    simp only [DrvCall.run]; unfold OUTDRV_DelayFaultExecution SameCore; split_ifs <;> simp
  | ResetRetryFlag ch => simp only [DrvCall.run]; unfold OUTDRV_ResetRetryFlag SameCore; split_ifs <;> simp

theorem runCalls_core (calls : List DrvCall) (d : OutDrv) :
    SameCore d.isolProt (runCalls d calls).isolProt ∧
    SameCore d.igncProt (runCalls d calls).igncProt := by
  induction calls generalizing d with
  | nil => exact ⟨SameCore.refl _, SameCore.refl _⟩
  | cons c cs ih =>
    have h1 := DrvCall_run_core d c
    have h2 := ih (c.run d)
    exact ⟨h1.1.trans h2.1, h1.2.trans h2.2⟩

theorem protStep_isolProt (d : OutDrv) (e : ProtStep) :
    ∃ q, SameCore d.isolProt q ∧ (protStep d e).isolProt =
      checkFault ISOL_OCP_DELAY ISOL_FAULT_COOLDOWN_TIME ISOL_FAULT_RETRY_TIMEOUT q := by
  refine ⟨_, ?_, rfl⟩
  exact (runCalls_core e.calls d).1.trans ⟨rfl, rfl, rfl, rfl⟩

theorem protStep_igncProt (d : OutDrv) (e : ProtStep) :
    ∃ q, SameCore d.igncProt q ∧ (protStep d e).igncProt =
      checkFault ISOL_OCP_DELAY IGNC_FAULT_COOLDOWN_TIME IGNC_FAULT_RETRY_TIMEOUT q := by
  refine ⟨_, ?_, rfl⟩
  exact (runCalls_core e.calls d).2.trans ⟨rfl, rfl, rfl, rfl⟩

theorem protRun_isol_chain (ic gc : outConfigDef) (env : Nat → ProtStep) :
    FaultChain ISOL_FAULT_COOLDOWN_TIME ISOL_FAULT_RETRY_TIMEOUT
      (fun n => (protRun ic gc env n).isolProt) :=
  ⟨rfl, rfl, rfl, fun _ => ⟨_, protStep_isolProt _ _⟩⟩

theorem protRun_ignc_chain (ic gc : outConfigDef) (env : Nat → ProtStep) :
    FaultChain IGNC_FAULT_COOLDOWN_TIME IGNC_FAULT_RETRY_TIMEOUT
      (fun n => (protRun ic gc env n).igncProt) :=
  ⟨rfl, rfl, rfl, fun _ => ⟨_, protStep_igncProt _ _⟩⟩

/-! ## Fault chains -/

section chain
variable {cooldown retry : Nat} {f : Nat → ProtectionDef}

theorem FaultChain.cooldown_of_clear (h : FaultChain cooldown retry f) (n : Nat) :
    (f n).fault = 0 → (f n).cooldown_timer = 0 := by
  induction n with
  | zero => exact fun _ => h.2.1
  | succ n ih =>
    obtain ⟨delay, q, ⟨q1, q2, -, -⟩, heq⟩ := h.2.2.2 n
    rw [heq, checkFault_fault, checkFault_cooldown_timer, q1, q2]
    split_ifs <;> intro h0 <;> first | exact h0.elim | omega

theorem FaultChain.rising_arms (h : FaultChain cooldown retry f) (n : Nat)
    (h0 : (f n).fault = 0) (h1 : (f (n + 1)).fault ≠ 0) :
    (f (n + 1)).cooldown_timer = cooldown := by
  have hc := h.cooldown_of_clear n h0
  obtain ⟨delay, q, ⟨q1, q2, -, -⟩, heq⟩ := h.2.2.2 n
  rw [heq, checkFault_fault, q1, q2] at h1
  rw [heq, checkFault_cooldown_timer, q2]
  split_ifs at h1 ⊢ <;> omega

theorem FaultChain.hold (h : FaultChain cooldown retry f) (n : Nat)
    (h1 : (f n).fault ≠ 0) (h2 : (f n).cooldown_timer = cooldown) (k : Nat) :
    k ≤ cooldown → (f (n + k)).fault ≠ 0 ∧ cooldown ≤ (f (n + k)).cooldown_timer + k := by
  induction k with
  | zero => intro _; exact ⟨h1, by simp [h2]⟩
  | succ k ih =>
    intro hk
    obtain ⟨ih1, ih2⟩ := ih (by omega)
    obtain ⟨delay, q, ⟨q1, q2, -, -⟩, heq⟩ := h.2.2.2 (n + k)
    rw [← Nat.add_assoc, heq, checkFault_fault, checkFault_cooldown_timer, q1, q2]
    split_ifs <;> constructor <;> omega

theorem FaultChain.sticky (h : FaultChain cooldown retry f) (t k : Nat)
    (h0 : (f t).fault = 0) (h1 : (f (t + 1)).fault ≠ 0) (hk : k ≤ cooldown) :
    (f (t + 1 + k)).fault ≠ 0 :=
  (h.hold (t + 1) h1 (h.rising_arms t h0 h1) k hk).1

/-- History invariant for the retry timer. -/
theorem FaultChain.retry_history (h : FaultChain cooldown retry f) (n : Nat) :
    (f n).fault = 0 → (f n).fault_cnt ≠ 0 →
      (f n).retry_timer ≤ retry ∧
      ∀ j, j + (f n).retry_timer ≤ retry → j ≤ n ∧ (f (n - j)).fault = 0 := by
  induction n with
  | zero => intro _ hc; exact absurd h.2.2.1 hc
  | succ n ih =>
    have hcd := h.cooldown_of_clear n
    obtain ⟨delay, q, ⟨q1, q2, q3, q4⟩, heq⟩ := h.2.2.2 n
    intro hf hcnt
    have hf' := hf
    rw [heq, checkFault_fault, q1, q2] at hf
    rw [heq, checkFault_fault_cnt, q1, q2, q3, q4] at hcnt
    rw [heq, checkFault_retry_timer, q1, q2, q4]
    by_cases hcond : q.ovp_warning ≠ 0 ∨ q.uvp_warning ≠ 0 ∨ q.ocp_counter > delay
    · rw [if_pos hcond] at hf; omega
    · rw [if_neg hcond] at hf hcnt ⊢
      by_cases hct : (f n).cooldown_timer ≠ 0
      · rw [if_pos hct] at hf
        exact absurd (hcd hf) hct
      · rw [if_neg hct]
        by_cases hfn : (f n).fault ≠ 0
        · rw [if_pos hfn]
          refine ⟨le_refl _, fun j hj => ?_⟩
          have : j = 0 := by omega
          subst this
          exact ⟨Nat.zero_le _, hf'⟩
        · rw [if_neg hfn]
          have hfn0 : (f n).fault = 0 := by omega
          have hcnt' : (f n).fault_cnt ≠ 0 := by
            split_ifs at hcnt <;> omega
          obtain ⟨ihr, ihj⟩ := ih hfn0 hcnt'
          refine ⟨by omega, fun j hj => ?_⟩
          rcases Nat.eq_zero_or_pos j with hj0 | hjpos
          · subst hj0; exact ⟨Nat.zero_le _, hf'⟩
          · have hrt : (f n).retry_timer ≠ 0 := by
              intro h0
              rw [if_pos ⟨by omega, hfn0, h0⟩] at hcnt
              exact hcnt rfl
            obtain ⟨a, b⟩ := ihj (j - 1) (by omega)
            refine ⟨by omega, ?_⟩
            have : n + 1 - j = n - (j - 1) := by omega
            rw [this]; exact b

theorem FaultChain.reset_needs_clear_period (h : FaultChain cooldown retry f) (t : Nat)
    (h0 : (f t).fault_cnt ≠ 0) (h1 : (f (t + 1)).fault_cnt = 0) :
    retry ≤ t ∧ ∀ j, j ≤ retry → (f (t - j)).fault = 0 := by
  obtain ⟨delay, q, ⟨q1, q2, q3, q4⟩, heq⟩ := h.2.2.2 t
  rw [heq, checkFault_fault_cnt, q1, q2, q3, q4] at h1
  have key : (f t).cooldown_timer = 0 ∧ (f t).fault = 0 ∧ (f t).retry_timer = 0 := by
    split_ifs at h1 <;> omega
  obtain ⟨-, hj⟩ := h.retry_history t key.2.1 h0
  rw [key.2.2] at hj
  exact ⟨(hj retry (by omega)).1, fun j hjr => (hj j (by omega)).2⟩

theorem FaultChain.no_reset (h : FaultChain cooldown retry f) (n : Nat) :
    ((f (n + 1)).fault ≠ 0 → (f n).fault_cnt ≤ (f (n + 1)).fault_cnt) ∧
    ((f n).retry_timer ≠ 0 → (f n).fault_cnt ≤ (f (n + 1)).fault_cnt) := by
  obtain ⟨delay, q, ⟨q1, q2, q3, q4⟩, heq⟩ := h.2.2.2 n
  rw [heq, checkFault_fault_cnt, checkFault_fault, q1, q2, q3, q4]
  constructor <;> intro hh <;> split_ifs at hh ⊢ <;> omega

end chain

/-! ## Lemmas on the relay guard -/

theorem IsolatorOCP_fst (m : MainVars) :
    ∃ f cd, (IsolatorOCP m).1 =
      { m with
        relay_ocp_deadtime :=
          if m.relay_ocp_deadtime ≠ 0 then m.relay_ocp_deadtime - 1 else m.relay_ocp_deadtime
        ocp_counter :=
          ocpCounterNext ISOLATOR_DROP_LIMIT (relayDrop m)
            (if relayDrop m > ISOLATOR_DROP_LIMIT ∧ ISOLATOR_DROP_LIMIT ≠ 0 then 1 else 0)
            (if m.relay_ocp_deadtime ≠ 0 then m.relay_ocp_deadtime - 1
             else m.relay_ocp_deadtime)
            m.ocp_counter
        ocp_fault := f
        cooldown_timer := cd } := by
  unfold IsolatorOCP relayDrop
  simp only []
  generalize ocpCounterNext _ _ _ _ _ = c
  generalize (if m.relay_ocp_deadtime ≠ 0 then m.relay_ocp_deadtime - 1
    else m.relay_ocp_deadtime) = dt
  split_ifs <;> exact ⟨_, _, rfl⟩

theorem IsolatorOCP_relay_ocp_deadtime (m : MainVars) :
    (IsolatorOCP m).1.relay_ocp_deadtime =
      if m.relay_ocp_deadtime ≠ 0 then m.relay_ocp_deadtime - 1 else m.relay_ocp_deadtime := by
  obtain ⟨f, cd, h⟩ := IsolatorOCP_fst m
  rw [h]

theorem IsolatorOCP_ocp_counter (m : MainVars) :
    (IsolatorOCP m).1.ocp_counter =
      ocpCounterNext ISOLATOR_DROP_LIMIT (relayDrop m)
        (if relayDrop m > ISOLATOR_DROP_LIMIT ∧ ISOLATOR_DROP_LIMIT ≠ 0 then 1 else 0)
        (if m.relay_ocp_deadtime ≠ 0 then m.relay_ocp_deadtime - 1 else m.relay_ocp_deadtime)
        m.ocp_counter := by
  obtain ⟨f, cd, h⟩ := IsolatorOCP_fst m
  rw [h]

theorem IsolatorOCP_frame (m : MainVars) :
    (IsolatorOCP m).1.sys_state = m.sys_state ∧
    (IsolatorOCP m).1.kill_step = m.kill_step ∧
    (IsolatorOCP m).1.master_act = m.master_act ∧
    (IsolatorOCP m).1.kill_act = m.kill_act ∧
    (IsolatorOCP m).1.relay_ocp_en = m.relay_ocp_en := by
  obtain ⟨f, cd, h⟩ := IsolatorOCP_fst m
  rw [h]
  exact ⟨rfl, rfl, rfl, rfl, rfl⟩

theorem IsolatorOCP_escalated (m : MainVars) (x y : Nat) :
    (IsolatorOCP { m with sys_state := x, kill_act := y }).2 = (IsolatorOCP m).2 := by
  unfold IsolatorOCP
  simp only []
  generalize ocpCounterNext _ _ _ _ _ = c
  split_ifs <;> rfl

/-! ## Claims -/

/-- C1: with `delay_exec = 0`, a channel whose protection fault or `ext_fault`
is set, or which is not enabled, is at HiZ with `real = 0` after
`OUTDRV_ProcessLogic`, whatever its target and configuration; both of its pins
are low.  First the isolator, then the ignition. -/
theorem C1_fault_or_disabled_forces_HiZ (d : OutDrv) :
    (d.isolProt.delay_exec = 0 →
      (d.isolProt.fault ≠ 0 ∨ d.isolProt.ext_fault ≠ 0 ∨ d.isolState.en = 0) →
      (OUTDRV_ProcessLogic d).isolState.hw = HWOUT_HIZ ∧
      (OUTDRV_ProcessLogic d).isolState.real = 0 ∧
      (OUTDRV_ProcessLogic d).PB1 = false ∧ (OUTDRV_ProcessLogic d).PB7 = false) ∧
    (d.igncProt.delay_exec = 0 →
      (d.igncProt.fault ≠ 0 ∨ d.igncProt.ext_fault ≠ 0 ∨ d.igncState.en = 0) →
      (OUTDRV_ProcessLogic d).igncState.hw = HWOUT_HIZ ∧
      (OUTDRV_ProcessLogic d).igncState.real = 0 ∧
      (OUTDRV_ProcessLogic d).PB0 = false ∧ (OUTDRV_ProcessLogic d).PB6 = false) := by
  constructor
  · intro hd hf
    obtain ⟨h1, h2, -, -, -⟩ := ProcessLogicIgnition_isol d
    have hd' : (ProcessLogicIgnition d).isolProt.delay_exec = 0 := by rw [h2]; exact hd
    have hf' : (ProcessLogicIgnition d).isolProt.fault ≠ 0 ∨
        (ProcessLogicIgnition d).isolProt.ext_fault ≠ 0 ∨
        (ProcessLogicIgnition d).isolState.en = 0 := by rw [h1, h2]; exact hf
    unfold OUTDRV_ProcessLogic
    generalize ProcessLogicIgnition d = e at hd' hf'
    unfold ProcessLogicIsolator
    rw [if_neg (by simpa using hd'), if_pos hf']
    simp [HAL_SetIsolator]
  · intro hd hf
    obtain ⟨h1, -, -, h4, h5⟩ := ProcessLogicIsolator_ignc (ProcessLogicIgnition d)
    unfold OUTDRV_ProcessLogic
    rw [h1, h4, h5]
    unfold ProcessLogicIgnition
    rw [if_neg (by simpa using hd), if_pos hf]
    simp [HAL_SetIgnition]

/-- C1 at `exFaulted`: both channels are commanded on and driven high, the
isolator has a protection fault, the ignition an external fault flag. -/
theorem C1_witness :
    (exFaulted.isolProt.delay_exec = 0 ∧ exFaulted.isolProt.fault ≠ 0 ∧
      exFaulted.isolState.target = 1 ∧ exFaulted.isolState.hw = HWOUT_HIGH ∧
      (OUTDRV_ProcessLogic exFaulted).isolState.hw = HWOUT_HIZ ∧
      (OUTDRV_ProcessLogic exFaulted).isolState.real = 0 ∧
      (OUTDRV_ProcessLogic exFaulted).PB1 = false ∧
      (OUTDRV_ProcessLogic exFaulted).PB7 = false) ∧
    (exFaulted.igncProt.delay_exec = 0 ∧ exFaulted.igncProt.ext_fault ≠ 0 ∧
      (OUTDRV_ProcessLogic exFaulted).igncState.hw = HWOUT_HIZ ∧
      (OUTDRV_ProcessLogic exFaulted).igncState.real = 0 ∧
      (OUTDRV_ProcessLogic exFaulted).PB0 = false ∧
      (OUTDRV_ProcessLogic exFaulted).PB6 = false) :=
  ⟨⟨rfl, by decide, rfl, rfl,
      (C1_fault_or_disabled_forces_HiZ exFaulted).1 rfl (Or.inl (by decide))⟩,
    ⟨rfl, by decide,
      (C1_fault_or_disabled_forces_HiZ exFaulted).2 rfl (Or.inr (Or.inl (by decide)))⟩⟩

/-- C2: after one protection step, if the over-voltage or the under-voltage
warning computed in the step is active, or the `ocp_counter` left by the step
exceeds the channel's OCP delay (`ISOL_OCP_DELAY`, `IGNC_OCP_DELAY`), then
`fault` is 1, the returned indicator is 1, and `cooldown_timer` is nonzero: the
channel's cooldown time if it was 0 before the step, its previous value
otherwise.  First the isolator, then the ignition. -/
theorem C2_fault_decision (d : OutDrv) (volt_pwrsrc volt_out : Nat) :
    (((isolAfter d volt_pwrsrc volt_out).ovp_warning ≠ 0 ∨
        (isolAfter d volt_pwrsrc volt_out).uvp_warning ≠ 0 ∨
        (isolAfter d volt_pwrsrc volt_out).ocp_counter > ISOL_OCP_DELAY) →
      (isolAfter d volt_pwrsrc volt_out).fault = 1 ∧
      (ProcessIsolatorProtection d volt_pwrsrc volt_out).2 = 1 ∧
      (isolAfter d volt_pwrsrc volt_out).cooldown_timer ≠ 0 ∧
      (isolAfter d volt_pwrsrc volt_out).cooldown_timer =
        (if d.isolProt.cooldown_timer = 0 then ISOL_FAULT_COOLDOWN_TIME
         else d.isolProt.cooldown_timer)) ∧
    (((igncAfter d volt_pwrsrc volt_out).ovp_warning ≠ 0 ∨
        (igncAfter d volt_pwrsrc volt_out).uvp_warning ≠ 0 ∨
        (igncAfter d volt_pwrsrc volt_out).ocp_counter > IGNC_OCP_DELAY) →
      (igncAfter d volt_pwrsrc volt_out).fault = 1 ∧
      (ProcessIgnitionProtection d volt_pwrsrc volt_out).2 = 1 ∧
      (igncAfter d volt_pwrsrc volt_out).cooldown_timer ≠ 0 ∧
      (igncAfter d volt_pwrsrc volt_out).cooldown_timer =
        (if d.igncProt.cooldown_timer = 0 then IGNC_FAULT_COOLDOWN_TIME
         else d.igncProt.cooldown_timer)) := by
  constructor
  · intro h
    simp only [isolAfter, ProcessIsolatorProtection, checkFault_ovp_warning,
      checkFault_uvp_warning, checkFault_ocp_counter] at h
    simp only [isolAfter, ProcessIsolatorProtection, checkFault_fault,
      checkFault_cooldown_timer, if_pos h]
    simp only [ocpDelay, checkWarnings]
    refine ⟨trivial, trivial, ?_, trivial⟩
    split_ifs <;> simp_all
  · intro h
    simp only [igncAfter, ProcessIgnitionProtection, checkFault_ovp_warning,
      checkFault_uvp_warning, checkFault_ocp_counter] at h
    simp only [igncAfter, ProcessIgnitionProtection, checkFault_fault,
      checkFault_cooldown_timer, if_pos h]
    simp only [ocpDelay, checkWarnings]
    refine ⟨trivial, trivial, ?_, trivial⟩
    split_ifs <;> simp_all

/-- C2 at `exOn` with a supply of 12000 mV and an output of 0 mV: the drop of
12000 mV takes the counter from 0 to 24, above the delay of 2. -/
theorem C2_witness :
    ((isolAfter exOn 12000 0).ocp_counter > ISOL_OCP_DELAY ∧
      (isolAfter exOn 12000 0).fault = 1 ∧
      (ProcessIsolatorProtection exOn 12000 0).2 = 1 ∧
      (isolAfter exOn 12000 0).cooldown_timer ≠ 0 ∧
      (isolAfter exOn 12000 0).cooldown_timer =
        (if exOn.isolProt.cooldown_timer = 0 then ISOL_FAULT_COOLDOWN_TIME
         else exOn.isolProt.cooldown_timer)) ∧
    ((igncAfter exOn 12000 0).ocp_counter > IGNC_OCP_DELAY ∧
      (igncAfter exOn 12000 0).fault = 1 ∧
      (ProcessIgnitionProtection exOn 12000 0).2 = 1 ∧
      (igncAfter exOn 12000 0).cooldown_timer ≠ 0 ∧
      (igncAfter exOn 12000 0).cooldown_timer =
        (if exOn.igncProt.cooldown_timer = 0 then IGNC_FAULT_COOLDOWN_TIME
         else exOn.igncProt.cooldown_timer)) :=
  ⟨⟨by decide, (C2_fault_decision exOn 12000 0).1 (Or.inr (Or.inr (by decide)))⟩,
    ⟨by decide, (C2_fault_decision exOn 12000 0).2 (Or.inr (Or.inr (by decide)))⟩⟩

/-- C4: for an `ocp_counter` value `c` that fits `uint8_t` and `uint16_t`
voltages, the counter after one step of each of the three leaky buckets is, in
natural numbers, `min 255 (c + min 255 (drop / limit))` when the OCP warning of
the step is active and the dead-time is 0 once the step has decremented it, and
`c - 1` stopping at 0 (truncated subtraction) otherwise; it is at most 255.
First the isolator channel, then the ignition channel, then the relay guard
`IsolatorOCP`, whose warning is the local test `drop > ISOLATOR_DROP_LIMIT`. -/
theorem C4_leaky_bucket_saturates (d : OutDrv) (volt_pwrsrc volt_out : Nat) (m : MainVars)
    (hisol : d.isolProt.ocp_counter < 256) (hignc : d.igncProt.ocp_counter < 256)
    (hrelay : m.ocp_counter < 256) (hp : volt_pwrsrc < 65536) (ho : volt_out < 65536)
    (hr : m.u_relay_drop < 65536) :
    ((isolAfter d volt_pwrsrc volt_out).ocp_counter =
        (if (isolAfter d volt_pwrsrc volt_out).ocp_warning ≠ 0 ∧
            (isolAfter d volt_pwrsrc volt_out).ocp_deadtime = 0 then
          min 255 (d.isolProt.ocp_counter +
            min 255 (mosfetDrop d.isolState.hw volt_pwrsrc volt_out / ISOL_QDROP_LIMIT))
         else d.isolProt.ocp_counter - 1) ∧
      (isolAfter d volt_pwrsrc volt_out).ocp_counter ≤ 255) ∧
    ((igncAfter d volt_pwrsrc volt_out).ocp_counter =
        (if (igncAfter d volt_pwrsrc volt_out).ocp_warning ≠ 0 ∧
            (igncAfter d volt_pwrsrc volt_out).ocp_deadtime = 0 then
          min 255 (d.igncProt.ocp_counter +
            min 255 (mosfetDrop d.igncState.hw volt_pwrsrc volt_out / IGNC_QDROP_LIMIT))
         else d.igncProt.ocp_counter - 1) ∧
      (igncAfter d volt_pwrsrc volt_out).ocp_counter ≤ 255) ∧
    ((IsolatorOCP m).1.ocp_counter =
        (if relayDrop m > ISOLATOR_DROP_LIMIT ∧ (IsolatorOCP m).1.relay_ocp_deadtime = 0 then
          min 255 (m.ocp_counter + min 255 (relayDrop m / ISOLATOR_DROP_LIMIT))
         else m.ocp_counter - 1) ∧
      (IsolatorOCP m).1.ocp_counter ≤ 255) := by
  have hdi := mosfetDrop_lt d.isolState.hw _ _ hp ho
  have hdg := mosfetDrop_lt d.igncState.hw _ _ hp ho
  have hdr : relayDrop m < 65536 := by unfold relayDrop; split_ifs <;> omega
  have e1 : (isolAfter d volt_pwrsrc volt_out).ocp_counter =
      (if (isolAfter d volt_pwrsrc volt_out).ocp_warning ≠ 0 ∧
          (isolAfter d volt_pwrsrc volt_out).ocp_deadtime = 0 then
        min 255 (d.isolProt.ocp_counter +
          min 255 (mosfetDrop d.isolState.hw volt_pwrsrc volt_out / ISOL_QDROP_LIMIT))
       else d.isolProt.ocp_counter - 1) := by
    simp only [isolAfter, ProcessIsolatorProtection, checkFault_ocp_counter,
      checkFault_ocp_warning, checkFault_ocp_deadtime]
    simp only [ocpDelay, checkWarnings]
    rw [ocpCounterNext_eq _ _ _ _ _ hdi hisol]
  have e2 : (igncAfter d volt_pwrsrc volt_out).ocp_counter =
      (if (igncAfter d volt_pwrsrc volt_out).ocp_warning ≠ 0 ∧
          (igncAfter d volt_pwrsrc volt_out).ocp_deadtime = 0 then
        min 255 (d.igncProt.ocp_counter +
          min 255 (mosfetDrop d.igncState.hw volt_pwrsrc volt_out / IGNC_QDROP_LIMIT))
       else d.igncProt.ocp_counter - 1) := by
    simp only [igncAfter, ProcessIgnitionProtection, checkFault_ocp_counter,
      checkFault_ocp_warning, checkFault_ocp_deadtime]
    simp only [ocpDelay, checkWarnings]
    rw [ocpCounterNext_eq _ _ _ _ _ hdg hignc]
  have e3 : (IsolatorOCP m).1.ocp_counter =
      (if relayDrop m > ISOLATOR_DROP_LIMIT ∧ (IsolatorOCP m).1.relay_ocp_deadtime = 0 then
        min 255 (m.ocp_counter + min 255 (relayDrop m / ISOLATOR_DROP_LIMIT))
       else m.ocp_counter - 1) := by
    rw [IsolatorOCP_ocp_counter, IsolatorOCP_relay_ocp_deadtime,
      ocpCounterNext_eq _ _ _ _ _ hdr hrelay]
    by_cases hw : relayDrop m > ISOLATOR_DROP_LIMIT <;> simp [hw]
  refine ⟨⟨e1, ?_⟩, ⟨e2, ?_⟩, ⟨e3, ?_⟩⟩
  · rw [e1]; split_ifs
    · exact min_le_left _ _
    · omega
  · rw [e2]; split_ifs
    · exact min_le_left _ _
    · omega
  · rw [e3]; split_ifs
    · exact min_le_left _ _
    · omega

/-- C4 at `exOn` (counters 0, drop 12000 mV: the counters become 24) and at a
relay guard with counter 254 and a drop of 1000 mV (the counter saturates at
255). -/
theorem C4_witness :
    ((isolAfter exOn 12000 0).ocp_counter = 24 ∧ (igncAfter exOn 12000 0).ocp_counter = 24 ∧
      (IsolatorOCP (exRelay 0 254)).1.ocp_counter = 255) ∧
    (((isolAfter exOn 12000 0).ocp_counter =
        (if (isolAfter exOn 12000 0).ocp_warning ≠ 0 ∧
            (isolAfter exOn 12000 0).ocp_deadtime = 0 then
          min 255 (exOn.isolProt.ocp_counter +
            min 255 (mosfetDrop exOn.isolState.hw 12000 0 / ISOL_QDROP_LIMIT))
         else exOn.isolProt.ocp_counter - 1) ∧
      (isolAfter exOn 12000 0).ocp_counter ≤ 255) ∧
    ((igncAfter exOn 12000 0).ocp_counter =
        (if (igncAfter exOn 12000 0).ocp_warning ≠ 0 ∧
            (igncAfter exOn 12000 0).ocp_deadtime = 0 then
          min 255 (exOn.igncProt.ocp_counter +
            min 255 (mosfetDrop exOn.igncState.hw 12000 0 / IGNC_QDROP_LIMIT))
         else exOn.igncProt.ocp_counter - 1) ∧
      (igncAfter exOn 12000 0).ocp_counter ≤ 255) ∧
    ((IsolatorOCP (exRelay 0 254)).1.ocp_counter =
        (if relayDrop (exRelay 0 254) > ISOLATOR_DROP_LIMIT ∧
            (IsolatorOCP (exRelay 0 254)).1.relay_ocp_deadtime = 0 then
          min 255 ((exRelay 0 254).ocp_counter +
            min 255 (relayDrop (exRelay 0 254) / ISOLATOR_DROP_LIMIT))
         else (exRelay 0 254).ocp_counter - 1) ∧
      (IsolatorOCP (exRelay 0 254)).1.ocp_counter ≤ 255)) :=
  ⟨by decide,
    C4_leaky_bucket_saturates exOn 12000 0 (exRelay 0 254) (by decide) (by decide) (by decide)
      (by decide) (by decide) (by decide)⟩

/-- C5 fails as stated when exactly one tick of dead-time is left at the start
of the step: the dead-time is decremented to 0 before the bucket tests it, so
the counter still accumulates.  On both channels a drop of 12000 mV takes the
counter from 0 to 24, on the relay guard a drop of 1000 mV takes it from 0 to
2. -/
theorem C5_counterexample :
    (exDeadtime1.isolProt.ocp_deadtime = 1 ∧ exDeadtime1.isolProt.ocp_counter = 0 ∧
      (isolAfter exDeadtime1 12000 0).ocp_counter = 24) ∧
    (exDeadtime1.igncProt.ocp_deadtime = 1 ∧ exDeadtime1.igncProt.ocp_counter = 0 ∧
      (igncAfter exDeadtime1 12000 0).ocp_counter = 24) ∧
    ((exRelay 1 0).relay_ocp_deadtime = 1 ∧ (exRelay 1 0).ocp_counter = 0 ∧
      (IsolatorOCP (exRelay 1 0)).1.ocp_counter = 2) := by
  decide

/-- C5, amended: a step of each of the three leaky buckets that starts with a
nonzero dead-time decrements it by one, and the counter does not increase in
that step provided the dead-time is still nonzero after the decrement (it was
at least 2 at the start); the bucket tests the decremented value.  First the
isolator channel, then the ignition channel, then the relay guard. -/
theorem C5_deadtime_suppresses_accumulation (d : OutDrv) (volt_pwrsrc volt_out : Nat)
    (m : MainVars) :
    (d.isolProt.ocp_deadtime ≠ 0 →
      (isolAfter d volt_pwrsrc volt_out).ocp_deadtime = d.isolProt.ocp_deadtime - 1 ∧
      ((isolAfter d volt_pwrsrc volt_out).ocp_deadtime ≠ 0 →
        (isolAfter d volt_pwrsrc volt_out).ocp_counter ≤ d.isolProt.ocp_counter)) ∧
    (d.igncProt.ocp_deadtime ≠ 0 →
      (igncAfter d volt_pwrsrc volt_out).ocp_deadtime = d.igncProt.ocp_deadtime - 1 ∧
      ((igncAfter d volt_pwrsrc volt_out).ocp_deadtime ≠ 0 →
        (igncAfter d volt_pwrsrc volt_out).ocp_counter ≤ d.igncProt.ocp_counter)) ∧
    (m.relay_ocp_deadtime ≠ 0 →
      (IsolatorOCP m).1.relay_ocp_deadtime = m.relay_ocp_deadtime - 1 ∧
      ((IsolatorOCP m).1.relay_ocp_deadtime ≠ 0 →
        (IsolatorOCP m).1.ocp_counter ≤ m.ocp_counter)) := by
  refine ⟨fun h => ?_, fun h => ?_, fun h => ?_⟩
  · simp only [isolAfter, ProcessIsolatorProtection, checkFault_ocp_counter,
      checkFault_ocp_deadtime]
    simp only [ocpDelay, checkWarnings, if_pos h]
    refine ⟨trivial, fun h2 => ?_⟩
    unfold ocpCounterNext
    rw [if_neg (fun hh => h2 hh.2)]
    split_ifs <;> omega
  · simp only [igncAfter, ProcessIgnitionProtection, checkFault_ocp_counter,
      checkFault_ocp_deadtime]
    simp only [ocpDelay, checkWarnings, if_pos h]
    refine ⟨trivial, fun h2 => ?_⟩
    unfold ocpCounterNext
    rw [if_neg (fun hh => h2 hh.2)]
    split_ifs <;> omega
  · rw [IsolatorOCP_ocp_counter, IsolatorOCP_relay_ocp_deadtime, if_pos h]
    refine ⟨rfl, fun h2 => ?_⟩
    unfold ocpCounterNext
    rw [if_neg (fun hh => h2 hh.2)]
    split_ifs <;> omega

/-- C5 (amended) at states with three ticks of dead-time left, a counter of 7
and a drop above the limit: the dead-time becomes 2 and the counter 6. -/
theorem C5_witness :
    (exDeadtime3.isolProt.ocp_deadtime ≠ 0 ∧
      (isolAfter exDeadtime3 12000 0).ocp_deadtime = exDeadtime3.isolProt.ocp_deadtime - 1 ∧
      (isolAfter exDeadtime3 12000 0).ocp_counter ≤ exDeadtime3.isolProt.ocp_counter) ∧
    (exDeadtime3.igncProt.ocp_deadtime ≠ 0 ∧
      (igncAfter exDeadtime3 12000 0).ocp_deadtime = exDeadtime3.igncProt.ocp_deadtime - 1 ∧
      (igncAfter exDeadtime3 12000 0).ocp_counter ≤ exDeadtime3.igncProt.ocp_counter) ∧
    ((exRelay 3 7).relay_ocp_deadtime ≠ 0 ∧
      (IsolatorOCP (exRelay 3 7)).1.relay_ocp_deadtime = (exRelay 3 7).relay_ocp_deadtime - 1 ∧
      (IsolatorOCP (exRelay 3 7)).1.ocp_counter ≤ (exRelay 3 7).ocp_counter) :=
  have h := C5_deadtime_suppresses_accumulation exDeadtime3 12000 0 (exRelay 3 7)
  ⟨⟨by decide, (h.1 (by decide)).1, (h.1 (by decide)).2 (by decide)⟩,
    ⟨by decide, (h.2.1 (by decide)).1, (h.2.1 (by decide)).2 (by decide)⟩,
    ⟨by decide, (h.2.2 (by decide)).1, (h.2.2 (by decide)).2 (by decide)⟩⟩

/-- C6: for a `fault_cnt` that fits `uint8_t`, one protection step raises
`fault_cnt` only on a rising edge of `fault`: if `fault` was clear before the
step and is set after it, `fault_cnt` becomes `min 255 (fault_cnt + 1)`; if
`fault` was set before the step, `fault_cnt` is left as it was; and whenever
`fault_cnt` grows, `fault` was clear before and is set after.  First the
isolator, then the ignition. -/
theorem C6_fault_cnt_counts_rising_edges (d : OutDrv) (volt_pwrsrc volt_out : Nat)
    (hisol : d.isolProt.fault_cnt < 256) (hignc : d.igncProt.fault_cnt < 256) :
    ((d.isolProt.fault = 0 → (isolAfter d volt_pwrsrc volt_out).fault ≠ 0 →
        (isolAfter d volt_pwrsrc volt_out).fault_cnt = min 255 (d.isolProt.fault_cnt + 1)) ∧
      (d.isolProt.fault ≠ 0 →
        (isolAfter d volt_pwrsrc volt_out).fault_cnt = d.isolProt.fault_cnt) ∧
      (d.isolProt.fault_cnt < (isolAfter d volt_pwrsrc volt_out).fault_cnt →
        d.isolProt.fault = 0 ∧ (isolAfter d volt_pwrsrc volt_out).fault ≠ 0)) ∧
    ((d.igncProt.fault = 0 → (igncAfter d volt_pwrsrc volt_out).fault ≠ 0 →
        (igncAfter d volt_pwrsrc volt_out).fault_cnt = min 255 (d.igncProt.fault_cnt + 1)) ∧
      (d.igncProt.fault ≠ 0 →
        (igncAfter d volt_pwrsrc volt_out).fault_cnt = d.igncProt.fault_cnt) ∧
      (d.igncProt.fault_cnt < (igncAfter d volt_pwrsrc volt_out).fault_cnt →
        d.igncProt.fault = 0 ∧ (igncAfter d volt_pwrsrc volt_out).fault ≠ 0)) := by
  exact ⟨checkFault_cnt_edge ISOL_OCP_DELAY ISOL_FAULT_COOLDOWN_TIME ISOL_FAULT_RETRY_TIMEOUT
      (isolPre d volt_pwrsrc volt_out) hisol,
    checkFault_cnt_edge ISOL_OCP_DELAY IGNC_FAULT_COOLDOWN_TIME IGNC_FAULT_RETRY_TIMEOUT
      (igncPre d volt_pwrsrc volt_out) hignc⟩

/-- C6 at `exOn` with a drop of 12000 mV (rising edge: `fault_cnt` goes from 0
to 1) and at `exFaulted`, whose isolator fault is already set (`fault_cnt`
stays 0). -/
theorem C6_witness :
    (exOn.isolProt.fault = 0 ∧ (isolAfter exOn 12000 0).fault ≠ 0 ∧
      (isolAfter exOn 12000 0).fault_cnt = min 255 (exOn.isolProt.fault_cnt + 1)) ∧
    (exFaulted.isolProt.fault ≠ 0 ∧
      (isolAfter exFaulted 12000 0).fault_cnt = exFaulted.isolProt.fault_cnt) ∧
    (exOn.igncProt.fault = 0 ∧ (igncAfter exOn 12000 0).fault ≠ 0 ∧
      (igncAfter exOn 12000 0).fault_cnt = min 255 (exOn.igncProt.fault_cnt + 1)) :=
  have hr : (0 : Nat) < 256 := by decide
  have h1 := C6_fault_cnt_counts_rising_edges exOn 12000 0 hr hr
  have h2 := C6_fault_cnt_counts_rising_edges exFaulted 12000 0 hr hr
  have f1 : (isolAfter exOn 12000 0).fault ≠ 0 := by decide
  have f2 : exFaulted.isolProt.fault ≠ 0 := by decide
  have f3 : (igncAfter exOn 12000 0).fault ≠ 0 := by decide
  ⟨⟨rfl, f1, h1.1.1 rfl f1⟩, ⟨f2, h2.1.2.1 f2⟩, ⟨rfl, f3, h1.2.1 rfl f3⟩⟩

/-- C8: `StateToHWLevel` returns the level of the table for every topology,
inversion flag and state.  A nonzero state or flag is written `n + 1`, a
topology value other than those of push-pull, open-drain and open-source is 0
or `t + 4`.  Push-pull not inverted: on is DriveHigh, off is DriveLow;
push-pull inverted: on is DriveLow, off is DriveHigh; open-drain: on is
DriveLow, off is HiZ, whatever the flag; open-source: on is DriveHigh, off is
HiZ, whatever the flag; any other topology: HiZ for every state.  The
`ext_fault_en` field `e` of the configuration plays no part. -/
theorem C8_StateToHWLevel_table (inv e state t : Nat) :
    StateToHWLevel { type := OUT_TYPE_PP, inv := 0, ext_fault_en := e } (state + 1) = HWOUT_HIGH ∧
    StateToHWLevel { type := OUT_TYPE_PP, inv := 0, ext_fault_en := e } 0 = HWOUT_LOW ∧
    StateToHWLevel { type := OUT_TYPE_PP, inv := inv + 1, ext_fault_en := e } (state + 1)
      = HWOUT_LOW ∧
    StateToHWLevel { type := OUT_TYPE_PP, inv := inv + 1, ext_fault_en := e } 0 = HWOUT_HIGH ∧
    StateToHWLevel { type := OUT_TYPE_OD, inv := inv, ext_fault_en := e } (state + 1)
      = HWOUT_LOW ∧
    StateToHWLevel { type := OUT_TYPE_OD, inv := inv, ext_fault_en := e } 0 = HWOUT_HIZ ∧
    StateToHWLevel { type := OUT_TYPE_OS, inv := inv, ext_fault_en := e } (state + 1)
      = HWOUT_HIGH ∧
    StateToHWLevel { type := OUT_TYPE_OS, inv := inv, ext_fault_en := e } 0 = HWOUT_HIZ ∧
    StateToHWLevel { type := 0, inv := inv, ext_fault_en := e } state = HWOUT_HIZ ∧
    StateToHWLevel { type := t + 4, inv := inv, ext_fault_en := e } state = HWOUT_HIZ := by
  simp [StateToHWLevel, OUT_TYPE_PP, OUT_TYPE_OD, OUT_TYPE_OS]

/-! ## The example run, step by step -/

theorem runEnv_succ (n : Nat) : runEnv (n + 1) = runQuiet := by
  simp [runEnv]

theorem runEnv_pos (n : Nat) (h : n ≠ 0) : runEnv n = runQuiet := by
  simp [runEnv, h]

theorem protRun_one : protRun runCfg runCfg runEnv 1 = runState 1 3 2000 1 1 0 0 := by
  decide

theorem ocpCounterNext_quiet (c : Nat) : ocpCounterNext 500 0 0 0 c = c - 1 := by
  unfold ocpCounterNext
  simp
  omega

theorem quiet_cooldown (w c cd f cnt rf rt : Nat) (hc : c ≤ 3) (hcd : cd ≠ 0) :
    protStep (runState w c cd f cnt rf rt) runQuiet = runState 0 (c - 1) (cd - 1) f cnt rf rt := by
  have h1 : ¬ (2 < c - 1) := by omega
  simp [protStep, runQuiet, runCalls, OUTDRV_ProcessProtection, ProcessIsolatorProtection,
    ProcessIgnitionProtection, runState, runProt, mosfetDrop, checkWarnings, ocpDelay,
    checkFault, ocpCounterNext_quiet, h1, hcd]

theorem quiet_fault_end (w c f' cnt rf rt : Nat) (hc : c ≤ 3) :
    protStep (runState w c 0 (f' + 1) cnt rf rt) runQuiet =
      runState 0 (c - 1) 0 0 cnt 1 2000 := by
  have h1 : ¬ (2 < c - 1) := by omega
  simp [protStep, runQuiet, runCalls, OUTDRV_ProcessProtection, ProcessIsolatorProtection,
    ProcessIgnitionProtection, runState, runProt, mosfetDrop, checkWarnings, ocpDelay,
    checkFault, ocpCounterNext_quiet, h1]

theorem quiet_retry (w c cnt rf rt : Nat) (hc : c ≤ 3) (hrt : rt ≠ 0) :
    protStep (runState w c 0 0 cnt rf rt) runQuiet = runState 0 (c - 1) 0 0 cnt rf (rt - 1) := by
  have h1 : ¬ (2 < c - 1) := by omega
  simp [protStep, runQuiet, runCalls, OUTDRV_ProcessProtection, ProcessIsolatorProtection,
    ProcessIgnitionProtection, runState, runProt, mosfetDrop, checkWarnings, ocpDelay,
    checkFault, ocpCounterNext_quiet, h1, hrt]

theorem quiet_reset (w c cnt rf : Nat) (hc : c ≤ 3) :
    protStep (runState w c 0 0 cnt rf 0) runQuiet = runState 0 (c - 1) 0 0 0 rf 0 := by
  have h1 : ¬ (2 < c - 1) := by omega
  simp [protStep, runQuiet, runCalls, OUTDRV_ProcessProtection, ProcessIsolatorProtection,
    ProcessIgnitionProtection, runState, runProt, mosfetDrop, checkWarnings, ocpDelay,
    checkFault, ocpCounterNext_quiet, h1]

theorem protRun_cooling (k : Nat) (hk : k ≤ 2000) :
    protRun runCfg runCfg runEnv (k + 1) =
      runState (if k = 0 then 1 else 0) (3 - k) (2000 - k) 1 1 0 0 := by
  induction k with
  | zero => exact protRun_one
  | succ k ih =>
    rw [protRun, ih (by omega), runEnv_succ, quiet_cooldown _ _ _ _ _ _ _ (by omega) (by omega)]
    have e1 : 3 - k - 1 = 3 - (k + 1) := by omega
    have e2 : 2000 - k - 1 = 2000 - (k + 1) := by omega
    rw [e1, e2]
    simp

theorem protRun_2002 : protRun runCfg runCfg runEnv 2002 = runState 0 0 0 0 1 1 2000 := by
  rw [protRun, protRun_cooling 2000 (le_refl _), runEnv_succ]
  exact quiet_fault_end _ _ _ _ _ _ (by decide)

theorem protRun_retrying (k : Nat) (hk : k ≤ 2000) :
    protRun runCfg runCfg runEnv (2002 + k) = runState 0 0 0 0 1 1 (2000 - k) := by
  induction k with
  | zero => exact protRun_2002
  | succ k ih =>
    rw [← Nat.add_assoc, protRun, ih (by omega), runEnv_pos _ (by omega),
      quiet_retry _ _ _ _ _ (by decide) (by omega)]
    have e2 : 2000 - k - 1 = 2000 - (k + 1) := by omega
    rw [e2]

theorem protRun_4002 : protRun runCfg runCfg runEnv 4002 = runState 0 0 0 0 1 1 0 :=
  protRun_retrying 2000 (le_refl _)

theorem protRun_4003 : protRun runCfg runCfg runEnv 4003 = runState 0 0 0 0 0 1 0 := by
  rw [protRun, protRun_4002, runEnv_succ]
  exact quiet_reset _ _ _ _ (by decide)

/-- C3: in every run of the driver from the state set by `OUTDRV_Init` (any
configuration, any calls of the other driver functions between the protection
steps, any voltages), if the isolator `fault` is clear after `t` protection
steps and set after step `t + 1`, then it is set after each of the next
`ISOL_FAULT_COOLDOWN_TIME` steps as well (`k` ranges over 0 ... cooldown).  In
particular one call of `ProcessIsolatorProtection` that starts with `fault` set
and `cooldown_timer` nonzero ends with `fault` set. -/
theorem C3_fault_sticky_through_cooldown (isolCfg igncCfg : outConfigDef)
    (env : Nat → ProtStep) (t k : Nat)
    (h0 : (protRun isolCfg igncCfg env t).isolProt.fault = 0)
    (h1 : (protRun isolCfg igncCfg env (t + 1)).isolProt.fault ≠ 0)
    (hk : k ≤ ISOL_FAULT_COOLDOWN_TIME) :
    (protRun isolCfg igncCfg env (t + 1 + k)).isolProt.fault ≠ 0 ∧
    ∀ (d : OutDrv) (volt_pwrsrc volt_out : Nat),
      d.isolProt.fault ≠ 0 → d.isolProt.cooldown_timer ≠ 0 →
      (isolAfter d volt_pwrsrc volt_out).fault ≠ 0 := by
  refine ⟨(protRun_isol_chain isolCfg igncCfg env).sticky t k h0 h1 hk, ?_⟩
  intro d vp vo hf hc
  have hf' : (isolPre d vp vo).fault ≠ 0 := hf
  have hc' : (isolPre d vp vo).cooldown_timer ≠ 0 := hc
  show (checkFault ISOL_OCP_DELAY ISOL_FAULT_COOLDOWN_TIME ISOL_FAULT_RETRY_TIMEOUT
    (isolPre d vp vo)).fault ≠ 0
  rw [checkFault_fault]
  split_ifs <;> omega

/-- C3 on the example run: the drop of 1500 mV is present in the first step
only, the fault rises in that step (`t = 0`) and is still set after step
2001. -/
theorem C3_witness :
    (protRun runCfg runCfg runEnv 0).isolProt.fault = 0 ∧
    (protRun runCfg runCfg runEnv (0 + 1)).isolProt.fault ≠ 0 ∧
    (protRun runCfg runCfg runEnv (0 + 1 + 2000)).isolProt.fault ≠ 0 ∧
    (isolAfter exFaulted 12000 12000).fault = 0 ∧
    (isolAfter (runState 0 0 5 1 1 0 0) 12000 12000).fault ≠ 0 :=
  have h1 : (protRun runCfg runCfg runEnv (0 + 1)).isolProt.fault ≠ 0 := by
    rw [protRun_cooling 0 (Nat.zero_le _)]; decide
  have h := C3_fault_sticky_through_cooldown runCfg runCfg runEnv 0 2000 rfl h1 (le_refl _)
  ⟨rfl, h1, h.1, by decide,
    h.2 (runState 0 0 5 1 1 0 0) 12000 12000 (by decide) (by decide)⟩

/-- C7: in every run of the driver from the state set by `OUTDRV_Init` (any
configuration, any calls of the other driver functions between the protection
steps, any voltages), if a channel's `fault_cnt` is nonzero after `t`
protection steps and 0 after step `t + 1`, then at least
`*_FAULT_RETRY_TIMEOUT` steps precede step `t + 1` and `fault` was clear after
each of the steps `t`, `t - 1`, ..., `t - *_FAULT_RETRY_TIMEOUT`.  Moreover no
step that ends with `fault` set lowers `fault_cnt`, and no step that starts
with `retry_timer` nonzero lowers it: a fault that recurs before the retry
timer has run out does not reset the count.  First the isolator, then the
ignition. -/
theorem C7_fault_cnt_reset_after_clear_period (isolCfg igncCfg : outConfigDef)
    (env : Nat → ProtStep) :
    ((∀ t, (protRun isolCfg igncCfg env t).isolProt.fault_cnt ≠ 0 →
        (protRun isolCfg igncCfg env (t + 1)).isolProt.fault_cnt = 0 →
        ISOL_FAULT_RETRY_TIMEOUT ≤ t ∧
        ∀ j, j ≤ ISOL_FAULT_RETRY_TIMEOUT →
          (protRun isolCfg igncCfg env (t - j)).isolProt.fault = 0) ∧
      (∀ n, ((protRun isolCfg igncCfg env (n + 1)).isolProt.fault ≠ 0 →
          (protRun isolCfg igncCfg env n).isolProt.fault_cnt ≤
            (protRun isolCfg igncCfg env (n + 1)).isolProt.fault_cnt) ∧
        ((protRun isolCfg igncCfg env n).isolProt.retry_timer ≠ 0 →
          (protRun isolCfg igncCfg env n).isolProt.fault_cnt ≤
            (protRun isolCfg igncCfg env (n + 1)).isolProt.fault_cnt))) ∧
    ((∀ t, (protRun isolCfg igncCfg env t).igncProt.fault_cnt ≠ 0 →
        (protRun isolCfg igncCfg env (t + 1)).igncProt.fault_cnt = 0 →
        IGNC_FAULT_RETRY_TIMEOUT ≤ t ∧
        ∀ j, j ≤ IGNC_FAULT_RETRY_TIMEOUT →
          (protRun isolCfg igncCfg env (t - j)).igncProt.fault = 0) ∧
      (∀ n, ((protRun isolCfg igncCfg env (n + 1)).igncProt.fault ≠ 0 →
          (protRun isolCfg igncCfg env n).igncProt.fault_cnt ≤
            (protRun isolCfg igncCfg env (n + 1)).igncProt.fault_cnt) ∧
        ((protRun isolCfg igncCfg env n).igncProt.retry_timer ≠ 0 →
          (protRun isolCfg igncCfg env n).igncProt.fault_cnt ≤
            (protRun isolCfg igncCfg env (n + 1)).igncProt.fault_cnt))) :=
  ⟨⟨fun t h0 h1 => (protRun_isol_chain isolCfg igncCfg env).reset_needs_clear_period t h0 h1,
      fun n => (protRun_isol_chain isolCfg igncCfg env).no_reset n⟩,
    ⟨fun t h0 h1 => (protRun_ignc_chain isolCfg igncCfg env).reset_needs_clear_period t h0 h1,
      fun n => (protRun_ignc_chain isolCfg igncCfg env).no_reset n⟩⟩

/-- C7 on the example run: the fault of the first step ends at step 2002, the
retry timer runs out at step 4002 and step 4003 resets `fault_cnt` from 1 to 0;
`fault` was clear after each of the steps 2002 ... 4002, on both channels. -/
theorem C7_witness :
    ((protRun runCfg runCfg runEnv 4002).isolProt.fault_cnt ≠ 0 ∧
      (protRun runCfg runCfg runEnv (4002 + 1)).isolProt.fault_cnt = 0 ∧
      ISOL_FAULT_RETRY_TIMEOUT ≤ 4002 ∧
      ∀ j, j ≤ ISOL_FAULT_RETRY_TIMEOUT →
        (protRun runCfg runCfg runEnv (4002 - j)).isolProt.fault = 0) ∧
    ((protRun runCfg runCfg runEnv 4002).igncProt.fault_cnt ≠ 0 ∧
      (protRun runCfg runCfg runEnv (4002 + 1)).igncProt.fault_cnt = 0 ∧
      IGNC_FAULT_RETRY_TIMEOUT ≤ 4002 ∧
      ∀ j, j ≤ IGNC_FAULT_RETRY_TIMEOUT →
        (protRun runCfg runCfg runEnv (4002 - j)).igncProt.fault = 0) :=
  have a1 : (protRun runCfg runCfg runEnv 4002).isolProt.fault_cnt ≠ 0 := by
    rw [protRun_4002]; decide
  have a2 : (protRun runCfg runCfg runEnv (4002 + 1)).isolProt.fault_cnt = 0 := by
    rw [protRun_4003]; rfl
  have b1 : (protRun runCfg runCfg runEnv 4002).igncProt.fault_cnt ≠ 0 := by
    rw [protRun_4002]; decide
  have b2 : (protRun runCfg runCfg runEnv (4002 + 1)).igncProt.fault_cnt = 0 := by
    rw [protRun_4003]; rfl
  ⟨⟨a1, a2, (C7_fault_cnt_reset_after_clear_period runCfg runCfg runEnv).1.1 4002 a1 a2⟩,
    ⟨b1, b2, (C7_fault_cnt_reset_after_clear_period runCfg runCfg runEnv).2.1 4002 b1 b2⟩⟩

/-! ## The example run of the main loop, tick by tick -/

theorem tick_debounce (dbt : Nat) (pb : Bool) (h : dbt < 10) :
    mainLoop (exSys (exMain SLEEP 0 0 0 0 0 0) chOff chOff
        { level := 1, changed := 0, blocked := 0, dbnc_timer := dbt } 1 LED_OFF pb) smpOn =
      exSys (exMain SLEEP 0 0 0 0 0 0) chOff chOff
        { level := 1, changed := 0, blocked := 0, dbnc_timer := (dbt + 1) } 1 LED_OFF false := by
  simp [mainLoop, loopControl, DataGathering, DataGatheringPass, loopProtection, loopIsolFault,
    loopRelayOCP, loopFaultCount, loopStateMachine, Startup_Procedure, IsolatorOCP,
    ocpCounterNext, OUTDRV_ProcessProtection, ProcessIsolatorProtection,
    ProcessIgnitionProtection, mosfetDrop, checkWarnings, ocpDelay, checkFault,
    OUTDRV_ProcessLogic, ProcessLogicIsolator, ProcessLogicIgnition, HAL_SetIsolator,
    HAL_SetIgnition, StateToHWLevel, OUTDRV_GetFault, OUTDRV_GetFaultCount,
    OUTDRV_GetRealOutput, OUTDRV_SetOutput, OUTDRV_EnableOutput, LEDDRV_Process,
    LEDDRV_OnSolid, INDRV_ReadAll, INDRV_Wake, HAL_SetKillPull, inactiveState, readChannel,
    INDRV_GetInput, ADCDRV_GetValue, exSys, exMain, exActive, chOff, chOn, smpOn, protZero,
    show (dbt + 1) % 256 = dbt + 1 by omega, show ¬ (10 < dbt + 1) by omega]

theorem tick_master_on :
    mainLoop (exSys (exMain SLEEP 0 0 0 0 0 0) chOff chOff
        { level := 1, changed := 0, blocked := 0, dbnc_timer := 10 } 1 LED_OFF false) smpOn =
      exSys (exMain STARTUP 1 0 0 0 0 0) chOff chOff
        { level := 0, changed := 1, blocked := 0, dbnc_timer := 11 } 1 LED_OFF false := by
  simp [mainLoop, loopControl, DataGathering, DataGatheringPass, loopProtection, loopIsolFault,
    loopRelayOCP, loopFaultCount, loopStateMachine, Startup_Procedure, IsolatorOCP,
    ocpCounterNext, OUTDRV_ProcessProtection, ProcessIsolatorProtection,
    ProcessIgnitionProtection, mosfetDrop, checkWarnings, ocpDelay, checkFault,
    OUTDRV_ProcessLogic, ProcessLogicIsolator, ProcessLogicIgnition, HAL_SetIsolator,
    HAL_SetIgnition, StateToHWLevel, OUTDRV_GetFault, OUTDRV_GetFaultCount,
    OUTDRV_GetRealOutput, OUTDRV_SetOutput, OUTDRV_EnableOutput, LEDDRV_Process,
    LEDDRV_OnSolid, INDRV_ReadAll, INDRV_Wake, HAL_SetKillPull, inactiveState, readChannel,
    INDRV_GetInput, ADCDRV_GetValue, exSys, exMain, exActive, chOff, chOn, smpOn, protZero]

theorem tick_startup0 :
    mainLoop (exSys (exMain STARTUP 1 0 0 0 0 0) chOff chOff
        { level := 0, changed := 1, blocked := 0, dbnc_timer := 11 } 1 LED_OFF false) smpOn =
      exSys (exMain STARTUP 1 1 100 0 0 0) chOff chOff
        { level := 0, changed := 1, blocked := 0, dbnc_timer := 0 } 0 LED_SOLID true := by
  simp [mainLoop, loopControl, DataGathering, DataGatheringPass, loopProtection, loopIsolFault,
    loopRelayOCP, loopFaultCount, loopStateMachine, Startup_Procedure, IsolatorOCP,
    ocpCounterNext, OUTDRV_ProcessProtection, ProcessIsolatorProtection,
    ProcessIgnitionProtection, mosfetDrop, checkWarnings, ocpDelay, checkFault,
    OUTDRV_ProcessLogic, ProcessLogicIsolator, ProcessLogicIgnition, HAL_SetIsolator,
    HAL_SetIgnition, StateToHWLevel, OUTDRV_GetFault, OUTDRV_GetFaultCount,
    OUTDRV_GetRealOutput, OUTDRV_SetOutput, OUTDRV_EnableOutput, LEDDRV_Process,
    LEDDRV_OnSolid, INDRV_ReadAll, INDRV_Wake, HAL_SetKillPull, inactiveState, readChannel,
    INDRV_GetInput, ADCDRV_GetValue, exSys, exMain, exActive, chOff, chOn, smpOn, protZero]

theorem tick_startup1 (sto : Nat) (h : sto ≠ 0) :
    mainLoop (exSys (exMain STARTUP 1 1 sto 0 0 0) chOff chOff
        { level := 0, changed := 1, blocked := 0, dbnc_timer := 0 } 0 LED_SOLID true) smpOn =
      exSys (exMain STARTUP 1 1 (sto - 1) 0 0 0) chOff chOff
        { level := 0, changed := 1, blocked := 0, dbnc_timer := 0 } 0 LED_SOLID true := by
  simp [mainLoop, loopControl, DataGathering, DataGatheringPass, loopProtection, loopIsolFault,
    loopRelayOCP, loopFaultCount, loopStateMachine, Startup_Procedure, IsolatorOCP,
    ocpCounterNext, OUTDRV_ProcessProtection, ProcessIsolatorProtection,
    ProcessIgnitionProtection, mosfetDrop, checkWarnings, ocpDelay, checkFault,
    OUTDRV_ProcessLogic, ProcessLogicIsolator, ProcessLogicIgnition, HAL_SetIsolator,
    HAL_SetIgnition, StateToHWLevel, OUTDRV_GetFault, OUTDRV_GetFaultCount,
    OUTDRV_GetRealOutput, OUTDRV_SetOutput, OUTDRV_EnableOutput, LEDDRV_Process,
    LEDDRV_OnSolid, INDRV_ReadAll, INDRV_Wake, HAL_SetKillPull, inactiveState, readChannel,
    INDRV_GetInput, ADCDRV_GetValue, exSys, exMain, exActive, chOff, chOn, smpOn, protZero, h]

theorem tick_startup1_end :
    mainLoop (exSys (exMain STARTUP 1 1 0 0 0 0) chOff chOff
        { level := 0, changed := 1, blocked := 0, dbnc_timer := 0 } 0 LED_SOLID true) smpOn =
      exSys (exMain STARTUP 1 2 0 0 0 0) chOff chOff
        { level := 0, changed := 1, blocked := 0, dbnc_timer := 0 } 0 LED_SOLID true := by
  simp [mainLoop, loopControl, DataGathering, DataGatheringPass, loopProtection, loopIsolFault,
    loopRelayOCP, loopFaultCount, loopStateMachine, Startup_Procedure, IsolatorOCP,
    ocpCounterNext, OUTDRV_ProcessProtection, ProcessIsolatorProtection,
    ProcessIgnitionProtection, mosfetDrop, checkWarnings, ocpDelay, checkFault,
    OUTDRV_ProcessLogic, ProcessLogicIsolator, ProcessLogicIgnition, HAL_SetIsolator,
    HAL_SetIgnition, StateToHWLevel, OUTDRV_GetFault, OUTDRV_GetFaultCount,
    OUTDRV_GetRealOutput, OUTDRV_SetOutput, OUTDRV_EnableOutput, LEDDRV_Process,
    LEDDRV_OnSolid, INDRV_ReadAll, INDRV_Wake, HAL_SetKillPull, inactiveState, readChannel,
    INDRV_GetInput, ADCDRV_GetValue, exSys, exMain, exActive, chOff, chOn, smpOn, protZero]

theorem tick_startup2 :
    mainLoop (exSys (exMain STARTUP 1 2 0 0 0 0) chOff chOff
        { level := 0, changed := 1, blocked := 0, dbnc_timer := 0 } 0 LED_SOLID true) smpOn =
      exSys (exMain STARTUP 1 3 200 0 0 0) chOn chOff
        { level := 0, changed := 1, blocked := 0, dbnc_timer := 0 } 0 LED_SOLID true := by
  simp [mainLoop, loopControl, DataGathering, DataGatheringPass, loopProtection, loopIsolFault,
    loopRelayOCP, loopFaultCount, loopStateMachine, Startup_Procedure, IsolatorOCP,
    ocpCounterNext, OUTDRV_ProcessProtection, ProcessIsolatorProtection,
    ProcessIgnitionProtection, mosfetDrop, checkWarnings, ocpDelay, checkFault,
    OUTDRV_ProcessLogic, ProcessLogicIsolator, ProcessLogicIgnition, HAL_SetIsolator,
    HAL_SetIgnition, StateToHWLevel, OUTDRV_GetFault, OUTDRV_GetFaultCount,
    OUTDRV_GetRealOutput, OUTDRV_SetOutput, OUTDRV_EnableOutput, LEDDRV_Process,
    LEDDRV_OnSolid, INDRV_ReadAll, INDRV_Wake, HAL_SetKillPull, inactiveState, readChannel,
    INDRV_GetInput, ADCDRV_GetValue, exSys, exMain, exActive, chOff, chOn, smpOn, protZero]

theorem tick_startup3_first :
    mainLoop (exSys (exMain STARTUP 1 3 200 0 0 0) chOn chOff
        { level := 0, changed := 1, blocked := 0, dbnc_timer := 0 } 0 LED_SOLID true) smpOn =
      exSys (exMain STARTUP 1 3 199 1 4 0) chOn chOff
        { level := 0, changed := 1, blocked := 0, dbnc_timer := 0 } 0 LED_SOLID true := by
  simp [mainLoop, loopControl, DataGathering, DataGatheringPass, loopProtection, loopIsolFault,
    loopRelayOCP, loopFaultCount, loopStateMachine, Startup_Procedure, IsolatorOCP,
    ocpCounterNext, OUTDRV_ProcessProtection, ProcessIsolatorProtection,
    ProcessIgnitionProtection, mosfetDrop, checkWarnings, ocpDelay, checkFault,
    OUTDRV_ProcessLogic, ProcessLogicIsolator, ProcessLogicIgnition, HAL_SetIsolator,
    HAL_SetIgnition, StateToHWLevel, OUTDRV_GetFault, OUTDRV_GetFaultCount,
    OUTDRV_GetRealOutput, OUTDRV_SetOutput, OUTDRV_EnableOutput, LEDDRV_Process,
    LEDDRV_OnSolid, INDRV_ReadAll, INDRV_Wake, HAL_SetKillPull, inactiveState, readChannel,
    INDRV_GetInput, ADCDRV_GetValue, exSys, exMain, exActive, chOff, chOn, smpOn, protZero]

theorem tick_startup3 (sto rdt : Nat) (h : sto ≠ 0) :
    mainLoop (exSys (exMain STARTUP 1 3 sto 1 rdt 0) chOn chOff
        { level := 0, changed := 1, blocked := 0, dbnc_timer := 0 } 0 LED_SOLID true) smpOn =
      exSys (exMain STARTUP 1 3 (sto - 1) 1 (rdt - 1) 0) chOn chOff
        { level := 0, changed := 1, blocked := 0, dbnc_timer := 0 } 0 LED_SOLID true := by
  simp [mainLoop, loopControl, DataGathering, DataGatheringPass, loopProtection, loopIsolFault,
    loopRelayOCP, loopFaultCount, loopStateMachine, Startup_Procedure, IsolatorOCP,
    ocpCounterNext, OUTDRV_ProcessProtection, ProcessIsolatorProtection,
    ProcessIgnitionProtection, mosfetDrop, checkWarnings, ocpDelay, checkFault,
    OUTDRV_ProcessLogic, ProcessLogicIsolator, ProcessLogicIgnition, HAL_SetIsolator,
    HAL_SetIgnition, StateToHWLevel, OUTDRV_GetFault, OUTDRV_GetFaultCount,
    OUTDRV_GetRealOutput, OUTDRV_SetOutput, OUTDRV_EnableOutput, LEDDRV_Process,
    LEDDRV_OnSolid, INDRV_ReadAll, INDRV_Wake, HAL_SetKillPull, inactiveState, readChannel,
    INDRV_GetInput, ADCDRV_GetValue, exSys, exMain, exActive, chOff, chOn, smpOn, protZero, h]
  omega

theorem tick_startup3_end :
    mainLoop (exSys (exMain STARTUP 1 3 0 1 0 0) chOn chOff
        { level := 0, changed := 1, blocked := 0, dbnc_timer := 0 } 0 LED_SOLID true) smpOn =
      exSys (exMain STARTUP 1 4 200 1 0 0) chOn chOn
        { level := 0, changed := 1, blocked := 0, dbnc_timer := 0 } 0 LED_SOLID true := by
  simp [mainLoop, loopControl, DataGathering, DataGatheringPass, loopProtection, loopIsolFault,
    loopRelayOCP, loopFaultCount, loopStateMachine, Startup_Procedure, IsolatorOCP,
    ocpCounterNext, OUTDRV_ProcessProtection, ProcessIsolatorProtection,
    ProcessIgnitionProtection, mosfetDrop, checkWarnings, ocpDelay, checkFault,
    OUTDRV_ProcessLogic, ProcessLogicIsolator, ProcessLogicIgnition, HAL_SetIsolator,
    HAL_SetIgnition, StateToHWLevel, OUTDRV_GetFault, OUTDRV_GetFaultCount,
    OUTDRV_GetRealOutput, OUTDRV_SetOutput, OUTDRV_EnableOutput, LEDDRV_Process,
    LEDDRV_OnSolid, INDRV_ReadAll, INDRV_Wake, HAL_SetKillPull, inactiveState, readChannel,
    INDRV_GetInput, ADCDRV_GetValue, exSys, exMain, exActive, chOff, chOn, smpOn, protZero]

theorem tick_startup4 (sto gact : Nat) (h : sto ≠ 0) :
    mainLoop (exSys (exMain STARTUP 1 4 sto 1 0 gact) chOn chOn
        { level := 0, changed := 1, blocked := 0, dbnc_timer := 0 } 0 LED_SOLID true) smpOn =
      exSys (exMain STARTUP 1 4 (sto - 1) 1 0 1) chOn chOn
        { level := 0, changed := 1, blocked := 0, dbnc_timer := 0 } 0 LED_SOLID true := by
  simp [mainLoop, loopControl, DataGathering, DataGatheringPass, loopProtection, loopIsolFault,
    loopRelayOCP, loopFaultCount, loopStateMachine, Startup_Procedure, IsolatorOCP,
    ocpCounterNext, OUTDRV_ProcessProtection, ProcessIsolatorProtection,
    ProcessIgnitionProtection, mosfetDrop, checkWarnings, ocpDelay, checkFault,
    OUTDRV_ProcessLogic, ProcessLogicIsolator, ProcessLogicIgnition, HAL_SetIsolator,
    HAL_SetIgnition, StateToHWLevel, OUTDRV_GetFault, OUTDRV_GetFaultCount,
    OUTDRV_GetRealOutput, OUTDRV_SetOutput, OUTDRV_EnableOutput, LEDDRV_Process,
    LEDDRV_OnSolid, INDRV_ReadAll, INDRV_Wake, HAL_SetKillPull, inactiveState, readChannel,
    INDRV_GetInput, ADCDRV_GetValue, exSys, exMain, exActive, chOff, chOn, smpOn, protZero, h]

theorem tick_startup4_end :
    mainLoop (exSys (exMain STARTUP 1 4 0 1 0 1) chOn chOn
        { level := 0, changed := 1, blocked := 0, dbnc_timer := 0 } 0 LED_SOLID true) smpOn =
      exActive := by
  simp [mainLoop, loopControl, DataGathering, DataGatheringPass, loopProtection, loopIsolFault,
    loopRelayOCP, loopFaultCount, loopStateMachine, Startup_Procedure, IsolatorOCP,
    ocpCounterNext, OUTDRV_ProcessProtection, ProcessIsolatorProtection,
    ProcessIgnitionProtection, mosfetDrop, checkWarnings, ocpDelay, checkFault,
    OUTDRV_ProcessLogic, ProcessLogicIsolator, ProcessLogicIgnition, HAL_SetIsolator,
    HAL_SetIgnition, StateToHWLevel, OUTDRV_GetFault, OUTDRV_GetFaultCount,
    OUTDRV_GetRealOutput, OUTDRV_SetOutput, OUTDRV_EnableOutput, LEDDRV_Process,
    LEDDRV_OnSolid, INDRV_ReadAll, INDRV_Wake, HAL_SetKillPull, inactiveState, readChannel,
    INDRV_GetInput, ADCDRV_GetValue, exSys, exMain, exActive, chOff, chOn, smpOn, protZero]

theorem mainLoopRun_append (s : Sys) (l₁ l₂ : List Sample) :
    mainLoopRun s (l₁ ++ l₂) = mainLoopRun (mainLoopRun s l₁) l₂ := by
  simp only [mainLoopRun, List.foldl_append]

theorem mainLoopRun_one (s : Sys) (a : Sample) :
    mainLoopRun s (List.replicate 1 a) = mainLoop s a := by
  simp only [mainLoopRun, List.replicate, List.foldl]

theorem mainLoopRun_family (a : Sample) (F : Nat → Sys) (n : Nat)
    (h : ∀ k, k < n → mainLoop (F k) a = F (k + 1)) :
    mainLoopRun (F 0) (List.replicate n a) = F n := by
  induction n with
  | zero => simp only [mainLoopRun, List.replicate, List.foldl]
  | succ n ih =>
    rw [List.replicate_succ', mainLoopRun_append, ih (fun k hk => h k (by omega))]
    simp only [mainLoopRun, List.foldl]
    exact h n (by omega)

theorem mainLoopRun_add (s : Sys) (a : Sample) (m n : Nat) :
    mainLoopRun s (List.replicate (m + n) a) =
      mainLoopRun (mainLoopRun s (List.replicate m a)) (List.replicate n a) := by
  rw [List.replicate_add, mainLoopRun_append]

theorem Reachable.run {s : Sys} (h : Reachable s) (samples : List Sample) :
    Reachable (mainLoopRun s samples) := by
  induction samples generalizing s with
  | nil => simpa only [mainLoopRun, List.foldl] using h
  | cons a l ih =>
    simp only [mainLoopRun, List.foldl]
    exact ih (Reachable.loop s a h)

theorem DataGathering_fixed (s : Sys) (a : Sample) (h : DataGatheringPass s a = s) (n : Nat) :
    DataGathering s (List.replicate n a) = s := by
  induction n with
  | zero => simp only [DataGathering, List.replicate, List.foldl]
  | succ n ih =>
    rw [List.replicate_succ, DataGathering, List.foldl_cons, h]
    exact ih

theorem mainInit_example :
    mainInit 15 (List.replicate 100 smpOff) =
      exSys (exMain SLEEP 0 0 0 0 0 0) chOff chOff
        { level := 1, changed := 0, blocked := 0, dbnc_timer := 0 } 1 LED_OFF true := by
  have h1 : DataGatheringPass (mainSetup 15) smpOff =
      exSys (exMain 0 0 0 0 0 0 0) chOff chOff
        { level := 1, changed := 0, blocked := 0, dbnc_timer := 0 } 0 LED_SOLID true := by
    decide
  have h2 : DataGatheringPass (exSys (exMain 0 0 0 0 0 0 0) chOff chOff
        { level := 1, changed := 0, blocked := 0, dbnc_timer := 0 } 0 LED_SOLID true) smpOff =
      exSys (exMain 0 0 0 0 0 0 0) chOff chOff
        { level := 1, changed := 0, blocked := 0, dbnc_timer := 0 } 0 LED_SOLID true := by
    decide
  have h3 : DataGathering (mainSetup 15) (List.replicate 100 smpOff) =
      exSys (exMain 0 0 0 0 0 0 0) chOff chOff
        { level := 1, changed := 0, blocked := 0, dbnc_timer := 0 } 0 LED_SOLID true := by
    rw [show (100 : Nat) = 99 + 1 from rfl, List.replicate_succ, DataGathering, List.foldl_cons,
      h1]
    exact DataGathering_fixed _ _ h2 99
  unfold mainInit
  rw [h3]
  decide

theorem run_debounce :
    mainLoopRun (exSys (exMain SLEEP 0 0 0 0 0 0) chOff chOff
        { level := 1, changed := 0, blocked := 0, dbnc_timer := 0 } 1 LED_OFF true)
      (List.replicate 10 smpOn) =
    exSys (exMain SLEEP 0 0 0 0 0 0) chOff chOff
        { level := 1, changed := 0, blocked := 0, dbnc_timer := 10 } 1 LED_OFF false :=
  mainLoopRun_family smpOn
    (fun k => exSys (exMain SLEEP 0 0 0 0 0 0) chOff chOff
      { level := 1, changed := 0, blocked := 0, dbnc_timer := k } 1 LED_OFF (decide (k = 0)))
    10 (fun k hk => by
      rw [tick_debounce k _ hk]
      simp)

theorem run_startup1 :
    mainLoopRun (exSys (exMain STARTUP 1 1 100 0 0 0) chOff chOff
        { level := 0, changed := 1, blocked := 0, dbnc_timer := 0 } 0 LED_SOLID true)
      (List.replicate 100 smpOn) =
    exSys (exMain STARTUP 1 1 0 0 0 0) chOff chOff
        { level := 0, changed := 1, blocked := 0, dbnc_timer := 0 } 0 LED_SOLID true :=
  mainLoopRun_family smpOn
    (fun k => exSys (exMain STARTUP 1 1 (100 - k) 0 0 0) chOff chOff
      { level := 0, changed := 1, blocked := 0, dbnc_timer := 0 } 0 LED_SOLID true)
    100 (fun k hk => by
      rw [tick_startup1 _ (by omega), show 100 - k - 1 = 100 - (k + 1) by omega])

theorem run_startup3 :
    mainLoopRun (exSys (exMain STARTUP 1 3 199 1 4 0) chOn chOff
        { level := 0, changed := 1, blocked := 0, dbnc_timer := 0 } 0 LED_SOLID true)
      (List.replicate 199 smpOn) =
    exSys (exMain STARTUP 1 3 0 1 0 0) chOn chOff
        { level := 0, changed := 1, blocked := 0, dbnc_timer := 0 } 0 LED_SOLID true :=
  mainLoopRun_family smpOn
    (fun k => exSys (exMain STARTUP 1 3 (199 - k) 1 (4 - k) 0) chOn chOff
      { level := 0, changed := 1, blocked := 0, dbnc_timer := 0 } 0 LED_SOLID true)
    199 (fun k hk => by
      rw [tick_startup3 _ _ (by omega), show 199 - k - 1 = 199 - (k + 1) by omega,
        show 4 - k - 1 = 4 - (k + 1) by omega])

theorem run_startup4 :
    mainLoopRun (exSys (exMain STARTUP 1 4 200 1 0 0) chOn chOn
        { level := 0, changed := 1, blocked := 0, dbnc_timer := 0 } 0 LED_SOLID true)
      (List.replicate 200 smpOn) =
    exSys (exMain STARTUP 1 4 0 1 0 1) chOn chOn
        { level := 0, changed := 1, blocked := 0, dbnc_timer := 0 } 0 LED_SOLID true :=
  mainLoopRun_family smpOn
    (fun k => exSys (exMain STARTUP 1 4 (200 - k) 1 0 (if k = 0 then 0 else 1)) chOn chOn
      { level := 0, changed := 1, blocked := 0, dbnc_timer := 0 } 0 LED_SOLID true)
    200 (fun k hk => by
      rw [tick_startup4 _ _ (by omega), show 200 - k - 1 = 200 - (k + 1) by omega]
      simp)

/-- The example run reaches ACTIVE: after the initialisation with the master
switch off, 516 ticks with the master switch on lead to `exActive` (11 ticks of
debounce, then 505 ticks of `Startup_Procedure`). -/
theorem exActive_run :
    mainLoopRun (mainInit 15 (List.replicate 100 smpOff)) (List.replicate 516 smpOn) =
      exActive := by
  rw [mainInit_example,
    show (516 : Nat) = 10 + (1 + (1 + (100 + (1 + (1 + (1 + (199 + (1 + (200 + 1))))))))) from rfl,
    mainLoopRun_add, run_debounce,
    mainLoopRun_add, mainLoopRun_one, tick_master_on,
    mainLoopRun_add, mainLoopRun_one, tick_startup0,
    mainLoopRun_add, run_startup1,
    mainLoopRun_add, mainLoopRun_one, tick_startup1_end,
    mainLoopRun_add, mainLoopRun_one, tick_startup2,
    mainLoopRun_add, mainLoopRun_one, tick_startup3_first,
    mainLoopRun_add, run_startup3,
    mainLoopRun_add, mainLoopRun_one, tick_startup3_end,
    mainLoopRun_add, run_startup4,
    mainLoopRun_one, tick_startup4_end]

theorem exActive_reachable : Reachable exActive := by
  rw [← exActive_run]
  exact (Reachable.init 15 _ (List.length_replicate _ _)).run _

/-! ## Frame lemmas for the phases of a tick -/

theorem DataGatheringPass_frame (s : Sys) (a : Sample) :
    (DataGatheringPass s a).out = s.out ∧
    (DataGatheringPass s a).m.sys_state = s.m.sys_state ∧
    (DataGatheringPass s a).m.kill_step = s.m.kill_step ∧
    (DataGatheringPass s a).m.relay_ocp_en = s.m.relay_ocp_en :=
  ⟨rfl, rfl, rfl, rfl⟩

theorem DataGathering_frame (samples : List Sample) (s : Sys) :
    (DataGathering s samples).out = s.out ∧
    (DataGathering s samples).m.sys_state = s.m.sys_state ∧
    (DataGathering s samples).m.kill_step = s.m.kill_step ∧
    (DataGathering s samples).m.relay_ocp_en = s.m.relay_ocp_en := by
  induction samples generalizing s with
  | nil => exact ⟨rfl, rfl, rfl, rfl⟩
  | cons a l ih =>
    obtain ⟨h1, h2, h3, h4⟩ := ih (DataGatheringPass s a)
    simp only [DataGathering, List.foldl] at h1 h2 h3 h4 ⊢
    exact ⟨h1, h2, h3, h4⟩

theorem ProcessProtection_ignc_delay (d : OutDrv) (ub ui ua ug : Nat) :
    (OUTDRV_ProcessProtection d ub ui ua ug).igncProt.delay_exec = d.igncProt.delay_exec := by
  simp only [OUTDRV_ProcessProtection, ProcessIgnitionProtection, ProcessIsolatorProtection,
    checkFault_delay_exec]
  rfl

theorem loopProtection_frame (s : Sys) :
    (loopProtection s).m.sys_state = s.m.sys_state ∧
    (loopProtection s).m.kill_step = s.m.kill_step ∧
    (loopProtection s).m.master_act = s.m.master_act ∧
    (loopProtection s).m.kill_act = s.m.kill_act ∧
    (loopProtection s).m.relay_ocp_en = s.m.relay_ocp_en ∧
    (loopProtection s).out.igncProt.delay_exec = s.out.igncProt.delay_exec := by
  refine ⟨?_, ?_, ?_, ?_, ?_, ProcessProtection_ignc_delay _ _ _ _ _⟩ <;>
    (unfold loopProtection; simp only; split_ifs <;> rfl)

/-- The three escalation tests and the state machine, from a state in ACTIVE
with `Kill_Procedure` at its sub-step 0. -/
theorem escalation_from_active (p : Sys) (h1 : p.m.sys_state = ACTIVE)
    (h2 : p.m.kill_step = 0) :
    ((loopStateMachine (loopFaultCount (loopRelayOCP (loopIsolFault p)))).m.sys_state = KILLING ↔
      (p.m.master_act = 0 ∨ p.m.kill_act ≠ 0 ∨ OUTDRV_GetFault p.out OUT_ISOL ≠ 0 ∨
        ((IsolatorOCP p.m).2 ≠ 0 ∧ p.m.relay_ocp_en ≠ 0) ∨
        OUTDRV_GetFaultCount p.out OUT_IGNC > IGNC_FAULT_CNT_LIMIT)) ∧
    ((loopStateMachine (loopFaultCount (loopRelayOCP (loopIsolFault p)))).m.sys_state = KILLING ∨
      (loopStateMachine (loopFaultCount (loopRelayOCP (loopIsolFault p)))).m.sys_state
        = ACTIVE) := by
  obtain ⟨f1, f2, f3, f4, f5⟩ := IsolatorOCP_frame p.m
  by_cases c1 : OUTDRV_GetFault p.out OUT_ISOL ≠ 0
  · -- first escalation fires
    have e1 : loopIsolFault p = { p with
        out := OUTDRV_DelayFaultExecution p.out OUT_ISOL 2
        m := { p.m with sys_state := KILLING, kill_act := 1 } } := by
      unfold loopIsolFault; rw [if_pos ⟨c1, h1⟩]
    obtain ⟨g1, g2, -, -, -⟩ := IsolatorOCP_frame { p.m with sys_state := KILLING, kill_act := 1 }
    have e2 : (loopRelayOCP (loopIsolFault p)).m.sys_state = KILLING ∧
        (loopRelayOCP (loopIsolFault p)).m.kill_step = 0 := by
      rw [e1]; unfold loopRelayOCP; simp only
      split_ifs
      · exact ⟨rfl, by rw [g2]; exact h2⟩
      · exact ⟨g1, by rw [g2]; exact h2⟩
    generalize loopRelayOCP (loopIsolFault p) = q at e2
    have e3 : (loopFaultCount q).m.sys_state = KILLING ∧ (loopFaultCount q).m.kill_step = 0 := by
      unfold loopFaultCount; split_ifs
      · exact ⟨rfl, e2.2⟩
      · exact e2
    generalize loopFaultCount q = r at e3
    have e4 : (loopStateMachine r).m.sys_state = KILLING := by
      unfold loopStateMachine Kill_Procedure
      simp [e3.1, e3.2]
    exact ⟨⟨fun _ => Or.inr (Or.inr (Or.inl c1)), fun _ => e4⟩, Or.inl e4⟩
  · have e1 : loopIsolFault p = p := by
      unfold loopIsolFault; rw [if_neg (fun h => c1 h.1)]
    rw [e1]
    by_cases c2 : (IsolatorOCP p.m).2 ≠ 0 ∧ p.m.relay_ocp_en ≠ 0
    · have e2 : (loopRelayOCP p).m.sys_state = KILLING ∧ (loopRelayOCP p).m.kill_step = 0 := by
        unfold loopRelayOCP; simp only
        rw [if_pos ⟨c2.1, by rw [f5]; exact c2.2, by rw [f1]; exact h1⟩]
        exact ⟨rfl, by show (IsolatorOCP p.m).1.kill_step = 0; rw [f2]; exact h2⟩
      generalize loopRelayOCP p = q at e2
      have e3 : (loopFaultCount q).m.sys_state = KILLING ∧
          (loopFaultCount q).m.kill_step = 0 := by
        unfold loopFaultCount; split_ifs
        · exact ⟨rfl, e2.2⟩
        · exact e2
      generalize loopFaultCount q = r at e3
      have e4 : (loopStateMachine r).m.sys_state = KILLING := by
        unfold loopStateMachine Kill_Procedure
        simp [e3.1, e3.2]
      exact ⟨⟨fun _ => Or.inr (Or.inr (Or.inr (Or.inl c2))), fun _ => e4⟩, Or.inl e4⟩
    · have e2 : loopRelayOCP p = { p with m := (IsolatorOCP p.m).1 } := by
        unfold loopRelayOCP; simp only
        rw [if_neg (fun h => c2 ⟨h.1, by rw [← f5]; exact h.2.1⟩)]
      rw [e2]
      by_cases c3 : OUTDRV_GetFaultCount p.out OUT_IGNC > IGNC_FAULT_CNT_LIMIT
      · have e3 : (loopFaultCount { p with m := (IsolatorOCP p.m).1 }).m.sys_state = KILLING ∧
            (loopFaultCount { p with m := (IsolatorOCP p.m).1 }).m.kill_step = 0 := by
          unfold loopFaultCount
          rw [if_pos ⟨c3, by show (IsolatorOCP p.m).1.sys_state = ACTIVE; rw [f1]; exact h1⟩]
          exact ⟨rfl, by show (IsolatorOCP p.m).1.kill_step = 0; rw [f2]; exact h2⟩
        generalize loopFaultCount { p with m := (IsolatorOCP p.m).1 } = r at e3
        have e4 : (loopStateMachine r).m.sys_state = KILLING := by
          unfold loopStateMachine Kill_Procedure
          simp [e3.1, e3.2]
        exact ⟨⟨fun _ => Or.inr (Or.inr (Or.inr (Or.inr c3))), fun _ => e4⟩, Or.inl e4⟩
      · have e3 : loopFaultCount { p with m := (IsolatorOCP p.m).1 } =
            { p with m := (IsolatorOCP p.m).1 } := by
          unfold loopFaultCount
          rw [if_neg (fun h => c3 h.1)]
        rw [e3]
        have hs : ({ p with m := (IsolatorOCP p.m).1 } : Sys).m.sys_state = ACTIVE := by
          show (IsolatorOCP p.m).1.sys_state = ACTIVE; rw [f1]; exact h1
        have hm : ({ p with m := (IsolatorOCP p.m).1 } : Sys).m.master_act = p.m.master_act := f3
        have hk : ({ p with m := (IsolatorOCP p.m).1 } : Sys).m.kill_act = p.m.kill_act := f4
        generalize ({ p with m := (IsolatorOCP p.m).1 } : Sys) = r at hs hm hk
        by_cases c4 : p.m.master_act = 0 ∨ p.m.kill_act ≠ 0
        · have e4 : (loopStateMachine r).m.sys_state = KILLING := by
            unfold loopStateMachine
            have c4' : r.m.master_act = 0 ∨ r.m.kill_act ≠ 0 := by rw [hm, hk]; exact c4
            simp [hs, c4']
          refine ⟨⟨fun _ => ?_, fun _ => e4⟩, Or.inl e4⟩
          rcases c4 with c | c
          · exact Or.inl c
          · exact Or.inr (Or.inl c)
        · have e4 : (loopStateMachine r).m.sys_state = ACTIVE := by
            unfold loopStateMachine
            have c4' : ¬ (r.m.master_act = 0 ∨ r.m.kill_act ≠ 0) := by rw [hm, hk]; exact c4
            simp only [hs]
            simp [c4']
          refine ⟨⟨fun h => ?_, fun h => ?_⟩, Or.inr e4⟩
          · rw [e4] at h; exact absurd h (by decide)
          · rcases h with h | h | h | h | h
            · exact absurd (Or.inl h) c4
            · exact absurd (Or.inr h) c4
            · exact absurd h c1
            · exact absurd h c2
            · exact absurd h c3

theorem Startup_Procedure_frame (s : Sys) :
    (Startup_Procedure s).1.m.kill_step = s.m.kill_step ∧
    (Startup_Procedure s).1.out.igncProt = s.out.igncProt := by
  unfold Startup_Procedure
  by_cases h0 : s.m.startup_step = 0
  · rw [if_pos h0]
    exact ⟨rfl, rfl⟩
  rw [if_neg h0]
  by_cases h1 : s.m.startup_step = 1
  · rw [if_pos h1]
    split_ifs <;> exact ⟨rfl, rfl⟩
  rw [if_neg h1]
  by_cases h2 : s.m.startup_step = 2
  · rw [if_pos h2]
    split_ifs <;> exact ⟨rfl, rfl⟩
  rw [if_neg h2]
  by_cases h3 : s.m.startup_step = 3
  · rw [if_pos h3]
    split_ifs <;> exact ⟨rfl, rfl⟩
  rw [if_neg h3]
  by_cases h4 : s.m.startup_step = 4
  · rw [if_pos h4]
    split_ifs <;> exact ⟨rfl, rfl⟩
  rw [if_neg h4]
  exact ⟨rfl, rfl⟩

theorem Lockout_Procedure_frame (s : Sys) :
    (Lockout_Procedure s).1.m.kill_step = s.m.kill_step ∧
    (Lockout_Procedure s).1.out.igncProt = s.out.igncProt := by
  unfold Lockout_Procedure
  simp only
  split_ifs <;> simp [OUTDRV_ResetOutput, OUTDRV_DisableOutput]

theorem Kill_Procedure_frame (s : Sys) :
    ((Kill_Procedure s).2 ≠ KILLING → (Kill_Procedure s).1.m.kill_step = 0) ∧
    (Kill_Procedure s).1.out.igncProt = s.out.igncProt := by
  unfold Kill_Procedure
  simp only
  split_ifs <;> simp [OUTDRV_ResetOutput, OUTDRV_DisableOutput]

theorem loopStateMachine_inv (r : Sys) (hK : r.m.sys_state ≠ KILLING → r.m.kill_step = 0) :
    ((loopStateMachine r).m.sys_state ≠ KILLING → (loopStateMachine r).m.kill_step = 0) ∧
    (loopStateMachine r).out.igncProt = r.out.igncProt := by
  unfold loopStateMachine
  split_ifs with h1 h2 h3 h4 h5 h6 h7
  · exact ⟨fun _ => hK (by rw [h1]; decide), rfl⟩
  · exact ⟨fun _ => hK (by rw [h1]; decide), rfl⟩
  · exact ⟨fun _ => (Startup_Procedure_frame r).1.trans (hK (by rw [h3]; decide)),
      (Startup_Procedure_frame r).2⟩
  · exact ⟨fun h => absurd rfl h, rfl⟩
  · exact ⟨fun _ => hK (by rw [h4]; decide), rfl⟩
  · exact ⟨fun h => (Kill_Procedure_frame r).1 h, (Kill_Procedure_frame r).2⟩
  · exact ⟨fun _ => (Lockout_Procedure_frame r).1.trans (hK (by rw [h7]; decide)),
      (Lockout_Procedure_frame r).2⟩
  · exact ⟨fun h => absurd rfl h, rfl⟩

theorem loopIsolFault_inv (r : Sys) (hK : r.m.sys_state ≠ KILLING → r.m.kill_step = 0) :
    ((loopIsolFault r).m.sys_state ≠ KILLING → (loopIsolFault r).m.kill_step = 0) ∧
    (loopIsolFault r).out.igncProt = r.out.igncProt := by
  unfold loopIsolFault
  split_ifs
  · exact ⟨fun h => absurd rfl h, by simp [OUTDRV_DelayFaultExecution]⟩
  · exact ⟨hK, rfl⟩

theorem loopRelayOCP_inv (r : Sys) (hK : r.m.sys_state ≠ KILLING → r.m.kill_step = 0) :
    ((loopRelayOCP r).m.sys_state ≠ KILLING → (loopRelayOCP r).m.kill_step = 0) ∧
    (loopRelayOCP r).out.igncProt = r.out.igncProt := by
  obtain ⟨f1, f2, -, -, -⟩ := IsolatorOCP_frame r.m
  unfold loopRelayOCP
  simp only
  split_ifs
  · exact ⟨fun h => absurd rfl h, rfl⟩
  · refine ⟨fun h => ?_, rfl⟩
    show (IsolatorOCP r.m).1.kill_step = 0
    rw [f2]; exact hK (by rw [← f1]; exact h)

theorem loopFaultCount_inv (r : Sys) (hK : r.m.sys_state ≠ KILLING → r.m.kill_step = 0) :
    ((loopFaultCount r).m.sys_state ≠ KILLING → (loopFaultCount r).m.kill_step = 0) ∧
    (loopFaultCount r).out.igncProt = r.out.igncProt := by
  unfold loopFaultCount
  split_ifs
  · exact ⟨fun h => absurd rfl h, rfl⟩
  · exact ⟨hK, rfl⟩

theorem ProcessLogic_ignc_delay (d : OutDrv) (h : d.igncProt.delay_exec = 0) :
    (OUTDRV_ProcessLogic d).igncProt.delay_exec = 0 := by
  unfold OUTDRV_ProcessLogic
  rw [(ProcessLogicIsolator_ignc _).2.1]
  unfold ProcessLogicIgnition
  rw [if_neg (by simpa using h)]
  split_ifs <;> simp only [HAL_SetIgnition_igncProt] <;> split_ifs <;> exact h

theorem ProcessLogic_ignc_off (d : OutDrv) (hd : d.igncProt.delay_exec = 0)
    (ht : d.igncState.target = 0) :
    (OUTDRV_ProcessLogic d).igncState.target = 0 ∧
    (OUTDRV_ProcessLogic d).igncState.real = 0 := by
  unfold OUTDRV_ProcessLogic
  rw [(ProcessLogicIsolator_ignc _).1]
  unfold ProcessLogicIgnition
  rw [if_neg (by simpa using hd)]
  split_ifs <;> simp [HAL_SetIgnition, ht] <;> split_ifs <;> simp [ht]

theorem loopControl_inv (s : Sys) (a : Sample) (h : TickInv s) :
    ((loopControl s a).m.sys_state ≠ KILLING → (loopControl s a).m.kill_step = 0) ∧
    (loopControl s a).out.igncProt.delay_exec = 0 := by
  obtain ⟨d1, d2, d3, -⟩ := DataGathering_frame [a] s
  obtain ⟨p1, p2, -, -, -, p6⟩ := loopProtection_frame (DataGathering s [a])
  have k0 : (tickProtected s a).m.sys_state ≠ KILLING → (tickProtected s a).m.kill_step = 0 := by
    intro hh
    have hh' : s.m.sys_state ≠ KILLING := by
      rw [← d2, ← p1]; exact hh
    exact p2.trans (d3.trans (h.1 hh'))
  have o0 : (tickProtected s a).out.igncProt.delay_exec = 0 := p6.trans (by rw [d1]; exact h.2)
  have e : loopControl s a = loopStateMachine (loopFaultCount (loopRelayOCP
      (loopIsolFault (tickProtected s a)))) := rfl
  rw [e]
  generalize tickProtected s a = p at k0 o0
  obtain ⟨k1, o1⟩ := loopIsolFault_inv p k0
  obtain ⟨k2, o2⟩ := loopRelayOCP_inv (loopIsolFault p) k1
  obtain ⟨k3, o3⟩ := loopFaultCount_inv (loopRelayOCP (loopIsolFault p)) k2
  obtain ⟨k4, o4⟩ := loopStateMachine_inv (loopFaultCount (loopRelayOCP (loopIsolFault p))) k3
  exact ⟨k4, by rw [o4, o3, o2, o1]; exact o0⟩

theorem mainLoop_m (s : Sys) (a : Sample) : (mainLoop s a).m = (loopControl s a).m := by
  simp only [mainLoop]

theorem mainLoop_out (s : Sys) (a : Sample) :
    (mainLoop s a).out = OUTDRV_ProcessLogic (loopControl s a).out := by
  simp only [mainLoop]

theorem TickInv.loop (s : Sys) (a : Sample) (h : TickInv s) : TickInv (mainLoop s a) := by
  obtain ⟨k, o⟩ := loopControl_inv s a h
  unfold TickInv
  rw [mainLoop_m, mainLoop_out]
  exact ⟨k, ProcessLogic_ignc_delay _ o⟩

theorem TickInv.init (bootstraps : Nat) (samples : List Sample) :
    TickInv (mainInit bootstraps samples) := by
  obtain ⟨d1, -, d3, -⟩ := DataGathering_frame samples (mainSetup bootstraps)
  refine ⟨fun _ => ?_, ?_⟩
  · show (DataGathering (mainSetup bootstraps) samples).m.kill_step = 0
    rw [d3]; rfl
  · show (DataGathering (mainSetup bootstraps) samples).out.igncProt.delay_exec = 0
    rw [d1]
    apply ProcessLogic_ignc_delay
    simp [OUTDRV_ResetOutput, OUTDRV_DisableOutput, OUTDRV_Init, protZero]

theorem Reachable.tickInv {s : Sys} (h : Reachable s) : TickInv s := by
  induction h with
  | init b l _ => exact TickInv.init b l
  | loop s a _ ih => exact TickInv.loop s a ih

theorem isol_fault_resets_ignition (p : Sys) (h1 : p.m.sys_state = ACTIVE)
    (h2 : p.m.kill_step = 0) (c1 : OUTDRV_GetFault p.out OUT_ISOL ≠ 0) :
    (loopStateMachine (loopFaultCount (loopRelayOCP (loopIsolFault p)))).out.igncState.target
      = 0 := by
  have e1 : loopIsolFault p = { p with
      out := OUTDRV_DelayFaultExecution p.out OUT_ISOL 2
      m := { p.m with sys_state := KILLING, kill_act := 1 } } := by
    unfold loopIsolFault; rw [if_pos ⟨c1, h1⟩]
  obtain ⟨g1, g2, -, -, -⟩ := IsolatorOCP_frame { p.m with sys_state := KILLING, kill_act := 1 }
  have g1' : (IsolatorOCP { p.m with sys_state := KILLING, kill_act := 1 }).1.sys_state
      = KILLING := g1
  have g2' : (IsolatorOCP { p.m with sys_state := KILLING, kill_act := 1 }).1.kill_step = 0 :=
    g2.trans h2
  have g3 : (IsolatorOCP { p.m with sys_state := KILLING, kill_act := 1 }).1.sys_state
      ≠ ACTIVE := by rw [g1']; decide
  have e2 : loopRelayOCP (loopIsolFault p) = { p with
      out := OUTDRV_DelayFaultExecution p.out OUT_ISOL 2
      m := (IsolatorOCP { p.m with sys_state := KILLING, kill_act := 1 }).1 } := by
    rw [e1]; unfold loopRelayOCP; simp only
    rw [if_neg (fun h => g3 h.2.2)]
  have e3 : loopFaultCount (loopRelayOCP (loopIsolFault p)) =
      loopRelayOCP (loopIsolFault p) := by
    rw [e2]; unfold loopFaultCount
    rw [if_neg (fun h => g3 h.2)]
  rw [e3, e2]
  generalize (IsolatorOCP { p.m with sys_state := KILLING, kill_act := 1 }).1 = m at g1' g2'
  unfold loopStateMachine Kill_Procedure
  simp [g1', g2', OUTDRV_ResetOutput, OUTDRV_DelayFaultExecution]

theorem tickProtected_frame (s : Sys) (a : Sample) :
    (tickProtected s a).m.sys_state = s.m.sys_state ∧
    (tickProtected s a).m.kill_step = s.m.kill_step ∧
    (tickProtected s a).out.igncProt.delay_exec = s.out.igncProt.delay_exec := by
  obtain ⟨d1, d2, d3, -⟩ := DataGathering_frame [a] s
  obtain ⟨p1, p2, -, -, -, p6⟩ := loopProtection_frame (DataGathering s [a])
  exact ⟨p1.trans d2, p2.trans d3, p6.trans (by rw [d1])⟩

theorem loopControl_eq (s : Sys) (a : Sample) :
    loopControl s a = loopStateMachine (loopFaultCount (loopRelayOCP
      (loopIsolFault (tickProtected s a)))) := rfl

/-- C9: on a tick of the main loop that starts in a reachable state with
`sys_state = ACTIVE`, the tick ends with `sys_state = KILLING` if and only if,
on the state left by this tick's data gathering and protection processing,
`master_act` is 0, or `kill_act` is nonzero, or `OUTDRV_GetFault(OUT_ISOL)` is
nonzero, or `IsolatorOCP` returns nonzero while `relay_ocp_en` is set, or the
ignition `fault_cnt` exceeds `IGNC_FAULT_CNT_LIMIT`; and the tick ends in
KILLING or in ACTIVE, so it ends in ACTIVE otherwise. -/
theorem C9_active_leaves_iff_trigger (s : Sys) (a : Sample) (hr : Reachable s)
    (ha : s.m.sys_state = ACTIVE) :
    ((mainLoop s a).m.sys_state = KILLING ↔
      ((tickProtected s a).m.master_act = 0 ∨ (tickProtected s a).m.kill_act ≠ 0 ∨
        OUTDRV_GetFault (tickProtected s a).out OUT_ISOL ≠ 0 ∨
        ((IsolatorOCP (tickProtected s a).m).2 ≠ 0 ∧ (tickProtected s a).m.relay_ocp_en ≠ 0) ∨
        OUTDRV_GetFaultCount (tickProtected s a).out OUT_IGNC > IGNC_FAULT_CNT_LIMIT)) ∧
    ((mainLoop s a).m.sys_state = KILLING ∨ (mainLoop s a).m.sys_state = ACTIVE) := by
  obtain ⟨t1, t2, -⟩ := tickProtected_frame s a
  have h1 : (tickProtected s a).m.sys_state = ACTIVE := t1.trans ha
  have h2 : (tickProtected s a).m.kill_step = 0 :=
    t2.trans (hr.tickInv.1 (by rw [ha]; decide))
  rw [mainLoop_m, loopControl_eq]
  exact escalation_from_active (tickProtected s a) h1 h2

/-- C9 on the example run: from `exActive` a tick with the isolator output
shorted to 0 V ends in KILLING, and a tick with all voltages at 12000 mV and
the master switch still on ends in ACTIVE. -/
theorem C9_witness :
    exActive.m.sys_state = ACTIVE ∧
    OUTDRV_GetFault (tickProtected exActive smpShort).out OUT_ISOL ≠ 0 ∧
    (mainLoop exActive smpShort).m.sys_state = KILLING ∧
    (mainLoop exActive smpOn).m.sys_state = ACTIVE :=
  have f : OUTDRV_GetFault (tickProtected exActive smpShort).out OUT_ISOL ≠ 0 := by decide
  have n : ¬ ((tickProtected exActive smpOn).m.master_act = 0 ∨
      (tickProtected exActive smpOn).m.kill_act ≠ 0 ∨
      OUTDRV_GetFault (tickProtected exActive smpOn).out OUT_ISOL ≠ 0 ∨
      ((IsolatorOCP (tickProtected exActive smpOn).m).2 ≠ 0 ∧
        (tickProtected exActive smpOn).m.relay_ocp_en ≠ 0) ∨
      OUTDRV_GetFaultCount (tickProtected exActive smpOn).out OUT_IGNC >
        IGNC_FAULT_CNT_LIMIT) := by decide
  have h1 := C9_active_leaves_iff_trigger exActive smpShort exActive_reachable rfl
  have h2 := C9_active_leaves_iff_trigger exActive smpOn exActive_reachable rfl
  ⟨rfl, f, h1.1.mpr (Or.inr (Or.inr (Or.inl f))),
    h2.2.resolve_left (fun h => n (h2.1.mp h))⟩

/-- C10: on a tick of the main loop that starts in a reachable state with
`sys_state = ACTIVE` and in which `OUTDRV_GetFault(OUT_ISOL)` is nonzero after
this tick's protection processing, the tick ends with `sys_state = KILLING`,
the ignition target is 0, and the ignition `real` state is 0 after this tick's
`OUTDRV_ProcessLogic`. -/
theorem C10_isolator_fault_turns_ignition_off (s : Sys) (a : Sample) (hr : Reachable s)
    (ha : s.m.sys_state = ACTIVE)
    (hf : OUTDRV_GetFault (tickProtected s a).out OUT_ISOL ≠ 0) :
    (mainLoop s a).m.sys_state = KILLING ∧
    (mainLoop s a).out.igncState.target = 0 ∧
    (mainLoop s a).out.igncState.real = 0 := by
  obtain ⟨t1, t2, -⟩ := tickProtected_frame s a
  have h1 : (tickProtected s a).m.sys_state = ACTIVE := t1.trans ha
  have h2 : (tickProtected s a).m.kill_step = 0 :=
    t2.trans (hr.tickInv.1 (by rw [ha]; decide))
  have hd := (loopControl_inv s a hr.tickInv).2
  have ht : (loopControl s a).out.igncState.target = 0 := by
    rw [loopControl_eq]
    exact isol_fault_resets_ignition (tickProtected s a) h1 h2 hf
  refine ⟨?_, ?_⟩
  · rw [mainLoop_m, loopControl_eq]
    exact (escalation_from_active (tickProtected s a) h1 h2).1.mpr (Or.inr (Or.inr (Or.inl hf)))
  · rw [mainLoop_out]
    exact ProcessLogic_ignc_off (loopControl s a).out hd ht

/-- C10 on the example run: from `exActive`, where the ignition is commanded
on and driven high, a tick with the isolator output shorted to 0 V. -/
theorem C10_witness :
    exActive.m.sys_state = ACTIVE ∧ exActive.out.igncState.target = 1 ∧
    exActive.out.igncState.real = 1 ∧
    OUTDRV_GetFault (tickProtected exActive smpShort).out OUT_ISOL ≠ 0 ∧
    (mainLoop exActive smpShort).m.sys_state = KILLING ∧
    (mainLoop exActive smpShort).out.igncState.target = 0 ∧
    (mainLoop exActive smpShort).out.igncState.real = 0 :=
  have f : OUTDRV_GetFault (tickProtected exActive smpShort).out OUT_ISOL ≠ 0 := by decide
  ⟨rfl, rfl, rfl, f,
    C10_isolator_fault_turns_ignition_off exActive smpShort exActive_reachable rfl f⟩

/-! ## Lemmas on the inputs driver -/

theorem readChannel_blocked (cfg : inCfgDef) (st : inStateDef) (raw : Nat) :
    (readChannel cfg st raw).blocked = st.blocked := by
  unfold readChannel
  simp only
  split_ifs <;> rfl

theorem readChannel_of_blocked (cfg : inCfgDef) (st : inStateDef) (raw : Nat)
    (h : st.blocked ≠ 0) : readChannel cfg st raw = st := by
  unfold readChannel
  rw [if_neg h]

theorem readChannel_pinLevel (cfg : inCfgDef) (st : inStateDef) (pin : Bool)
    (hb : st.blocked = 0) :
    readChannel cfg st (pinLevel pin) =
      if st.level ≠ pinLevel pin then
        (if (st.dbnc_timer + 1) % 256 > cfg.dbnc_limit then
          { st with level := pinLevel pin, changed := 1, dbnc_timer := (st.dbnc_timer + 1) % 256 }
         else { st with dbnc_timer := (st.dbnc_timer + 1) % 256 })
      else
        (if 0 > cfg.dbnc_limit then { st with level := pinLevel pin, changed := 1, dbnc_timer := 0 }
         else { st with dbnc_timer := 0 }) := by
  have ht : (if pinLevel pin ≠ 0 then 1 else 0) = pinLevel pin := by
    cases pin <;> rfl
  unfold readChannel
  rw [if_pos hb]
  simp only [ht]
  split_ifs <;> rfl

theorem readAllRun_channels (s : InDrv) (pins : Nat → Bool × Bool) (n : Nat) :
    (readAllRun s pins n).mstr =
      readChannelRun s.mstr_cfg s.mstr (fun j => pinLevel (pins j).1) n ∧
    (readAllRun s pins n).kill =
      readChannelRun s.kill_cfg s.kill (fun j => pinLevel (pins j).2) n ∧
    (readAllRun s pins n).mstr_cfg = s.mstr_cfg ∧
    (readAllRun s pins n).kill_cfg = s.kill_cfg := by
  induction n with
  | zero => exact ⟨rfl, rfl, rfl, rfl⟩
  | succ n ih =>
    obtain ⟨h1, h2, h3, h4⟩ := ih
    refine ⟨?_, ?_, h3, h4⟩
    · show readChannel (readAllRun s pins n).mstr_cfg (readAllRun s pins n).mstr _ = _
      rw [h1, h3]; rfl
    · show readChannel (readAllRun s pins n).kill_cfg (readAllRun s pins n).kill _ = _
      rw [h2, h4]; rfl

/-- While the samples disagree with the latched level and the count has not
passed the limit, only the debounce timer moves. -/
theorem readChannelRun_counting (cfg : inCfgDef) (st : inStateDef) (pins : Nat → Bool)
    (hb : st.blocked = 0) (ht : st.dbnc_timer = 0) (hL : cfg.dbnc_limit ≤ 254) (k : Nat)
    (hk : k ≤ cfg.dbnc_limit) (hd : ∀ j, j < k → pinLevel (pins j) ≠ st.level) :
    readChannelRun cfg st (fun j => pinLevel (pins j)) k = { st with dbnc_timer := k } := by
  induction k with
  | zero => rw [readChannelRun, ← ht]
  | succ k ih =>
    rw [readChannelRun, ih (by omega) (fun j hj => hd j (by omega)),
      readChannel_pinLevel cfg { st with dbnc_timer := k } _ hb]
    have h1 : st.level ≠ pinLevel (pins k) := fun h => hd k (by omega) h.symm
    have h2 : (k + 1) % 256 = k + 1 := by omega
    simp only [h2]
    rw [if_pos h1, if_neg (by omega)]

theorem readChannelRun_commit (cfg : inCfgDef) (st : inStateDef) (pins : Nat → Bool)
    (hb : st.blocked = 0) (ht : st.dbnc_timer = 0) (hL : cfg.dbnc_limit ≤ 254)
    (hd : ∀ j, j ≤ cfg.dbnc_limit → pinLevel (pins j) ≠ st.level) :
    readChannelRun cfg st (fun j => pinLevel (pins j)) (cfg.dbnc_limit + 1) =
      { st with level := pinLevel (pins cfg.dbnc_limit), changed := 1,
                dbnc_timer := cfg.dbnc_limit + 1 } := by
  rw [readChannelRun, readChannelRun_counting cfg st pins hb ht hL _ (le_refl _)
    (fun j hj => hd j (by omega)),
    readChannel_pinLevel cfg { st with dbnc_timer := cfg.dbnc_limit } _ hb]
  have h1 : st.level ≠ pinLevel (pins cfg.dbnc_limit) := fun h => hd _ (le_refl _) h.symm
  have h2 : (cfg.dbnc_limit + 1) % 256 = cfg.dbnc_limit + 1 := by omega
  simp only [h2]
  rw [if_pos h1, if_pos (by omega)]

theorem readChannelRun_revert (cfg : inCfgDef) (st : inStateDef) (pins : Nat → Bool)
    (hb : st.blocked = 0) (ht : st.dbnc_timer = 0) (hL : cfg.dbnc_limit ≤ 254) (k : Nat)
    (hk : k ≤ cfg.dbnc_limit) (hd : ∀ j, j < k → pinLevel (pins j) ≠ st.level)
    (he : pinLevel (pins k) = st.level) :
    readChannelRun cfg st (fun j => pinLevel (pins j)) (k + 1) = st := by
  rw [readChannelRun, readChannelRun_counting cfg st pins hb ht hL k hk hd,
    readChannel_pinLevel cfg { st with dbnc_timer := k } _ hb]
  simp only
  rw [if_neg (by simp [he]), if_neg (by omega), ← ht]

theorem readAllRun_mstr_level_le (s : InDrv) (pins : Nat → Bool × Bool)
    (hb : s.mstr.blocked = 0) (ht : s.mstr.dbnc_timer = 0) (hL : s.mstr_cfg.dbnc_limit ≤ 254)
    (k : Nat) (hk : k ≤ s.mstr_cfg.dbnc_limit)
    (hd : ∀ j, j < k → pinLevel (pins j).1 ≠ s.mstr.level) :
    (readAllRun s pins k).mstr = { s.mstr with dbnc_timer := k } := by
  rw [(readAllRun_channels s pins k).1]
  exact readChannelRun_counting s.mstr_cfg s.mstr (fun j => (pins j).1) hb ht hL k hk hd

theorem readAllRun_kill_level_le (s : InDrv) (pins : Nat → Bool × Bool)
    (hb : s.kill.blocked = 0) (ht : s.kill.dbnc_timer = 0) (hL : s.kill_cfg.dbnc_limit ≤ 254)
    (k : Nat) (hk : k ≤ s.kill_cfg.dbnc_limit)
    (hd : ∀ j, j < k → pinLevel (pins j).2 ≠ s.kill.level) :
    (readAllRun s pins k).kill = { s.kill with dbnc_timer := k } := by
  rw [(readAllRun_channels s pins k).2.1]
  exact readChannelRun_counting s.kill_cfg s.kill (fun j => (pins j).2) hb ht hL k hk hd

theorem readAllRun_mstr_commit (s : InDrv) (pins : Nat → Bool × Bool)
    (hb : s.mstr.blocked = 0) (ht : s.mstr.dbnc_timer = 0) (hL : s.mstr_cfg.dbnc_limit ≤ 254)
    (hd : ∀ j, j ≤ s.mstr_cfg.dbnc_limit → pinLevel (pins j).1 ≠ s.mstr.level) :
    (readAllRun s pins (s.mstr_cfg.dbnc_limit + 1)).mstr =
      { s.mstr with level := pinLevel (pins s.mstr_cfg.dbnc_limit).1, changed := 1,
                    dbnc_timer := s.mstr_cfg.dbnc_limit + 1 } := by
  rw [(readAllRun_channels s pins _).1]
  exact readChannelRun_commit s.mstr_cfg s.mstr (fun j => (pins j).1) hb ht hL hd

theorem readAllRun_kill_commit (s : InDrv) (pins : Nat → Bool × Bool)
    (hb : s.kill.blocked = 0) (ht : s.kill.dbnc_timer = 0) (hL : s.kill_cfg.dbnc_limit ≤ 254)
    (hd : ∀ j, j ≤ s.kill_cfg.dbnc_limit → pinLevel (pins j).2 ≠ s.kill.level) :
    (readAllRun s pins (s.kill_cfg.dbnc_limit + 1)).kill =
      { s.kill with level := pinLevel (pins s.kill_cfg.dbnc_limit).2, changed := 1,
                    dbnc_timer := s.kill_cfg.dbnc_limit + 1 } := by
  rw [(readAllRun_channels s pins _).2.1]
  exact readChannelRun_commit s.kill_cfg s.kill (fun j => (pins j).2) hb ht hL hd

theorem readAllRun_mstr_revert (s : InDrv) (pins : Nat → Bool × Bool)
    (hb : s.mstr.blocked = 0) (ht : s.mstr.dbnc_timer = 0) (hL : s.mstr_cfg.dbnc_limit ≤ 254)
    (k : Nat) (hk : k ≤ s.mstr_cfg.dbnc_limit)
    (hd : ∀ j, j < k → pinLevel (pins j).1 ≠ s.mstr.level)
    (he : pinLevel (pins k).1 = s.mstr.level) :
    (readAllRun s pins (k + 1)).mstr = s.mstr := by
  rw [(readAllRun_channels s pins _).1]
  exact readChannelRun_revert s.mstr_cfg s.mstr (fun j => (pins j).1) hb ht hL k hk hd he

theorem readAllRun_kill_revert (s : InDrv) (pins : Nat → Bool × Bool)
    (hb : s.kill.blocked = 0) (ht : s.kill.dbnc_timer = 0) (hL : s.kill_cfg.dbnc_limit ≤ 254)
    (k : Nat) (hk : k ≤ s.kill_cfg.dbnc_limit)
    (hd : ∀ j, j < k → pinLevel (pins j).2 ≠ s.kill.level)
    (he : pinLevel (pins k).2 = s.kill.level) :
    (readAllRun s pins (k + 1)).kill = s.kill := by
  rw [(readAllRun_channels s pins _).2.1]
  exact readChannelRun_revert s.kill_cfg s.kill (fun j => (pins j).2) hb ht hL k hk hd he

/-- C17: debounce of `INDRV_ReadAll`, for the master and for the kill channel.
On an unblocked channel with `dbnc_timer = 0`, latched level `v` and limit
`L ≤ 254`: if the pin differs from `v` on the samples `0 .. L`, then after
sample `L` (the `(L+1)`-th) `level` is the pin level and `changed = 1`, while
after each of the first `L` samples `level` is still `v` and `changed` is as it
was; if the pin differs on the samples `0 .. k-1` with `k ≤ L` and equals `v` on
sample `k`, the channel is back in its initial state (same `level` and
`changed`, `dbnc_timer = 0`). -/
theorem C17_debounce_commits_after_limit (s : InDrv) (pins : Nat → Bool × Bool) :
    (s.mstr.blocked = 0 → s.mstr.dbnc_timer = 0 → s.mstr_cfg.dbnc_limit ≤ 254 →
      ((∀ j, j ≤ s.mstr_cfg.dbnc_limit → pinLevel (pins j).1 ≠ s.mstr.level) →
        (readAllRun s pins (s.mstr_cfg.dbnc_limit + 1)).mstr.level =
          pinLevel (pins s.mstr_cfg.dbnc_limit).1 ∧
        (readAllRun s pins (s.mstr_cfg.dbnc_limit + 1)).mstr.changed = 1 ∧
        ∀ k, k ≤ s.mstr_cfg.dbnc_limit →
          (readAllRun s pins k).mstr.level = s.mstr.level ∧
          (readAllRun s pins k).mstr.changed = s.mstr.changed) ∧
      (∀ k, k ≤ s.mstr_cfg.dbnc_limit →
        (∀ j, j < k → pinLevel (pins j).1 ≠ s.mstr.level) →
        pinLevel (pins k).1 = s.mstr.level →
        (readAllRun s pins (k + 1)).mstr.level = s.mstr.level ∧
        (readAllRun s pins (k + 1)).mstr.changed = s.mstr.changed ∧
        (readAllRun s pins (k + 1)).mstr.dbnc_timer = 0)) ∧
    (s.kill.blocked = 0 → s.kill.dbnc_timer = 0 → s.kill_cfg.dbnc_limit ≤ 254 →
      ((∀ j, j ≤ s.kill_cfg.dbnc_limit → pinLevel (pins j).2 ≠ s.kill.level) →
        (readAllRun s pins (s.kill_cfg.dbnc_limit + 1)).kill.level =
          pinLevel (pins s.kill_cfg.dbnc_limit).2 ∧
        (readAllRun s pins (s.kill_cfg.dbnc_limit + 1)).kill.changed = 1 ∧
        ∀ k, k ≤ s.kill_cfg.dbnc_limit →
          (readAllRun s pins k).kill.level = s.kill.level ∧
          (readAllRun s pins k).kill.changed = s.kill.changed) ∧
      (∀ k, k ≤ s.kill_cfg.dbnc_limit →
        (∀ j, j < k → pinLevel (pins j).2 ≠ s.kill.level) →
        pinLevel (pins k).2 = s.kill.level →
        (readAllRun s pins (k + 1)).kill.level = s.kill.level ∧
        (readAllRun s pins (k + 1)).kill.changed = s.kill.changed ∧
        (readAllRun s pins (k + 1)).kill.dbnc_timer = 0)) := by
  refine ⟨fun hb ht hL => ⟨fun hd => ⟨?_, ?_, fun k hk => ?_⟩, fun k hk hd he => ?_⟩,
    fun hb ht hL => ⟨fun hd => ⟨?_, ?_, fun k hk => ?_⟩, fun k hk hd he => ?_⟩⟩
  · rw [readAllRun_mstr_commit s pins hb ht hL hd]
  · rw [readAllRun_mstr_commit s pins hb ht hL hd]
  · rw [readAllRun_mstr_level_le s pins hb ht hL k hk (fun j hj => hd j (by omega))]
    exact ⟨rfl, rfl⟩
  · rw [readAllRun_mstr_revert s pins hb ht hL k hk hd he]
    exact ⟨rfl, rfl, ht⟩
  · rw [readAllRun_kill_commit s pins hb ht hL hd]
  · rw [readAllRun_kill_commit s pins hb ht hL hd]
  · rw [readAllRun_kill_level_le s pins hb ht hL k hk (fun j hj => hd j (by omega))]
    exact ⟨rfl, rfl⟩
  · rw [readAllRun_kill_revert s pins hb ht hL k hk hd he]
    exact ⟨rfl, rfl, ht⟩

/-- Witness of C17 with `L = 10` on the master channel of `exIn` (level 1): 11
low samples commit level 0 with `changed = 1`, the level still being 1 after 10
of them; 9 low samples followed by a high one leave `level = 1`, `changed = 0`
and `dbnc_timer = 0`. -/
theorem C17_witness :
    exIn.mstr.blocked = 0 ∧ exIn.mstr.dbnc_timer = 0 ∧ exIn.mstr_cfg.dbnc_limit = 10 ∧
    exIn.mstr.level = 1 ∧ exIn.mstr.changed = 0 ∧
    ((readAllRun exIn pinsLow 11).mstr.level = 0 ∧
     (readAllRun exIn pinsLow 11).mstr.changed = 1 ∧
     (readAllRun exIn pinsLow 10).mstr.level = 1) ∧
    ((readAllRun exIn pinsGlitch 10).mstr.level = 1 ∧
     (readAllRun exIn pinsGlitch 10).mstr.changed = 0 ∧
     (readAllRun exIn pinsGlitch 10).mstr.dbnc_timer = 0) :=
  have c := ((C17_debounce_commits_after_limit exIn pinsLow).1 rfl rfl (by decide)).1
    (fun j _ => by
      have h : pinsLow j = (false, false) := rfl
      rw [h]; decide)
  have r := ((C17_debounce_commits_after_limit exIn pinsGlitch).1 rfl rfl (by decide)).2 9
    (by decide) (fun j hj => by
      have h : pinsGlitch j = (false, false) := by simp [pinsGlitch]; omega
      rw [h]; decide)
    (by decide)
  ⟨rfl, rfl, rfl, rfl, rfl, ⟨c.1, c.2.1, (c.2.2 10 (by decide)).1⟩, r⟩
theorem sleepWake_mstr (s : InDrv) :
    (INDRV_Wake (INDRV_Sleep s IN_MASTER) IN_MASTER).mstr = inactiveState s.mstr_cfg 0 ∧
    (INDRV_Wake (INDRV_Sleep s IN_MASTER) IN_MASTER).mstr_cfg = s.mstr_cfg := by
  simp only [INDRV_Wake, INDRV_Sleep, HAL_SetMasterPull, if_true]
  split_ifs <;> exact ⟨rfl, rfl⟩

theorem sleepWake_kill (s : InDrv) :
    (INDRV_Wake (INDRV_Sleep s IN_KILL) IN_KILL).kill = inactiveState s.kill_cfg 0 ∧
    (INDRV_Wake (INDRV_Sleep s IN_KILL) IN_KILL).kill_cfg = s.kill_cfg := by
  have h : ¬ (IN_KILL = IN_MASTER) := by decide
  simp only [INDRV_Wake, INDRV_Sleep, HAL_SetKillPull, if_neg h, if_true]
  split_ifs <;> exact ⟨rfl, rfl⟩

/-- The first sample of a channel whose timer is 0 cannot commit when the limit
is at least 1. -/
theorem readChannel_first (cfg : inCfgDef) (st : inStateDef) (raw : Nat)
    (ht : st.dbnc_timer = 0) (hL : 1 ≤ cfg.dbnc_limit) :
    (readChannel cfg st raw).level = st.level ∧ (readChannel cfg st raw).changed = st.changed := by
  unfold readChannel
  simp only [ht]
  split_ifs with h1 h2 h3 h4 h5 <;> first | exact ⟨rfl, rfl⟩ | (exfalso; simp only [] at *; omega)

theorem InReach.blocked_inactive (s : InDrv) (h : InReach s) :
    (s.mstr.blocked ≠ 0 → s.mstr.level = inactiveLevel s.mstr_cfg) ∧
    (s.kill.blocked ≠ 0 → s.kill.level = inactiveLevel s.kill_cfg) := by
  induction h with
  | init c1 c2 =>
    simp only [INDRV_Init, HAL_SetKillPull, HAL_SetMasterPull, inactiveState]
    split_ifs <;> exact ⟨fun h => (h rfl).elim, fun h => (h rfl).elim⟩
  | readAll s p2 p3 _ ih =>
    refine ⟨fun hb => ?_, fun hb => ?_⟩
    · have hb' : s.mstr.blocked ≠ 0 := by
        rw [← readChannel_blocked s.mstr_cfg s.mstr (if p2 then 1 else 0)]; exact hb
      show (readChannel s.mstr_cfg s.mstr _).level = _
      rw [readChannel_of_blocked _ _ _ hb']; exact ih.1 hb'
    · have hb' : s.kill.blocked ≠ 0 := by
        rw [← readChannel_blocked s.kill_cfg s.kill (if p3 then 1 else 0)]; exact hb
      show (readChannel s.kill_cfg s.kill _).level = _
      rw [readChannel_of_blocked _ _ _ hb']; exact ih.2 hb'
  | sleep s ch _ ih =>
    simp only [INDRV_Sleep, HAL_SetKillPull, HAL_SetMasterPull]
    split_ifs <;> first | exact ih | exact ⟨fun _ => rfl, ih.2⟩ | exact ⟨ih.1, fun _ => rfl⟩
  | wake s ch _ ih =>
    simp only [INDRV_Wake, HAL_SetKillPull, HAL_SetMasterPull]
    split_ifs <;> first | exact ih | exact ⟨fun _ => rfl, ih.2⟩ | exact ⟨ih.1, fun _ => rfl⟩
  | resetChange s ch _ ih =>
    simp only [INDRV_ResetInputChange]
    split_ifs <;> exact ih

/-- C18: in every state of the inputs driver reachable from `INDRV_Init` by
`INDRV_ReadAll`, `INDRV_Sleep`, `INDRV_Wake` and `INDRV_ResetInputChange`, a
channel (master, kill) whose `blocked` is set has `level` at the configured
inactive level, is left unchanged by `INDRV_ReadAll` whatever the pins read,
and is reported 0 by `INDRV_GetInput`; and `INDRV_GetInput` returns 1 iff the
channel is not blocked and `level = act_level`, and 0 otherwise. -/
theorem C18_blocked_channel_is_inactive (s : InDrv) (h : InReach s) :
    (s.mstr.blocked ≠ 0 →
      s.mstr.level = inactiveLevel s.mstr_cfg ∧
      (∀ pind2 pind3, (INDRV_ReadAll s pind2 pind3).mstr = s.mstr) ∧
      INDRV_GetInput s IN_MASTER = 0) ∧
    (s.kill.blocked ≠ 0 →
      s.kill.level = inactiveLevel s.kill_cfg ∧
      (∀ pind2 pind3, (INDRV_ReadAll s pind2 pind3).kill = s.kill) ∧
      INDRV_GetInput s IN_KILL = 0) ∧
    (INDRV_GetInput s IN_MASTER = 1 ↔
      s.mstr.blocked = 0 ∧ s.mstr.level = s.mstr_cfg.act_level) ∧
    (INDRV_GetInput s IN_KILL = 1 ↔
      s.kill.blocked = 0 ∧ s.kill.level = s.kill_cfg.act_level) ∧
    (∀ ch, INDRV_GetInput s ch = 0 ∨ INDRV_GetInput s ch = 1) := by
  have hk : ¬ (IN_KILL = 1) := by decide
  refine ⟨fun hb => ⟨(InReach.blocked_inactive s h).1 hb,
      fun _ _ => readChannel_of_blocked _ _ _ hb, ?_⟩,
    fun hb => ⟨(InReach.blocked_inactive s h).2 hb,
      fun _ _ => readChannel_of_blocked _ _ _ hb, ?_⟩, ?_, ?_, fun ch => ?_⟩
  · simp only [INDRV_GetInput, if_true]
    rw [if_neg (fun h => hb h.1)]
  · simp only [INDRV_GetInput, if_neg hk, if_true]
    rw [if_neg (fun h => hb h.1)]
  · simp only [INDRV_GetInput, if_true]
    split_ifs with h1 <;> simp [h1]
  · simp only [INDRV_GetInput, if_neg hk, if_true]
    split_ifs with h1 <;> simp [h1]
  · simp only [INDRV_GetInput]
    split_ifs <;> simp

/-- Witness of C18: the driver after `INDRV_Init` and `INDRV_Sleep(IN_KILL)`;
the kill channel is blocked, at level 1 (inactive for an active-low input). -/
theorem C18_witness :
    (INDRV_Sleep exIn IN_KILL).kill.blocked ≠ 0 ∧
    (INDRV_Sleep exIn IN_KILL).kill.level = 1 ∧
    (∀ pind2 pind3, (INDRV_ReadAll (INDRV_Sleep exIn IN_KILL) pind2 pind3).kill =
      (INDRV_Sleep exIn IN_KILL).kill) ∧
    INDRV_GetInput (INDRV_Sleep exIn IN_KILL) IN_KILL = 0 :=
  have r : InReach (INDRV_Sleep exIn IN_KILL) :=
    InReach.sleep exIn IN_KILL (InReach.init exMstrCfg exMstrCfg)
  have c := (C18_blocked_channel_is_inactive (INDRV_Sleep exIn IN_KILL) r).2.1 (by decide)
  ⟨by decide, c.1, c.2.1, c.2.2⟩

/-- C19: `INDRV_Sleep` followed by `INDRV_Wake` on a channel (master, kill), from
any driver state, gives `blocked = 0`, `changed = 0` and `dbnc_timer = 0`; and
when the channel's debounce limit is at least 1, the first `INDRV_ReadAll`
after the wake leaves `changed` at 0 and `level` as the wake left it, whatever
the pins read. -/
theorem C19_sleep_wake_clears_debounce (s : InDrv) (pind2 pind3 : Bool) :
    ((INDRV_Wake (INDRV_Sleep s IN_MASTER) IN_MASTER).mstr.blocked = 0 ∧
     (INDRV_Wake (INDRV_Sleep s IN_MASTER) IN_MASTER).mstr.changed = 0 ∧
     (INDRV_Wake (INDRV_Sleep s IN_MASTER) IN_MASTER).mstr.dbnc_timer = 0 ∧
     (1 ≤ s.mstr_cfg.dbnc_limit →
       (INDRV_ReadAll (INDRV_Wake (INDRV_Sleep s IN_MASTER) IN_MASTER) pind2 pind3).mstr.changed
         = 0 ∧
       (INDRV_ReadAll (INDRV_Wake (INDRV_Sleep s IN_MASTER) IN_MASTER) pind2 pind3).mstr.level
         = (INDRV_Wake (INDRV_Sleep s IN_MASTER) IN_MASTER).mstr.level)) ∧
    ((INDRV_Wake (INDRV_Sleep s IN_KILL) IN_KILL).kill.blocked = 0 ∧
     (INDRV_Wake (INDRV_Sleep s IN_KILL) IN_KILL).kill.changed = 0 ∧
     (INDRV_Wake (INDRV_Sleep s IN_KILL) IN_KILL).kill.dbnc_timer = 0 ∧
     (1 ≤ s.kill_cfg.dbnc_limit →
       (INDRV_ReadAll (INDRV_Wake (INDRV_Sleep s IN_KILL) IN_KILL) pind2 pind3).kill.changed
         = 0 ∧
       (INDRV_ReadAll (INDRV_Wake (INDRV_Sleep s IN_KILL) IN_KILL) pind2 pind3).kill.level
         = (INDRV_Wake (INDRV_Sleep s IN_KILL) IN_KILL).kill.level)) := by
  obtain ⟨m1, m2⟩ := sleepWake_mstr s
  obtain ⟨k1, k2⟩ := sleepWake_kill s
  refine ⟨⟨by rw [m1]; rfl, by rw [m1]; rfl, by rw [m1]; rfl, fun hL => ?_⟩,
    ⟨by rw [k1]; rfl, by rw [k1]; rfl, by rw [k1]; rfl, fun hL => ?_⟩⟩
  · have h := readChannel_first (INDRV_Wake (INDRV_Sleep s IN_MASTER) IN_MASTER).mstr_cfg
      (INDRV_Wake (INDRV_Sleep s IN_MASTER) IN_MASTER).mstr (if pind2 then 1 else 0)
      (by rw [m1]; rfl) (by rw [m2]; exact hL)
    refine ⟨h.2.trans ?_, h.1⟩
    rw [m1]; rfl
  · have h := readChannel_first (INDRV_Wake (INDRV_Sleep s IN_KILL) IN_KILL).kill_cfg
      (INDRV_Wake (INDRV_Sleep s IN_KILL) IN_KILL).kill (if pind3 then 1 else 0)
      (by rw [k1]; rfl) (by rw [k2]; exact hL)
    refine ⟨h.2.trans ?_, h.1⟩
    rw [k1]; rfl

/-- Witness of C19: the master channel of `exInMid` (level 0, `changed = 1`,
`dbnc_timer = 9`, limit 10) read low after sleep and wake. -/
theorem C19_witness :
    exInMid.mstr.dbnc_timer = 9 ∧ exInMid.mstr.changed = 1 ∧
    (INDRV_Wake (INDRV_Sleep exInMid IN_MASTER) IN_MASTER).mstr.dbnc_timer = 0 ∧
    (INDRV_ReadAll (INDRV_Wake (INDRV_Sleep exInMid IN_MASTER) IN_MASTER) false false).mstr.changed
      = 0 ∧
    (INDRV_ReadAll (INDRV_Wake (INDRV_Sleep exInMid IN_MASTER) IN_MASTER) false false).mstr.level
      = (INDRV_Wake (INDRV_Sleep exInMid IN_MASTER) IN_MASTER).mstr.level :=
  have c := (C19_sleep_wake_clears_debounce exInMid false false).1
  have d := c.2.2.2 (by decide)
  ⟨rfl, rfl, c.2.2.1, d.1, d.2⟩
/-- C20, counterexample: the master channel of `exInActive` is unblocked and its
latched level 0 agrees with a pin that reads low, yet after `INDRV_Sleep`
and `INDRV_Wake` the level is 1, and it is still 1 after the first post-wake
sample of that same low pin. -/
theorem C20_counterexample :
    exInActive.mstr.blocked = 0 ∧
    exInActive.mstr.level = pinLevel false ∧
    (INDRV_Wake (INDRV_Sleep exInActive IN_MASTER) IN_MASTER).mstr.level
      ≠ exInActive.mstr.level ∧
    (INDRV_ReadAll (INDRV_Wake (INDRV_Sleep exInActive IN_MASTER) IN_MASTER) false false).mstr.level
      ≠ exInActive.mstr.level := by
  decide

/-- C20, amended: `INDRV_Sleep` followed by `INDRV_Wake` leaves the level of the
channel (master, kill) at the configured inactive level. Hence a pre-sleep
level equal to the inactive level is restored, also after the first post-wake
sample of a pin that agrees with it; a pre-sleep level different from the
inactive level is not restored by the wake: with a pin that keeps agreeing with
the pre-sleep level and a limit `L ≤ 254`, the level stays inactive through the
first `L` post-wake samples and is latched again by the `(L+1)`-th. -/
theorem C20_wake_sets_inactive_level (s : InDrv) (pins : Nat → Bool × Bool) :
    ((INDRV_Wake (INDRV_Sleep s IN_MASTER) IN_MASTER).mstr.level = inactiveLevel s.mstr_cfg ∧
     (s.mstr.level = inactiveLevel s.mstr_cfg → pinLevel (pins 0).1 = s.mstr.level →
       (readAllRun (INDRV_Wake (INDRV_Sleep s IN_MASTER) IN_MASTER) pins 1).mstr.level
         = s.mstr.level) ∧
     (s.mstr.level ≠ inactiveLevel s.mstr_cfg → s.mstr_cfg.dbnc_limit ≤ 254 →
       (∀ j, j ≤ s.mstr_cfg.dbnc_limit → pinLevel (pins j).1 = s.mstr.level) →
       (∀ k, k ≤ s.mstr_cfg.dbnc_limit →
         (readAllRun (INDRV_Wake (INDRV_Sleep s IN_MASTER) IN_MASTER) pins k).mstr.level
           = inactiveLevel s.mstr_cfg) ∧
       (readAllRun (INDRV_Wake (INDRV_Sleep s IN_MASTER) IN_MASTER) pins
         (s.mstr_cfg.dbnc_limit + 1)).mstr.level = s.mstr.level)) ∧
    ((INDRV_Wake (INDRV_Sleep s IN_KILL) IN_KILL).kill.level = inactiveLevel s.kill_cfg ∧
     (s.kill.level = inactiveLevel s.kill_cfg → pinLevel (pins 0).2 = s.kill.level →
       (readAllRun (INDRV_Wake (INDRV_Sleep s IN_KILL) IN_KILL) pins 1).kill.level
         = s.kill.level) ∧
     (s.kill.level ≠ inactiveLevel s.kill_cfg → s.kill_cfg.dbnc_limit ≤ 254 →
       (∀ j, j ≤ s.kill_cfg.dbnc_limit → pinLevel (pins j).2 = s.kill.level) →
       (∀ k, k ≤ s.kill_cfg.dbnc_limit →
         (readAllRun (INDRV_Wake (INDRV_Sleep s IN_KILL) IN_KILL) pins k).kill.level
           = inactiveLevel s.kill_cfg) ∧
       (readAllRun (INDRV_Wake (INDRV_Sleep s IN_KILL) IN_KILL) pins
         (s.kill_cfg.dbnc_limit + 1)).kill.level = s.kill.level)) := by
  obtain ⟨m1, m2⟩ := sleepWake_mstr s
  obtain ⟨k1, k2⟩ := sleepWake_kill s
  have mb : (INDRV_Wake (INDRV_Sleep s IN_MASTER) IN_MASTER).mstr.blocked = 0 := by rw [m1]; rfl
  have mt : (INDRV_Wake (INDRV_Sleep s IN_MASTER) IN_MASTER).mstr.dbnc_timer = 0 := by
    rw [m1]; rfl
  have ml : (INDRV_Wake (INDRV_Sleep s IN_MASTER) IN_MASTER).mstr.level
      = inactiveLevel s.mstr_cfg := by rw [m1]; rfl
  have kb : (INDRV_Wake (INDRV_Sleep s IN_KILL) IN_KILL).kill.blocked = 0 := by rw [k1]; rfl
  have kt : (INDRV_Wake (INDRV_Sleep s IN_KILL) IN_KILL).kill.dbnc_timer = 0 := by rw [k1]; rfl
  have kl : (INDRV_Wake (INDRV_Sleep s IN_KILL) IN_KILL).kill.level
      = inactiveLevel s.kill_cfg := by rw [k1]; rfl
  refine ⟨⟨ml, fun hv hp => ?_, fun hv hL hp => ⟨fun k hk => ?_, ?_⟩⟩,
    ⟨kl, fun hv hp => ?_, fun hv hL hp => ⟨fun k hk => ?_, ?_⟩⟩⟩
  · rw [(readAllRun_channels _ pins 1).1, readChannelRun, readChannelRun,
      readChannel_pinLevel _ _ _ mb, if_neg (by rw [ml, hp, hv]; simp)]
    split_ifs
    · exact hp
    · exact ml.trans hv.symm
  · rw [readAllRun_mstr_level_le _ pins mb mt (by rw [m2]; exact hL) k (by rw [m2]; exact hk)
      (fun j hj => by rw [ml, hp j (by omega)]; exact hv)]
    exact ml
  · have h := readAllRun_mstr_commit _ pins mb mt (by rw [m2]; exact hL)
      (fun j hj => by rw [ml, hp j (by rw [m2] at hj; exact hj)]; exact hv)
    rw [m2] at h
    rw [h]
    exact hp _ (le_refl _)
  · rw [(readAllRun_channels _ pins 1).2.1, readChannelRun, readChannelRun,
      readChannel_pinLevel _ _ _ kb, if_neg (by rw [kl, hp, hv]; simp)]
    split_ifs
    · exact hp
    · exact kl.trans hv.symm
  · rw [readAllRun_kill_level_le _ pins kb kt (by rw [k2]; exact hL) k (by rw [k2]; exact hk)
      (fun j hj => by rw [kl, hp j (by omega)]; exact hv)]
    exact kl
  · have h := readAllRun_kill_commit _ pins kb kt (by rw [k2]; exact hL)
      (fun j hj => by rw [kl, hp j (by rw [k2] at hj; exact hj)]; exact hv)
    rw [k2] at h
    rw [h]
    exact hp _ (le_refl _)

/-- Witness of the amended C20 on the master channel: from `exInActive` (level
0, active) with the pin low, the wake leaves level 1, 10 samples later it is
still 1 and the 11th sample latches 0 again; from `exIn` (level 1, inactive)
with the pin high, the level is 1 after the wake and after the first sample. -/
theorem C20_witness :
    ((INDRV_Wake (INDRV_Sleep exInActive IN_MASTER) IN_MASTER).mstr.level = 1 ∧
     (readAllRun (INDRV_Wake (INDRV_Sleep exInActive IN_MASTER) IN_MASTER) pinsLow 10).mstr.level
       = 1 ∧
     (readAllRun (INDRV_Wake (INDRV_Sleep exInActive IN_MASTER) IN_MASTER) pinsLow 11).mstr.level
       = 0) ∧
    ((INDRV_Wake (INDRV_Sleep exIn IN_MASTER) IN_MASTER).mstr.level = 1 ∧
     (readAllRun (INDRV_Wake (INDRV_Sleep exIn IN_MASTER) IN_MASTER) pinsHigh 1).mstr.level
       = 1) :=
  have a := (C20_wake_sets_inactive_level exInActive pinsLow).1
  have b := a.2.2 (by decide) (by decide) (fun _ _ => rfl)
  have c := (C20_wake_sets_inactive_level exIn pinsHigh).1
  ⟨⟨a.1, b.1 10 (by decide), b.2⟩, ⟨c.1, c.2.1 rfl rfl⟩⟩

theorem loopControl_tickEscalated (s : Sys) (a : Sample) :
    loopControl s a = loopStateMachine (tickEscalated s a) := rfl

set_option maxRecDepth 100000 in
theorem exStartupWait_run :
    mainLoopRun (mainInit 15 (List.replicate 100 smpOff))
      (List.replicate 12 smpOn ++ List.replicate 10 smpOff) = exStartupWait := by
  rw [mainLoopRun_append, mainInit_example,
    show (12 : Nat) = 10 + (1 + 1) from rfl,
    mainLoopRun_add, run_debounce,
    mainLoopRun_add, mainLoopRun_one, mainLoopRun_one, tick_master_on, tick_startup0]
  decide

theorem exStartupWait_reachable : Reachable exStartupWait := by
  rw [← exStartupWait_run]
  exact (Reachable.init 15 _ (List.length_replicate _ _)).run _

/-- C13, counterexample: at sub-steps 0 and 1 `Startup_Procedure` does not test
the switches. In the reachable state `exStartupWait` the tick that latches the
master switch inactive calls `Startup_Procedure` at sub-step 1 with
`master_act = 0`; the call returns STARTUP and leaves the step at 1. At
sub-step 0 (`exStartup0`, master inactive) the call returns STARTUP and
leaves the step at 1. -/
theorem C13_counterexample :
    Reachable exStartupWait ∧
    (tickEscalated exStartupWait smpOff).m.sys_state = STARTUP ∧
    (tickEscalated exStartupWait smpOff).m.startup_step = 1 ∧
    (tickEscalated exStartupWait smpOff).m.master_act = 0 ∧
    (Startup_Procedure (tickEscalated exStartupWait smpOff)).2 = STARTUP ∧
    (Startup_Procedure (tickEscalated exStartupWait smpOff)).1.m.startup_step = 1 ∧
    exStartup0.m.startup_step = 0 ∧ exStartup0.m.master_act = 0 ∧
    (Startup_Procedure exStartup0).2 = STARTUP ∧
    (Startup_Procedure exStartup0).1.m.startup_step = 1 :=
  ⟨exStartupWait_reachable, by decide, by decide, by decide, by decide, by decide,
    rfl, rfl, by decide, by decide⟩

/-- C13, amended: at sub-steps 2, 3 and 4 a call of `Startup_Procedure` made
while master is inactive or kill is active returns LOCKOUT and leaves the step
at 0. At sub-step 0 the call returns STARTUP and moves to sub-step 1, and at
sub-step 1 it returns STARTUP and counts the wait down or, the wait over,
moves to sub-step 2, whatever the switches read. -/
theorem C13_startup_abort_from_step_2 (s : Sys) :
    ((s.m.startup_step = 2 ∨ s.m.startup_step = 3 ∨ s.m.startup_step = 4) →
      (s.m.master_act = 0 ∨ s.m.kill_act ≠ 0) →
      (Startup_Procedure s).2 = LOCKOUT ∧ (Startup_Procedure s).1.m.startup_step = 0) ∧
    (s.m.startup_step = 0 →
      (Startup_Procedure s).2 = STARTUP ∧ (Startup_Procedure s).1.m.startup_step = 1) ∧
    (s.m.startup_step = 1 →
      (Startup_Procedure s).2 = STARTUP ∧
      (Startup_Procedure s).1.m.startup_step = (if s.m.startup_timeout ≠ 0 then 1 else 2)) := by
  refine ⟨fun hs ha => ?_, fun hs => ?_, fun hs => ?_⟩
  · rcases hs with hs | hs | hs
    · unfold Startup_Procedure
      rw [if_neg (by omega), if_neg (by omega), if_pos hs, if_pos ha]
      exact ⟨rfl, rfl⟩
    · have h3 : s.m.master_act = 0 ∨ s.m.kill_act ≠ 0 ∨ OUTDRV_GetFault s.out OUT_ISOL ≠ 0 := by
        tauto
      unfold Startup_Procedure
      rw [if_neg (by omega), if_neg (by omega), if_neg (by omega), if_pos hs, if_pos h3]
      exact ⟨rfl, rfl⟩
    · have h4 : s.m.master_act = 0 ∨ s.m.kill_act ≠ 0 ∨ OUTDRV_GetFault s.out OUT_ISOL ≠ 0 ∨
          OUTDRV_GetFault s.out OUT_IGNC ≠ 0 := by tauto
      unfold Startup_Procedure
      rw [if_neg (by omega), if_neg (by omega), if_neg (by omega), if_neg (by omega), if_pos hs,
        if_pos h4]
      exact ⟨rfl, rfl⟩
  · unfold Startup_Procedure
    rw [if_pos hs]
    exact ⟨rfl, rfl⟩
  · unfold Startup_Procedure
    rw [if_neg (by omega), if_pos hs]
    split_ifs
    · exact ⟨rfl, hs⟩
    · exact ⟨rfl, rfl⟩

/-- Witness of the amended C13: the state of the example run at sub-step 3 with
the master switch inactive (abort), and the states `exStartup0` and the
pre-switch state of `exStartupWait` at sub-steps 0 and 1. -/
theorem C13_witness :
    ((Startup_Procedure (exSys (exMain STARTUP 0 3 100 1 0 0) chOn chOff
        { level := 1, changed := 1, blocked := 0, dbnc_timer := 0 } 0 LED_SOLID true)).2 = LOCKOUT ∧
     (Startup_Procedure (exSys (exMain STARTUP 0 3 100 1 0 0) chOn chOff
        { level := 1, changed := 1, blocked := 0, dbnc_timer := 0 } 0 LED_SOLID true)).1.m.startup_step
        = 0) ∧
    ((Startup_Procedure exStartup0).2 = STARTUP ∧
     (Startup_Procedure exStartup0).1.m.startup_step = 1) :=
  ⟨(C13_startup_abort_from_step_2 _).1 (Or.inr (Or.inl rfl)) (Or.inl rfl),
   (C13_startup_abort_from_step_2 exStartup0).2.1 rfl⟩

/-! ## Kill_Procedure, call by call -/

theorem Kill_Procedure_step0 (s : Sys) (h : s.m.kill_step = 0) :
    (Kill_Procedure s).2 = KILLING ∧ (Kill_Procedure s).1.m.kill_step = 1 ∧
    (Kill_Procedure s).1.m.kill_timeout = 100 ∧
    (Kill_Procedure s).1.out.igncState.target = 0 ∧
    (Kill_Procedure s).1.out.isolState = s.out.isolState := by
  unfold Kill_Procedure
  rw [if_pos h]
  refine ⟨rfl, rfl, ?_, rfl, rfl⟩
  show (if s.m.kill_act ≠ 0 then KILL_DELAY_EXTERNAL else KILL_DELAY_MASTER) = 100
  split_ifs <;> rfl

theorem Kill_Procedure_step1 (s : Sys) (h : s.m.kill_step = 1) (ht : s.m.kill_timeout ≤ 100) :
    (Kill_Procedure s).2 = KILLING ∧ (Kill_Procedure s).1.out = s.out ∧
    ((Kill_Procedure s).1.m.kill_step = 2 ∨
     ((Kill_Procedure s).1.m.kill_step = 1 ∧ s.m.kill_timeout ≠ 0 ∧
      (Kill_Procedure s).1.m.kill_timeout = s.m.kill_timeout - 1)) := by
  unfold Kill_Procedure
  rw [if_neg (by omega), if_pos h]
  have hc : ¬ (s.m.kill_timeout > KILL_DELAY_EXTERNAL ∧ s.m.kill_act ≠ 0) := fun hc => by
    have := hc.1
    simp only [KILL_DELAY_EXTERNAL] at this
    omega
  simp only [if_neg hc]
  split_ifs with h1 h2
  · exact ⟨trivial, rfl, Or.inl rfl⟩
  · exact ⟨trivial, rfl, Or.inr ⟨h, h1, rfl⟩⟩
  · exact ⟨trivial, rfl, Or.inl rfl⟩

theorem Kill_Procedure_step2 (s : Sys) (h : s.m.kill_step = 2) :
    (Kill_Procedure s).2 = KILLING ∧ (Kill_Procedure s).1.m.kill_step = 3 ∧
    (Kill_Procedure s).1.m.kill_timeout = 100 ∧
    (Kill_Procedure s).1.out.isolState.target = 0 ∧
    (Kill_Procedure s).1.out.igncState = s.out.igncState := by
  unfold Kill_Procedure
  rw [if_neg (by omega), if_neg (by omega), if_pos h]
  exact ⟨rfl, rfl, rfl, rfl, rfl⟩

theorem Kill_Procedure_step3_wait (s : Sys) (h : s.m.kill_step = 3) (ht : s.m.kill_timeout ≠ 0) :
    (Kill_Procedure s).2 = KILLING ∧ (Kill_Procedure s).1.m.kill_step = 3 ∧
    (Kill_Procedure s).1.m.kill_timeout = s.m.kill_timeout - 1 ∧
    (Kill_Procedure s).1.out = s.out := by
  unfold Kill_Procedure
  rw [if_neg (by omega), if_neg (by omega), if_neg (by omega), if_pos h, if_pos ht]
  exact ⟨rfl, h, rfl, rfl⟩

theorem Kill_Procedure_step3_end (s : Sys) (h : s.m.kill_step = 3) (ht : s.m.kill_timeout = 0) :
    (Kill_Procedure s).2 = LOCKOUT ∧ (Kill_Procedure s).1.m.kill_step = 0 ∧
    (Kill_Procedure s).1.out.isolState.target = s.out.isolState.target ∧
    (Kill_Procedure s).1.out.igncState.target = s.out.igncState.target ∧
    (Kill_Procedure s).1.out.isolState.en = 0 ∧
    (Kill_Procedure s).1.out.igncState.en = 0 := by
  unfold Kill_Procedure
  rw [if_neg (by omega), if_neg (by omega), if_neg (by omega), if_pos h,
    if_neg (by simp [ht])]
  exact ⟨rfl, rfl, rfl, rfl, rfl, rfl⟩

/-- The wait of sub-step 3: from a call at sub-step 3 with `timeout = t`, the
next `t` calls return KILLING and the one after them returns LOCKOUT. -/
theorem KillCalls_step3 (pre : Nat → Sys)
    (hF : ∀ n, KillFrame (Kill_Procedure (pre n)).1 (pre (n + 1))) (t : Nat) :
    ∀ i, (pre i).m.kill_step = 3 → (pre i).m.kill_timeout = t →
      (pre i).out.isolState.target = 0 → (pre i).out.igncState.target = 0 →
      (∀ k, k < t → (Kill_Procedure (pre (i + k))).2 = KILLING) ∧
      (Kill_Procedure (pre (i + t))).2 = LOCKOUT ∧
      (Kill_Procedure (pre (i + t))).1.m.kill_step = 0 ∧
      (Kill_Procedure (pre (i + t))).1.out.isolState.target = 0 ∧
      (Kill_Procedure (pre (i + t))).1.out.igncState.target = 0 ∧
      (Kill_Procedure (pre (i + t))).1.out.isolState.en = 0 ∧
      (Kill_Procedure (pre (i + t))).1.out.igncState.en = 0 := by
  induction t with
  | zero =>
    intro i hs ht h1 h2
    obtain ⟨a, b, c, d, e, f⟩ := Kill_Procedure_step3_end (pre i) hs ht
    exact ⟨fun k hk => absurd hk (Nat.not_lt_zero k), a, b, c.trans h1, d.trans h2, e, f⟩
  | succ t ih =>
    intro i hs ht h1 h2
    obtain ⟨a, b, c, d⟩ := Kill_Procedure_step3_wait (pre i) hs (by omega)
    obtain ⟨f1, f2, f3, f4⟩ := hF i
    have r := ih (i + 1) (f1.trans b) (by rw [f2, c, ht]; rfl)
      (by rw [f3, d]; exact h1) (by rw [f4, d]; exact h2)
    rw [show i + 1 + t = i + (t + 1) by omega] at r
    refine ⟨fun k hk => ?_, r.2⟩
    rcases Nat.eq_zero_or_pos k with h0 | h0
    · rw [h0]; exact a
    · have := r.1 (k - 1) (by omega)
      rwa [show i + 1 + (k - 1) = i + k by omega] at this

/-- The wait of sub-step 1: from a call at sub-step 1 with `timeout = t ≤ 100`,
some `j` calls (`1 ≤ j ≤ t + 1`) return KILLING and leave the outputs as they
are, and the call after them runs at sub-step 2. -/
theorem KillCalls_step1 (pre : Nat → Sys)
    (hF : ∀ n, KillFrame (Kill_Procedure (pre n)).1 (pre (n + 1))) (t : Nat) :
    ∀ i, (pre i).m.kill_step = 1 → (pre i).m.kill_timeout = t → t ≤ 100 →
      ∃ j, 1 ≤ j ∧ j ≤ t + 1 ∧
        (∀ k, k < j → (Kill_Procedure (pre (i + k))).2 = KILLING ∧
          (Kill_Procedure (pre (i + k))).1.out = (pre (i + k)).out ∧
          (pre (i + k)).m.kill_step = 1) ∧
        (pre (i + j)).m.kill_step = 2 ∧
        (pre (i + j)).out.isolState.target = (pre i).out.isolState.target ∧
        (pre (i + j)).out.igncState.target = (pre i).out.igncState.target := by
  induction t with
  | zero =>
    intro i hs ht _
    obtain ⟨a, b, c⟩ := Kill_Procedure_step1 (pre i) hs (by omega)
    obtain ⟨f1, _, f3, f4⟩ := hF i
    have c2 : (Kill_Procedure (pre i)).1.m.kill_step = 2 := by
      rcases c with c | c
      · exact c
      · exact absurd ht c.2.1
    refine ⟨1, le_refl _, by omega, fun k hk => ?_, f1.trans c2, by rw [f3, b], by rw [f4, b]⟩
    have hk0 : k = 0 := by omega
    rw [hk0]; exact ⟨a, b, hs⟩
  | succ t ih =>
    intro i hs ht hle
    obtain ⟨a, b, c⟩ := Kill_Procedure_step1 (pre i) hs (by omega)
    obtain ⟨f1, f2, f3, f4⟩ := hF i
    rcases c with c | c
    · refine ⟨1, le_refl _, by omega, fun k hk => ?_, f1.trans c, by rw [f3, b], by rw [f4, b]⟩
      have hk0 : k = 0 := by omega
      rw [hk0]; exact ⟨a, b, hs⟩
    · obtain ⟨j, j1, j2, j3, j4, j5, j6⟩ := ih (i + 1) (f1.trans c.1)
        (by rw [f2, c.2.2, ht]; rfl) (by omega)
      refine ⟨j + 1, by omega, by omega, fun k hk => ?_, ?_, ?_, ?_⟩
      · rcases Nat.eq_zero_or_pos k with h0 | h0
        · rw [h0]; exact ⟨a, b, hs⟩
        · have := j3 (k - 1) (by omega)
          rwa [show i + 1 + (k - 1) = i + k by omega] at this
      · rw [show i + (j + 1) = i + 1 + j by omega]; exact j4
      · rw [show i + (j + 1) = i + 1 + j by omega, j5, f3, b]
      · rw [show i + (j + 1) = i + 1 + j by omega, j6, f4, b]

/-- C11: in every sequence of calls of `Kill_Procedure` that starts at sub-step
0, whatever `master_act`, `kill_act` and `u_alt` are at each call, there is a
call `n` (counted from 0) with `n < 204` that returns LOCKOUT while every
earlier call returns KILLING. The first call leaves the ignition target at 0
and the isolator channel as it was; the isolator target is written by a call
`j + 1 ≥ 2` only (the call at sub-step 2 that follows the `j` calls of the
rundown wait), every call before it leaving the outputs' isolator state as it
was; and the call that returns LOCKOUT leaves both targets at 0, both
`en` at 0 and the sub-step at 0. -/
theorem C11_kill_reaches_lockout (pre : Nat → Sys) (h : KillCalls pre) :
    ∃ n j, n < 204 ∧ 1 ≤ j ∧ j + 1 < n ∧
      (Kill_Procedure (pre n)).2 = LOCKOUT ∧
      (∀ k, k < n → (Kill_Procedure (pre k)).2 = KILLING) ∧
      (Kill_Procedure (pre 0)).1.out.igncState.target = 0 ∧
      (∀ k, k ≤ j → (Kill_Procedure (pre k)).1.out.isolState = (pre k).out.isolState) ∧
      (Kill_Procedure (pre (j + 1))).1.out.isolState.target = 0 ∧
      (Kill_Procedure (pre n)).1.out.isolState.target = 0 ∧
      (Kill_Procedure (pre n)).1.out.igncState.target = 0 ∧
      (Kill_Procedure (pre n)).1.out.isolState.en = 0 ∧
      (Kill_Procedure (pre n)).1.out.igncState.en = 0 ∧
      (Kill_Procedure (pre n)).1.m.kill_step = 0 := by
  obtain ⟨h0, hF⟩ := h
  obtain ⟨a1, a2, a3, a4, a5⟩ := Kill_Procedure_step0 (pre 0) h0
  obtain ⟨f1, f2, f3, f4⟩ := hF 0
  obtain ⟨j, j1, j2, j3, j4, j5, j6⟩ := KillCalls_step1 pre hF 100 1 (f1.trans a2)
    (f2.trans a3) (le_refl _)
  rw [show 1 + j = j + 1 by omega] at j4 j5 j6
  obtain ⟨b1, b2, b3, b4, b5⟩ := Kill_Procedure_step2 (pre (j + 1)) j4
  obtain ⟨g1, g2, g3, g4⟩ := hF (j + 1)
  have hi : (pre (j + 1)).out.igncState.target = 0 := by rw [j6, f4, a4]
  obtain ⟨c1, c2, c3, c4, c5, c6, c7⟩ := KillCalls_step3 pre hF 100 (j + 1 + 1)
    (g1.trans b2) (g2.trans b3) (g3.trans b4) (by rw [g4, b5]; exact hi)
  refine ⟨j + 1 + 1 + 100, j, by omega, j1, by omega, c2, fun k hk => ?_, a4, fun k hk => ?_,
    b4, c4, c5, c6, c7, c3⟩
  · rcases Nat.eq_zero_or_pos k with k0 | k0
    · rw [k0]; exact a1
    · rcases Nat.lt_or_ge k (j + 1) with k1 | k1
      · have := (j3 (k - 1) (by omega)).1
        rwa [show 1 + (k - 1) = k by omega] at this
      · rcases Nat.eq_or_lt_of_le k1 with k2 | k2
        · rw [← k2]; exact b1
        · have := c1 (k - (j + 1 + 1)) (by omega)
          rwa [show j + 1 + 1 + (k - (j + 1 + 1)) = k by omega] at this
  · rcases Nat.eq_zero_or_pos k with k0 | k0
    · rw [k0]; exact a5
    · have := (j3 (k - 1) (by omega)).2.1
      rw [show 1 + (k - 1) = k by omega] at this
      rw [this]
/-- Witness of C11: back-to-back calls of `Kill_Procedure` from `exActive`
(sub-step 0, both outputs on, alternator voltage 12000 mV). -/
theorem C11_witness :
    KillCalls (killIter exActive) ∧
    ∃ n j, n < 204 ∧ 1 ≤ j ∧ j + 1 < n ∧
      (Kill_Procedure (killIter exActive n)).2 = LOCKOUT ∧
      (∀ k, k < n → (Kill_Procedure (killIter exActive k)).2 = KILLING) ∧
      (Kill_Procedure (killIter exActive 0)).1.out.igncState.target = 0 ∧
      (∀ k, k ≤ j → (Kill_Procedure (killIter exActive k)).1.out.isolState =
        (killIter exActive k).out.isolState) ∧
      (Kill_Procedure (killIter exActive (j + 1))).1.out.isolState.target = 0 ∧
      (Kill_Procedure (killIter exActive n)).1.out.isolState.target = 0 ∧
      (Kill_Procedure (killIter exActive n)).1.out.igncState.target = 0 ∧
      (Kill_Procedure (killIter exActive n)).1.out.isolState.en = 0 ∧
      (Kill_Procedure (killIter exActive n)).1.out.igncState.en = 0 ∧
      (Kill_Procedure (killIter exActive n)).1.m.kill_step = 0 :=
  have h : KillCalls (killIter exActive) := ⟨rfl, fun _ => ⟨rfl, rfl, rfl, rfl⟩⟩
  ⟨h, C11_kill_reaches_lockout (killIter exActive) h⟩

/-! ## Lockout_Procedure, call by call -/

theorem Lockout_Procedure_step0 (s : Sys) (h : s.m.lockout_step = 0) :
    (Lockout_Procedure s).2 = LOCKOUT ∧ (Lockout_Procedure s).1.m.lockout_step = 1 ∧
    (Lockout_Procedure s).1.m.lockout_timeout = LOCKOUT_TIMEOUT ∧
    (Lockout_Procedure s).1.out.isolState.target = 0 ∧
    (Lockout_Procedure s).1.out.igncState.target = 0 ∧
    (Lockout_Procedure s).1.out.isolState.en = 0 ∧
    (Lockout_Procedure s).1.out.igncState.en = 0 := by
  unfold Lockout_Procedure
  rw [if_pos h]
  exact ⟨rfl, rfl, rfl, rfl, rfl, rfl, rfl⟩

theorem Lockout_Procedure_master (s : Sys) (h : s.m.lockout_step ≠ 0)
    (hm : s.m.master_act ≠ 0) :
    (Lockout_Procedure s).2 = LOCKOUT ∧
    (Lockout_Procedure s).1.m.lockout_step = s.m.lockout_step ∧
    (Lockout_Procedure s).1.m.lockout_timeout = LOCKOUT_TIMEOUT := by
  unfold Lockout_Procedure
  rw [if_neg h]
  simp only
  split_ifs <;> exact ⟨rfl, rfl, rfl⟩

theorem Lockout_Procedure_wait (s : Sys) (h : s.m.lockout_step ≠ 0)
    (hm : s.m.master_act = 0) (ht : s.m.lockout_timeout ≠ 0) :
    (Lockout_Procedure s).2 = LOCKOUT ∧
    (Lockout_Procedure s).1.m.lockout_step = s.m.lockout_step ∧
    (Lockout_Procedure s).1.m.lockout_timeout = s.m.lockout_timeout - 1 := by
  unfold Lockout_Procedure
  rw [if_neg h]
  simp only
  split_ifs <;> first | exact ⟨rfl, rfl, rfl⟩ | exact absurd hm ‹_›

theorem Lockout_Procedure_end (s : Sys) (h : s.m.lockout_step ≠ 0)
    (hm : s.m.master_act = 0) (ht : s.m.lockout_timeout = 0) :
    (Lockout_Procedure s).2 = SLEEP ∧ (Lockout_Procedure s).1.m.lockout_step = 0 := by
  unfold Lockout_Procedure
  rw [if_neg h]
  simp only
  split_ifs <;> first | exact ⟨rfl, rfl⟩ | exact absurd hm ‹_› | exact absurd ht ‹_›

/-- A call that returns SLEEP runs past sub-step 0, with master inactive and
the dwell timeout at 0. -/
theorem Lockout_Procedure_sleep (s : Sys) (h : (Lockout_Procedure s).2 = SLEEP) :
    s.m.lockout_step ≠ 0 ∧ s.m.master_act = 0 ∧ s.m.lockout_timeout = 0 := by
  by_cases h0 : s.m.lockout_step = 0
  · rw [(Lockout_Procedure_step0 s h0).1] at h
    exact absurd h (by decide)
  · by_cases hm : s.m.master_act = 0
    · by_cases ht : s.m.lockout_timeout = 0
      · exact ⟨h0, hm, ht⟩
      · rw [(Lockout_Procedure_wait s h0 hm ht).1] at h
        exact absurd h (by decide)
    · rw [(Lockout_Procedure_master s h0 hm).1] at h
      exact absurd h (by decide)

/-- The dwell timeout counts the calls made with master inactive since it was
last armed: at a call `n` past sub-step 0 with `timeout = t`, the `5000 - t`
calls before it ran past sub-step 0 with master inactive. -/
theorem LockoutCalls_dwell (pre : Nat → Sys) (h : LockoutCalls pre) (n : Nat) :
    (pre n).m.lockout_step ≠ 0 →
      (pre n).m.lockout_timeout ≤ 5000 ∧
      ∀ k, n - (5000 - (pre n).m.lockout_timeout) ≤ k → k < n →
        (pre k).m.master_act = 0 ∧ (pre k).m.lockout_step ≠ 0 := by
  obtain ⟨h0, hF⟩ := h
  induction n with
  | zero => exact fun hs => absurd h0 hs
  | succ n ih =>
    intro hs
    obtain ⟨f1, f2⟩ := hF n
    rw [f2]
    by_cases s0 : (pre n).m.lockout_step = 0
    · obtain ⟨_, _, c, _⟩ := Lockout_Procedure_step0 (pre n) s0
      rw [c]
      exact ⟨le_refl _, fun k k1 k2 => by simp only [LOCKOUT_TIMEOUT] at k1; omega⟩
    · obtain ⟨i1, i2⟩ := ih s0
      by_cases hm : (pre n).m.master_act = 0
      · by_cases ht : (pre n).m.lockout_timeout = 0
        · rw [f1, (Lockout_Procedure_end (pre n) s0 hm ht).2] at hs
          exact absurd rfl hs
        · obtain ⟨_, _, c⟩ := Lockout_Procedure_wait (pre n) s0 hm ht
          rw [c]
          refine ⟨by omega, fun k k1 k2 => ?_⟩
          rcases Nat.eq_or_lt_of_le (Nat.lt_succ_iff.mp k2) with k3 | k3
          · rw [k3]; exact ⟨hm, s0⟩
          · exact i2 k (by omega) k3
      · obtain ⟨_, _, c⟩ := Lockout_Procedure_master (pre n) s0 hm
        rw [c]
        exact ⟨le_refl _, fun k k1 k2 => by simp only [LOCKOUT_TIMEOUT] at k1; omega⟩

/-- With master inactive on the calls `1 .. k`, call `k ≤ 5001` runs at
sub-step 1 with `timeout = 5001 - k`. -/
theorem LockoutCalls_countdown (pre : Nat → Sys) (h : LockoutCalls pre) (k : Nat) :
    1 ≤ k → k ≤ 5001 → (∀ i, 1 ≤ i → i < k → (pre i).m.master_act = 0) →
      (pre k).m.lockout_step = 1 ∧ (pre k).m.lockout_timeout = 5001 - k := by
  obtain ⟨h0, hF⟩ := h
  induction k with
  | zero => exact fun h1 => absurd h1 (by decide)
  | succ k ih =>
    intro _ h2 hm
    obtain ⟨f1, f2⟩ := hF k
    rcases Nat.eq_zero_or_pos k with k0 | k0
    · subst k0
      obtain ⟨_, b, c, _⟩ := Lockout_Procedure_step0 (pre 0) h0
      exact ⟨f1.trans b, f2.trans c⟩
    · obtain ⟨i1, i2⟩ := ih k0 (by omega) (fun i a b => hm i a (by omega))
      obtain ⟨_, b, c⟩ := Lockout_Procedure_wait (pre k) (by omega) (hm k k0 (by omega))
        (by omega)
      exact ⟨by rw [f1, b, i1], by rw [f2, c, i2]; omega⟩

/-- C16: in every sequence of calls of `Lockout_Procedure` that starts at
sub-step 0: a call made while master is active returns LOCKOUT and leaves the
dwell timeout at `LOCKOUT_TIMEOUT`; a call `n` that returns SLEEP is made with
master inactive, is preceded by more than `LOCKOUT_TIMEOUT` calls, and master
was inactive on each of the `LOCKOUT_TIMEOUT` calls before it; the first call
returns LOCKOUT and leaves both outputs with target 0 and `en = 0`; every call
returns LOCKOUT or SLEEP; and SLEEP is returned by call 5001 when master is
inactive on the calls 1 to 5001. -/
theorem C16_lockout_dwell (pre : Nat → Sys) (h : LockoutCalls pre) :
    (∀ n, (pre n).m.master_act ≠ 0 →
      (Lockout_Procedure (pre n)).2 = LOCKOUT ∧
      (Lockout_Procedure (pre n)).1.m.lockout_timeout = LOCKOUT_TIMEOUT) ∧
    (∀ n, (Lockout_Procedure (pre n)).2 = SLEEP →
      (pre n).m.master_act = 0 ∧ LOCKOUT_TIMEOUT < n ∧
      ∀ k, n - LOCKOUT_TIMEOUT ≤ k → k < n → (pre k).m.master_act = 0) ∧
    ((Lockout_Procedure (pre 0)).2 = LOCKOUT ∧
      (Lockout_Procedure (pre 0)).1.out.isolState.target = 0 ∧
      (Lockout_Procedure (pre 0)).1.out.igncState.target = 0 ∧
      (Lockout_Procedure (pre 0)).1.out.isolState.en = 0 ∧
      (Lockout_Procedure (pre 0)).1.out.igncState.en = 0) ∧
    (∀ n, (Lockout_Procedure (pre n)).2 = LOCKOUT ∨ (Lockout_Procedure (pre n)).2 = SLEEP) ∧
    ((∀ i, 1 ≤ i → i ≤ 5001 → (pre i).m.master_act = 0) →
      (Lockout_Procedure (pre 5001)).2 = SLEEP) := by
  refine ⟨fun n hm => ?_, fun n hs => ?_, ?_, fun n => ?_, fun hm => ?_⟩
  · by_cases s0 : (pre n).m.lockout_step = 0
    · obtain ⟨a, _, c, _⟩ := Lockout_Procedure_step0 (pre n) s0
      exact ⟨a, c⟩
    · obtain ⟨a, _, c⟩ := Lockout_Procedure_master (pre n) s0 hm
      exact ⟨a, c⟩
  · obtain ⟨s0, hm, ht⟩ := Lockout_Procedure_sleep (pre n) hs
    obtain ⟨_, d⟩ := LockoutCalls_dwell pre h n s0
    rw [ht] at d
    have hn : 5000 < n := by
      by_contra hc
      have n0 : 0 < n := by
        rcases Nat.eq_zero_or_pos n with n0 | n0
        · rw [n0] at s0; exact absurd h.1 s0
        · exact n0
      exact (d 0 (by omega) n0).2 h.1
    exact ⟨hm, hn, fun k k1 k2 => (d k k1 k2).1⟩
  · obtain ⟨a, _, _, d, e, f, g⟩ := Lockout_Procedure_step0 (pre 0) h.1
    exact ⟨a, d, e, f, g⟩
  · by_cases s0 : (pre n).m.lockout_step = 0
    · exact Or.inl (Lockout_Procedure_step0 (pre n) s0).1
    · by_cases hm : (pre n).m.master_act = 0
      · by_cases ht : (pre n).m.lockout_timeout = 0
        · exact Or.inr (Lockout_Procedure_end (pre n) s0 hm ht).1
        · exact Or.inl (Lockout_Procedure_wait (pre n) s0 hm ht).1
      · exact Or.inl (Lockout_Procedure_master (pre n) s0 hm).1
  · obtain ⟨a, b⟩ := LockoutCalls_countdown pre h 5001 (by decide) (le_refl _)
      (fun i i1 i2 => hm i i1 (by omega))
    exact (Lockout_Procedure_end (pre 5001) (by omega) (hm 5001 (by decide) (le_refl _))
      (by omega)).1

theorem lockoutIter_master_act (s : Sys) (n : Nat) :
    (lockoutIter s n).m.master_act = s.m.master_act := by
  induction n with
  | zero => rfl
  | succ n ih =>
    rw [lockoutIter, ← ih]
    generalize lockoutIter s n = q
    unfold Lockout_Procedure
    simp only
    split_ifs <;> rfl

/-- Witness of C16: back-to-back calls of `Lockout_Procedure` from `exLockout`
(both outputs on, master inactive): the first call switches both outputs off,
call 5001 returns SLEEP. -/
theorem C16_witness :
    LockoutCalls (lockoutIter exLockout) ∧
    ((Lockout_Procedure (lockoutIter exLockout 0)).2 = LOCKOUT ∧
      (Lockout_Procedure (lockoutIter exLockout 0)).1.out.isolState.target = 0 ∧
      (Lockout_Procedure (lockoutIter exLockout 0)).1.out.igncState.target = 0 ∧
      (Lockout_Procedure (lockoutIter exLockout 0)).1.out.isolState.en = 0 ∧
      (Lockout_Procedure (lockoutIter exLockout 0)).1.out.igncState.en = 0) ∧
    (Lockout_Procedure (lockoutIter exLockout 5001)).2 = SLEEP :=
  have h : LockoutCalls (lockoutIter exLockout) := ⟨rfl, fun _ => ⟨rfl, rfl⟩⟩
  have c := C16_lockout_dwell (lockoutIter exLockout) h
  ⟨h, c.2.2.1, c.2.2.2.2 (fun i _ _ => lockoutIter_master_act exLockout i)⟩

/-! ## The control part through the phases of a tick -/

theorem startupCtl_eq (s : Sys) :
    ctlOf (Startup_Procedure s).1 = (startupCtl (ctlOf s) s).1 ∧
    (Startup_Procedure s).2 = (startupCtl (ctlOf s) s).2 := by
  have e : (ctlOf s).startup_step = s.m.startup_step := rfl
  have t : (ctlOf s).startup_timeout = s.m.startup_timeout := rfl
  unfold Startup_Procedure startupCtl
  rw [e, t]
  by_cases h0 : s.m.startup_step = 0
  · rw [if_pos h0, if_pos h0]
    exact ⟨rfl, rfl⟩
  rw [if_neg h0, if_neg h0]
  by_cases h1 : s.m.startup_step = 1
  · rw [if_pos h1, if_pos h1]
    split_ifs <;> exact ⟨rfl, rfl⟩
  rw [if_neg h1, if_neg h1]
  by_cases h2 : s.m.startup_step = 2
  · rw [if_pos h2, if_pos h2]
    split_ifs <;> exact ⟨rfl, rfl⟩
  rw [if_neg h2, if_neg h2]
  by_cases h3 : s.m.startup_step = 3
  · rw [if_pos h3, if_pos h3]
    split_ifs <;> exact ⟨rfl, rfl⟩
  rw [if_neg h3, if_neg h3]
  by_cases h4 : s.m.startup_step = 4
  · rw [if_pos h4, if_pos h4]
    split_ifs <;> exact ⟨rfl, rfl⟩
  rw [if_neg h4, if_neg h4]
  exact ⟨rfl, rfl⟩

theorem killCtl_eq (s : Sys) :
    ctlOf (Kill_Procedure s).1 = (killCtl (ctlOf s) s).1 ∧
    (Kill_Procedure s).2 = (killCtl (ctlOf s) s).2 := by
  have e : (ctlOf s).kill_step = s.m.kill_step := rfl
  unfold Kill_Procedure killCtl
  rw [e]
  by_cases h0 : s.m.kill_step = 0
  · rw [if_pos h0, if_pos h0]
    exact ⟨rfl, rfl⟩
  rw [if_neg h0, if_neg h0]
  by_cases h1 : s.m.kill_step = 1
  · rw [if_pos h1, if_pos h1]
    refine ⟨?_, rfl⟩
    simp only
    split_ifs <;> rfl
  rw [if_neg h1, if_neg h1]
  by_cases h2 : s.m.kill_step = 2
  · rw [if_pos h2, if_pos h2]
    exact ⟨rfl, rfl⟩
  rw [if_neg h2, if_neg h2]
  by_cases h3 : s.m.kill_step = 3
  · rw [if_pos h3, if_pos h3]
    split_ifs <;> exact ⟨rfl, rfl⟩
  rw [if_neg h3, if_neg h3]
  exact ⟨rfl, rfl⟩

theorem lockoutCtl_eq (s : Sys) :
    ctlOf (Lockout_Procedure s).1 = (lockoutCtl (ctlOf s) s).1 ∧
    (Lockout_Procedure s).2 = (lockoutCtl (ctlOf s) s).2 := by
  unfold Lockout_Procedure lockoutCtl
  by_cases h0 : s.m.lockout_step = 0
  · rw [if_pos h0, if_pos h0]
    exact ⟨rfl, rfl⟩
  rw [if_neg h0, if_neg h0]
  simp only
  split_ifs <;> exact ⟨rfl, rfl⟩

theorem smCtl_eq (s : Sys) : ctlOf (loopStateMachine s) = smCtl (ctlOf s) s := by
  have e : (ctlOf s).sys_state = s.m.sys_state := rfl
  unfold loopStateMachine smCtl
  rw [e]
  by_cases h0 : s.m.sys_state = SLEEP
  · rw [if_pos h0, if_pos h0]
    split_ifs <;> rfl
  rw [if_neg h0, if_neg h0]
  by_cases h1 : s.m.sys_state = STARTUP
  · rw [if_pos h1, if_pos h1]
    show ({ ctlOf (Startup_Procedure s).1 with sys_state := (Startup_Procedure s).2 } : Ctl) = _
    rw [(startupCtl_eq s).1, (startupCtl_eq s).2]
  rw [if_neg h1, if_neg h1]
  by_cases h2 : s.m.sys_state = ACTIVE
  · rw [if_pos h2, if_pos h2]
    split_ifs <;> rfl
  rw [if_neg h2, if_neg h2]
  by_cases h3 : s.m.sys_state = KILLING
  · rw [if_pos h3, if_pos h3]
    show ({ ctlOf (Kill_Procedure s).1 with sys_state := (Kill_Procedure s).2 } : Ctl) = _
    rw [(killCtl_eq s).1, (killCtl_eq s).2]
  rw [if_neg h3, if_neg h3]
  by_cases h4 : s.m.sys_state = LOCKOUT
  · rw [if_pos h4, if_pos h4]
    show ({ ctlOf (Lockout_Procedure s).1 with sys_state := (Lockout_Procedure s).2 } : Ctl) = _
    rw [(lockoutCtl_eq s).1, (lockoutCtl_eq s).2]
  rw [if_neg h4, if_neg h4]
  rfl

theorem DataGathering_ctl (samples : List Sample) (s : Sys) :
    ctlOf (DataGathering s samples) = ctlOf s := by
  induction samples generalizing s with
  | nil => rfl
  | cons a l ih =>
    have h := ih (DataGatheringPass s a)
    simp only [DataGathering, List.foldl] at h ⊢
    rw [h]
    rfl

theorem ProcessProtection_ctl (d : OutDrv) (ub ui ua ug : Nat) :
    (OUTDRV_ProcessProtection d ub ui ua ug).isolState = d.isolState ∧
    (OUTDRV_ProcessProtection d ub ui ua ug).igncState = d.igncState ∧
    (OUTDRV_ProcessProtection d ub ui ua ug).isolProt.delay_exec = d.isolProt.delay_exec ∧
    (OUTDRV_ProcessProtection d ub ui ua ug).igncProt.delay_exec = d.igncProt.delay_exec ∧
    (OUTDRV_ProcessProtection d ub ui ua ug).PB0 = d.PB0 ∧
    (OUTDRV_ProcessProtection d ub ui ua ug).PB1 = d.PB1 ∧
    (OUTDRV_ProcessProtection d ub ui ua ug).PB6 = d.PB6 ∧
    (OUTDRV_ProcessProtection d ub ui ua ug).PB7 = d.PB7 := by
  refine ⟨rfl, rfl, ?_, ProcessProtection_ignc_delay d ub ui ua ug, rfl, rfl, rfl, rfl⟩
  simp only [OUTDRV_ProcessProtection, ProcessIgnitionProtection, ProcessIsolatorProtection,
    checkFault_delay_exec]
  rfl

theorem loopProtection_ctl (g : Sys) : ctlOf (loopProtection g) = ctlOf g := by
  obtain ⟨p1, p2, p3, p4, p5, p6, p7, p8⟩ := ProcessProtection_ctl g.out
    g.m.u_bat g.m.u_isol g.m.u_alt g.m.u_ignc
  have ho : (loopProtection g).out =
      OUTDRV_ProcessProtection g.out g.m.u_bat g.m.u_isol g.m.u_alt g.m.u_ignc := rfl
  have hm : (loopProtection g).m.sys_state = g.m.sys_state ∧
      (loopProtection g).m.startup_step = g.m.startup_step ∧
      (loopProtection g).m.startup_timeout = g.m.startup_timeout ∧
      (loopProtection g).m.kill_step = g.m.kill_step := by
    unfold loopProtection
    simp only
    split_ifs <;> exact ⟨rfl, rfl, rfl, rfl⟩
  unfold ctlOf
  rw [ho, p1, p2, p3, p4, p5, p6, p7, p8, hm.1, hm.2.1, hm.2.2.1, hm.2.2.2]

theorem tickProtected_ctl (s : Sys) (a : Sample) : ctlOf (tickProtected s a) = ctlOf s := by
  unfold tickProtected
  rw [loopProtection_ctl, DataGathering_ctl]

/-- The three escalation tests leave the control part as it is, or, from
ACTIVE, go to KILLING, the first of them arming a `delay_exec` of 2 on the
isolator. -/
theorem escalation_ctl (p : Sys) :
    ctlOf (loopFaultCount (loopRelayOCP (loopIsolFault p))) = ctlOf p ∨
    (p.m.sys_state = ACTIVE ∧
      (ctlOf (loopFaultCount (loopRelayOCP (loopIsolFault p))) =
          { ctlOf p with sys_state := KILLING } ∨
       ctlOf (loopFaultCount (loopRelayOCP (loopIsolFault p))) =
          { ctlOf p with sys_state := KILLING, isol_delay := 2 })) := by
  have o : ∀ q : Sys, ctlOf (loopRelayOCP q) = ctlOf q ∨
      (q.m.sys_state = ACTIVE ∧ ctlOf (loopRelayOCP q) = { ctlOf q with sys_state := KILLING }) := by
    intro q
    obtain ⟨f, cd, h⟩ := IsolatorOCP_fst q.m
    have hm : (IsolatorOCP q.m).1.sys_state = q.m.sys_state ∧
        (IsolatorOCP q.m).1.startup_step = q.m.startup_step ∧
        (IsolatorOCP q.m).1.startup_timeout = q.m.startup_timeout ∧
        (IsolatorOCP q.m).1.kill_step = q.m.kill_step := by
      rw [h]; exact ⟨rfl, rfl, rfl, rfl⟩
    obtain ⟨e1, e2, e3, e4⟩ := hm
    clear h
    unfold loopRelayOCP
    simp only []
    generalize IsolatorOCP q.m = r at e1 e2 e3 e4 ⊢
    by_cases c : r.2 ≠ 0 ∧ r.1.relay_ocp_en ≠ 0 ∧ r.1.sys_state = ACTIVE
    · rw [if_pos c]
      refine Or.inr ⟨by rw [← e1]; exact c.2.2, ?_⟩
      unfold ctlOf
      simp only [e2, e3, e4]
    · rw [if_neg c]
      refine Or.inl ?_
      unfold ctlOf
      simp only [e1, e2, e3, e4]
  have fc : ∀ q : Sys, ctlOf (loopFaultCount q) = ctlOf q ∨
      (q.m.sys_state = ACTIVE ∧ ctlOf (loopFaultCount q) = { ctlOf q with sys_state := KILLING }) := by
    intro q
    unfold loopFaultCount
    split_ifs with c
    · exact Or.inr ⟨c.2, rfl⟩
    · exact Or.inl rfl
  have i : ctlOf (loopIsolFault p) = ctlOf p ∨
      (p.m.sys_state = ACTIVE ∧
        ctlOf (loopIsolFault p) = { ctlOf p with sys_state := KILLING, isol_delay := 2 }) := by
    unfold loopIsolFault
    split_ifs with c
    · exact Or.inr ⟨c.2, rfl⟩
    · exact Or.inl rfl
  have es : ∀ q : Sys, (ctlOf q).sys_state = q.m.sys_state := fun _ => rfl
  rcases i with i | ⟨ia, i⟩
  · rcases o (loopIsolFault p) with o1 | ⟨oa, o1⟩
    · rcases fc (loopRelayOCP (loopIsolFault p)) with f1 | ⟨fa, f1⟩
      · exact Or.inl (by rw [f1, o1, i])
      · refine Or.inr ⟨?_, Or.inl (by rw [f1, o1, i])⟩
        rw [← es, o1, i] at fa; exact fa
    · have pa : p.m.sys_state = ACTIVE := by rw [← es, i] at oa; exact oa
      have k : (loopRelayOCP (loopIsolFault p)).m.sys_state ≠ ACTIVE := by
        rw [← es, o1]; exact (by decide : KILLING ≠ ACTIVE)
      rcases fc (loopRelayOCP (loopIsolFault p)) with f1 | ⟨fa, _⟩
      · exact Or.inr ⟨pa, Or.inl (by rw [f1, o1, i])⟩
      · exact absurd fa k
  · have k1 : (loopIsolFault p).m.sys_state ≠ ACTIVE := by rw [← es, i]; exact (by decide : KILLING ≠ ACTIVE)
    rcases o (loopIsolFault p) with o1 | ⟨oa, _⟩
    · have k2 : (loopRelayOCP (loopIsolFault p)).m.sys_state ≠ ACTIVE := by
        rw [← es, o1, i]; exact (by decide : KILLING ≠ ACTIVE)
      rcases fc (loopRelayOCP (loopIsolFault p)) with f1 | ⟨fa, _⟩
      · exact Or.inr ⟨ia, Or.inr (by rw [f1, o1, i])⟩
      · exact absurd fa k2
    · exact absurd oa k1
theorem HAL_SetIsolator_state (d : OutDrv) (level : Nat) :
    (HAL_SetIsolator d level).isolState.en = d.isolState.en ∧
    (HAL_SetIsolator d level).isolState.target = d.isolState.target ∧
    (HAL_SetIsolator d level).isolState.real = d.isolState.real ∧
    (level = HWOUT_HIZ → (HAL_SetIsolator d level).isolState.hw = HWOUT_HIZ ∧
      (HAL_SetIsolator d level).PB1 = false ∧ (HAL_SetIsolator d level).PB7 = false) := by
  unfold HAL_SetIsolator
  by_cases h : level ≠ d.isolState.hw <;> simp only [h, if_true, if_false] <;> split_ifs <;>
    simp_all <;> (simp only [HWOUT_HIGH, HWOUT_LOW, HWOUT_HIZ] at *; omega)

theorem HAL_SetIgnition_state (d : OutDrv) (level : Nat) :
    (HAL_SetIgnition d level).igncState.en = d.igncState.en ∧
    (HAL_SetIgnition d level).igncState.target = d.igncState.target ∧
    (HAL_SetIgnition d level).igncState.real = d.igncState.real ∧
    (level = HWOUT_HIZ → (HAL_SetIgnition d level).igncState.hw = HWOUT_HIZ ∧
      (HAL_SetIgnition d level).PB0 = false ∧ (HAL_SetIgnition d level).PB6 = false) := by
  unfold HAL_SetIgnition
  by_cases h : level ≠ d.igncState.hw <;> simp only [h, if_true, if_false] <;> split_ifs <;>
    simp_all <;> (simp only [HWOUT_HIGH, HWOUT_LOW, HWOUT_HIZ] at *; omega)

theorem ProcessLogicIsolator_effect (d : OutDrv) :
    (ProcessLogicIsolator d).isolState.en = d.isolState.en ∧
    (ProcessLogicIsolator d).isolState.target = d.isolState.target ∧
    (d.isolProt.delay_exec ≠ 0 →
      (ProcessLogicIsolator d).isolState = d.isolState ∧
      (ProcessLogicIsolator d).PB1 = d.PB1 ∧ (ProcessLogicIsolator d).PB7 = d.PB7 ∧
      (ProcessLogicIsolator d).isolProt.delay_exec = d.isolProt.delay_exec - 1) ∧
    (d.isolProt.delay_exec = 0 →
      (ProcessLogicIsolator d).isolProt.delay_exec = 0 ∧
      (d.isolState.en = 0 →
        (ProcessLogicIsolator d).isolState.real = 0 ∧
        (ProcessLogicIsolator d).isolState.hw = HWOUT_HIZ ∧
        (ProcessLogicIsolator d).PB1 = false ∧ (ProcessLogicIsolator d).PB7 = false) ∧
      (d.isolState.en ≠ 0 → d.isolProt.fault = 0 → d.isolProt.ext_fault = 0 →
        (ProcessLogicIsolator d).isolState.real = d.isolState.target)) := by
  by_cases hd : d.isolProt.delay_exec ≠ 0
  · unfold ProcessLogicIsolator
    rw [if_pos hd]
    exact ⟨rfl, rfl, fun _ => ⟨rfl, rfl, rfl, rfl⟩, fun h => absurd h hd⟩
  · have hd0 : d.isolProt.delay_exec = 0 := by simpa using hd
    by_cases hf : d.isolProt.fault ≠ 0 ∨ d.isolProt.ext_fault ≠ 0 ∨ d.isolState.en = 0
    · obtain ⟨a1, a2, _, a4⟩ := HAL_SetIsolator_state d HWOUT_HIZ
      unfold ProcessLogicIsolator
      rw [if_neg hd, if_pos hf]
      refine ⟨a1, a2, fun h => absurd h hd, fun _ => ⟨?_, fun _ => ?_, fun h1 h2 h3 => ?_⟩⟩
      · show (HAL_SetIsolator d HWOUT_HIZ).isolProt.delay_exec = 0
        rw [HAL_SetIsolator_isolProt]
        split_ifs <;> exact hd0
      · exact ⟨rfl, (a4 rfl).1, (a4 rfl).2.1, (a4 rfl).2.2⟩
      · rcases hf with hf | hf | hf
        · exact absurd h2 hf
        · exact absurd h3 hf
        · exact absurd hf h1
    · obtain ⟨a1, a2, _, _⟩ := HAL_SetIsolator_state d
        (StateToHWLevel d.isolCfg d.isolState.target)
      unfold ProcessLogicIsolator
      rw [if_neg hd, if_neg hf]
      have hen : d.isolState.en ≠ 0 := fun h => hf (Or.inr (Or.inr h))
      refine ⟨a1, a2, fun h => absurd h hd, fun _ => ⟨?_, fun h => absurd h hen, fun _ _ _ => a2⟩⟩
      show (HAL_SetIsolator d (StateToHWLevel d.isolCfg d.isolState.target)).isolProt.delay_exec = 0
      rw [HAL_SetIsolator_isolProt]
      split_ifs <;> exact hd0

theorem ProcessLogicIgnition_effect (d : OutDrv) :
    (ProcessLogicIgnition d).igncState.en = d.igncState.en ∧
    (ProcessLogicIgnition d).igncState.target = d.igncState.target ∧
    (d.igncProt.delay_exec ≠ 0 →
      (ProcessLogicIgnition d).igncState = d.igncState ∧
      (ProcessLogicIgnition d).PB0 = d.PB0 ∧ (ProcessLogicIgnition d).PB6 = d.PB6 ∧
      (ProcessLogicIgnition d).igncProt.delay_exec = d.igncProt.delay_exec - 1) ∧
    (d.igncProt.delay_exec = 0 →
      (ProcessLogicIgnition d).igncProt.delay_exec = 0 ∧
      (d.igncState.en = 0 →
        (ProcessLogicIgnition d).igncState.real = 0 ∧
        (ProcessLogicIgnition d).igncState.hw = HWOUT_HIZ ∧
        (ProcessLogicIgnition d).PB0 = false ∧ (ProcessLogicIgnition d).PB6 = false) ∧
      (d.igncState.en ≠ 0 → d.igncProt.fault = 0 → d.igncProt.ext_fault = 0 →
        (ProcessLogicIgnition d).igncState.real = d.igncState.target)) := by
  by_cases hd : d.igncProt.delay_exec ≠ 0
  · unfold ProcessLogicIgnition
    rw [if_pos hd]
    exact ⟨rfl, rfl, fun _ => ⟨rfl, rfl, rfl, rfl⟩, fun h => absurd h hd⟩
  · have hd0 : d.igncProt.delay_exec = 0 := by simpa using hd
    by_cases hf : d.igncProt.fault ≠ 0 ∨ d.igncProt.ext_fault ≠ 0 ∨ d.igncState.en = 0
    · obtain ⟨a1, a2, _, a4⟩ := HAL_SetIgnition_state d HWOUT_HIZ
      unfold ProcessLogicIgnition
      rw [if_neg hd, if_pos hf]
      refine ⟨a1, a2, fun h => absurd h hd, fun _ => ⟨?_, fun _ => ?_, fun h1 h2 h3 => ?_⟩⟩
      · show (HAL_SetIgnition d HWOUT_HIZ).igncProt.delay_exec = 0
        rw [HAL_SetIgnition_igncProt]
        split_ifs <;> exact hd0
      · exact ⟨rfl, (a4 rfl).1, (a4 rfl).2.1, (a4 rfl).2.2⟩
      · rcases hf with hf | hf | hf
        · exact absurd h2 hf
        · exact absurd h3 hf
        · exact absurd hf h1
    · obtain ⟨a1, a2, _, _⟩ := HAL_SetIgnition_state d
        (StateToHWLevel d.igncCfg d.igncState.target)
      unfold ProcessLogicIgnition
      rw [if_neg hd, if_neg hf]
      have hen : d.igncState.en ≠ 0 := fun h => hf (Or.inr (Or.inr h))
      refine ⟨a1, a2, fun h => absurd h hd, fun _ => ⟨?_, fun h => absurd h hen, fun _ _ _ => a2⟩⟩
      show (HAL_SetIgnition d (StateToHWLevel d.igncCfg d.igncState.target)).igncProt.delay_exec = 0
      rw [HAL_SetIgnition_igncProt]
      split_ifs <;> exact hd0
theorem ProcessLogic_rel (r : Sys) (l : LedDrv) :
    PLRel (ctlOf r) (ctlOf { r with out := OUTDRV_ProcessLogic r.out, led := l }) := by
  obtain ⟨g1, g2, g3, g4⟩ := ProcessLogicIgnition_effect r.out
  obtain ⟨i1, i2, i3, i4⟩ := ProcessLogicIsolator_effect (ProcessLogicIgnition r.out)
  obtain ⟨a1, a2, _, a4, a5⟩ := ProcessLogicIsolator_ignc (ProcessLogicIgnition r.out)
  obtain ⟨b1, b2, _, b4, b5⟩ := ProcessLogicIgnition_isol r.out
  simp only [b1, b2, b4, b5] at i1 i2 i3 i4
  unfold PLRel ctlOf OUTDRV_ProcessLogic
  simp only
  refine ⟨trivial, trivial, trivial, trivial,
    ⟨i1, i2, i3, fun h => ⟨(i4 h).1, (i4 h).2.1⟩⟩, ⟨?_, ?_, ?_, ?_⟩⟩
  · rw [a1]; exact g1
  · rw [a1]; exact g2
  · rw [a1, a2, a4, a5]; exact g3
  · rw [a1, a2, a4, a5]; exact fun h => ⟨(g4 h).1, (g4 h).2.1⟩

theorem mainLoop_rel (s : Sys) (a : Sample) :
    PLRel (ctlOf (loopControl s a)) (ctlOf (mainLoop s a)) := by
  have e : mainLoop s a = { loopControl s a with
      out := OUTDRV_ProcessLogic (loopControl s a).out
      led := LEDDRV_Process (loopControl s a).led } := by
    simp only [mainLoop]
  rw [e]
  exact ProcessLogic_rel _ _

theorem SafeCtl_of_PLRel (c c' : Ctl) (h : MidCtl c) (r : PLRel c c') : SafeCtl c' := by
  obtain ⟨m1, m2, m3, m4, m5, m6, m7⟩ := h
  obtain ⟨e1, e2, _, e4, ⟨i1, i2, i3, i4⟩, ⟨g1, g2, _, g4⟩⟩ := r
  obtain ⟨g5, g6⟩ := g4 m2
  unfold SafeCtl
  rw [e1, e2, e4]
  refine ⟨m1, g5, m3, fun hk => ?_, fun hs => ?_, fun hs => ?_, fun hk => ?_⟩
  · obtain ⟨k1, k2⟩ := m4 hk
    exact ⟨k1, (i4 k2).1⟩
  · obtain ⟨d1, d2, d3, d4⟩ := m5 hs
    have hk : c.sys_state ≠ KILLING := by
      rcases hs with hs | hs <;> rw [hs] <;> decide
    obtain ⟨_, k2⟩ := m4 hk
    obtain ⟨_, j⟩ := i4 k2
    obtain ⟨j1, j2, j3, j4⟩ := j d1
    obtain ⟨l1, l2, l3, l4⟩ := g6 d3
    exact ⟨⟨i1.trans d1, i2.trans d2, j1, j2, j3, j4⟩, ⟨g1.trans d3, g2.trans d4, l1, l2, l3, l4⟩⟩
  · obtain ⟨s1, s2, s3⟩ := m6 hs
    have hk : c.sys_state ≠ KILLING := by rw [hs]; decide
    obtain ⟨_, k2⟩ := m4 hk
    obtain ⟨_, j⟩ := i4 k2
    refine ⟨s1, fun h2 => ?_, fun h3 => ?_⟩
    · obtain ⟨⟨d1, d2, _⟩, ⟨d3, d4, _⟩⟩ := s2 h2
      obtain ⟨j1, j2, j3, j4⟩ := j d1
      obtain ⟨l1, l2, l3, l4⟩ := g6 d3
      exact ⟨⟨i1.trans d1, i2.trans d2, j1, j2, j3, j4⟩,
        ⟨g1.trans d3, g2.trans d4, l1, l2, l3, l4⟩⟩
    · obtain ⟨d3, d4, _⟩ := s3 h3
      obtain ⟨l1, l2, l3, l4⟩ := g6 d3
      exact ⟨g1.trans d3, g2.trans d4, l1, l2, l3, l4⟩
  · obtain ⟨k1, k2, k3, k4⟩ := m7 hk
    refine ⟨k1, ?_, fun h => g2.trans (k3 h), fun h => i2.trans (k4 h)⟩
    by_cases hd : c.isol_delay = 0
    · rw [(i4 hd).1]; exact Nat.zero_le _
    · rw [(i3 hd).2.2.2]; omega

theorem SafeCtl_escalated (c : Ctl) (h : SafeCtl c) (ha : c.sys_state = ACTIVE) (d : Nat)
    (hd : d ≤ 2) : SafeCtl { c with sys_state := KILLING, isol_delay := d } := by
  obtain ⟨m1, m2, m3, m4, _, _, _⟩ := h
  have s0 : c.startup_step = 0 := m3 (by rw [ha]; decide)
  have k0 : c.kill_step = 0 := (m4 (by rw [ha]; decide)).1
  unfold SafeCtl
  simp only
  refine ⟨by decide, m2, fun _ => s0, fun h => absurd rfl h, fun h => ?_, fun h => ?_,
    fun _ => ⟨by omega, by omega, fun h => by omega, fun h => by omega⟩⟩
  · rcases h with h | h <;> exact absurd h (by decide)
  · exact absurd h (by decide)

theorem SafeCtl_tickEscalated (s : Sys) (a : Sample) (h : SafeInv s) :
    SafeCtl (ctlOf (tickEscalated s a)) := by
  have hp : SafeCtl (ctlOf (tickProtected s a)) := by rw [tickProtected_ctl]; exact h
  unfold tickEscalated
  have k0 : (ctlOf (tickProtected s a)).sys_state ≠ KILLING →
      (ctlOf (tickProtected s a)).isol_delay = 0 := fun hk => (hp.2.2.2.1 hk).2
  rcases escalation_ctl (tickProtected s a) with e | ⟨ha, e | e⟩
  · rw [e]; exact hp
  · rw [e]
    have hd := k0 (by show (tickProtected s a).m.sys_state ≠ KILLING; rw [ha]; decide)
    have := SafeCtl_escalated _ hp ha 0 (by decide)
    rw [← hd] at this
    exact this
  · rw [e]
    exact SafeCtl_escalated _ hp ha 2 (le_refl _)
theorem MidCtl.of_startup (c : Ctl) (h1 : c.sys_state = STARTUP) (h2 : c.ignc_delay = 0)
    (h3 : c.kill_step = 0) (h4 : c.isol_delay = 0) (h5 : c.startup_step ≤ 4)
    (h6 : c.startup_step ≤ 2 → isolOff c ∧ igncOff c) (h7 : c.startup_step = 3 → igncOff c) :
    MidCtl c := by
  unfold MidCtl
  rw [h1]
  exact ⟨by decide, h2, fun h => absurd rfl h, fun _ => ⟨h3, h4⟩,
    fun h => by rcases h with h | h <;> exact absurd h (by decide),
    fun _ => ⟨h5, h6, h7⟩, fun h => absurd h (by decide)⟩

theorem MidCtl.of_off (c : Ctl) (h1 : c.sys_state = LOCKOUT ∨ c.sys_state = SLEEP)
    (h2 : c.ignc_delay = 0) (h3 : c.startup_step = 0) (h4 : c.kill_step = 0)
    (h5 : c.isol_delay = 0)
    (h6 : c.isol.en = 0 ∧ c.isol.target = 0 ∧ c.ignc.en = 0 ∧ c.ignc.target = 0) :
    MidCtl c := by
  unfold MidCtl
  rcases h1 with h1 | h1 <;> rw [h1] <;>
  exact ⟨by decide, h2, fun _ => h3, fun _ => ⟨h4, h5⟩, fun _ => h6,
    fun h => absurd h (by decide), fun h => absurd h (by decide)⟩

theorem MidCtl.of_active (c : Ctl) (h1 : c.sys_state = ACTIVE) (h2 : c.ignc_delay = 0)
    (h3 : c.startup_step = 0) (h4 : c.kill_step = 0) (h5 : c.isol_delay = 0) : MidCtl c := by
  unfold MidCtl
  rw [h1]
  exact ⟨by decide, h2, fun _ => h3, fun _ => ⟨h4, h5⟩,
    fun h => by rcases h with h | h <;> exact absurd h (by decide),
    fun h => absurd h (by decide), fun h => absurd h (by decide)⟩

theorem MidCtl.of_killing (c : Ctl) (h1 : c.sys_state = KILLING) (h2 : c.ignc_delay = 0)
    (h3 : c.startup_step = 0) (h4 : c.kill_step ≤ 3) (h5 : c.isol_delay ≤ 3 - c.kill_step)
    (h6 : 1 ≤ c.kill_step → c.ignc.target = 0) (h7 : c.kill_step = 3 → c.isol.target = 0) :
    MidCtl c := by
  unfold MidCtl
  rw [h1]
  exact ⟨by decide, h2, fun _ => h3, fun h => absurd rfl h,
    fun h => by rcases h with h | h <;> exact absurd h (by decide),
    fun h => absurd h (by decide), fun _ => ⟨h4, h5, h6, h7⟩⟩

theorem MidCtl_sleep (c : Ctl) (s : Sys) (h : SafeCtl c) (hs : c.sys_state = SLEEP) :
    MidCtl (smCtl c s) := by
  obtain ⟨_, m2, m3, m4, m5, _, _⟩ := h
  have s0 := m3 (by rw [hs]; decide)
  obtain ⟨k0, d0⟩ := m4 (by rw [hs]; decide)
  obtain ⟨io, go⟩ := m5 (Or.inl hs)
  unfold smCtl
  rw [if_pos hs]
  split_ifs
  · exact MidCtl.of_startup _ rfl m2 k0 d0 (by show c.startup_step ≤ 4; omega)
      (fun _ => ⟨io, go⟩) (fun _ => go)
  · exact MidCtl.of_off _ (Or.inr rfl) m2 s0 k0 d0 ⟨io.1, io.2.1, go.1, go.2.1⟩

theorem MidCtl_active (c : Ctl) (s : Sys) (h : SafeCtl c) (hs : c.sys_state = ACTIVE) :
    MidCtl (smCtl c s) := by
  obtain ⟨_, m2, m3, m4, _, _, _⟩ := h
  have s0 := m3 (by rw [hs]; decide)
  obtain ⟨k0, d0⟩ := m4 (by rw [hs]; decide)
  unfold smCtl
  rw [if_neg (by rw [hs]; decide), if_neg (by rw [hs]; decide), if_pos hs]
  split_ifs
  · exact MidCtl.of_killing _ rfl m2 s0 (by show c.kill_step ≤ 3; omega)
      (by show c.isol_delay ≤ 3 - c.kill_step; omega)
      (fun h => by have : 1 ≤ c.kill_step := h; omega)
      (fun h => by have : c.kill_step = 3 := h; omega)
  · exact MidCtl.of_active _ rfl m2 s0 k0 d0

theorem MidCtl_lockout (c : Ctl) (s : Sys) (h : SafeCtl c) (hs : c.sys_state = LOCKOUT) :
    MidCtl (smCtl c s) := by
  obtain ⟨_, m2, m3, m4, m5, _, _⟩ := h
  have s0 := m3 (by rw [hs]; decide)
  obtain ⟨k0, d0⟩ := m4 (by rw [hs]; decide)
  obtain ⟨io, go⟩ := m5 (Or.inr hs)
  unfold smCtl lockoutCtl
  rw [if_neg (by rw [hs]; decide), if_neg (by rw [hs]; decide), if_neg (by rw [hs]; decide),
    if_neg (by rw [hs]; decide), if_pos hs]
  split_ifs
  · exact MidCtl.of_off _ (Or.inl rfl) m2 s0 k0 d0 ⟨rfl, rfl, rfl, rfl⟩
  · exact MidCtl.of_off _ (Or.inl rfl) m2 s0 k0 d0 ⟨io.1, io.2.1, go.1, go.2.1⟩
  · exact MidCtl.of_off _ (Or.inl rfl) m2 s0 k0 d0 ⟨io.1, io.2.1, go.1, go.2.1⟩
  · exact MidCtl.of_off _ (Or.inr rfl) m2 s0 k0 d0 ⟨io.1, io.2.1, go.1, go.2.1⟩

theorem MidCtl_startup (c : Ctl) (s : Sys) (h : SafeCtl c) (hs : c.sys_state = STARTUP) :
    MidCtl (smCtl c s) := by
  obtain ⟨_, m2, _, m4, _, m6, _⟩ := h
  obtain ⟨k0, d0⟩ := m4 (by rw [hs]; decide)
  obtain ⟨a1, a2, a3⟩ := m6 hs
  unfold smCtl
  rw [if_neg (by rw [hs]; decide), if_pos hs]
  unfold startupCtl
  by_cases h0 : c.startup_step = 0
  · rw [if_pos h0]
    exact MidCtl.of_startup _ rfl m2 k0 d0 (by simp) (fun _ => a2 (by omega))
      (fun h => absurd h (by simp))
  rw [if_neg h0]
  by_cases h1 : c.startup_step = 1
  · rw [if_pos h1]
    split_ifs
    · exact MidCtl.of_startup _ rfl m2 k0 d0 a1 a2 a3
    · exact MidCtl.of_startup _ rfl m2 k0 d0 (by simp) (fun _ => a2 (by omega))
        (fun h => absurd h (by simp))
  rw [if_neg h1]
  by_cases h2 : c.startup_step = 2
  · rw [if_pos h2]
    obtain ⟨io, go⟩ := a2 (by omega)
    split_ifs
    · exact MidCtl.of_off _ (Or.inl rfl) m2 rfl k0 d0 ⟨io.1, io.2.1, go.1, go.2.1⟩
    · exact MidCtl.of_startup _ rfl m2 k0 d0 (by simp) (fun h => absurd h (by simp))
        (fun _ => go)
  rw [if_neg h2]
  by_cases h3 : c.startup_step = 3
  · rw [if_pos h3]
    have go := a3 h3
    split_ifs
    · exact MidCtl.of_off _ (Or.inl rfl) m2 rfl k0 d0 ⟨rfl, rfl, go.1, go.2.1⟩
    · exact MidCtl.of_startup _ rfl m2 k0 d0 a1 a2 a3
    · exact MidCtl.of_startup _ rfl m2 k0 d0 (by simp) (fun h => absurd h (by simp))
        (fun h => absurd h (by simp))
  rw [if_neg h3]
  by_cases h4 : c.startup_step = 4
  · rw [if_pos h4]
    split_ifs
    · exact MidCtl.of_off _ (Or.inl rfl) m2 rfl k0 d0 ⟨rfl, rfl, rfl, rfl⟩
    · exact MidCtl.of_startup _ rfl m2 k0 d0 a1 a2 a3
    · exact MidCtl.of_active _ rfl m2 rfl k0 d0
  exact absurd a1 (by omega)

theorem MidCtl_killing (c : Ctl) (s : Sys) (h : SafeCtl c) (hs : c.sys_state = KILLING) :
    MidCtl (smCtl c s) := by
  obtain ⟨_, m2, m3, _, _, _, m7⟩ := h
  have s0 := m3 (by rw [hs]; decide)
  obtain ⟨b1, b2, b3, b4⟩ := m7 hs
  unfold smCtl
  rw [if_neg (by rw [hs]; decide), if_neg (by rw [hs]; decide), if_neg (by rw [hs]; decide),
    if_pos hs]
  unfold killCtl
  by_cases h0 : c.kill_step = 0
  · rw [if_pos h0]
    exact MidCtl.of_killing _ rfl m2 s0 (by simp)
      (by show c.isol_delay ≤ 3 - 1; omega) (fun _ => rfl) (fun h => absurd h (by simp))
  rw [if_neg h0]
  by_cases h1 : c.kill_step = 1
  · rw [if_pos h1]
    have t2 : MidCtl { c with kill_step := 2, sys_state := KILLING } :=
      MidCtl.of_killing _ rfl m2 s0 (by simp) (by show c.isol_delay ≤ 3 - 2; omega)
        (fun _ => b3 (by omega)) (fun h => absurd h (by simp))
    have t1 : MidCtl { c with kill_step := c.kill_step, sys_state := KILLING } :=
      MidCtl.of_killing _ rfl m2 s0 b1 (by show c.isol_delay ≤ 3 - c.kill_step; omega) b3 b4
    split_ifs <;> first | exact t2 | exact t1
  rw [if_neg h1]
  by_cases h2 : c.kill_step = 2
  · rw [if_pos h2]
    exact MidCtl.of_killing _ rfl m2 s0 (by simp) (by show c.isol_delay ≤ 3 - 3; omega)
      (fun _ => b3 (by omega)) (fun _ => rfl)
  rw [if_neg h2]
  by_cases h3 : c.kill_step = 3
  · rw [if_pos h3]
    split_ifs
    · exact MidCtl.of_killing _ rfl m2 s0 b1 (by show c.isol_delay ≤ 3 - c.kill_step; omega)
        b3 b4
    · exact MidCtl.of_off _ (Or.inl rfl) m2 s0 rfl (by show c.isol_delay = 0; omega)
        ⟨rfl, b4 h3, rfl, b3 (by omega)⟩
  exact absurd b1 (by omega)

theorem MidCtl_smCtl (c : Ctl) (s : Sys) (h : SafeCtl c) : MidCtl (smCtl c s) := by
  have h4 : c.sys_state ≤ 4 := h.1
  have hs : c.sys_state = SLEEP ∨ c.sys_state = STARTUP ∨ c.sys_state = ACTIVE ∨
      c.sys_state = KILLING ∨ c.sys_state = LOCKOUT := by
    simp only [SLEEP, STARTUP, ACTIVE, KILLING, LOCKOUT]; omega
  rcases hs with hs | hs | hs | hs | hs
  · exact MidCtl_sleep c s h hs
  · exact MidCtl_startup c s h hs
  · exact MidCtl_active c s h hs
  · exact MidCtl_killing c s h hs
  · exact MidCtl_lockout c s h hs
theorem SafeInv_loop (s : Sys) (a : Sample) (h : SafeInv s) : SafeInv (mainLoop s a) := by
  have h1 := SafeCtl_tickEscalated s a h
  have h2 := MidCtl_smCtl _ (tickEscalated s a) h1
  rw [← smCtl_eq, ← loopControl_tickEscalated] at h2
  exact SafeCtl_of_PLRel _ _ h2 (mainLoop_rel s a)

theorem mainSetup_ctl (bootstraps : Nat) :
    ctlOf (mainSetup bootstraps) =
      { sys_state := 0, startup_step := 0, startup_timeout := 0, kill_step := 0,
        isol := chOff, ignc := chOff, isol_delay := 0, ignc_delay := 0,
        PB0 := false, PB1 := false, PB6 := false, PB7 := false } := by
  simp [ctlOf, mainSetup, OUTDRV_ProcessLogic, ProcessLogicIsolator, ProcessLogicIgnition,
    HAL_SetIsolator, HAL_SetIgnition, OUTDRV_ResetOutput, OUTDRV_DisableOutput, OUTDRV_Init,
    protZero, chOff]

theorem SafeInv_init (bootstraps : Nat) (samples : List Sample) :
    SafeInv (mainInit bootstraps samples) := by
  have e : ctlOf (mainInit bootstraps samples) =
      { ctlOf (DataGathering (mainSetup bootstraps) samples) with
        sys_state := (mainInit bootstraps samples).m.sys_state } := rfl
  have hs : (mainInit bootstraps samples).m.sys_state = LOCKOUT ∨
      (mainInit bootstraps samples).m.sys_state = SLEEP := by
    unfold mainInit
    simp only
    split_ifs
    · exact Or.inl rfl
    · exact Or.inr rfl
  unfold SafeInv
  rw [e, DataGathering_ctl, mainSetup_ctl]
  generalize (mainInit bootstraps samples).m.sys_state = x at hs
  rcases hs with hs | hs <;> subst hs <;> simp [SafeCtl, isolOff, igncOff, chOff]

theorem Reachable.safeInv {s : Sys} (h : Reachable s) : SafeInv s := by
  induction h with
  | init b l _ => exact SafeInv_init b l
  | loop s a _ ih => exact SafeInv_loop s a ih

/-- Outside STARTUP the `switch(sys_state)` enables no output. -/
theorem smCtl_en (c : Ctl) (s : Sys) (h : c.sys_state ≠ STARTUP) :
    ((smCtl c s).isol.en ≠ 0 → c.isol.en ≠ 0) ∧ ((smCtl c s).ignc.en ≠ 0 → c.ignc.en ≠ 0) := by
  unfold smCtl
  by_cases h0 : c.sys_state = SLEEP
  · rw [if_pos h0]
    split_ifs <;> exact ⟨id, id⟩
  rw [if_neg h0, if_neg h]
  by_cases h2 : c.sys_state = ACTIVE
  · rw [if_pos h2]
    split_ifs <;> exact ⟨id, id⟩
  rw [if_neg h2]
  by_cases h3 : c.sys_state = KILLING
  · rw [if_pos h3]
    unfold killCtl
    by_cases k0 : c.kill_step = 0
    · rw [if_pos k0]
      exact ⟨id, id⟩
    rw [if_neg k0]
    by_cases k1 : c.kill_step = 1
    · rw [if_pos k1]
      split_ifs <;> exact ⟨id, id⟩
    rw [if_neg k1]
    by_cases k2 : c.kill_step = 2
    · rw [if_pos k2]
      exact ⟨id, id⟩
    rw [if_neg k2]
    by_cases k3 : c.kill_step = 3
    · rw [if_pos k3]
      split_ifs
      · exact ⟨id, id⟩
      · exact ⟨fun h => absurd rfl h, fun h => absurd rfl h⟩
    rw [if_neg k3]
    exact ⟨id, id⟩
  rw [if_neg h3]
  by_cases h4 : c.sys_state = LOCKOUT
  · rw [if_pos h4]
    unfold lockoutCtl
    split_ifs <;>
      first | exact ⟨id, id⟩ | exact ⟨fun h => absurd rfl h, fun h => absurd rfl h⟩
  rw [if_neg h4]
  exact ⟨id, id⟩

/-- The escalation tests change neither channel status, and leave the system
state as it is or turn ACTIVE into KILLING. -/
theorem tickEscalated_chan (s : Sys) (a : Sample) :
    (ctlOf (tickEscalated s a)).isol = s.out.isolState ∧
    (ctlOf (tickEscalated s a)).ignc = s.out.igncState ∧
    ((tickEscalated s a).m.sys_state = s.m.sys_state ∨
      (s.m.sys_state = ACTIVE ∧ (tickEscalated s a).m.sys_state = KILLING)) := by
  have hp := tickProtected_ctl s a
  have e1 : (ctlOf (tickProtected s a)).isol = s.out.isolState := by rw [hp]; rfl
  have e2 : (ctlOf (tickProtected s a)).ignc = s.out.igncState := by rw [hp]; rfl
  have e3 : (tickProtected s a).m.sys_state = s.m.sys_state := (tickProtected_frame s a).1
  have es : ∀ q : Sys, (ctlOf q).sys_state = q.m.sys_state := fun _ => rfl
  unfold tickEscalated
  rcases escalation_ctl (tickProtected s a) with e | ⟨ha, e | e⟩
  · rw [← es, e]
    exact ⟨e1, e2, Or.inl e3⟩
  · rw [← es, e]
    exact ⟨e1, e2, Or.inr ⟨e3 ▸ ha, rfl⟩⟩
  · rw [← es, e]
    exact ⟨e1, e2, Or.inr ⟨e3 ▸ ha, rfl⟩⟩

/-- A tick on which `Startup_Procedure` does not run enables no output. -/
theorem mainLoop_en (s : Sys) (a : Sample) (h : s.m.sys_state ≠ STARTUP) :
    ((mainLoop s a).out.isolState.en ≠ 0 → s.out.isolState.en ≠ 0) ∧
    ((mainLoop s a).out.igncState.en ≠ 0 → s.out.igncState.en ≠ 0) := by
  obtain ⟨c1, c2, c3⟩ := tickEscalated_chan s a
  have es : ∀ q : Sys, (ctlOf q).sys_state = q.m.sys_state := fun _ => rfl
  have hq : (ctlOf (tickEscalated s a)).sys_state ≠ STARTUP := by
    rw [es]
    rcases c3 with c3 | ⟨_, c3⟩
    · rw [c3]; exact h
    · rw [c3]; decide
  obtain ⟨n1, n2⟩ := smCtl_en _ (tickEscalated s a) hq
  rw [← smCtl_eq, ← loopControl_tickEscalated, c1] at n1
  rw [← smCtl_eq, ← loopControl_tickEscalated, c2] at n2
  rw [mainLoop_out]
  generalize loopControl s a = r at n1 n2 ⊢
  obtain ⟨_, _, _, _, ⟨i1, _⟩, ⟨g1, _⟩⟩ := ProcessLogic_rel r r.led
  have i1' : (OUTDRV_ProcessLogic r.out).isolState.en = r.out.isolState.en := i1
  have g1' : (OUTDRV_ProcessLogic r.out).igncState.en = r.out.igncState.en := g1
  rw [i1', g1']
  exact ⟨n1, n2⟩

/-- C12: in every state reachable from boot by ticks of the main loop, for any
bootstraps and samples: if `sys_state` is SLEEP or LOCKOUT then both channels
have `en = 0`, `real = 0`, `hw = HWOUT_HIZ` and both their pins low; a channel
with `en ≠ 0` is only met in STARTUP, ACTIVE or KILLING; and a tick that
takes a channel from `en = 0` to `en ≠ 0` starts in STARTUP and runs
`Startup_Procedure` (the system state tested by the `switch` is STARTUP). -/
theorem C12_outputs_off_in_sleep_and_lockout (s : Sys) (hr : Reachable s) :
    ((s.m.sys_state = SLEEP ∨ s.m.sys_state = LOCKOUT) →
      (s.out.isolState.en = 0 ∧ s.out.isolState.real = 0 ∧ s.out.isolState.hw = HWOUT_HIZ ∧
        s.out.PB1 = false ∧ s.out.PB7 = false) ∧
      (s.out.igncState.en = 0 ∧ s.out.igncState.real = 0 ∧ s.out.igncState.hw = HWOUT_HIZ ∧
        s.out.PB0 = false ∧ s.out.PB6 = false)) ∧
    ((s.out.isolState.en ≠ 0 ∨ s.out.igncState.en ≠ 0) →
      s.m.sys_state = STARTUP ∨ s.m.sys_state = ACTIVE ∨ s.m.sys_state = KILLING) ∧
    (∀ a : Sample,
      ((s.out.isolState.en = 0 ∧ (mainLoop s a).out.isolState.en ≠ 0) ∨
       (s.out.igncState.en = 0 ∧ (mainLoop s a).out.igncState.en ≠ 0)) →
      s.m.sys_state = STARTUP ∧ (tickEscalated s a).m.sys_state = STARTUP) := by
  obtain ⟨m1, _, _, _, m5, _, _⟩ := hr.safeInv
  have off : (s.m.sys_state = SLEEP ∨ s.m.sys_state = LOCKOUT) →
      (s.out.isolState.en = 0 ∧ s.out.isolState.real = 0 ∧ s.out.isolState.hw = HWOUT_HIZ ∧
        s.out.PB1 = false ∧ s.out.PB7 = false) ∧
      (s.out.igncState.en = 0 ∧ s.out.igncState.real = 0 ∧ s.out.igncState.hw = HWOUT_HIZ ∧
        s.out.PB0 = false ∧ s.out.PB6 = false) := by
    intro h
    obtain ⟨⟨i1, _, i3, i4, i5, i6⟩, ⟨g1, _, g3, g4, g5, g6⟩⟩ := m5 h
    exact ⟨⟨i1, i3, i4, i5, i6⟩, ⟨g1, g3, g4, g5, g6⟩⟩
  refine ⟨off, fun he => ?_, fun a ha => ?_⟩
  · have h4 : s.m.sys_state ≤ 4 := m1
    have hs : s.m.sys_state = SLEEP ∨ s.m.sys_state = STARTUP ∨ s.m.sys_state = ACTIVE ∨
        s.m.sys_state = KILLING ∨ s.m.sys_state = LOCKOUT := by
      simp only [SLEEP, STARTUP, ACTIVE, KILLING, LOCKOUT]; omega
    rcases hs with hs | hs | hs | hs | hs
    · obtain ⟨o1, o2⟩ := off (Or.inl hs)
      rcases he with he | he
      · exact absurd o1.1 he
      · exact absurd o2.1 he
    · exact Or.inl hs
    · exact Or.inr (Or.inl hs)
    · exact Or.inr (Or.inr hs)
    · obtain ⟨o1, o2⟩ := off (Or.inr hs)
      rcases he with he | he
      · exact absurd o1.1 he
      · exact absurd o2.1 he
  · have hst : s.m.sys_state = STARTUP := by
      by_contra hn
      obtain ⟨n1, n2⟩ := mainLoop_en s a hn
      rcases ha with ⟨z, nz⟩ | ⟨z, nz⟩
      · exact n1 nz z
      · exact n2 nz z
    refine ⟨hst, ?_⟩
    rcases (tickEscalated_chan s a).2.2 with c | ⟨c, _⟩
    · rw [c]; exact hst
    · rw [hst] at c; exact absurd c (by decide)

theorem exStartup3_run :
    mainLoopRun (mainInit 15 (List.replicate 100 smpOff)) (List.replicate 314 smpOn) =
      exStartup3 := by
  rw [mainInit_example,
    show (314 : Nat) = 10 + (1 + (1 + (100 + (1 + (1 + (1 + 199)))))) from rfl,
    mainLoopRun_add, run_debounce,
    mainLoopRun_add, mainLoopRun_one, tick_master_on,
    mainLoopRun_add, mainLoopRun_one, tick_startup0,
    mainLoopRun_add, run_startup1,
    mainLoopRun_add, mainLoopRun_one, tick_startup1_end,
    mainLoopRun_add, mainLoopRun_one, tick_startup2,
    mainLoopRun_add, mainLoopRun_one, tick_startup3_first,
    run_startup3]
  rfl

theorem exStartup3_reachable : Reachable exStartup3 := by
  rw [← exStartup3_run]
  exact (Reachable.init 15 _ (List.length_replicate _ _)).run _

/-- Witness of C12: the state one tick after `exStartup3` (isolator on) when
that tick reads the isolator output shorted to 0 V: `Startup_Procedure`
aborts, the tick ends in LOCKOUT and both channels are off. -/
theorem C12_witness :
    Reachable (mainLoop exStartup3 smpShort) ∧
    exStartup3.out.isolState.real = 1 ∧
    (mainLoop exStartup3 smpShort).m.sys_state = LOCKOUT ∧
    ((mainLoop exStartup3 smpShort).out.isolState.en = 0 ∧
      (mainLoop exStartup3 smpShort).out.isolState.real = 0 ∧
      (mainLoop exStartup3 smpShort).out.isolState.hw = HWOUT_HIZ ∧
      (mainLoop exStartup3 smpShort).out.PB1 = false ∧
      (mainLoop exStartup3 smpShort).out.PB7 = false) ∧
    ((mainLoop exStartup3 smpShort).out.igncState.en = 0 ∧
      (mainLoop exStartup3 smpShort).out.igncState.real = 0 ∧
      (mainLoop exStartup3 smpShort).out.igncState.hw = HWOUT_HIZ ∧
      (mainLoop exStartup3 smpShort).out.PB0 = false ∧
      (mainLoop exStartup3 smpShort).out.PB6 = false) :=
  have r : Reachable (mainLoop exStartup3 smpShort) :=
    Reachable.loop exStartup3 smpShort exStartup3_reachable
  have l : (mainLoop exStartup3 smpShort).m.sys_state = LOCKOUT := by decide
  have c := (C12_outputs_off_in_sleep_and_lockout (mainLoop exStartup3 smpShort) r).1 (Or.inr l)
  ⟨r, rfl, l, c.1, c.2⟩

theorem startupCtl_lockout (c : Ctl) (s : Sys) (h : (startupCtl c s).2 = LOCKOUT) :
    (c.startup_step = 2 ∨ c.startup_step = 3 ∨ c.startup_step = 4) ∧
    (s.m.master_act = 0 ∨ s.m.kill_act ≠ 0 ∨ OUTDRV_GetFault s.out OUT_ISOL ≠ 0 ∨
      OUTDRV_GetFault s.out OUT_IGNC ≠ 0) := by
  have ns : STARTUP ≠ LOCKOUT := by decide
  have na : ACTIVE ≠ LOCKOUT := by decide
  unfold startupCtl at h
  by_cases h0 : c.startup_step = 0
  · rw [if_pos h0] at h
    exact absurd h ns
  rw [if_neg h0] at h
  by_cases h1 : c.startup_step = 1
  · rw [if_pos h1] at h
    exact absurd h ns
  rw [if_neg h1] at h
  by_cases h2 : c.startup_step = 2
  · rw [if_pos h2] at h
    by_cases a : s.m.master_act = 0 ∨ s.m.kill_act ≠ 0
    · exact ⟨Or.inl h2, by tauto⟩
    · rw [if_neg a] at h
      exact absurd h ns
  rw [if_neg h2] at h
  by_cases h3 : c.startup_step = 3
  · rw [if_pos h3] at h
    by_cases a : s.m.master_act = 0 ∨ s.m.kill_act ≠ 0 ∨ OUTDRV_GetFault s.out OUT_ISOL ≠ 0
    · exact ⟨Or.inr (Or.inl h3), by tauto⟩
    · rw [if_neg a] at h
      split_ifs at h <;> exact absurd h ns
  rw [if_neg h3] at h
  by_cases h4 : c.startup_step = 4
  · rw [if_pos h4] at h
    by_cases a : s.m.master_act = 0 ∨ s.m.kill_act ≠ 0 ∨ OUTDRV_GetFault s.out OUT_ISOL ≠ 0 ∨
        OUTDRV_GetFault s.out OUT_IGNC ≠ 0
    · exact ⟨Or.inr (Or.inr h4), a⟩
    · rw [if_neg a] at h
      split_ifs at h
      · exact absurd h ns
      · exact absurd h na
  rw [if_neg h4] at h
  exact absurd h ns

theorem smCtl_startup (c : Ctl) (s : Sys) (h : c.sys_state = STARTUP) :
    smCtl c s = { (startupCtl c s).1 with sys_state := (startupCtl c s).2 } := by
  unfold smCtl
  rw [if_neg (by rw [h]; decide), if_pos h]

theorem loopStateMachine_startup (q : Sys) (hs : q.m.sys_state = STARTUP) :
    (loopStateMachine q).m.sys_state = (Startup_Procedure q).2 := by
  unfold loopStateMachine
  rw [if_neg (by rw [hs]; decide), if_pos hs]

/-- C14: on a tick that starts in a reachable state and on which
`Startup_Procedure` is called (the `switch` finds `sys_state = STARTUP`) and
returns LOCKOUT: on return the procedure's step is 0 and both channels have
`en = 0` and `target = 0`; the call was made at sub-step 2, 3 or 4 with master
inactive, kill active or a channel fault; and the tick ends in LOCKOUT with
both channels at `real = 0` and `hw = HWOUT_HIZ`. -/
theorem C14_startup_abort_leaves_outputs_off (s : Sys) (a : Sample) (hr : Reachable s)
    (hs : (tickEscalated s a).m.sys_state = STARTUP)
    (hl : (Startup_Procedure (tickEscalated s a)).2 = LOCKOUT) :
    ((Startup_Procedure (tickEscalated s a)).1.m.startup_step = 0 ∧
      (Startup_Procedure (tickEscalated s a)).1.out.isolState.en = 0 ∧
      (Startup_Procedure (tickEscalated s a)).1.out.isolState.target = 0 ∧
      (Startup_Procedure (tickEscalated s a)).1.out.igncState.en = 0 ∧
      (Startup_Procedure (tickEscalated s a)).1.out.igncState.target = 0) ∧
    (((tickEscalated s a).m.startup_step = 2 ∨ (tickEscalated s a).m.startup_step = 3 ∨
        (tickEscalated s a).m.startup_step = 4) ∧
      ((tickEscalated s a).m.master_act = 0 ∨ (tickEscalated s a).m.kill_act ≠ 0 ∨
        OUTDRV_GetFault (tickEscalated s a).out OUT_ISOL ≠ 0 ∨
        OUTDRV_GetFault (tickEscalated s a).out OUT_IGNC ≠ 0)) ∧
    ((mainLoop s a).m.sys_state = LOCKOUT ∧
      (mainLoop s a).out.isolState.real = 0 ∧ (mainLoop s a).out.isolState.hw = HWOUT_HIZ ∧
      (mainLoop s a).out.igncState.real = 0 ∧ (mainLoop s a).out.igncState.hw = HWOUT_HIZ) := by
  have h1 := SafeCtl_tickEscalated s a hr.safeInv
  have hend : (mainLoop s a).m.sys_state = LOCKOUT := by
    rw [mainLoop_m, loopControl_tickEscalated, loopStateMachine_startup _ hs, hl]
  have hsafe := SafeInv_loop s a hr.safeInv
  have hoff : (mainLoop s a).out.isolState.real = 0 ∧
      (mainLoop s a).out.isolState.hw = HWOUT_HIZ ∧
      (mainLoop s a).out.igncState.real = 0 ∧ (mainLoop s a).out.igncState.hw = HWOUT_HIZ := by
    generalize mainLoop s a = t at hsafe hend
    obtain ⟨⟨_, _, i3, i4, _⟩, ⟨_, _, g3, g4, _⟩⟩ := hsafe.2.2.2.2.1 (Or.inr hend)
    exact ⟨i3, i4, g3, g4⟩
  refine ⟨?_, ?_, hend, hoff⟩
  · generalize tickEscalated s a = q at h1 hs hl
    have h2 := MidCtl_smCtl _ q h1
    rw [smCtl_startup _ _ hs, ← (startupCtl_eq q).1, ← (startupCtl_eq q).2, hl] at h2
    generalize (Startup_Procedure q).1 = r at h2
    obtain ⟨_, _, m3, _, m5, _, _⟩ := h2
    exact ⟨m3 (by decide : LOCKOUT ≠ STARTUP), m5 (Or.inr rfl)⟩
  · generalize tickEscalated s a = q at hl
    rw [(startupCtl_eq q).2] at hl
    exact startupCtl_lockout _ q hl

/-- Witness of C14: the tick from `exStartup3` (sub-step 3, isolator on) that
reads the isolator output shorted to 0 V. -/
theorem C14_witness :
    (tickEscalated exStartup3 smpShort).m.startup_step = 3 ∧
    OUTDRV_GetFault (tickEscalated exStartup3 smpShort).out OUT_ISOL ≠ 0 ∧
    (tickEscalated exStartup3 smpShort).out.isolState.en = 1 ∧
    ((Startup_Procedure (tickEscalated exStartup3 smpShort)).1.m.startup_step = 0 ∧
      (Startup_Procedure (tickEscalated exStartup3 smpShort)).1.out.isolState.en = 0 ∧
      (Startup_Procedure (tickEscalated exStartup3 smpShort)).1.out.isolState.target = 0 ∧
      (Startup_Procedure (tickEscalated exStartup3 smpShort)).1.out.igncState.en = 0 ∧
      (Startup_Procedure (tickEscalated exStartup3 smpShort)).1.out.igncState.target = 0) ∧
    (mainLoop exStartup3 smpShort).m.sys_state = LOCKOUT :=
  have c := C14_startup_abort_leaves_outputs_off exStartup3 smpShort exStartup3_reachable
    (by decide) (by decide)
  ⟨by decide, by decide, by decide, c.1, c.2.2.1⟩

/-! ## The start-up sequence, tick by tick -/

theorem Startup_Procedure_inputs (q : Sys) :
    (Startup_Procedure q).1.m.master_act = q.m.master_act ∧
    (Startup_Procedure q).1.m.kill_act = q.m.kill_act ∧
    (Startup_Procedure q).1.out.isolProt = q.out.isolProt ∧
    (Startup_Procedure q).1.out.igncProt = q.out.igncProt := by
  unfold Startup_Procedure
  by_cases h0 : q.m.startup_step = 0
  · rw [if_pos h0]
    exact ⟨rfl, rfl, rfl, rfl⟩
  rw [if_neg h0]
  by_cases h1 : q.m.startup_step = 1
  · rw [if_pos h1]
    split_ifs <;> exact ⟨rfl, rfl, rfl, rfl⟩
  rw [if_neg h1]
  by_cases h2 : q.m.startup_step = 2
  · rw [if_pos h2]
    split_ifs <;> exact ⟨rfl, rfl, rfl, rfl⟩
  rw [if_neg h2]
  by_cases h3 : q.m.startup_step = 3
  · rw [if_pos h3]
    split_ifs <;> exact ⟨rfl, rfl, rfl, rfl⟩
  rw [if_neg h3]
  by_cases h4 : q.m.startup_step = 4
  · rw [if_pos h4]
    split_ifs <;> exact ⟨rfl, rfl, rfl, rfl⟩
  rw [if_neg h4]
  exact ⟨rfl, rfl, rfl, rfl⟩

theorem Kill_Procedure_inputs (q : Sys) :
    (Kill_Procedure q).1.m.master_act = q.m.master_act ∧
    (Kill_Procedure q).1.m.kill_act = q.m.kill_act ∧
    (Kill_Procedure q).1.out.isolProt = q.out.isolProt ∧
    (Kill_Procedure q).1.out.igncProt = q.out.igncProt := by
  unfold Kill_Procedure
  by_cases h0 : q.m.kill_step = 0
  · rw [if_pos h0]
    exact ⟨rfl, rfl, rfl, rfl⟩
  rw [if_neg h0]
  by_cases h1 : q.m.kill_step = 1
  · rw [if_pos h1]
    simp only
    split_ifs <;> exact ⟨rfl, rfl, rfl, rfl⟩
  rw [if_neg h1]
  by_cases h2 : q.m.kill_step = 2
  · rw [if_pos h2]
    exact ⟨rfl, rfl, rfl, rfl⟩
  rw [if_neg h2]
  by_cases h3 : q.m.kill_step = 3
  · rw [if_pos h3]
    split_ifs <;> exact ⟨rfl, rfl, rfl, rfl⟩
  rw [if_neg h3]
  exact ⟨rfl, rfl, rfl, rfl⟩

theorem Lockout_Procedure_inputs (q : Sys) :
    (Lockout_Procedure q).1.m.master_act = q.m.master_act ∧
    (Lockout_Procedure q).1.m.kill_act = q.m.kill_act ∧
    (Lockout_Procedure q).1.out.isolProt = q.out.isolProt ∧
    (Lockout_Procedure q).1.out.igncProt = q.out.igncProt := by
  unfold Lockout_Procedure
  by_cases h0 : q.m.lockout_step = 0
  · rw [if_pos h0]
    exact ⟨rfl, rfl, rfl, rfl⟩
  rw [if_neg h0]
  simp only
  split_ifs <;> exact ⟨rfl, rfl, rfl, rfl⟩

theorem loopStateMachine_inputs (q : Sys) :
    (loopStateMachine q).m.master_act = q.m.master_act ∧
    (loopStateMachine q).m.kill_act = q.m.kill_act ∧
    (loopStateMachine q).out.isolProt = q.out.isolProt ∧
    (loopStateMachine q).out.igncProt = q.out.igncProt := by
  unfold loopStateMachine
  split_ifs
  · exact ⟨rfl, rfl, rfl, rfl⟩
  · exact ⟨rfl, rfl, rfl, rfl⟩
  · exact Startup_Procedure_inputs q
  · exact ⟨rfl, rfl, rfl, rfl⟩
  · exact ⟨rfl, rfl, rfl, rfl⟩
  · exact Kill_Procedure_inputs q
  · exact Lockout_Procedure_inputs q
  · exact ⟨rfl, rfl, rfl, rfl⟩
theorem ProcessLogic_faults (d : OutDrv) (ch : Nat) :
    OUTDRV_GetFault (OUTDRV_ProcessLogic d) ch = OUTDRV_GetFault d ch := by
  have hi : ∀ e : OutDrv, (ProcessLogicIsolator e).isolProt.fault = e.isolProt.fault ∧
      (ProcessLogicIsolator e).isolProt.ext_fault = e.isolProt.ext_fault := by
    intro e
    unfold ProcessLogicIsolator
    split_ifs <;> simp only [HAL_SetIsolator_isolProt] <;> (try split_ifs) <;>
      first | exact ⟨rfl, rfl⟩ | exact ⟨trivial, trivial⟩
  have hg : ∀ e : OutDrv, (ProcessLogicIgnition e).igncProt.fault = e.igncProt.fault ∧
      (ProcessLogicIgnition e).igncProt.ext_fault = e.igncProt.ext_fault := by
    intro e
    unfold ProcessLogicIgnition
    split_ifs <;> simp only [HAL_SetIgnition_igncProt] <;> (try split_ifs) <;>
      first | exact ⟨rfl, rfl⟩ | exact ⟨trivial, trivial⟩
  unfold OUTDRV_GetFault OUTDRV_ProcessLogic
  rw [(hi _).1, (hi _).2, (ProcessLogicIsolator_ignc _).2.1, (ProcessLogicIgnition_isol d).2.1,
    (hg d).1, (hg d).2]

/-- The values of `master_act`, `kill_act` and of the two fault indicators at the
end of a tick are those the `switch(sys_state)` of that tick has tested. -/
theorem mainLoop_inputs (s : Sys) (a : Sample) :
    (mainLoop s a).m.master_act = (tickEscalated s a).m.master_act ∧
    (mainLoop s a).m.kill_act = (tickEscalated s a).m.kill_act ∧
    OUTDRV_GetFault (mainLoop s a).out OUT_ISOL =
      OUTDRV_GetFault (tickEscalated s a).out OUT_ISOL ∧
    OUTDRV_GetFault (mainLoop s a).out OUT_IGNC =
      OUTDRV_GetFault (tickEscalated s a).out OUT_IGNC := by
  obtain ⟨i1, i2, i3, i4⟩ := loopStateMachine_inputs (tickEscalated s a)
  rw [mainLoop_m, mainLoop_out, ProcessLogic_faults, ProcessLogic_faults,
    loopControl_tickEscalated, i1, i2]
  refine ⟨rfl, rfl, ?_, ?_⟩
  · unfold OUTDRV_GetFault
    rw [i3, i4]
  · unfold OUTDRV_GetFault
    rw [i3, i4]

theorem tickEscalated_ctl (s : Sys) (a : Sample) (h : s.m.sys_state ≠ ACTIVE) :
    ctlOf (tickEscalated s a) = ctlOf s := by
  have e3 : (tickProtected s a).m.sys_state = s.m.sys_state := (tickProtected_frame s a).1
  unfold tickEscalated
  rcases escalation_ctl (tickProtected s a) with e | ⟨ha, _⟩
  · rw [e, tickProtected_ctl]
  · rw [e3] at ha
    exact absurd ha h

/-- A channel that is enabled, has no pending `delay_exec` and no fault is
driven to its target by `OUTDRV_ProcessLogic`. -/
theorem ProcessLogic_real (d : OutDrv) :
    (d.isolProt.delay_exec = 0 → d.isolState.en ≠ 0 → OUTDRV_GetFault d OUT_ISOL = 0 →
      (OUTDRV_ProcessLogic d).isolState.real = d.isolState.target) ∧
    (d.igncProt.delay_exec = 0 → d.igncState.en ≠ 0 → OUTDRV_GetFault d OUT_IGNC = 0 →
      (OUTDRV_ProcessLogic d).igncState.real = d.igncState.target) := by
  have f1 : OUTDRV_GetFault d OUT_ISOL = 0 → d.isolProt.fault = 0 ∧ d.isolProt.ext_fault = 0 := by
    unfold OUTDRV_GetFault
    simp only [if_true]
    split_ifs with h
    · intro h0; exact absurd h0 (by decide)
    · intro _
      exact ⟨by_contra fun c => h (Or.inl c), by_contra fun c => h (Or.inr c)⟩
  have f2 : OUTDRV_GetFault d OUT_IGNC = 0 → d.igncProt.fault = 0 ∧ d.igncProt.ext_fault = 0 := by
    unfold OUTDRV_GetFault
    rw [if_neg (by decide), if_pos rfl]
    split_ifs with h
    · intro h0; exact absurd h0 (by decide)
    · intro _
      exact ⟨by_contra fun c => h (Or.inl c), by_contra fun c => h (Or.inr c)⟩
  obtain ⟨_, _, _, g4⟩ := ProcessLogicIgnition_effect d
  obtain ⟨_, _, _, i4⟩ := ProcessLogicIsolator_effect (ProcessLogicIgnition d)
  obtain ⟨a1, _, _, _, _⟩ := ProcessLogicIsolator_ignc (ProcessLogicIgnition d)
  obtain ⟨b1, b2, _, _, _⟩ := ProcessLogicIgnition_isol d
  simp only [b1, b2] at i4
  unfold OUTDRV_ProcessLogic
  refine ⟨fun h1 h2 h3 => (i4 h1).2.2 h2 (f1 h3).1 (f1 h3).2, fun h1 h2 h3 => ?_⟩
  rw [a1]
  exact (g4 h1).2.2 h2 (f2 h3).1 (f2 h3).2

theorem smCtl_startup_ok (c : Ctl) (q : Sys) (hst : c.sys_state = STARTUP)
    (qm : q.m.master_act ≠ 0) (qk : q.m.kill_act = 0)
    (qf1 : OUTDRV_GetFault q.out OUT_ISOL = 0) (qf2 : OUTDRV_GetFault q.out OUT_IGNC = 0) :
    (c.startup_step = 0 →
      smCtl c q = { c with startup_timeout := 100, startup_step := 1, sys_state := STARTUP }) ∧
    (c.startup_step = 1 → c.startup_timeout ≠ 0 →
      smCtl c q = { c with startup_timeout := c.startup_timeout - 1, sys_state := STARTUP }) ∧
    (c.startup_step = 1 → c.startup_timeout = 0 →
      smCtl c q = { c with startup_step := 2, sys_state := STARTUP }) ∧
    (c.startup_step = 2 →
      smCtl c q = { c with
        isol := { c.isol with en := 1, target := 1 }
        startup_timeout := 200, startup_step := 3, sys_state := STARTUP }) ∧
    (c.startup_step = 3 → c.startup_timeout ≠ 0 →
      smCtl c q = { c with startup_timeout := c.startup_timeout - 1, sys_state := STARTUP }) ∧
    (c.startup_step = 3 → c.startup_timeout = 0 →
      smCtl c q = { c with
        ignc := { c.ignc with en := 1, target := 1 }
        startup_timeout := 200, startup_step := 4, sys_state := STARTUP }) ∧
    (c.startup_step = 4 → c.startup_timeout ≠ 0 →
      smCtl c q = { c with startup_timeout := c.startup_timeout - 1, sys_state := STARTUP }) ∧
    (c.startup_step = 4 → c.startup_timeout = 0 →
      smCtl c q = { c with startup_step := 0, sys_state := ACTIVE }) := by
  have n2 : ¬ (q.m.master_act = 0 ∨ q.m.kill_act ≠ 0) := by
    rintro (h | h)
    · exact qm h
    · exact h qk
  have n3 : ¬ (q.m.master_act = 0 ∨ q.m.kill_act ≠ 0 ∨ OUTDRV_GetFault q.out OUT_ISOL ≠ 0) := by
    rintro (h | h | h)
    · exact qm h
    · exact h qk
    · exact h qf1
  have n4 : ¬ (q.m.master_act = 0 ∨ q.m.kill_act ≠ 0 ∨ OUTDRV_GetFault q.out OUT_ISOL ≠ 0 ∨
      OUTDRV_GetFault q.out OUT_IGNC ≠ 0) := by
    rintro (h | h | h | h)
    · exact qm h
    · exact h qk
    · exact h qf1
    · exact h qf2
  have e := smCtl_startup c q hst
  unfold startupCtl at e
  rw [if_neg n2, if_neg n3, if_neg n4] at e
  refine ⟨fun h0 => ?_, fun h1 ht => ?_, fun h1 ht => ?_, fun h2 => ?_, fun h3 ht => ?_,
    fun h3 ht => ?_, fun h4 ht => ?_, fun h4 ht => ?_⟩
  · rw [if_pos h0] at e
    exact e
  · rw [if_neg (by omega), if_pos h1, if_pos ht] at e
    exact e
  · rw [if_neg (by omega), if_pos h1, if_neg (by simpa using ht)] at e
    exact e
  · rw [if_neg (by omega), if_neg (by omega), if_pos h2] at e
    exact e
  · rw [if_neg (by omega), if_neg (by omega), if_neg (by omega), if_pos h3, if_pos ht] at e
    exact e
  · rw [if_neg (by omega), if_neg (by omega), if_neg (by omega), if_pos h3,
      if_neg (by simpa using ht)] at e
    exact e
  · rw [if_neg (by omega), if_neg (by omega), if_neg (by omega), if_neg (by omega), if_pos h4,
      if_pos ht] at e
    exact e
  · rw [if_neg (by omega), if_neg (by omega), if_neg (by omega), if_neg (by omega), if_pos h4,
      if_neg (by simpa using ht)] at e
    exact e
theorem mainLoop_eq (s : Sys) (a : Sample) :
    mainLoop s a = { loopControl s a with
      out := OUTDRV_ProcessLogic (loopControl s a).out
      led := LEDDRV_Process (loopControl s a).led } := by
  simp only [mainLoop]

theorem PLRel_facts (r : Sys) (l : LedDrv) (hd1 : (ctlOf r).isol_delay = 0)
    (hd2 : (ctlOf r).ignc_delay = 0) (f1 : OUTDRV_GetFault r.out OUT_ISOL = 0)
    (f2 : OUTDRV_GetFault r.out OUT_IGNC = 0) (c' : Ctl)
    (hc : c' = ctlOf { r with out := OUTDRV_ProcessLogic r.out, led := l }) :
    c'.sys_state = (ctlOf r).sys_state ∧ c'.startup_step = (ctlOf r).startup_step ∧
    c'.startup_timeout = (ctlOf r).startup_timeout ∧
    c'.isol.en = (ctlOf r).isol.en ∧ c'.isol.target = (ctlOf r).isol.target ∧
    c'.ignc.en = (ctlOf r).ignc.en ∧ c'.ignc.target = (ctlOf r).ignc.target ∧
    ((ctlOf r).isol.en ≠ 0 → c'.isol.real = (ctlOf r).isol.target) ∧
    ((ctlOf r).ignc.en ≠ 0 → c'.ignc.real = (ctlOf r).ignc.target) := by
  obtain ⟨e1, e2, e3, _, ⟨i1, i2, _, _⟩, ⟨g1, g2, _, _⟩⟩ := ProcessLogic_rel r l
  obtain ⟨p1, p2⟩ := ProcessLogic_real r.out
  subst hc
  exact ⟨e1, e2, e3, i1, i2, g1, g2, fun h => p1 hd1 h f1, fun h => p2 hd2 h f2⟩

theorem smCtl_sleep_on (c : Ctl) (q : Sys) (hs : c.sys_state = SLEEP)
    (qm : q.m.master_act ≠ 0) : smCtl c q = { c with sys_state := STARTUP } := by
  unfold smCtl
  rw [if_pos hs, if_pos qm]

/-- One tick of the start-up sequence on the control part. -/
theorem StartupPhase_step (c cm c' : Ctl) (q : Sys) (k : Nat) (hk : k < 506)
    (hs : SafeCtl c) (hp : StartupPhase k c)
    (qm : q.m.master_act ≠ 0) (qk : q.m.kill_act = 0)
    (qf1 : OUTDRV_GetFault q.out OUT_ISOL = 0) (qf2 : OUTDRV_GetFault q.out OUT_IGNC = 0)
    (e2 : cm = smCtl c q)
    (r : c'.sys_state = cm.sys_state ∧ c'.startup_step = cm.startup_step ∧
      c'.startup_timeout = cm.startup_timeout ∧
      c'.isol.en = cm.isol.en ∧ c'.isol.target = cm.isol.target ∧
      c'.ignc.en = cm.ignc.en ∧ c'.ignc.target = cm.ignc.target ∧
      (cm.isol.en ≠ 0 → c'.isol.real = cm.isol.target) ∧
      (cm.ignc.en ≠ 0 → c'.ignc.real = cm.ignc.target)) :
    StartupPhase (k + 1) c' := by
  have m3 : c.sys_state ≠ STARTUP → c.startup_step = 0 := hs.2.2.1
  clear hs
  obtain ⟨p0, p1, p2, p3, p4, p5, p6, p7, p8, _⟩ := hp
  rcases Nat.eq_zero_or_pos k with k0 | k0
  · have hsl : c.sys_state = SLEEP := p0 k0
    have s0 : c.startup_step = 0 := m3 (by rw [hsl]; decide)
    rw [smCtl_sleep_on c q hsl qm] at e2
    subst e2
    clear p0 p1 p2 p3 p4 p5 p6 p7 p8 m3
    unfold StartupPhase
    simp only [SLEEP, STARTUP, ACTIVE] at r ⊢
    refine ⟨?_, ?_, ?_, ?_, ?_, ?_, ?_, ?_, ?_, ?_⟩ <;> omega
  have hst : c.sys_state = STARTUP := p1 k0 (by omega)
  obtain ⟨a0, a1, a1e, a2, a3, a3e, a4, a4e⟩ := smCtl_startup_ok c q hst qm qk qf1 qf2
  clear m3 p0 p1
  have hr : k = 1 ∨ (2 ≤ k ∧ k ≤ 101) ∨ k = 102 ∨ k = 103 ∨ (104 ≤ k ∧ k ≤ 303) ∨ k = 304 ∨
      (305 ≤ k ∧ k ≤ 504) ∨ k = 505 := by omega
  rcases hr with h | h | h | h | h | h | h | h
  · have e := a0 (p2 h)
    rw [e] at e2
    subst e2
    clear p2 p3 p4 p5 p6 p7 p8 a0 a1 a1e a2 a3 a3e a4 a4e e
    unfold StartupPhase
    simp only [SLEEP, STARTUP, ACTIVE] at r ⊢
    refine ⟨?_, ?_, ?_, ?_, ?_, ?_, ?_, ?_, ?_, ?_⟩ <;> omega
  · obtain ⟨f1, f2⟩ := p3 h.1 (by omega)
    have e := a1 f1 (by omega)
    rw [e] at e2
    subst e2
    clear p2 p3 p4 p5 p6 p7 p8 a0 a1 a1e a2 a3 a3e a4 a4e e
    unfold StartupPhase
    simp only [SLEEP, STARTUP, ACTIVE] at r ⊢
    refine ⟨?_, ?_, ?_, ?_, ?_, ?_, ?_, ?_, ?_, ?_⟩ <;> omega
  · obtain ⟨f1, f2⟩ := p3 (by omega) (by omega)
    have e := a1e f1 (by omega)
    rw [e] at e2
    subst e2
    clear p2 p3 p4 p5 p6 p7 p8 a0 a1 a1e a2 a3 a3e a4 a4e e
    unfold StartupPhase
    simp only [SLEEP, STARTUP, ACTIVE] at r ⊢
    refine ⟨?_, ?_, ?_, ?_, ?_, ?_, ?_, ?_, ?_, ?_⟩ <;> omega
  · have e := a2 (p4 h)
    rw [e] at e2
    subst e2
    clear p2 p3 p4 p5 p6 p7 p8 a0 a1 a1e a2 a3 a3e a4 a4e e
    unfold StartupPhase
    simp only [SLEEP, STARTUP, ACTIVE] at r ⊢
    refine ⟨?_, ?_, ?_, ?_, ?_, ?_, ?_, ?_, ?_, ?_⟩ <;> omega
  · obtain ⟨f1, f2⟩ := p5 h.1 (by omega)
    obtain ⟨i1, i2, i3⟩ := p7 h.1
    have e := a3 f1 (by omega)
    rw [e] at e2
    subst e2
    clear p2 p3 p4 p5 p6 p7 p8 a0 a1 a1e a2 a3 a3e a4 a4e e
    unfold StartupPhase
    simp only [SLEEP, STARTUP, ACTIVE] at r ⊢
    refine ⟨?_, ?_, ?_, ?_, ?_, ?_, ?_, ?_, ?_, ?_⟩ <;> omega
  · obtain ⟨f1, f2⟩ := p5 (by omega) (by omega)
    obtain ⟨i1, i2, i3⟩ := p7 (by omega)
    have e := a3e f1 (by omega)
    rw [e] at e2
    subst e2
    clear p2 p3 p4 p5 p6 p7 p8 a0 a1 a1e a2 a3 a3e a4 a4e e
    unfold StartupPhase
    simp only [SLEEP, STARTUP, ACTIVE] at r ⊢
    refine ⟨?_, ?_, ?_, ?_, ?_, ?_, ?_, ?_, ?_, ?_⟩ <;> omega
  · obtain ⟨f1, f2⟩ := p6 h.1 (by omega)
    obtain ⟨i1, i2, i3⟩ := p7 (by omega)
    obtain ⟨g1, g2, g3⟩ := p8 h.1
    have e := a4 f1 (by omega)
    rw [e] at e2
    subst e2
    clear p2 p3 p4 p5 p6 p7 p8 a0 a1 a1e a2 a3 a3e a4 a4e e
    unfold StartupPhase
    simp only [SLEEP, STARTUP, ACTIVE] at r ⊢
    refine ⟨?_, ?_, ?_, ?_, ?_, ?_, ?_, ?_, ?_, ?_⟩ <;> omega
  · obtain ⟨f1, f2⟩ := p6 (by omega) (by omega)
    obtain ⟨i1, i2, i3⟩ := p7 (by omega)
    obtain ⟨g1, g2, g3⟩ := p8 (by omega)
    have e := a4e f1 (by omega)
    rw [e] at e2
    subst e2
    clear p2 p3 p4 p5 p6 p7 p8 a0 a1 a1e a2 a3 a3e a4 a4e e
    unfold StartupPhase
    simp only [SLEEP, STARTUP, ACTIVE] at r ⊢
    refine ⟨?_, ?_, ?_, ?_, ?_, ?_, ?_, ?_, ?_, ?_⟩ <;> omega
theorem smCtl_delay (c : Ctl) (q : Sys) (h : c.sys_state = SLEEP ∨ c.sys_state = STARTUP) :
    (smCtl c q).isol_delay = c.isol_delay ∧ (smCtl c q).ignc_delay = c.ignc_delay := by
  rcases h with h | h
  · unfold smCtl
    rw [if_pos h]
    split_ifs <;> exact ⟨rfl, rfl⟩
  · rw [smCtl_startup c q h]
    unfold startupCtl
    by_cases h0 : c.startup_step = 0
    · rw [if_pos h0]
      exact ⟨rfl, rfl⟩
    rw [if_neg h0]
    by_cases h1 : c.startup_step = 1
    · rw [if_pos h1]
      split_ifs <;> exact ⟨rfl, rfl⟩
    rw [if_neg h1]
    by_cases h2 : c.startup_step = 2
    · rw [if_pos h2]
      split_ifs <;> exact ⟨rfl, rfl⟩
    rw [if_neg h2]
    by_cases h3 : c.startup_step = 3
    · rw [if_pos h3]
      split_ifs <;> exact ⟨rfl, rfl⟩
    rw [if_neg h3]
    by_cases h4 : c.startup_step = 4
    · rw [if_pos h4]
      split_ifs <;> exact ⟨rfl, rfl⟩
    rw [if_neg h4]
    exact ⟨rfl, rfl⟩

/-- One tick of the start-up sequence: from a state that satisfies the loop
invariant and stands at tick `k < 506` of the sequence, a tick at the end of
which master is active, kill inactive and no channel reports a fault leads to
tick `k + 1` of the sequence. -/
theorem StartupPhase_tick (s : Sys) (a : Sample) (k : Nat) (hk : k < 506) (hs : SafeInv s)
    (hp : StartupPhase k (ctlOf s))
    (hm : (mainLoop s a).m.master_act ≠ 0) (hkl : (mainLoop s a).m.kill_act = 0)
    (hf1 : OUTDRV_GetFault (mainLoop s a).out OUT_ISOL = 0)
    (hf2 : OUTDRV_GetFault (mainLoop s a).out OUT_IGNC = 0) :
    StartupPhase (k + 1) (ctlOf (mainLoop s a)) := by
  obtain ⟨q1, q2, q3, q4⟩ := mainLoop_inputs s a
  rw [q1] at hm
  rw [q2] at hkl
  rw [q3] at hf1
  rw [q4] at hf2
  have es : (ctlOf s).sys_state = s.m.sys_state := rfl
  have hss : s.m.sys_state = SLEEP ∨ s.m.sys_state = STARTUP := by
    rcases Nat.eq_zero_or_pos k with k0 | k0
    · exact Or.inl (es ▸ hp.1 k0)
    · exact Or.inr (es ▸ hp.2.1 k0 (by omega))
  have hna : s.m.sys_state ≠ ACTIVE := by
    rcases hss with h | h <;> rw [h] <;> decide
  have hnk : s.m.sys_state ≠ KILLING := by
    rcases hss with h | h <;> rw [h] <;> decide
  have e1 := tickEscalated_ctl s a hna
  have e2 : ctlOf (loopControl s a) = smCtl (ctlOf s) (tickEscalated s a) := by
    rw [loopControl_tickEscalated, smCtl_eq, e1]
  obtain ⟨d1, d2⟩ := smCtl_delay (ctlOf s) (tickEscalated s a) hss
  rw [← e2] at d1 d2
  have z1 : (ctlOf s).isol_delay = 0 := (hs.2.2.2.1 hnk).2
  have z2 : (ctlOf s).ignc_delay = 0 := hs.2.1
  rw [z1] at d1
  rw [z2] at d2
  obtain ⟨_, _, i3, i4⟩ := loopStateMachine_inputs (tickEscalated s a)
  rw [← loopControl_tickEscalated] at i3 i4
  have f1 : OUTDRV_GetFault (loopControl s a).out OUT_ISOL = 0 := by
    rw [← hf1]; unfold OUTDRV_GetFault; rw [i3, i4]
  have f2 : OUTDRV_GetFault (loopControl s a).out OUT_IGNC = 0 := by
    rw [← hf2]; unfold OUTDRV_GetFault; rw [i3, i4]
  have r := PLRel_facts (loopControl s a) (LEDDRV_Process (loopControl s a).led) d1 d2 f1 f2
    (ctlOf (mainLoop s a)) (by rw [mainLoop_eq])
  exact StartupPhase_step (ctlOf s) (ctlOf (loopControl s a)) (ctlOf (mainLoop s a))
    (tickEscalated s a) k hk hs hp hm hkl hf1 hf2 e2 r

theorem tickRun_phase (s : Sys) (samples : Nat → Sample) (hr : Reachable s)
    (h0 : s.m.sys_state = SLEEP)
    (hp : ∀ k, 1 ≤ k → k ≤ 506 →
      (tickRun s samples k).m.master_act ≠ 0 ∧ (tickRun s samples k).m.kill_act = 0 ∧
      OUTDRV_GetFault (tickRun s samples k).out OUT_ISOL = 0 ∧
      OUTDRV_GetFault (tickRun s samples k).out OUT_IGNC = 0) (k : Nat) :
    k ≤ 506 → SafeInv (tickRun s samples k) ∧ StartupPhase k (ctlOf (tickRun s samples k)) := by
  induction k with
  | zero =>
    intro _
    refine ⟨hr.safeInv, ?_⟩
    unfold StartupPhase
    refine ⟨fun _ => h0, ?_, ?_, ?_, ?_, ?_, ?_, ?_, ?_, ?_⟩ <;> intro h <;> omega
  | succ k ih =>
    intro hk
    obtain ⟨i1, i2⟩ := ih (by omega)
    obtain ⟨p1, p2, p3, p4⟩ := hp (k + 1) (by omega) hk
    exact ⟨SafeInv_loop _ _ i1, StartupPhase_tick _ _ k (by omega) i1 i2 p1 p2 p3 p4⟩
/-! ## The example run from SLEEP to ACTIVE, tick by tick -/

theorem exSleepArmed_reachable : Reachable exSleepArmed := by
  have h : mainLoopRun (mainInit 15 (List.replicate 100 smpOff)) (List.replicate 10 smpOn) =
      exSleepArmed := by
    rw [mainInit_example, run_debounce]
    rfl
  rw [← h]
  exact (Reachable.init 15 _ (List.length_replicate _ _)).run _

theorem exStartupRun_step1 (k : Nat) (h1 : 2 ≤ k) (h2 : k ≤ 102) :
    exStartupRun k = exSys (exMain STARTUP 1 1 (102 - k) 0 0 0) chOff chOff
      { level := 0, changed := 1, blocked := 0, dbnc_timer := 0 } 0 LED_SOLID true := by
  have n0 : k ≠ 0 := by omega
  have n1 : k ≠ 1 := by omega
  unfold exStartupRun
  rw [if_neg n0, if_neg n1, if_pos h2]

theorem exStartupRun_step3 (k : Nat) (h1 : 105 ≤ k) (h2 : k ≤ 304) :
    exStartupRun k = exSys (exMain STARTUP 1 3 (304 - k) 1 (109 - k) 0) chOn chOff
      { level := 0, changed := 1, blocked := 0, dbnc_timer := 0 } 0 LED_SOLID true := by
  have n0 : k ≠ 0 := by omega
  have n1 : k ≠ 1 := by omega
  have n2 : ¬ k ≤ 102 := by omega
  have n3 : k ≠ 103 := by omega
  have n4 : k ≠ 104 := by omega
  unfold exStartupRun
  rw [if_neg n0, if_neg n1, if_neg n2, if_neg n3, if_neg n4, if_pos h2]

theorem exStartupRun_step4 (k : Nat) (h1 : 306 ≤ k) (h2 : k ≤ 505) :
    exStartupRun k = exSys (exMain STARTUP 1 4 (505 - k) 1 0 1) chOn chOn
      { level := 0, changed := 1, blocked := 0, dbnc_timer := 0 } 0 LED_SOLID true := by
  have n0 : k ≠ 0 := by omega
  have n1 : k ≠ 1 := by omega
  have n2 : ¬ k ≤ 102 := by omega
  have n3 : k ≠ 103 := by omega
  have n4 : k ≠ 104 := by omega
  have n5 : ¬ k ≤ 304 := by omega
  have n6 : k ≠ 305 := by omega
  unfold exStartupRun
  rw [if_neg n0, if_neg n1, if_neg n2, if_neg n3, if_neg n4, if_neg n5, if_neg n6, if_pos h2]

theorem exStartupRun_tick (k : Nat) (hk : k < 506) :
    mainLoop (exStartupRun k) smpOn = exStartupRun (k + 1) := by
  have hr : k = 0 ∨ k = 1 ∨ (2 ≤ k ∧ k ≤ 101) ∨ k = 102 ∨ k = 103 ∨ k = 104 ∨
      (105 ≤ k ∧ k ≤ 303) ∨ k = 304 ∨ k = 305 ∨ (306 ≤ k ∧ k ≤ 504) ∨ k = 505 := by omega
  rcases hr with h | h | h | h | h | h | h | h | h | h | h
  · subst h
    exact tick_master_on
  · subst h
    exact tick_startup0
  · rw [exStartupRun_step1 k h.1 (by omega), exStartupRun_step1 (k + 1) (by omega) (by omega),
      show 102 - (k + 1) = 102 - k - 1 by omega]
    exact tick_startup1 _ (by omega)
  · subst h
    exact tick_startup1_end
  · subst h
    exact tick_startup2
  · subst h
    exact tick_startup3_first
  · rw [exStartupRun_step3 k h.1 (by omega), exStartupRun_step3 (k + 1) (by omega) (by omega),
      show 304 - (k + 1) = 304 - k - 1 by omega, show 109 - (k + 1) = 109 - k - 1 by omega]
    exact tick_startup3 _ _ (by omega)
  · subst h
    exact tick_startup3_end
  · subst h
    exact tick_startup4 200 0 (by decide)
  · rw [exStartupRun_step4 k h.1 (by omega), exStartupRun_step4 (k + 1) (by omega) (by omega),
      show 505 - (k + 1) = 505 - k - 1 by omega]
    exact tick_startup4 _ _ (by omega)
  · subst h
    exact tick_startup4_end

theorem tickRun_exStartupRun (k : Nat) (hk : k ≤ 506) :
    tickRun exSleepArmed (fun _ => smpOn) k = exStartupRun k := by
  induction k with
  | zero => rfl
  | succ k ih =>
    rw [tickRun, ih (by omega)]
    exact exStartupRun_tick k (by omega)

/-- What each state of the example run shows from tick 1 on: master active,
kill inactive, battery at 12000 mV, no channel fault, no relay trip. -/
theorem exStartupRun_quiet (k : Nat) (h1 : 1 ≤ k) :
    (exStartupRun k).m.master_act = 1 ∧ (exStartupRun k).m.kill_act = 0 ∧
    (exStartupRun k).m.u_bat = 12000 ∧
    OUTDRV_GetFault (exStartupRun k).out OUT_ISOL = 0 ∧
    OUTDRV_GetFault (exStartupRun k).out OUT_IGNC = 0 ∧
    (exStartupRun k).m.ocp_fault = 0 := by
  unfold exStartupRun
  rw [if_neg (by omega)]
  split_ifs <;> exact ⟨rfl, rfl, rfl, rfl, rfl, rfl⟩

theorem exStartupRun_state (k : Nat) (h1 : 1 ≤ k) (h2 : k ≤ 505) :
    (exStartupRun k).m.sys_state = STARTUP := by
  unfold exStartupRun
  rw [if_neg (by omega)]
  split_ifs <;> rfl
/-- C15, counterexample: from the reachable state `exSleepArmed` (SLEEP, both
outputs off, protection state as after init), with the master switch on, the
kill switch off and all voltages at 12000 mV on every tick, each of the first
400 ticks ends with master active, kill inactive, `u_bat = 12000`, no channel
fault and no relay trip, and with `sys_state = STARTUP`: the system is not
ACTIVE within 400 ticks. -/
theorem C15_counterexample :
    Reachable exSleepArmed ∧ exSleepArmed.m.sys_state = SLEEP ∧
    exSleepArmed.out.isolState = chOff ∧ exSleepArmed.out.igncState = chOff ∧
    exSleepArmed.out.isolProt = protZero ∧ exSleepArmed.out.igncProt = protZero ∧
    ∀ k, 1 ≤ k → k ≤ 400 →
      (tickRun exSleepArmed (fun _ => smpOn) k).m.master_act = 1 ∧
      (tickRun exSleepArmed (fun _ => smpOn) k).m.kill_act = 0 ∧
      (tickRun exSleepArmed (fun _ => smpOn) k).m.u_bat = 12000 ∧
      OUTDRV_GetFault (tickRun exSleepArmed (fun _ => smpOn) k).out OUT_ISOL = 0 ∧
      OUTDRV_GetFault (tickRun exSleepArmed (fun _ => smpOn) k).out OUT_IGNC = 0 ∧
      (tickRun exSleepArmed (fun _ => smpOn) k).m.ocp_fault = 0 ∧
      (tickRun exSleepArmed (fun _ => smpOn) k).m.sys_state = STARTUP ∧
      (tickRun exSleepArmed (fun _ => smpOn) k).m.sys_state ≠ ACTIVE := by
  refine ⟨exSleepArmed_reachable, rfl, rfl, rfl, rfl, rfl, fun k h1 h2 => ?_⟩
  rw [tickRun_exStartupRun k (by omega)]
  obtain ⟨a, b, c, d, e, f⟩ := exStartupRun_quiet k h1
  have g := exStartupRun_state k h1 (by omega)
  exact ⟨a, b, c, d, e, f, g, by rw [g]; decide⟩

/-- C15, amended: from a reachable state with `sys_state = SLEEP`, if each of
the next 506 ticks ends with master active, kill inactive and no channel fault,
then `sys_state` is STARTUP after each of the ticks 1 to 505 (one tick leaves
SLEEP, `Startup_Procedure` then takes 1 + 101 + 1 + 201 + 201 calls), and after
tick 506 `sys_state` is ACTIVE and both the isolator and the ignition channel
have `real = 1`. -/
theorem C15_startup_reaches_active_in_506_ticks (s : Sys) (samples : Nat → Sample)
    (hr : Reachable s) (h0 : s.m.sys_state = SLEEP)
    (hp : ∀ k, 1 ≤ k → k ≤ 506 →
      (tickRun s samples k).m.master_act ≠ 0 ∧ (tickRun s samples k).m.kill_act = 0 ∧
      OUTDRV_GetFault (tickRun s samples k).out OUT_ISOL = 0 ∧
      OUTDRV_GetFault (tickRun s samples k).out OUT_IGNC = 0) :
    (∀ k, 1 ≤ k → k ≤ 505 → (tickRun s samples k).m.sys_state = STARTUP) ∧
    (tickRun s samples 506).m.sys_state = ACTIVE ∧
    (tickRun s samples 506).out.isolState.real = 1 ∧
    (tickRun s samples 506).out.igncState.real = 1 := by
  refine ⟨fun k h1 h2 => ?_, ?_⟩
  · obtain ⟨_, p⟩ := tickRun_phase s samples hr h0 hp k (by omega)
    generalize tickRun s samples k = t at p
    exact p.2.1 h1 h2
  · obtain ⟨_, p⟩ := tickRun_phase s samples hr h0 hp 506 (le_refl _)
    generalize tickRun s samples 506 = t at p
    obtain ⟨_, _, _, _, _, _, _, p7, p8, p9⟩ := p
    exact ⟨p9 (le_refl _), (p7 (by decide)).2.2, (p8 (by decide)).2.2⟩

/-- Witness of the amended C15: the example run from `exSleepArmed` with the
master switch on and all voltages at 12000 mV. -/
theorem C15_witness :
    Reachable exSleepArmed ∧ exSleepArmed.m.sys_state = SLEEP ∧
    (tickRun exSleepArmed (fun _ => smpOn) 400).m.sys_state = STARTUP ∧
    (tickRun exSleepArmed (fun _ => smpOn) 506).m.sys_state = ACTIVE ∧
    (tickRun exSleepArmed (fun _ => smpOn) 506).out.isolState.real = 1 ∧
    (tickRun exSleepArmed (fun _ => smpOn) 506).out.igncState.real = 1 :=
  have c := C15_startup_reaches_active_in_506_ticks exSleepArmed (fun _ => smpOn)
    exSleepArmed_reachable rfl (fun k h1 h2 => by
      rw [tickRun_exStartupRun k h2]
      obtain ⟨a, b, _, d, e, _⟩ := exStartupRun_quiet k h1
      exact ⟨by rw [a]; decide, b, d, e⟩)
  ⟨exSleepArmed_reachable, rfl, c.1 400 (by decide) (by decide), c.2⟩

/-! ## The default branch of the state switch -/

/-- C21: when `sys_state` is none of SLEEP, STARTUP, ACTIVE, KILLING, LOCKOUT
(any value above 4), the `switch(sys_state)` of the loop body changes nothing
but `sys_state`, which becomes KILLING: the outputs driver (targets and
enabled flags included), the inputs driver, the LED driver and all other
variables of `main.c`, among them the static locals of the three state
procedures, are as before. -/
theorem C21_unknown_state_defaults_to_killing (s : Sys) (h : 4 < s.m.sys_state) :
    loopStateMachine s = { s with m := { s.m with sys_state := KILLING } } ∧
    (loopStateMachine s).m.sys_state = KILLING ∧
    (loopStateMachine s).out = s.out ∧ (loopStateMachine s).inp = s.inp ∧
    (loopStateMachine s).led = s.led ∧
    (loopStateMachine s).m.startup_step = s.m.startup_step ∧
    (loopStateMachine s).m.kill_step = s.m.kill_step ∧
    (loopStateMachine s).m.lockout_step = s.m.lockout_step := by
  have e : loopStateMachine s = { s with m := { s.m with sys_state := KILLING } } := by
    have n : s.m.sys_state ≠ 0 ∧ s.m.sys_state ≠ 1 ∧ s.m.sys_state ≠ 2 ∧
        s.m.sys_state ≠ 3 ∧ s.m.sys_state ≠ 4 := by omega
    unfold loopStateMachine
    rw [if_neg n.1, if_neg n.2.1, if_neg n.2.2.1, if_neg n.2.2.2.1, if_neg n.2.2.2.2]
  rw [e]
  exact ⟨rfl, rfl, rfl, rfl, rfl, rfl, rfl, rfl⟩

/-- C21 at `exUnknown`, where `sys_state = 7`, both outputs are on and
`Kill_Procedure` is at sub-step 0: the switch leaves the ignition target at 1,
which a call of `Kill_Procedure` would have reset. -/
theorem C21_witness :
    4 < exUnknown.m.sys_state ∧ exUnknown.m.kill_step = 0 ∧
    exUnknown.out.igncState.target = 1 ∧
    (Kill_Procedure exUnknown).1.out.igncState.target = 0 ∧
    (loopStateMachine exUnknown = { exUnknown with m := { exUnknown.m with sys_state := KILLING } } ∧
    (loopStateMachine exUnknown).m.sys_state = KILLING ∧
    (loopStateMachine exUnknown).out = exUnknown.out ∧
    (loopStateMachine exUnknown).inp = exUnknown.inp ∧
    (loopStateMachine exUnknown).led = exUnknown.led ∧
    (loopStateMachine exUnknown).m.startup_step = exUnknown.m.startup_step ∧
    (loopStateMachine exUnknown).m.kill_step = exUnknown.m.kill_step ∧
    (loopStateMachine exUnknown).m.lockout_step = exUnknown.m.lockout_step) :=
  ⟨by decide, rfl, rfl, rfl, C21_unknown_state_defaults_to_killing exUnknown (by decide)⟩

/-! ## The apply step of the drive logic -/

theorem HAL_SetIsolator_level (d : OutDrv) (level : Nat) :
    (level = HWOUT_HIGH ∨ level = HWOUT_LOW ∨ level = HWOUT_HIZ →
      (HAL_SetIsolator d level).isolState.hw = level) ∧
    (HAL_SetIsolator d level).PB7 = decide (level = HWOUT_HIGH) ∧
    (HAL_SetIsolator d level).PB1 = decide (level = HWOUT_LOW) := by
  unfold HAL_SetIsolator
  by_cases h2 : level = HWOUT_HIGH
  · simp [h2]
  · by_cases h1 : level = HWOUT_LOW
    · simp [h1]
    · simp only [if_neg h1, if_neg h2]
      exact ⟨fun h => (h.resolve_left h2).resolve_left h1 ▸ rfl, by simp [h2], by simp [h1]⟩

theorem HAL_SetIgnition_level (d : OutDrv) (level : Nat) :
    (level = HWOUT_HIGH ∨ level = HWOUT_LOW ∨ level = HWOUT_HIZ →
      (HAL_SetIgnition d level).igncState.hw = level) ∧
    (HAL_SetIgnition d level).PB6 = decide (level = HWOUT_HIGH) ∧
    (HAL_SetIgnition d level).PB0 = decide (level = HWOUT_LOW) := by
  unfold HAL_SetIgnition
  by_cases h2 : level = HWOUT_HIGH
  · simp [h2]
  · by_cases h1 : level = HWOUT_LOW
    · simp [h1]
    · simp only [if_neg h1, if_neg h2]
      exact ⟨fun h => (h.resolve_left h2).resolve_left h1 ▸ rfl, by simp [h2], by simp [h1]⟩

theorem StateToHWLevel_range (cfg : outConfigDef) (state : Nat) :
    StateToHWLevel cfg state = HWOUT_HIGH ∨ StateToHWLevel cfg state = HWOUT_LOW ∨
      StateToHWLevel cfg state = HWOUT_HIZ := by
  unfold StateToHWLevel
  split_ifs <;> simp

/-- The isolator chain of `OUTDRV_ProcessLogic` when it sets the intended
output. -/
theorem ProcessLogicIsolator_apply (d : OutDrv) (hd : d.isolProt.delay_exec = 0)
    (hf : d.isolProt.fault = 0) (he : d.isolProt.ext_fault = 0) (hen : d.isolState.en ≠ 0) :
    ProcessLogicIsolator d =
      { HAL_SetIsolator d (StateToHWLevel d.isolCfg d.isolState.target) with
        isolState :=
          { (HAL_SetIsolator d (StateToHWLevel d.isolCfg d.isolState.target)).isolState with
            real := (HAL_SetIsolator d
              (StateToHWLevel d.isolCfg d.isolState.target)).isolState.target } } := by
  unfold ProcessLogicIsolator
  rw [if_neg (by simpa using hd), if_neg (by simp [hf, he, hen])]

/-- The ignition chain of `OUTDRV_ProcessLogic` when it sets the intended
output. -/
theorem ProcessLogicIgnition_apply (d : OutDrv) (hd : d.igncProt.delay_exec = 0)
    (hf : d.igncProt.fault = 0) (he : d.igncProt.ext_fault = 0) (hen : d.igncState.en ≠ 0) :
    ProcessLogicIgnition d =
      { HAL_SetIgnition d (StateToHWLevel d.igncCfg d.igncState.target) with
        igncState :=
          { (HAL_SetIgnition d (StateToHWLevel d.igncCfg d.igncState.target)).igncState with
            real := (HAL_SetIgnition d
              (StateToHWLevel d.igncCfg d.igncState.target)).igncState.target } } := by
  unfold ProcessLogicIgnition
  rw [if_neg (by simpa using hd), if_neg (by simp [hf, he, hen])]

/-- What the isolator chain does to its channel when it sets the intended
output. -/
theorem ProcessLogicIsolator_driven (d : OutDrv) (hd : d.isolProt.delay_exec = 0)
    (hf : d.isolProt.fault = 0) (he : d.isolProt.ext_fault = 0) (hen : d.isolState.en ≠ 0) :
    (ProcessLogicIsolator d).isolState.hw = StateToHWLevel d.isolCfg d.isolState.target ∧
    (ProcessLogicIsolator d).isolState.real = d.isolState.target ∧
    (ProcessLogicIsolator d).PB7 =
      decide (StateToHWLevel d.isolCfg d.isolState.target = HWOUT_HIGH) ∧
    (ProcessLogicIsolator d).PB1 =
      decide (StateToHWLevel d.isolCfg d.isolState.target = HWOUT_LOW) ∧
    (ProcessLogicIsolator d).isolProt =
      if StateToHWLevel d.isolCfg d.isolState.target ≠ d.isolState.hw then
        { d.isolProt with ocp_deadtime := ISOL_OCP_DEAD_TIME }
      else d.isolProt := by
  rw [ProcessLogicIsolator_apply d hd hf he hen]
  obtain ⟨l1, l2, l3⟩ := HAL_SetIsolator_level d (StateToHWLevel d.isolCfg d.isolState.target)
  exact ⟨l1 (StateToHWLevel_range _ _), (HAL_SetIsolator_state d _).2.1, l2, l3,
    HAL_SetIsolator_isolProt d _⟩

/-- What the ignition chain does to its channel when it sets the intended
output. -/
theorem ProcessLogicIgnition_driven (d : OutDrv) (hd : d.igncProt.delay_exec = 0)
    (hf : d.igncProt.fault = 0) (he : d.igncProt.ext_fault = 0) (hen : d.igncState.en ≠ 0) :
    (ProcessLogicIgnition d).igncState.hw = StateToHWLevel d.igncCfg d.igncState.target ∧
    (ProcessLogicIgnition d).igncState.real = d.igncState.target ∧
    (ProcessLogicIgnition d).PB6 =
      decide (StateToHWLevel d.igncCfg d.igncState.target = HWOUT_HIGH) ∧
    (ProcessLogicIgnition d).PB0 =
      decide (StateToHWLevel d.igncCfg d.igncState.target = HWOUT_LOW) ∧
    (ProcessLogicIgnition d).igncProt =
      if StateToHWLevel d.igncCfg d.igncState.target ≠ d.igncState.hw then
        { d.igncProt with ocp_deadtime := IGNC_OCP_DEAD_TIME }
      else d.igncProt := by
  rw [ProcessLogicIgnition_apply d hd hf he hen]
  obtain ⟨l1, l2, l3⟩ := HAL_SetIgnition_level d (StateToHWLevel d.igncCfg d.igncState.target)
  exact ⟨l1 (StateToHWLevel_range _ _), (HAL_SetIgnition_state d _).2.1, l2, l3,
    HAL_SetIgnition_igncProt d _⟩
/-- C24: for a channel with `delay_exec = 0`, no protection fault, no
`ext_fault` and `en` set, after `OUTDRV_ProcessLogic` the hardware level is
`StateToHWLevel(cfg, target)` (the high-side pin is set exactly for
DriveHigh, the low-side pin exactly for DriveLow) and `real = target`; the
channel's `ocp_deadtime` is its dead-time constant (`ISOL_OCP_DEAD_TIME`,
`IGNC_OCP_DEAD_TIME`) when the new level differs from the one asserted before
the call, and is what it was when the level is the same; nothing else of the
channel's protection state changes.  First the isolator, then the ignition. -/
theorem C24_apply_sets_level_and_rearms_deadtime (d : OutDrv) :
    (d.isolProt.delay_exec = 0 → d.isolProt.fault = 0 → d.isolProt.ext_fault = 0 →
      d.isolState.en ≠ 0 →
      (OUTDRV_ProcessLogic d).isolState.hw = StateToHWLevel d.isolCfg d.isolState.target ∧
      (OUTDRV_ProcessLogic d).isolState.real = d.isolState.target ∧
      (OUTDRV_ProcessLogic d).PB7 =
        decide (StateToHWLevel d.isolCfg d.isolState.target = HWOUT_HIGH) ∧
      (OUTDRV_ProcessLogic d).PB1 =
        decide (StateToHWLevel d.isolCfg d.isolState.target = HWOUT_LOW) ∧
      (StateToHWLevel d.isolCfg d.isolState.target ≠ d.isolState.hw →
        (OUTDRV_ProcessLogic d).isolProt =
          { d.isolProt with ocp_deadtime := ISOL_OCP_DEAD_TIME }) ∧
      (StateToHWLevel d.isolCfg d.isolState.target = d.isolState.hw →
        (OUTDRV_ProcessLogic d).isolProt = d.isolProt)) ∧
    (d.igncProt.delay_exec = 0 → d.igncProt.fault = 0 → d.igncProt.ext_fault = 0 →
      d.igncState.en ≠ 0 →
      (OUTDRV_ProcessLogic d).igncState.hw = StateToHWLevel d.igncCfg d.igncState.target ∧
      (OUTDRV_ProcessLogic d).igncState.real = d.igncState.target ∧
      (OUTDRV_ProcessLogic d).PB6 =
        decide (StateToHWLevel d.igncCfg d.igncState.target = HWOUT_HIGH) ∧
      (OUTDRV_ProcessLogic d).PB0 =
        decide (StateToHWLevel d.igncCfg d.igncState.target = HWOUT_LOW) ∧
      (StateToHWLevel d.igncCfg d.igncState.target ≠ d.igncState.hw →
        (OUTDRV_ProcessLogic d).igncProt =
          { d.igncProt with ocp_deadtime := IGNC_OCP_DEAD_TIME }) ∧
      (StateToHWLevel d.igncCfg d.igncState.target = d.igncState.hw →
        (OUTDRV_ProcessLogic d).igncProt = d.igncProt)) := by
  constructor
  · intro hd hf he hen
    obtain ⟨h1, h2, h3, -, -⟩ := ProcessLogicIgnition_isol d
    have k := ProcessLogicIsolator_driven (ProcessLogicIgnition d) (by rw [h2]; exact hd)
      (by rw [h2]; exact hf) (by rw [h2]; exact he) (by rw [h1]; exact hen)
    rw [h1, h2, h3] at k
    obtain ⟨k1, k2, k3, k4, k5⟩ := k
    refine ⟨k1, k2, k3, k4, fun hne => ?_, fun heq => ?_⟩
    · exact k5.trans (if_pos hne)
    · exact k5.trans (if_neg (not_not.mpr heq))
  · intro hd hf he hen
    obtain ⟨h1, h2, -, h4, h5⟩ := ProcessLogicIsolator_ignc (ProcessLogicIgnition d)
    obtain ⟨k1, k2, k3, k4, k5⟩ := ProcessLogicIgnition_driven d hd hf he hen
    unfold OUTDRV_ProcessLogic
    rw [h1, h2, h4, h5]
    refine ⟨k1, k2, k3, k4, fun hne => ?_, fun heq => ?_⟩
    · exact k5.trans (if_pos hne)
    · exact k5.trans (if_neg (not_not.mpr heq))

/-- C24 at `exDeadtime3Off` (both channels driven high with three ticks of
dead-time left, both targets 0: the level changes to HiZ and the dead-time is
re-armed to the constant 0) and at `exDeadtime3` (targets 1: the level stays
DriveHigh and the dead-time stays 3). -/
theorem C24_witness :
    ((OUTDRV_ProcessLogic exDeadtime3Off).isolState.hw = HWOUT_HIZ ∧
      (OUTDRV_ProcessLogic exDeadtime3Off).isolState.real = 0 ∧
      exDeadtime3Off.isolProt.ocp_deadtime = 3 ∧
      (OUTDRV_ProcessLogic exDeadtime3Off).isolProt.ocp_deadtime = 0) ∧
    ((OUTDRV_ProcessLogic exDeadtime3).igncState.hw = HWOUT_HIGH ∧
      (OUTDRV_ProcessLogic exDeadtime3).igncState.real = 1 ∧
      (OUTDRV_ProcessLogic exDeadtime3).igncProt.ocp_deadtime = 3) :=
  have h1 := (C24_apply_sets_level_and_rearms_deadtime exDeadtime3Off).1 rfl rfl rfl
    (by decide)
  have h2 := (C24_apply_sets_level_and_rearms_deadtime exDeadtime3).2 rfl rfl rfl
    (by decide)
  ⟨⟨h1.1, h1.2.1, rfl, congrArg ProtectionDef.ocp_deadtime (h1.2.2.2.2.1 (by decide))⟩,
    ⟨h2.1, h2.2.1, congrArg ProtectionDef.ocp_deadtime (h2.2.2.2.2.2 rfl)⟩⟩

/-- C25: for a channel with `delay_exec` nonzero, `OUTDRV_ProcessLogic`
decrements that `delay_exec` by one and changes nothing else of the channel:
its status (hardware level, `real`, target, `en`), its two pins and the rest
of its protection state (`ocp_deadtime` included) are as before, whatever the
values of `fault`, `ext_fault`, `en` and `target`.  First the isolator, then
the ignition. -/
theorem C25_pending_delay_holds_level (d : OutDrv) :
    (d.isolProt.delay_exec ≠ 0 →
      (OUTDRV_ProcessLogic d).isolProt.delay_exec + 1 = d.isolProt.delay_exec ∧
      (OUTDRV_ProcessLogic d).isolProt =
        { d.isolProt with delay_exec := d.isolProt.delay_exec - 1 } ∧
      (OUTDRV_ProcessLogic d).isolState = d.isolState ∧
      (OUTDRV_ProcessLogic d).isolProt.ocp_deadtime = d.isolProt.ocp_deadtime ∧
      (OUTDRV_ProcessLogic d).PB1 = d.PB1 ∧ (OUTDRV_ProcessLogic d).PB7 = d.PB7) ∧
    (d.igncProt.delay_exec ≠ 0 →
      (OUTDRV_ProcessLogic d).igncProt.delay_exec + 1 = d.igncProt.delay_exec ∧
      (OUTDRV_ProcessLogic d).igncProt =
        { d.igncProt with delay_exec := d.igncProt.delay_exec - 1 } ∧
      (OUTDRV_ProcessLogic d).igncState = d.igncState ∧
      (OUTDRV_ProcessLogic d).igncProt.ocp_deadtime = d.igncProt.ocp_deadtime ∧
      (OUTDRV_ProcessLogic d).PB0 = d.PB0 ∧ (OUTDRV_ProcessLogic d).PB6 = d.PB6) := by
  constructor
  · intro hd
    obtain ⟨h1, h2, -, h4, h5⟩ := ProcessLogicIgnition_isol d
    have e : ProcessLogicIsolator (ProcessLogicIgnition d) =
        { ProcessLogicIgnition d with
          isolProt := { (ProcessLogicIgnition d).isolProt with
            delay_exec := (ProcessLogicIgnition d).isolProt.delay_exec - 1 } } := by
      unfold ProcessLogicIsolator
      rw [if_pos (by rw [h2]; exact hd)]
    unfold OUTDRV_ProcessLogic
    rw [e]
    simp only [h1, h2, h4, h5]
    exact ⟨by omega, trivial, trivial, trivial, trivial, trivial⟩
  · intro hd
    obtain ⟨h1, h2, -, h4, h5⟩ := ProcessLogicIsolator_ignc (ProcessLogicIgnition d)
    have e : ProcessLogicIgnition d =
        { d with igncProt := { d.igncProt with delay_exec := d.igncProt.delay_exec - 1 } } := by
      unfold ProcessLogicIgnition
      rw [if_pos hd]
    unfold OUTDRV_ProcessLogic
    rw [h1, h2, h4, h5, e]
    exact ⟨by simp only []; omega, rfl, rfl, rfl, rfl, rfl⟩

/-- C25 at `exDelayed`: both channels are driven high, carry a fault (a
protection fault on the isolator, an external fault flag on the ignition) and
have `delay_exec = 2`; the call leaves them driven high with `real = 1` and
`delay_exec = 1`. -/
theorem C25_witness :
    (exDelayed.isolProt.fault ≠ 0 ∧ exDelayed.isolState.hw = HWOUT_HIGH ∧
      exDelayed.isolState.real = 1 ∧ exDelayed.isolProt.ocp_deadtime = 3 ∧
      (OUTDRV_ProcessLogic exDelayed).isolProt.delay_exec + 1 = 2 ∧
      (OUTDRV_ProcessLogic exDelayed).isolState = exDelayed.isolState ∧
      (OUTDRV_ProcessLogic exDelayed).isolProt.ocp_deadtime = 3) ∧
    (exDelayed.igncProt.ext_fault ≠ 0 ∧ exDelayed.igncState.hw = HWOUT_HIGH ∧
      exDelayed.igncState.real = 1 ∧ exDelayed.igncProt.ocp_deadtime = 3 ∧
      (OUTDRV_ProcessLogic exDelayed).igncProt.delay_exec + 1 = 2 ∧
      (OUTDRV_ProcessLogic exDelayed).igncState = exDelayed.igncState ∧
      (OUTDRV_ProcessLogic exDelayed).igncProt.ocp_deadtime = 3) :=
  have h1 := (C25_pending_delay_holds_level exDelayed).1 (by decide)
  have h2 := (C25_pending_delay_holds_level exDelayed).2 (by decide)
  ⟨⟨by decide, rfl, rfl, rfl, h1.1, h1.2.2.1, h1.2.2.2.1⟩,
    ⟨by decide, rfl, rfl, rfl, h2.1, h2.2.2.1, h2.2.2.2.1⟩⟩

/-! ## The frame of the protection processing -/

/-- C29: `OUTDRV_ProcessProtection` leaves unchanged, on both channels, the
status (`real`, the hardware level `hw`, `target`, `en`), `delay_exec`,
`ext_fault` and the configuration, and it leaves the four output pins
unchanged, whatever the driver state and the four voltages. -/
theorem C29_protection_leaves_drive_state (d : OutDrv) (u_bat u_isol u_alt u_ignc : Nat) :
    ((OUTDRV_ProcessProtection d u_bat u_isol u_alt u_ignc).isolState = d.isolState ∧
      (OUTDRV_ProcessProtection d u_bat u_isol u_alt u_ignc).isolProt.delay_exec =
        d.isolProt.delay_exec ∧
      (OUTDRV_ProcessProtection d u_bat u_isol u_alt u_ignc).isolProt.ext_fault =
        d.isolProt.ext_fault ∧
      (OUTDRV_ProcessProtection d u_bat u_isol u_alt u_ignc).isolCfg = d.isolCfg) ∧
    ((OUTDRV_ProcessProtection d u_bat u_isol u_alt u_ignc).igncState = d.igncState ∧
      (OUTDRV_ProcessProtection d u_bat u_isol u_alt u_ignc).igncProt.delay_exec =
        d.igncProt.delay_exec ∧
      (OUTDRV_ProcessProtection d u_bat u_isol u_alt u_ignc).igncProt.ext_fault =
        d.igncProt.ext_fault ∧
      (OUTDRV_ProcessProtection d u_bat u_isol u_alt u_ignc).igncCfg = d.igncCfg) ∧
    ((OUTDRV_ProcessProtection d u_bat u_isol u_alt u_ignc).PB0 = d.PB0 ∧
      (OUTDRV_ProcessProtection d u_bat u_isol u_alt u_ignc).PB1 = d.PB1 ∧
      (OUTDRV_ProcessProtection d u_bat u_isol u_alt u_ignc).PB6 = d.PB6 ∧
      (OUTDRV_ProcessProtection d u_bat u_isol u_alt u_ignc).PB7 = d.PB7) := by
  simp only [OUTDRV_ProcessProtection, ProcessIsolatorProtection, ProcessIgnitionProtection,
    checkFault_delay_exec, checkFault_ext_fault]
  simp only [ocpDelay, checkWarnings]
  exact ⟨⟨trivial, trivial, trivial, trivial⟩, ⟨trivial, trivial, trivial, trivial⟩,
    ⟨trivial, trivial, trivial, trivial⟩⟩

/-! ## The external fault flag -/

theorem HAL_SetIsolator_cfg (d : OutDrv) (level : Nat) :
    (HAL_SetIsolator d level).isolCfg = d.isolCfg ∧
    (HAL_SetIsolator d level).igncCfg = d.igncCfg := by
  unfold HAL_SetIsolator
  by_cases h : level ≠ d.isolState.hw <;> simp only [h, if_true, if_false] <;> split_ifs <;>
    exact ⟨rfl, rfl⟩

theorem HAL_SetIgnition_cfg (d : OutDrv) (level : Nat) :
    (HAL_SetIgnition d level).isolCfg = d.isolCfg ∧
    (HAL_SetIgnition d level).igncCfg = d.igncCfg := by
  unfold HAL_SetIgnition
  by_cases h : level ≠ d.igncState.hw <;> simp only [h, if_true, if_false] <;> split_ifs <;>
    exact ⟨rfl, rfl⟩

/-- `OUTDRV_ProcessLogic` changes neither an external fault flag nor a
configuration. -/
theorem ProcessLogic_ext_fault (d : OutDrv) :
    (OUTDRV_ProcessLogic d).isolProt.ext_fault = d.isolProt.ext_fault ∧
    (OUTDRV_ProcessLogic d).igncProt.ext_fault = d.igncProt.ext_fault ∧
    (OUTDRV_ProcessLogic d).isolCfg = d.isolCfg ∧
    (OUTDRV_ProcessLogic d).igncCfg = d.igncCfg := by
  have hi : ∀ e : OutDrv, (ProcessLogicIsolator e).isolProt.ext_fault = e.isolProt.ext_fault ∧
      (ProcessLogicIsolator e).isolCfg = e.isolCfg := by
    intro e
    unfold ProcessLogicIsolator
    split_ifs <;> refine ⟨?_, ?_⟩ <;>
      simp only [HAL_SetIsolator_isolProt, (HAL_SetIsolator_cfg _ _).1] <;>
      (try split_ifs) <;> rfl
  have hg : ∀ e : OutDrv, (ProcessLogicIgnition e).igncProt.ext_fault = e.igncProt.ext_fault ∧
      (ProcessLogicIgnition e).igncCfg = e.igncCfg := by
    intro e
    unfold ProcessLogicIgnition
    split_ifs <;> refine ⟨?_, ?_⟩ <;>
      simp only [HAL_SetIgnition_igncProt, (HAL_SetIgnition_cfg _ _).2] <;>
      (try split_ifs) <;> rfl
  unfold OUTDRV_ProcessLogic
  rw [(hi _).1, (hi _).2, (ProcessLogicIsolator_ignc _).2.1, (ProcessLogicIsolator_ignc _).2.2.1,
    (ProcessLogicIgnition_isol d).2.1, (ProcessLogicIgnition_isol d).2.2.1, (hg d).1, (hg d).2]
  exact ⟨rfl, rfl, rfl, rfl⟩

/-- `OUTDRV_ProcessProtection` changes neither an external fault flag nor a
configuration. -/
theorem ProcessProtection_ext_fault (d : OutDrv) (ub ui ua ug : Nat) :
    (OUTDRV_ProcessProtection d ub ui ua ug).isolProt.ext_fault = d.isolProt.ext_fault ∧
    (OUTDRV_ProcessProtection d ub ui ua ug).igncProt.ext_fault = d.igncProt.ext_fault ∧
    (OUTDRV_ProcessProtection d ub ui ua ug).isolCfg = d.isolCfg ∧
    (OUTDRV_ProcessProtection d ub ui ua ug).igncCfg = d.igncCfg := by
  simp only [OUTDRV_ProcessProtection, ProcessIsolatorProtection, ProcessIgnitionProtection,
    checkFault_ext_fault]
  simp only [ocpDelay, checkWarnings]
  exact ⟨trivial, trivial, trivial, trivial⟩

theorem DrvCall_run_permitted (d : OutDrv) (c : DrvCall) (h : ExtFaultPermitted d) :
    ExtFaultPermitted (c.run d) := by
  obtain ⟨h1, h2⟩ := h
  cases c with
  | ProcessLogic =>
    obtain ⟨e1, e2, e3, e4⟩ := ProcessLogic_ext_fault d
    simp only [DrvCall.run]
    unfold ExtFaultPermitted
    rw [e1, e2, e3, e4]
    exact ⟨h1, h2⟩
  | SetOutput ch =>
    simp only [DrvCall.run]; unfold OUTDRV_SetOutput ExtFaultPermitted
    split_ifs <;> exact ⟨h1, h2⟩
  | ResetOutput ch =>
    simp only [DrvCall.run]; unfold OUTDRV_ResetOutput ExtFaultPermitted
    split_ifs <;> exact ⟨h1, h2⟩
  | SetExtFault ch =>
    simp only [DrvCall.run]; unfold OUTDRV_SetExtFault ExtFaultPermitted
    split_ifs with a b c e <;> first
      | exact ⟨h1, h2⟩ | exact ⟨fun _ => b, h2⟩ | exact ⟨fun k => absurd rfl k, h2⟩
      | exact ⟨h1, fun _ => e⟩ | exact ⟨h1, fun k => absurd rfl k⟩
  | ResetExtFault ch =>
    simp only [DrvCall.run]; unfold OUTDRV_ResetExtFault ExtFaultPermitted
    split_ifs <;> first
      | exact ⟨h1, h2⟩ | exact ⟨fun k => absurd rfl k, h2⟩ | exact ⟨h1, fun k => absurd rfl k⟩
  | EnableOutput ch =>
    simp only [DrvCall.run]; unfold OUTDRV_EnableOutput ExtFaultPermitted
    split_ifs <;> exact ⟨h1, h2⟩
  | DisableOutput ch =>
    simp only [DrvCall.run]; unfold OUTDRV_DisableOutput ExtFaultPermitted
    split_ifs <;> exact ⟨h1, h2⟩
  | DelayFaultExecution ch n =>
    simp only [DrvCall.run]; unfold OUTDRV_DelayFaultExecution ExtFaultPermitted
    simp only []
    split_ifs <;> exact ⟨h1, h2⟩
  | ResetRetryFlag ch =>
    simp only [DrvCall.run]; unfold OUTDRV_ResetRetryFlag ExtFaultPermitted
    split_ifs <;> exact ⟨h1, h2⟩

theorem OutReach.permitted {d : OutDrv} (h : OutReach d) : ExtFaultPermitted d := by
  induction h with
  | init c1 c2 => exact ⟨fun k => absurd rfl k, fun k => absurd rfl k⟩
  | call d c _ ih => exact DrvCall_run_permitted d c ih
  | protection d ub ui ua ug _ ih =>
    obtain ⟨e1, e2, e3, e4⟩ := ProcessProtection_ext_fault d ub ui ua ug
    unfold ExtFaultPermitted
    rw [e1, e2, e3, e4]
    exact ih

theorem OutReach.runCalls (calls : List DrvCall) {d : OutDrv} (h : OutReach d) :
    OutReach (runCalls d calls) := by
  induction calls generalizing d with
  | nil => exact h
  | cons c cs ih => exact ih (OutReach.call d c h)

theorem exOn_reach : OutReach exOn := by
  have e : exOn = runCalls (OUTDRV_Init { type := OUT_TYPE_OS, inv := 0, ext_fault_en := 1 }
      { type := OUT_TYPE_OS, inv := 0, ext_fault_en := 0 }) exOnCalls := by decide
  rw [e]
  exact (OutReach.init _ _).runCalls _

/-- C22: `OUTDRV_SetExtFault` leaves the channel's `ext_fault` at 1 exactly
when the channel's configuration has `ext_fault_en` nonzero, and
`OUTDRV_GetFault` then returns 1.  When `ext_fault_en` is 0 the call leaves
`ext_fault` at 0, so that `OUTDRV_GetFault` returns 0 if there is no protection
fault; in every driver state reachable from `OUTDRV_Init` the call then
changes nothing at all, and the following `OUTDRV_ProcessLogic` gives the
state it gives without the call.  First the isolator, then the ignition. -/
theorem C22_ext_fault_needs_config_flag (d : OutDrv) :
    (((OUTDRV_SetExtFault d OUT_ISOL).isolProt.ext_fault = 1 ↔ d.isolCfg.ext_fault_en ≠ 0) ∧
      (d.isolCfg.ext_fault_en ≠ 0 → OUTDRV_GetFault (OUTDRV_SetExtFault d OUT_ISOL) OUT_ISOL = 1) ∧
      (d.isolCfg.ext_fault_en = 0 →
        (OUTDRV_SetExtFault d OUT_ISOL).isolProt.ext_fault = 0 ∧
        (d.isolProt.fault = 0 →
          OUTDRV_GetFault (OUTDRV_SetExtFault d OUT_ISOL) OUT_ISOL = 0) ∧
        (OutReach d → OUTDRV_SetExtFault d OUT_ISOL = d ∧
          OUTDRV_ProcessLogic (OUTDRV_SetExtFault d OUT_ISOL) = OUTDRV_ProcessLogic d))) ∧
    (((OUTDRV_SetExtFault d OUT_IGNC).igncProt.ext_fault = 1 ↔ d.igncCfg.ext_fault_en ≠ 0) ∧
      (d.igncCfg.ext_fault_en ≠ 0 → OUTDRV_GetFault (OUTDRV_SetExtFault d OUT_IGNC) OUT_IGNC = 1) ∧
      (d.igncCfg.ext_fault_en = 0 →
        (OUTDRV_SetExtFault d OUT_IGNC).igncProt.ext_fault = 0 ∧
        (d.igncProt.fault = 0 →
          OUTDRV_GetFault (OUTDRV_SetExtFault d OUT_IGNC) OUT_IGNC = 0) ∧
        (OutReach d → OUTDRV_SetExtFault d OUT_IGNC = d ∧
          OUTDRV_ProcessLogic (OUTDRV_SetExtFault d OUT_IGNC) = OUTDRV_ProcessLogic d))) := by
  have i1 : d.isolCfg.ext_fault_en ≠ 0 → OUTDRV_SetExtFault d OUT_ISOL =
      { d with isolProt := { d.isolProt with ext_fault := 1 } } := by
    intro h
    unfold OUTDRV_SetExtFault
    rw [if_pos rfl, if_pos h]
  have i0 : d.isolCfg.ext_fault_en = 0 → OUTDRV_SetExtFault d OUT_ISOL =
      { d with isolProt := { d.isolProt with ext_fault := 0 } } := by
    intro h
    unfold OUTDRV_SetExtFault
    rw [if_pos rfl, if_neg (not_not.mpr h)]
  have g1 : d.igncCfg.ext_fault_en ≠ 0 → OUTDRV_SetExtFault d OUT_IGNC =
      { d with igncProt := { d.igncProt with ext_fault := 1 } } := by
    intro h
    unfold OUTDRV_SetExtFault
    rw [if_neg (by decide), if_pos rfl, if_pos h]
  have g0 : d.igncCfg.ext_fault_en = 0 → OUTDRV_SetExtFault d OUT_IGNC =
      { d with igncProt := { d.igncProt with ext_fault := 0 } } := by
    intro h
    unfold OUTDRV_SetExtFault
    rw [if_neg (by decide), if_pos rfl, if_neg (not_not.mpr h)]
  refine ⟨⟨?_, ?_, ?_⟩, ⟨?_, ?_, ?_⟩⟩
  · by_cases h : d.isolCfg.ext_fault_en = 0
    · rw [i0 h]
      exact ⟨fun k => absurd k (by decide : (0 : Nat) ≠ 1), fun k => absurd h k⟩
    · rw [i1 h]
      exact ⟨fun _ => h, fun _ => rfl⟩
  · intro h
    rw [i1 h]
    simp [OUTDRV_GetFault]
  · intro h
    rw [i0 h]
    refine ⟨rfl, fun hf => ?_, fun hr => ?_⟩
    · simp [OUTDRV_GetFault, hf]
    · have e0 : d.isolProt.ext_fault = 0 := by
        by_contra k
        exact hr.permitted.1 k h
      have e : ({ d with isolProt := { d.isolProt with ext_fault := 0 } } : OutDrv) = d := by
        rw [← e0]
      rw [e]
      exact ⟨rfl, rfl⟩
  · by_cases h : d.igncCfg.ext_fault_en = 0
    · rw [g0 h]
      exact ⟨fun k => absurd k (by decide : (0 : Nat) ≠ 1), fun k => absurd h k⟩
    · rw [g1 h]
      exact ⟨fun _ => h, fun _ => rfl⟩
  · intro h
    rw [g1 h]
    simp [OUTDRV_GetFault]
  · intro h
    rw [g0 h]
    refine ⟨rfl, fun hf => ?_, fun hr => ?_⟩
    · simp [OUTDRV_GetFault, hf]
    · have e0 : d.igncProt.ext_fault = 0 := by
        by_contra k
        exact hr.permitted.2 k h
      have e : ({ d with igncProt := { d.igncProt with ext_fault := 0 } } : OutDrv) = d := by
        rw [← e0]
      rw [e]
      exact ⟨rfl, rfl⟩

/-- C22 at `exOn`, which is reachable from `OUTDRV_Init`, has both outputs
driven high, `ext_fault_en = 1` on the isolator and `ext_fault_en = 0` on the
ignition: the call sets the isolator's flag, which switches the isolator off at
the next `OUTDRV_ProcessLogic`, and changes nothing for the ignition, which
stays driven high. -/
theorem C22_witness :
    (exOn.isolCfg.ext_fault_en ≠ 0 ∧
      (OUTDRV_SetExtFault exOn OUT_ISOL).isolProt.ext_fault = 1 ∧
      OUTDRV_GetFault (OUTDRV_SetExtFault exOn OUT_ISOL) OUT_ISOL = 1 ∧
      (OUTDRV_ProcessLogic (OUTDRV_SetExtFault exOn OUT_ISOL)).isolState.hw = HWOUT_HIZ) ∧
    (exOn.igncCfg.ext_fault_en = 0 ∧ exOn.igncProt.fault = 0 ∧ OutReach exOn ∧
      (OUTDRV_SetExtFault exOn OUT_IGNC).igncProt.ext_fault = 0 ∧
      OUTDRV_GetFault (OUTDRV_SetExtFault exOn OUT_IGNC) OUT_IGNC = 0 ∧
      OUTDRV_SetExtFault exOn OUT_IGNC = exOn ∧
      OUTDRV_ProcessLogic (OUTDRV_SetExtFault exOn OUT_IGNC) = OUTDRV_ProcessLogic exOn ∧
      (OUTDRV_ProcessLogic exOn).igncState.hw = HWOUT_HIGH) :=
  have h := C22_ext_fault_needs_config_flag exOn
  have n : exOn.isolCfg.ext_fault_en ≠ 0 := by decide
  ⟨⟨n, h.1.1.mpr n, h.1.2.1 n, rfl⟩,
    ⟨rfl, rfl, exOn_reach, (h.2.2.2 rfl).1, (h.2.2.2 rfl).2.1 rfl,
      ((h.2.2.2 rfl).2.2 exOn_reach).1, ((h.2.2.2 rfl).2.2 exOn_reach).2, rfl⟩⟩
/-! ## The conduction drop and the fault clearing of a protection step -/

/-- C26: for every hardware level `hw` and every pair of 16-bit voltages, the
drop computed by the block "Calculate mosfet voltage drop" is
`volt_pwrsrc - volt_out` when `hw` is DriveHigh and `volt_pwrsrc > volt_out`
(the difference taken in the integers: the subtraction does not wrap),
`volt_out` when `hw` is DriveLow, and 0 in every other case; it fits
`uint16_t`; and the `ocp_warning` left by a protection step is 1 if this drop,
computed from the channel's asserted level, exceeds the channel's drop limit
and the limit is nonzero, and 0 otherwise.  The isolator step, then the
ignition step. -/
theorem C26_conduction_drop (hw volt_pwrsrc volt_out : Nat) (d : OutDrv)
    (hp : volt_pwrsrc < 65536) (ho : volt_out < 65536) :
    ((hw = HWOUT_HIGH → volt_pwrsrc > volt_out →
        ((mosfetDrop hw volt_pwrsrc volt_out : Nat) : Int) =
          (volt_pwrsrc : Int) - (volt_out : Int)) ∧
      (hw = HWOUT_LOW → mosfetDrop hw volt_pwrsrc volt_out = volt_out) ∧
      (hw ≠ HWOUT_LOW → ¬ (hw = HWOUT_HIGH ∧ volt_pwrsrc > volt_out) →
        mosfetDrop hw volt_pwrsrc volt_out = 0) ∧
      mosfetDrop hw volt_pwrsrc volt_out < 65536) ∧
    (((isolAfter d volt_pwrsrc volt_out).ocp_warning ≠ 0 ↔
        (mosfetDrop d.isolState.hw volt_pwrsrc volt_out > ISOL_QDROP_LIMIT ∧
          ISOL_QDROP_LIMIT ≠ 0)) ∧
      (isolAfter d volt_pwrsrc volt_out).ocp_warning =
        (if mosfetDrop d.isolState.hw volt_pwrsrc volt_out > ISOL_QDROP_LIMIT ∧
            ISOL_QDROP_LIMIT ≠ 0 then 1 else 0)) ∧
    (((igncAfter d volt_pwrsrc volt_out).ocp_warning ≠ 0 ↔
        (mosfetDrop d.igncState.hw volt_pwrsrc volt_out > IGNC_QDROP_LIMIT ∧
          IGNC_QDROP_LIMIT ≠ 0)) ∧
      (igncAfter d volt_pwrsrc volt_out).ocp_warning =
        (if mosfetDrop d.igncState.hw volt_pwrsrc volt_out > IGNC_QDROP_LIMIT ∧
            IGNC_QDROP_LIMIT ≠ 0 then 1 else 0)) := by
  have w1 : (isolAfter d volt_pwrsrc volt_out).ocp_warning =
      (if mosfetDrop d.isolState.hw volt_pwrsrc volt_out > ISOL_QDROP_LIMIT ∧
          ISOL_QDROP_LIMIT ≠ 0 then 1 else 0) := by
    simp only [isolAfter, ProcessIsolatorProtection, checkFault_ocp_warning]
    rfl
  have w2 : (igncAfter d volt_pwrsrc volt_out).ocp_warning =
      (if mosfetDrop d.igncState.hw volt_pwrsrc volt_out > IGNC_QDROP_LIMIT ∧
          IGNC_QDROP_LIMIT ≠ 0 then 1 else 0) := by
    simp only [igncAfter, ProcessIgnitionProtection, checkFault_ocp_warning]
    rfl
  refine ⟨⟨fun h1 h2 => ?_, fun h1 => ?_, fun h1 h2 => ?_, mosfetDrop_lt hw _ _ hp ho⟩,
    ⟨?_, w1⟩, ⟨?_, w2⟩⟩
  · unfold mosfetDrop
    rw [if_pos ⟨h1, h2⟩]
    omega
  · unfold mosfetDrop
    rw [if_neg (fun k => absurd (k.1.symm.trans h1) (by decide)), if_pos h1]
  · unfold mosfetDrop
    rw [if_neg h2, if_neg h1]
  · rw [w1]
    split_ifs with k
    · exact ⟨fun _ => k, fun _ => by decide⟩
    · exact ⟨fun c => absurd rfl c, fun c => absurd c k⟩
  · rw [w2]
    split_ifs with k
    · exact ⟨fun _ => k, fun _ => by decide⟩
    · exact ⟨fun c => absurd rfl c, fun c => absurd c k⟩

/-- C26 at the levels DriveHigh, DriveLow and HiZ with a supply of 12000 mV
and an output of 11400 mV, at DriveHigh with the output above the supply, and
at `exOn` (both channels driven high): a drop of 600 mV raises the warning, a
drop of 500 mV does not. -/
theorem C26_witness :
    (mosfetDrop HWOUT_HIGH 12000 11400 = 600 ∧ mosfetDrop HWOUT_LOW 12000 11400 = 11400 ∧
      mosfetDrop HWOUT_HIZ 12000 11400 = 0 ∧ mosfetDrop HWOUT_HIGH 11400 12000 = 0) ∧
    ((isolAfter exOn 12000 11400).ocp_warning = 1 ∧ (igncAfter exOn 12000 11400).ocp_warning = 1 ∧
      (isolAfter exOn 12000 11500).ocp_warning = 0 ∧
      (igncAfter exOn 12000 11500).ocp_warning = 0) ∧
    (((mosfetDrop HWOUT_HIGH 12000 11400 : Nat) : Int) = (12000 : Int) - (11400 : Int) ∧
      ((isolAfter exOn 12000 11400).ocp_warning ≠ 0 ↔
        (mosfetDrop exOn.isolState.hw 12000 11400 > ISOL_QDROP_LIMIT ∧ ISOL_QDROP_LIMIT ≠ 0))) :=
  have h := C26_conduction_drop HWOUT_HIGH 12000 11400 exOn (by decide) (by decide)
  ⟨by decide, by decide, h.1.1 rfl (by decide), h.2.1.1⟩

/-- C27: when `fault` is set at the start of a protection step, the step
clears it if and only if none of the fault conditions holds in this step (the
over-voltage warning, the under-voltage warning, `ocp_counter` above the OCP
delay, all as this step computes them) and `cooldown_timer` is 0 at the start
of the step; a step that clears `fault` sets `retry_flag` to 1, loads
`retry_timer` with the channel's retry timeout and leaves `fault_cnt` as it
was.  No protection step clears `retry_flag`.  First the isolator, then the
ignition. -/
theorem C27_fault_clears_after_cooldown (d : OutDrv) (volt_pwrsrc volt_out : Nat) :
    ((d.isolProt.fault ≠ 0 →
        ((isolAfter d volt_pwrsrc volt_out).fault = 0 ↔
          (¬ ((isolAfter d volt_pwrsrc volt_out).ovp_warning ≠ 0 ∨
              (isolAfter d volt_pwrsrc volt_out).uvp_warning ≠ 0 ∨
              (isolAfter d volt_pwrsrc volt_out).ocp_counter > ISOL_OCP_DELAY) ∧
            d.isolProt.cooldown_timer = 0)) ∧
        ((isolAfter d volt_pwrsrc volt_out).fault = 0 →
          (isolAfter d volt_pwrsrc volt_out).retry_flag = 1 ∧
          (isolAfter d volt_pwrsrc volt_out).retry_timer = ISOL_FAULT_RETRY_TIMEOUT ∧
          (isolAfter d volt_pwrsrc volt_out).fault_cnt = d.isolProt.fault_cnt)) ∧
      (d.isolProt.retry_flag ≠ 0 → (isolAfter d volt_pwrsrc volt_out).retry_flag ≠ 0)) ∧
    ((d.igncProt.fault ≠ 0 →
        ((igncAfter d volt_pwrsrc volt_out).fault = 0 ↔
          (¬ ((igncAfter d volt_pwrsrc volt_out).ovp_warning ≠ 0 ∨
              (igncAfter d volt_pwrsrc volt_out).uvp_warning ≠ 0 ∨
              (igncAfter d volt_pwrsrc volt_out).ocp_counter > IGNC_OCP_DELAY) ∧
            d.igncProt.cooldown_timer = 0)) ∧
        ((igncAfter d volt_pwrsrc volt_out).fault = 0 →
          (igncAfter d volt_pwrsrc volt_out).retry_flag = 1 ∧
          (igncAfter d volt_pwrsrc volt_out).retry_timer = IGNC_FAULT_RETRY_TIMEOUT ∧
          (igncAfter d volt_pwrsrc volt_out).fault_cnt = d.igncProt.fault_cnt)) ∧
      (d.igncProt.retry_flag ≠ 0 → (igncAfter d volt_pwrsrc volt_out).retry_flag ≠ 0)) := by
  have key : ∀ (delay cooldown retry : Nat) (p : ProtectionDef),
      (p.fault ≠ 0 →
        ((checkFault delay cooldown retry p).fault = 0 ↔
          (¬ ((checkFault delay cooldown retry p).ovp_warning ≠ 0 ∨
              (checkFault delay cooldown retry p).uvp_warning ≠ 0 ∨
              (checkFault delay cooldown retry p).ocp_counter > delay) ∧
            p.cooldown_timer = 0)) ∧
        ((checkFault delay cooldown retry p).fault = 0 →
          (checkFault delay cooldown retry p).retry_flag = 1 ∧
          (checkFault delay cooldown retry p).retry_timer = retry ∧
          (checkFault delay cooldown retry p).fault_cnt = p.fault_cnt)) ∧
      (p.retry_flag ≠ 0 → (checkFault delay cooldown retry p).retry_flag ≠ 0) := by
    intro delay cooldown retry p
    simp only [checkFault_ovp_warning, checkFault_uvp_warning, checkFault_ocp_counter]
    have n1 : (1 : Nat) ≠ 0 := by decide
    by_cases c : p.ovp_warning ≠ 0 ∨ p.uvp_warning ≠ 0 ∨ p.ocp_counter > delay
    · have e : checkFault delay cooldown retry p =
          { p with
            fault_cnt := if p.fault = 0 ∧ p.fault_cnt < 255 then p.fault_cnt + 1 else p.fault_cnt
            fault := 1
            cooldown_timer := if p.cooldown_timer = 0 then cooldown else p.cooldown_timer } := by
        unfold checkFault
        rw [if_pos c]
      rw [e]
      exact ⟨fun _ => ⟨⟨fun k => absurd k n1, fun k => absurd c k.1⟩, fun k => absurd k n1⟩,
        fun k => k⟩
    · by_cases t : p.cooldown_timer = 0
      · by_cases f : p.fault = 0
        · refine ⟨fun hf => absurd f hf, fun hr => ?_⟩
          by_cases r : p.retry_timer ≠ 0
          · have e : checkFault delay cooldown retry p =
                { p with retry_timer := p.retry_timer - 1 } := by
              unfold checkFault
              rw [if_neg c, if_neg (not_not.mpr t), if_neg (not_not.mpr f), if_pos r]
            rw [e]
            exact hr
          · have e : checkFault delay cooldown retry p = { p with fault_cnt := 0 } := by
              unfold checkFault
              rw [if_neg c, if_neg (not_not.mpr t), if_neg (not_not.mpr f), if_neg r]
            rw [e]
            exact hr
        · have e : checkFault delay cooldown retry p =
              { p with fault := 0, retry_flag := 1, retry_timer := retry } := by
            unfold checkFault
            rw [if_neg c, if_neg (not_not.mpr t), if_pos f]
          rw [e]
          exact ⟨fun _ => ⟨⟨fun _ => ⟨c, t⟩, fun _ => rfl⟩, fun _ => ⟨rfl, rfl, rfl⟩⟩,
            fun _ => n1⟩
      · have e : checkFault delay cooldown retry p =
            { p with cooldown_timer := p.cooldown_timer - 1 } := by
          unfold checkFault
          rw [if_neg c, if_pos t]
        rw [e]
        exact ⟨fun hf => ⟨⟨fun k => absurd k hf, fun k => absurd k.2 t⟩, fun k => absurd k hf⟩,
          fun k => k⟩
  exact ⟨key ISOL_OCP_DELAY ISOL_FAULT_COOLDOWN_TIME ISOL_FAULT_RETRY_TIMEOUT
      (isolPre d volt_pwrsrc volt_out),
    key ISOL_OCP_DELAY IGNC_FAULT_COOLDOWN_TIME IGNC_FAULT_RETRY_TIMEOUT
      (igncPre d volt_pwrsrc volt_out)⟩

/-- C27 at driver states of the example run, with supply and output both at
12000 mV (no fault condition): from `fault = 1` with `cooldown_timer = 0` the
step clears `fault`, sets `retry_flag`, loads `retry_timer` with 2000 and
leaves `fault_cnt` at 1; from `fault = 1` with `cooldown_timer = 5` the step
leaves `fault` set; from `retry_flag = 1` the step leaves `retry_flag` set. -/
theorem C27_witness :
    ((runState 0 0 0 1 1 0 0).isolProt.fault ≠ 0 ∧
      (isolAfter (runState 0 0 0 1 1 0 0) 12000 12000).fault = 0 ∧
      (isolAfter (runState 0 0 0 1 1 0 0) 12000 12000).retry_flag = 1 ∧
      (isolAfter (runState 0 0 0 1 1 0 0) 12000 12000).retry_timer = 2000 ∧
      (isolAfter (runState 0 0 0 1 1 0 0) 12000 12000).fault_cnt = 1) ∧
    ((runState 0 0 0 1 1 0 0).igncProt.fault ≠ 0 ∧
      (igncAfter (runState 0 0 0 1 1 0 0) 12000 12000).fault = 0 ∧
      (igncAfter (runState 0 0 0 1 1 0 0) 12000 12000).retry_flag = 1 ∧
      (igncAfter (runState 0 0 0 1 1 0 0) 12000 12000).retry_timer = 2000 ∧
      (igncAfter (runState 0 0 0 1 1 0 0) 12000 12000).fault_cnt = 1) ∧
    ((runState 0 0 5 1 1 0 0).isolProt.cooldown_timer = 5 ∧
      (isolAfter (runState 0 0 5 1 1 0 0) 12000 12000).fault ≠ 0) ∧
    ((runState 0 0 0 0 1 1 7).isolProt.retry_flag ≠ 0 ∧
      (isolAfter (runState 0 0 0 0 1 1 7) 12000 12000).retry_flag ≠ 0) :=
  have h := C27_fault_clears_after_cooldown (runState 0 0 0 1 1 0 0) 12000 12000
  have h5 := C27_fault_clears_after_cooldown (runState 0 0 5 1 1 0 0) 12000 12000
  have h7 := C27_fault_clears_after_cooldown (runState 0 0 0 0 1 1 7) 12000 12000
  have n : (1 : Nat) ≠ 0 := by decide
  have f1 : (isolAfter (runState 0 0 0 1 1 0 0) 12000 12000).fault = 0 :=
    (h.1.1 n).1.mpr ⟨by decide, rfl⟩
  have f2 : (igncAfter (runState 0 0 0 1 1 0 0) 12000 12000).fault = 0 :=
    (h.2.1 n).1.mpr ⟨by decide, rfl⟩
  ⟨⟨n, f1, (h.1.1 n).2 f1⟩, ⟨n, f2, (h.2.1 n).2 f2⟩,
    ⟨rfl, fun k => absurd ((h5.1.1 n).1.mp k).2 (by decide)⟩, ⟨n, h7.1.2 n⟩⟩

/-! ## The relay guard while the isolator is off -/

theorem IsolatorOCP_ocp_fault (m : MainVars) :
    (IsolatorOCP m).1.ocp_fault =
      (if ocpCounterNext ISOLATOR_DROP_LIMIT (relayDrop m)
            (if relayDrop m > ISOLATOR_DROP_LIMIT ∧ ISOLATOR_DROP_LIMIT ≠ 0 then 1 else 0)
            (if m.relay_ocp_deadtime ≠ 0 then m.relay_ocp_deadtime - 1
             else m.relay_ocp_deadtime)
            m.ocp_counter > ISOLATOR_DROP_DELAY then 1
       else if m.cooldown_timer ≠ 0 then m.ocp_fault else 0) ∧
    (IsolatorOCP m).2 = (IsolatorOCP m).1.ocp_fault := by
  unfold IsolatorOCP relayDrop
  simp only []
  generalize ocpCounterNext _ _ _ _ _ = c
  split_ifs <;> first | exact ⟨rfl, rfl⟩ | simp

/-- After every call of `IsolatorOCP` the fault output is set when the counter
is above `ISOLATOR_DROP_DELAY`; so it is in every state the guard can meet. -/
theorem GuardReach.fault_of_counter {m : MainVars} (h : GuardReach m) :
    m.ocp_counter > ISOLATOR_DROP_DELAY → m.ocp_fault ≠ 0 := by
  induction h with
  | init m h1 h2 h3 =>
    intro k
    rw [h2] at k
    exact absurd k (by decide)
  | step m _ _ =>
    intro k
    rw [IsolatorOCP_ocp_counter] at k
    rw [(IsolatorOCP_ocp_fault m).1, if_pos k]
    decide
  | env m m' _ h1 h2 h3 ih =>
    rw [h1, h2]
    exact ih

theorem Startup_Procedure_guard (q : Sys) :
    (Startup_Procedure q).1.m.ocp_fault = q.m.ocp_fault ∧
    (Startup_Procedure q).1.m.ocp_counter = q.m.ocp_counter ∧
    (Startup_Procedure q).1.m.cooldown_timer = q.m.cooldown_timer := by
  unfold Startup_Procedure
  by_cases h0 : q.m.startup_step = 0
  · rw [if_pos h0]
    exact ⟨rfl, rfl, rfl⟩
  rw [if_neg h0]
  by_cases h1 : q.m.startup_step = 1
  · rw [if_pos h1]
    split_ifs <;> exact ⟨rfl, rfl, rfl⟩
  rw [if_neg h1]
  by_cases h2 : q.m.startup_step = 2
  · rw [if_pos h2]
    split_ifs <;> exact ⟨rfl, rfl, rfl⟩
  rw [if_neg h2]
  by_cases h3 : q.m.startup_step = 3
  · rw [if_pos h3]
    split_ifs <;> exact ⟨rfl, rfl, rfl⟩
  rw [if_neg h3]
  by_cases h4 : q.m.startup_step = 4
  · rw [if_pos h4]
    split_ifs <;> exact ⟨rfl, rfl, rfl⟩
  rw [if_neg h4]
  exact ⟨rfl, rfl, rfl⟩

theorem Kill_Procedure_guard (q : Sys) :
    (Kill_Procedure q).1.m.ocp_fault = q.m.ocp_fault ∧
    (Kill_Procedure q).1.m.ocp_counter = q.m.ocp_counter ∧
    (Kill_Procedure q).1.m.cooldown_timer = q.m.cooldown_timer := by
  unfold Kill_Procedure
  by_cases h0 : q.m.kill_step = 0
  · rw [if_pos h0]
    exact ⟨rfl, rfl, rfl⟩
  rw [if_neg h0]
  by_cases h1 : q.m.kill_step = 1
  · rw [if_pos h1]
    simp only
    split_ifs <;> exact ⟨rfl, rfl, rfl⟩
  rw [if_neg h1]
  by_cases h2 : q.m.kill_step = 2
  · rw [if_pos h2]
    exact ⟨rfl, rfl, rfl⟩
  rw [if_neg h2]
  by_cases h3 : q.m.kill_step = 3
  · rw [if_pos h3]
    split_ifs <;> exact ⟨rfl, rfl, rfl⟩
  rw [if_neg h3]
  exact ⟨rfl, rfl, rfl⟩

theorem Lockout_Procedure_guard (q : Sys) :
    (Lockout_Procedure q).1.m.ocp_fault = q.m.ocp_fault ∧
    (Lockout_Procedure q).1.m.ocp_counter = q.m.ocp_counter ∧
    (Lockout_Procedure q).1.m.cooldown_timer = q.m.cooldown_timer := by
  unfold Lockout_Procedure
  by_cases h0 : q.m.lockout_step = 0
  · rw [if_pos h0]
    exact ⟨rfl, rfl, rfl⟩
  rw [if_neg h0]
  simp only
  split_ifs <;> exact ⟨rfl, rfl, rfl⟩

theorem loopStateMachine_guard (q : Sys) :
    (loopStateMachine q).m.ocp_fault = q.m.ocp_fault ∧
    (loopStateMachine q).m.ocp_counter = q.m.ocp_counter ∧
    (loopStateMachine q).m.cooldown_timer = q.m.cooldown_timer := by
  unfold loopStateMachine
  split_ifs
  · exact ⟨rfl, rfl, rfl⟩
  · exact ⟨rfl, rfl, rfl⟩
  · exact Startup_Procedure_guard q
  · exact ⟨rfl, rfl, rfl⟩
  · exact ⟨rfl, rfl, rfl⟩
  · exact Kill_Procedure_guard q
  · exact Lockout_Procedure_guard q
  · exact ⟨rfl, rfl, rfl⟩

/-- Up to the call of `IsolatorOCP`, a tick leaves the guard's static locals as
they were. -/
theorem tickGuarded_guard (s : Sys) (a : Sample) :
    (tickGuarded s a).m.ocp_fault = s.m.ocp_fault ∧
    (tickGuarded s a).m.ocp_counter = s.m.ocp_counter ∧
    (tickGuarded s a).m.cooldown_timer = s.m.cooldown_timer := by
  unfold tickGuarded loopIsolFault tickProtected loopProtection
  simp only [DataGathering, List.foldl, DataGatheringPass]
  split_ifs <;> exact ⟨rfl, rfl, rfl⟩

/-- At the end of a tick the guard's static locals are those left by the call
of `IsolatorOCP` of that tick. -/
theorem mainLoop_guard (s : Sys) (a : Sample) :
    (mainLoop s a).m.ocp_fault = (IsolatorOCP (tickGuarded s a).m).1.ocp_fault ∧
    (mainLoop s a).m.ocp_counter = (IsolatorOCP (tickGuarded s a).m).1.ocp_counter ∧
    (mainLoop s a).m.cooldown_timer = (IsolatorOCP (tickGuarded s a).m).1.cooldown_timer := by
  have e : loopControl s a = loopStateMachine (loopFaultCount (loopRelayOCP (tickGuarded s a))) :=
    rfl
  rw [mainLoop_m, e]
  generalize tickGuarded s a = g
  obtain ⟨a1, a2, a3⟩ := loopStateMachine_guard (loopFaultCount (loopRelayOCP g))
  rw [a1, a2, a3]
  unfold loopFaultCount loopRelayOCP
  simp only []
  generalize IsolatorOCP g.m = r
  split_ifs <;> exact ⟨rfl, rfl, rfl⟩

/-- In the main program the relay guard meets states of `GuardReach` only: at
the top of every tick, and at the call of `IsolatorOCP` in every tick. -/
theorem Reachable.guardReach {s : Sys} (h : Reachable s) :
    GuardReach s.m ∧ ∀ a : Sample, GuardReach (tickGuarded s a).m := by
  have step : ∀ t : Sys, GuardReach t.m → ∀ a : Sample, GuardReach (tickGuarded t a).m := by
    intro t ht a
    obtain ⟨a1, a2, a3⟩ := tickGuarded_guard t a
    exact GuardReach.env _ _ ht a1 a2 a3
  have top : GuardReach s.m := by
    induction h with
    | init b samples _ =>
      have e : ∀ (l : List Sample) (t : Sys),
          (DataGathering t l).m.ocp_fault = t.m.ocp_fault ∧
          (DataGathering t l).m.ocp_counter = t.m.ocp_counter ∧
          (DataGathering t l).m.cooldown_timer = t.m.cooldown_timer := by
        intro l
        induction l with
        | nil => exact fun t => ⟨rfl, rfl, rfl⟩
        | cons x xs ih =>
          intro t
          simp only [DataGathering, List.foldl] at ih ⊢
          obtain ⟨i1, i2, i3⟩ := ih (DataGatheringPass t x)
          rw [i1, i2, i3]
          exact ⟨rfl, rfl, rfl⟩
      obtain ⟨e1, e2, e3⟩ := e samples (mainSetup b)
      exact GuardReach.init _ e1 e2 e3
    | loop t a _ ih =>
      obtain ⟨a1, a2, a3⟩ := mainLoop_guard t a
      exact GuardReach.env _ _ (GuardReach.step _ (step t ih a)) a1 a2 a3
  exact ⟨top, step s top⟩

/-- C23: in every state the relay guard can meet (its static locals written by
`IsolatorOCP` only, from 0; any values of the other variables, so any measured
relay drop), a call of `IsolatorOCP` with `isolator_act = 0` takes the
monitored drop as 0, leaves `ocp_counter` one lower than it was, or at 0 if it
was 0, so not higher than it was, and, if the fault output `ocp_fault` was
clear before the call, leaves it clear and returns 0. -/
theorem C23_relay_guard_decays_while_isolator_off (m : MainVars) (h : GuardReach m)
    (h0 : m.isolator_act = 0) :
    relayDrop m = 0 ∧
    (IsolatorOCP m).1.ocp_counter = m.ocp_counter - 1 ∧
    (IsolatorOCP m).1.ocp_counter ≤ m.ocp_counter ∧
    (m.ocp_fault = 0 → (IsolatorOCP m).1.ocp_fault = 0 ∧ (IsolatorOCP m).2 = 0) := by
  have hd : relayDrop m = 0 := by
    unfold relayDrop
    rw [if_neg (not_not.mpr h0)]
  have hc : (IsolatorOCP m).1.ocp_counter = m.ocp_counter - 1 := by
    have w : (if (0 : Nat) > ISOLATOR_DROP_LIMIT ∧ ISOLATOR_DROP_LIMIT ≠ 0 then 1 else 0) = 0 := by
      decide
    rw [IsolatorOCP_ocp_counter, hd, w]
    unfold ocpCounterNext
    rw [if_neg (fun k => absurd rfl k.1)]
    split_ifs <;> omega
  refine ⟨hd, hc, by omega, fun hf => ?_⟩
  have hle : ¬ m.ocp_counter > ISOLATOR_DROP_DELAY := fun k => h.fault_of_counter k hf
  have hn : ¬ (IsolatorOCP m).1.ocp_counter > ISOLATOR_DROP_DELAY := by
    rw [hc]
    omega
  obtain ⟨f1, f2⟩ := IsolatorOCP_ocp_fault m
  rw [IsolatorOCP_ocp_counter] at hn
  rw [f2, f1, if_neg hn, hf]
  split_ifs <;> exact ⟨rfl, rfl⟩

/-- C23 at `exRelayOff 7`, a state the guard can meet (two calls with the
isolator on and a drop of 2000 mV raise the counter from 0 to 8, a call with
the isolator off lowers it to 7): the relay drop reads 1000 mV, above the
limit, the isolator is off; the counter goes from 7 to 6 and the fault output
stays clear. -/
theorem C23_witness :
    GuardReach (exRelayOff 7) ∧ (exRelayOff 7).isolator_act = 0 ∧
    (exRelayOff 7).u_relay_drop = 1000 ∧ (exRelayOff 7).ocp_counter = 7 ∧
    (exRelayOff 7).ocp_fault = 0 ∧
    (relayDrop (exRelayOff 7) = 0 ∧
      (IsolatorOCP (exRelayOff 7)).1.ocp_counter = 7 - 1 ∧
      (IsolatorOCP (exRelayOff 7)).1.ocp_counter ≤ 7 ∧
      (IsolatorOCP (exRelayOff 7)).1.ocp_fault = 0 ∧ (IsolatorOCP (exRelayOff 7)).2 = 0) :=
  have g0 : GuardReach (exRelay 0 0) := GuardReach.init _ rfl rfl rfl
  have g4 : GuardReach { exRelay 0 4 with u_relay_drop := 2000 } :=
    GuardReach.env _ _ (GuardReach.step _ (GuardReach.env _
      { exRelay 0 0 with u_relay_drop := 2000 } g0 rfl rfl rfl)) (by decide) (by decide)
      (by decide)
  have g8 : GuardReach (exRelayOff 8) :=
    GuardReach.env _ _ (GuardReach.step _ g4) (by decide) (by decide) (by decide)
  have g7 : GuardReach (exRelayOff 7) :=
    GuardReach.env _ _ (GuardReach.step _ g8) (by decide) (by decide) (by decide)
  have h := C23_relay_guard_decays_while_isolator_off (exRelayOff 7) g7 rfl
  ⟨g7, rfl, rfl, rfl, rfl, h.1, h.2.1, h.2.2.1, h.2.2.2 rfl⟩

/-! ## A sustained drop on the isolator -/

theorem HAL_SetIsolator_counter (d : OutDrv) (level : Nat) :
    (HAL_SetIsolator d level).isolProt.ocp_counter = d.isolProt.ocp_counter ∧
    (d.isolProt.ocp_deadtime = 0 → (HAL_SetIsolator d level).isolProt.ocp_deadtime = 0) := by
  rw [HAL_SetIsolator_isolProt]
  split_ifs
  · exact ⟨rfl, fun _ => rfl⟩
  · exact ⟨rfl, fun k => k⟩

theorem ProcessLogicIsolator_counter (e : OutDrv) :
    (ProcessLogicIsolator e).isolProt.ocp_counter = e.isolProt.ocp_counter ∧
    (e.isolProt.ocp_deadtime = 0 → (ProcessLogicIsolator e).isolProt.ocp_deadtime = 0) := by
  unfold ProcessLogicIsolator
  by_cases h1 : e.isolProt.delay_exec ≠ 0
  · rw [if_pos h1]
    exact ⟨rfl, fun k => k⟩
  · rw [if_neg h1]
    by_cases h2 : e.isolProt.fault ≠ 0 ∨ e.isolProt.ext_fault ≠ 0 ∨ e.isolState.en = 0
    · rw [if_pos h2]
      exact HAL_SetIsolator_counter e _
    · rw [if_neg h2]
      exact HAL_SetIsolator_counter e _

/-- No call of the driver other than the protection processing changes an
`ocp_counter`, and none brings an expired isolator dead-time back. -/
theorem DrvCall_run_counter (d : OutDrv) (c : DrvCall) :
    (c.run d).isolProt.ocp_counter = d.isolProt.ocp_counter ∧
    (d.isolProt.ocp_deadtime = 0 → (c.run d).isolProt.ocp_deadtime = 0) := by
  cases c with
  | ProcessLogic =>
    simp only [DrvCall.run]
    unfold OUTDRV_ProcessLogic
    obtain ⟨-, h2, -, -, -⟩ := ProcessLogicIgnition_isol d
    rw [← h2]
    exact ProcessLogicIsolator_counter _
  | SetOutput ch =>
    simp only [DrvCall.run]; unfold OUTDRV_SetOutput
    split_ifs <;> exact ⟨rfl, fun k => k⟩
  | ResetOutput ch =>
    simp only [DrvCall.run]; unfold OUTDRV_ResetOutput
    split_ifs <;> exact ⟨rfl, fun k => k⟩
  | SetExtFault ch =>
    simp only [DrvCall.run]; unfold OUTDRV_SetExtFault
    split_ifs <;> exact ⟨rfl, fun k => k⟩
  | ResetExtFault ch =>
    simp only [DrvCall.run]; unfold OUTDRV_ResetExtFault
    split_ifs <;> exact ⟨rfl, fun k => k⟩
  | EnableOutput ch =>
    simp only [DrvCall.run]; unfold OUTDRV_EnableOutput
    split_ifs <;> exact ⟨rfl, fun k => k⟩
  | DisableOutput ch =>
    simp only [DrvCall.run]; unfold OUTDRV_DisableOutput
    split_ifs <;> exact ⟨rfl, fun k => k⟩
  | DelayFaultExecution ch n =>
    simp only [DrvCall.run]; unfold OUTDRV_DelayFaultExecution
    simp only []
    split_ifs <;> exact ⟨rfl, fun k => k⟩
  | ResetRetryFlag ch =>
    simp only [DrvCall.run]; unfold OUTDRV_ResetRetryFlag
    split_ifs <;> exact ⟨rfl, fun k => k⟩

theorem runCalls_counter (calls : List DrvCall) (d : OutDrv) :
    (runCalls d calls).isolProt.ocp_counter = d.isolProt.ocp_counter ∧
    (d.isolProt.ocp_deadtime = 0 → (runCalls d calls).isolProt.ocp_deadtime = 0) := by
  induction calls generalizing d with
  | nil => exact ⟨rfl, fun k => k⟩
  | cons c cs ih =>
    obtain ⟨a1, a2⟩ := DrvCall_run_counter d c
    obtain ⟨b1, b2⟩ := ih (c.run d)
    exact ⟨b1.trans a1, fun k => b2 (a2 k)⟩

/-- One isolator protection step with the dead-time expired and a drop above
`ISOL_QDROP_LIMIT`: the counter takes the saturated sum, and the fault is set
once the counter is above `ISOL_OCP_DELAY`. -/
theorem isolAfter_accumulate (d : OutDrv) (volt_pwrsrc volt_out : Nat)
    (hdt : d.isolProt.ocp_deadtime = 0) (hc : d.isolProt.ocp_counter < 256)
    (hp : volt_pwrsrc < 65536) (ho : volt_out < 65536)
    (hdrop : mosfetDrop d.isolState.hw volt_pwrsrc volt_out > ISOL_QDROP_LIMIT) :
    (isolAfter d volt_pwrsrc volt_out).ocp_deadtime = 0 ∧
    (isolAfter d volt_pwrsrc volt_out).ocp_counter =
      min 255 (d.isolProt.ocp_counter +
        min 255 (mosfetDrop d.isolState.hw volt_pwrsrc volt_out / ISOL_QDROP_LIMIT)) ∧
    ((isolAfter d volt_pwrsrc volt_out).ocp_counter > ISOL_OCP_DELAY →
      (isolAfter d volt_pwrsrc volt_out).fault = 1) := by
  have hd := mosfetDrop_lt d.isolState.hw _ _ hp ho
  have e1 : (isolAfter d volt_pwrsrc volt_out).ocp_deadtime = 0 := by
    simp only [isolAfter, ProcessIsolatorProtection, checkFault_ocp_deadtime]
    simp only [ocpDelay, checkWarnings, hdt]
    rfl
  have e2 : (isolAfter d volt_pwrsrc volt_out).ocp_counter =
      min 255 (d.isolProt.ocp_counter +
        min 255 (mosfetDrop d.isolState.hw volt_pwrsrc volt_out / ISOL_QDROP_LIMIT)) := by
    simp only [isolAfter, ProcessIsolatorProtection, checkFault_ocp_counter]
    simp only [ocpDelay, checkWarnings, hdt]
    have w : (if mosfetDrop d.isolState.hw volt_pwrsrc volt_out > ISOL_QDROP_LIMIT ∧
        ISOL_QDROP_LIMIT ≠ 0 then 1 else 0) = 1 := if_pos ⟨hdrop, by decide⟩
    have t : (if (0 : Nat) ≠ 0 then 0 - 1 else 0) = 0 := rfl
    rw [w, t, ocpCounterNext_eq _ _ _ _ _ hd hc, if_pos ⟨by decide, rfl⟩]
  refine ⟨e1, e2, fun k => ?_⟩
  simp only [isolAfter, ProcessIsolatorProtection, checkFault_ocp_counter] at k
  simp only [isolAfter, ProcessIsolatorProtection, checkFault_fault]
  rw [if_pos (Or.inr (Or.inr k))]

theorem protStep_isolAfter (d : OutDrv) (e : ProtStep) :
    (protStep d e).isolProt = isolAfter (runCalls d e.calls) e.u_bat e.u_isol := rfl

/-- Along a run from a state with the isolator dead-time expired, while every
step sees a drop above `ISOL_QDROP_LIMIT`: the dead-time stays expired, the
counter fits `uint8_t`, and step `k` leaves it at `min 255 (c + 1)` at least,
where `c` is its value before the step. -/
theorem protFrom_accumulate (d : OutDrv) (env : Nat → ProtStep) (n : Nat)
    (hc : d.isolProt.ocp_counter < 256) (hdt : d.isolProt.ocp_deadtime = 0)
    (hv : ∀ k, k < n → (env k).u_bat < 65536 ∧ (env k).u_isol < 65536)
    (hdrop : ∀ k, k < n → isolDropAt d env k > ISOL_QDROP_LIMIT) (k : Nat) :
    k ≤ n →
      (protFrom d env k).isolProt.ocp_deadtime = 0 ∧
      (protFrom d env k).isolProt.ocp_counter < 256 ∧
      (∀ j, j < k → min 255 ((protFrom d env j).isolProt.ocp_counter + 1) ≤
        (protFrom d env (j + 1)).isolProt.ocp_counter) ∧
      (∀ j, j < k → (protFrom d env (j + 1)).isolProt.ocp_counter > ISOL_OCP_DELAY →
        (protFrom d env (j + 1)).isolProt.fault = 1) := by
  induction k with
  | zero =>
    intro _
    exact ⟨hdt, hc, fun j hj => absurd hj (Nat.not_lt_zero j),
      fun j hj => absurd hj (Nat.not_lt_zero j)⟩
  | succ k ih =>
    intro hk
    obtain ⟨i1, i2, i3, i4⟩ := ih (by omega)
    obtain ⟨c1, c2⟩ := runCalls_counter (env k).calls (protFrom d env k)
    have hd : mosfetDrop (runCalls (protFrom d env k) (env k).calls).isolState.hw (env k).u_bat
        (env k).u_isol > ISOL_QDROP_LIMIT := hdrop k (by omega)
    obtain ⟨a1, a2, a3⟩ := isolAfter_accumulate (runCalls (protFrom d env k) (env k).calls)
      (env k).u_bat (env k).u_isol (c2 i1) (by rw [c1]; exact i2) (hv k (by omega)).1
      (hv k (by omega)).2 hd
    have e : (protFrom d env (k + 1)).isolProt =
        isolAfter (runCalls (protFrom d env k) (env k).calls) (env k).u_bat (env k).u_isol := rfl
    rw [c1] at a2
    have hq : 1 ≤ mosfetDrop (runCalls (protFrom d env k) (env k).calls).isolState.hw
        (env k).u_bat (env k).u_isol / ISOL_QDROP_LIMIT :=
      (Nat.one_le_div_iff (by decide)).mpr (Nat.le_of_lt hd)
    generalize mosfetDrop (runCalls (protFrom d env k) (env k).calls).isolState.hw
        (env k).u_bat (env k).u_isol / ISOL_QDROP_LIMIT = q at a2 hq
    have step : min 255 ((protFrom d env k).isolProt.ocp_counter + 1) ≤
        (protFrom d env (k + 1)).isolProt.ocp_counter := by
      rw [e, a2]
      simp only [min_def]
      split_ifs <;> omega
    refine ⟨by rw [e]; exact a1, ?_, fun j hj => ?_, fun j hj => ?_⟩
    · rw [e, a2]
      simp only [min_def]
      split_ifs <;> omega
    · rcases Nat.lt_succ_iff_lt_or_eq.mp hj with h | h
      · exact i3 j h
      · rw [h]
        exact step
    · rcases Nat.lt_succ_iff_lt_or_eq.mp hj with h | h
      · exact i4 j h
      · rw [h, e]
        exact a3

/-- The drop computed by the block "Calculate mosfet voltage drop" is at most
the larger of the two voltages. -/
theorem mosfetDrop_le (hw vp vo b : Nat) (hvp : vp ≤ b) (hvo : vo ≤ b) :
    mosfetDrop hw vp vo ≤ b := by
  unfold mosfetDrop; split_ifs <;> omega

/-- The voltages `main` passes to the protection processing: for a conversion
result of the 10-bit ADC (at most 1023), `ADCDRV_GetValue` returns at most
1023 * 20 = 20460 mV. -/
theorem ADCDRV_GetValue_le (a : Sample) (ch : Nat)
    (h : a.bat_mon ≤ 1023 ∧ a.isol_mon ≤ 1023 ∧ a.ign_mon ≤ 1023 ∧ a.alt_mon ≤ 1023) :
    ADCDRV_GetValue a ch ≤ 20460 := by
  unfold ADCDRV_GetValue
  split_ifs <;> first | exact le_trans (Nat.mod_le _ _) (by omega) | omega

/-- Along a run from a state with the isolator's counter at 0 and its
dead-time expired, while every step reads voltages of at most 20460 mV and
sees a drop above `ISOL_QDROP_LIMIT`: a step adds 40 at most, so the counter
is at most `40 * k` after `k` steps and stays clear of the saturation at 255
during the first `ISOL_OCP_DELAY + 1` steps. -/
theorem protFrom_counter_le (d : OutDrv) (env : Nat → ProtStep)
    (hc : d.isolProt.ocp_counter = 0) (hdt : d.isolProt.ocp_deadtime = 0)
    (hv : ∀ k, k < ISOL_OCP_DELAY + 1 → (env k).u_bat ≤ 20460 ∧ (env k).u_isol ≤ 20460)
    (hdrop : ∀ k, k < ISOL_OCP_DELAY + 1 → isolDropAt d env k > ISOL_QDROP_LIMIT) (k : Nat) :
    k ≤ ISOL_OCP_DELAY + 1 → (protFrom d env k).isolProt.ocp_counter ≤ 40 * k := by
  have hv' : ∀ k, k < ISOL_OCP_DELAY + 1 → (env k).u_bat < 65536 ∧ (env k).u_isol < 65536 :=
    fun k hk => ⟨by have := (hv k hk).1; omega, by have := (hv k hk).2; omega⟩
  induction k with
  | zero =>
    intro _
    have c0 : (protFrom d env 0).isolProt.ocp_counter = 0 := hc
    rw [c0]
  | succ k ih =>
    intro hk
    have i := ih (by omega)
    obtain ⟨i1, i2, -, -⟩ := protFrom_accumulate d env (ISOL_OCP_DELAY + 1)
      (by rw [hc]; decide) hdt hv' hdrop k (by omega)
    obtain ⟨c1, c2⟩ := runCalls_counter (env k).calls (protFrom d env k)
    have hd : mosfetDrop (runCalls (protFrom d env k) (env k).calls).isolState.hw (env k).u_bat
        (env k).u_isol > ISOL_QDROP_LIMIT := hdrop k (by omega)
    obtain ⟨-, a2, -⟩ := isolAfter_accumulate (runCalls (protFrom d env k) (env k).calls)
      (env k).u_bat (env k).u_isol (c2 i1) (by rw [c1]; exact i2) (hv' k (by omega)).1
      (hv' k (by omega)).2 hd
    have e : (protFrom d env (k + 1)).isolProt =
        isolAfter (runCalls (protFrom d env k) (env k).calls) (env k).u_bat (env k).u_isol := rfl
    rw [c1] at a2
    have hb := mosfetDrop_le (runCalls (protFrom d env k) (env k).calls).isolState.hw
      (env k).u_bat (env k).u_isol 20460 (hv k (by omega)).1 (hv k (by omega)).2
    have hq : mosfetDrop (runCalls (protFrom d env k) (env k).calls).isolState.hw
        (env k).u_bat (env k).u_isol / ISOL_QDROP_LIMIT ≤ 40 := by
      generalize mosfetDrop (runCalls (protFrom d env k) (env k).calls).isolState.hw
        (env k).u_bat (env k).u_isol = x at hb
      show x / 500 ≤ 40
      omega
    generalize mosfetDrop (runCalls (protFrom d env k) (env k).calls).isolState.hw
        (env k).u_bat (env k).u_isol / ISOL_QDROP_LIMIT = q at a2 hq
    rw [e, a2]
    simp only [min_def]
    split_ifs <;> omega

/-- A sustained drop on the isolator for any 16-bit voltages: from a driver
state with the isolator's `ocp_counter` at 0 and its `ocp_deadtime` at 0, in a
run in which each of the first `ISOL_OCP_DELAY + 1` protection steps computes
a conduction drop above `ISOL_QDROP_LIMIT`, the isolator `fault` is 1 after
the last of these steps, each step leaves the counter at `min 255 (c + 1)` at
least, the counter is at least `k` after `k` steps, and `fault` is 1 after
every one of these steps that leaves the counter above `ISOL_OCP_DELAY`. -/
theorem protFrom_sustained_drop (d : OutDrv) (env : Nat → ProtStep)
    (hc : d.isolProt.ocp_counter = 0) (hdt : d.isolProt.ocp_deadtime = 0)
    (hv : ∀ k, k < ISOL_OCP_DELAY + 1 → (env k).u_bat < 65536 ∧ (env k).u_isol < 65536)
    (hdrop : ∀ k, k < ISOL_OCP_DELAY + 1 → isolDropAt d env k > ISOL_QDROP_LIMIT) :
    (protFrom d env (ISOL_OCP_DELAY + 1)).isolProt.fault = 1 ∧
    (∀ k, k < ISOL_OCP_DELAY + 1 →
      min 255 ((protFrom d env k).isolProt.ocp_counter + 1) ≤
        (protFrom d env (k + 1)).isolProt.ocp_counter) ∧
    (∀ k, k ≤ ISOL_OCP_DELAY + 1 → k ≤ (protFrom d env k).isolProt.ocp_counter) ∧
    (∀ k, k < ISOL_OCP_DELAY + 1 →
      (protFrom d env (k + 1)).isolProt.ocp_counter > ISOL_OCP_DELAY →
      (protFrom d env (k + 1)).isolProt.fault = 1) := by
  obtain ⟨-, -, h3, h4⟩ := protFrom_accumulate d env (ISOL_OCP_DELAY + 1)
    (by rw [hc]; decide) hdt hv hdrop (ISOL_OCP_DELAY + 1) (le_refl _)
  have c0 : (protFrom d env 0).isolProt.ocp_counter = 0 := hc
  have s0 : min 255 ((protFrom d env 0).isolProt.ocp_counter + 1) ≤
      (protFrom d env 1).isolProt.ocp_counter := h3 0 (by decide)
  have s1 : min 255 ((protFrom d env 1).isolProt.ocp_counter + 1) ≤
      (protFrom d env 2).isolProt.ocp_counter := h3 1 (by decide)
  have s2 : min 255 ((protFrom d env 2).isolProt.ocp_counter + 1) ≤
      (protFrom d env 3).isolProt.ocp_counter := h3 2 (by decide)
  simp only [min_def] at s0 s1 s2
  have g1 : 1 ≤ (protFrom d env 1).isolProt.ocp_counter := by
    split_ifs at s0 <;> omega
  have g2 : 2 ≤ (protFrom d env 2).isolProt.ocp_counter := by
    split_ifs at s1 <;> omega
  have g3 : 3 ≤ (protFrom d env 3).isolProt.ocp_counter := by
    split_ifs at s2 <;> omega
  refine ⟨h4 2 (by decide) g3, h3, fun k hk => ?_, h4⟩
  have hr : k = 0 ∨ k = 1 ∨ k = 2 ∨ k = 3 := by
    have : k ≤ 3 := hk
    omega
  rcases hr with h | h | h | h <;> subst h
  · exact Nat.zero_le _
  · exact g1
  · exact g2
  · exact g3

/-- C28: from a driver state with the isolator's `ocp_counter` at 0 and its
`ocp_deadtime` at 0, in a run in which each of the first `ISOL_OCP_DELAY + 1`
protection steps reads voltages in the range of `ADCDRV_GetValue` (at most
20460 mV, see `ADCDRV_GetValue_le`) and computes a conduction drop above
`ISOL_QDROP_LIMIT` for the isolator (any calls of the driver may come between
the steps): the isolator `fault` is 1 after the last of these steps; each of
these steps raises the counter by at least 1; so the counter is at least `k`
after `k` steps; and `fault` is 1 already after every earlier one of these
steps that leaves the counter above `ISOL_OCP_DELAY`. -/
theorem C28_sustained_drop_sets_fault (d : OutDrv) (env : Nat → ProtStep)
    (hc : d.isolProt.ocp_counter = 0) (hdt : d.isolProt.ocp_deadtime = 0)
    (hv : ∀ k, k < ISOL_OCP_DELAY + 1 → (env k).u_bat ≤ 20460 ∧ (env k).u_isol ≤ 20460)
    (hdrop : ∀ k, k < ISOL_OCP_DELAY + 1 → isolDropAt d env k > ISOL_QDROP_LIMIT) :
    (protFrom d env (ISOL_OCP_DELAY + 1)).isolProt.fault = 1 ∧
    (∀ k, k < ISOL_OCP_DELAY + 1 →
      (protFrom d env k).isolProt.ocp_counter + 1 ≤
        (protFrom d env (k + 1)).isolProt.ocp_counter) ∧
    (∀ k, k ≤ ISOL_OCP_DELAY + 1 → k ≤ (protFrom d env k).isolProt.ocp_counter) ∧
    (∀ k, k < ISOL_OCP_DELAY + 1 →
      (protFrom d env (k + 1)).isolProt.ocp_counter > ISOL_OCP_DELAY →
      (protFrom d env (k + 1)).isolProt.fault = 1) := by
  have hv' : ∀ k, k < ISOL_OCP_DELAY + 1 → (env k).u_bat < 65536 ∧ (env k).u_isol < 65536 :=
    fun k hk => ⟨by have := (hv k hk).1; omega, by have := (hv k hk).2; omega⟩
  obtain ⟨f, s, g, e⟩ := protFrom_sustained_drop d env hc hdt hv' hdrop
  refine ⟨f, fun k hk => ?_, g, e⟩
  have b := protFrom_counter_le d env hc hdt hv hdrop k (Nat.le_of_lt hk)
  have m := s k hk
  have k3 : k < 3 := hk
  generalize (protFrom d env k).isolProt.ocp_counter = c at b m
  generalize (protFrom d env (k + 1)).isolProt.ocp_counter = c' at m
  simp only [min_def] at m
  split_ifs at m <;> omega

/-- C28 at `exOn` in the run `runDrop600`, where the isolator stays driven high
and every step reads 12000 mV and 11400 mV, a drop of 600 mV: the counter is
1, 2, 3 after the first three steps, `fault` is still clear after the second
step and is set after the third. -/
theorem C28_witness :
    exOn.isolProt.ocp_counter = 0 ∧ exOn.isolProt.ocp_deadtime = 0 ∧
    exOn.isolProt.fault = 0 ∧
    (∀ k, k < ISOL_OCP_DELAY + 1 → isolDropAt exOn runDrop600 k = 600) ∧
    (protFrom exOn runDrop600 1).isolProt.ocp_counter = 1 ∧
    (protFrom exOn runDrop600 2).isolProt.ocp_counter = 2 ∧
    (protFrom exOn runDrop600 3).isolProt.ocp_counter = 3 ∧
    (protFrom exOn runDrop600 2).isolProt.fault = 0 ∧
    (protFrom exOn runDrop600 (ISOL_OCP_DELAY + 1)).isolProt.fault = 1 :=
  have hd : ∀ k, k < ISOL_OCP_DELAY + 1 → isolDropAt exOn runDrop600 k = 600 := by decide
  ⟨rfl, rfl, rfl, hd, by decide, by decide, by decide, by decide,
    (C28_sustained_drop_sets_fault exOn runDrop600 rfl rfl
      (fun _ _ => (by decide : (12000 : Nat) ≤ 20460 ∧ (11400 : Nat) ≤ 20460))
      (fun k hk => by rw [hd k hk]; decide)).1⟩

/-! ## The delayed execution of an isolator fault -/

/-- The isolator chain of `OUTDRV_ProcessLogic` on a channel without pending
`delay_exec` and with its protection fault set. -/
theorem ProcessLogic_isol_fault (d : OutDrv) (hd : d.isolProt.delay_exec = 0)
    (hf : d.isolProt.fault ≠ 0) :
    (OUTDRV_ProcessLogic d).isolState.hw = HWOUT_HIZ ∧
    (OUTDRV_ProcessLogic d).isolState.real = 0 ∧
    (OUTDRV_ProcessLogic d).PB1 = false ∧ (OUTDRV_ProcessLogic d).PB7 = false := by
  obtain ⟨-, h2, -, -, -⟩ := ProcessLogicIgnition_isol d
  have hd' : (ProcessLogicIgnition d).isolProt.delay_exec = 0 := by rw [h2]; exact hd
  have hf' : (ProcessLogicIgnition d).isolProt.fault ≠ 0 := by rw [h2]; exact hf
  unfold OUTDRV_ProcessLogic
  generalize ProcessLogicIgnition d = e at hd' hf'
  unfold ProcessLogicIsolator
  rw [if_neg (by simpa using hd'), if_pos (Or.inl hf')]
  simp [HAL_SetIsolator]

/-- The isolator's protection state after the protection processing of a
tick. -/
theorem tickProtected_isolProt (s : Sys) (a : Sample) :
    (tickProtected s a).out.isolProt =
      isolAfter s.out (ADCDRV_GetValue a ADC_BATU) (ADCDRV_GetValue a ADC_ISOL) := rfl

/-- The fault and the cooldown timer after one isolator protection step:
either the fault is set and the timer holds or is loaded, or the fault is kept
while the timer runs and cleared once it has run out.  The external fault flag
is not written. -/
theorem isolAfter_core (d : OutDrv) (volt_pwrsrc volt_out : Nat) :
    (((isolAfter d volt_pwrsrc volt_out).fault = 1 ∧
        (isolAfter d volt_pwrsrc volt_out).cooldown_timer =
          (if d.isolProt.cooldown_timer = 0 then ISOL_FAULT_COOLDOWN_TIME
           else d.isolProt.cooldown_timer)) ∨
      ((isolAfter d volt_pwrsrc volt_out).fault =
          (if d.isolProt.cooldown_timer ≠ 0 then d.isolProt.fault else 0) ∧
        (isolAfter d volt_pwrsrc volt_out).cooldown_timer = d.isolProt.cooldown_timer - 1)) ∧
    (isolAfter d volt_pwrsrc volt_out).ext_fault = d.isolProt.ext_fault := by
  have e : isolAfter d volt_pwrsrc volt_out =
      checkFault ISOL_OCP_DELAY ISOL_FAULT_COOLDOWN_TIME ISOL_FAULT_RETRY_TIMEOUT
        (isolPre d volt_pwrsrc volt_out) := rfl
  have c1 : (isolPre d volt_pwrsrc volt_out).fault = d.isolProt.fault := rfl
  have c2 : (isolPre d volt_pwrsrc volt_out).cooldown_timer = d.isolProt.cooldown_timer := rfl
  have c3 : (isolPre d volt_pwrsrc volt_out).ext_fault = d.isolProt.ext_fault := rfl
  rw [e, checkFault_fault, checkFault_cooldown_timer, checkFault_ext_fault, c1, c2, c3]
  refine ⟨?_, rfl⟩
  by_cases c : (isolPre d volt_pwrsrc volt_out).ovp_warning ≠ 0 ∨
      (isolPre d volt_pwrsrc volt_out).uvp_warning ≠ 0 ∨
      (isolPre d volt_pwrsrc volt_out).ocp_counter > ISOL_OCP_DELAY
  · rw [if_pos c, if_pos c]
    exact Or.inl ⟨rfl, rfl⟩
  · rw [if_neg c, if_neg c]
    exact Or.inr ⟨rfl, rfl⟩

/-- The second and third escalation tests leave the outputs driver alone. -/
theorem escalation_out (p : Sys) :
    (loopFaultCount (loopRelayOCP (loopIsolFault p))).out = (loopIsolFault p).out := by
  have f : ∀ q : Sys, (loopFaultCount q).out = q.out := by
    intro q
    unfold loopFaultCount
    split_ifs <;> rfl
  have o : ∀ q : Sys, (loopRelayOCP q).out = q.out := by
    intro q
    unfold loopRelayOCP
    simp only []
    split_ifs <;> rfl
  rw [f, o]

/-- The escalation tests do not write the isolator's fault indicators. -/
theorem tickEscalated_isolProt (s : Sys) (a : Sample) :
    (tickEscalated s a).out.isolProt.fault = (tickProtected s a).out.isolProt.fault ∧
    (tickEscalated s a).out.isolProt.cooldown_timer =
      (tickProtected s a).out.isolProt.cooldown_timer ∧
    (tickEscalated s a).out.isolProt.ext_fault = (tickProtected s a).out.isolProt.ext_fault := by
  unfold tickEscalated
  rw [escalation_out]
  generalize tickProtected s a = p
  unfold loopIsolFault
  split_ifs <;> exact ⟨rfl, rfl, rfl⟩

/-- At the end of a tick the isolator's fault indicators are those left by the
protection processing of that tick. -/
theorem mainLoop_isolProt (s : Sys) (a : Sample) :
    (mainLoop s a).out.isolProt.fault = (tickProtected s a).out.isolProt.fault ∧
    (mainLoop s a).out.isolProt.cooldown_timer =
      (tickProtected s a).out.isolProt.cooldown_timer ∧
    (mainLoop s a).out.isolProt.ext_fault = (tickProtected s a).out.isolProt.ext_fault := by
  obtain ⟨a1, a2, a3⟩ := tickEscalated_isolProt s a
  obtain ⟨-, -, i3, -⟩ := loopStateMachine_inputs (tickEscalated s a)
  obtain ⟨⟨c1, c2, -, -⟩, -⟩ := ProcessLogic_core (loopControl s a).out
  obtain ⟨x1, -, -, -⟩ := ProcessLogic_ext_fault (loopControl s a).out
  rw [mainLoop_out, c1, c2, x1, loopControl_tickEscalated, i3]
  exact ⟨a1, a2, a3⟩

theorem loopRelayOCP_state (q : Sys) (h : (loopRelayOCP q).m.sys_state = ACTIVE) :
    q.m.sys_state = ACTIVE := by
  obtain ⟨e1, -, -, -, -⟩ := IsolatorOCP_frame q.m
  unfold loopRelayOCP at h
  simp only [] at h
  generalize IsolatorOCP q.m = r at e1 h
  by_cases c : r.2 ≠ 0 ∧ r.1.relay_ocp_en ≠ 0 ∧ r.1.sys_state = ACTIVE
  · rw [← e1]
    exact c.2.2
  · rw [if_neg c] at h
    rw [← e1]
    exact h

theorem loopFaultCount_state (q : Sys) (h : (loopFaultCount q).m.sys_state = ACTIVE) :
    q.m.sys_state = ACTIVE := by
  unfold loopFaultCount at h
  split_ifs at h with c
  · exact c.2
  · exact h

/-- A tick whose escalation tests leave the system in ACTIVE has seen no
isolator fault. -/
theorem tickEscalated_active (s : Sys) (a : Sample)
    (h : (tickEscalated s a).m.sys_state = ACTIVE) :
    OUTDRV_GetFault (tickProtected s a).out OUT_ISOL = 0 := by
  unfold tickEscalated at h
  have h1 := loopRelayOCP_state _ (loopFaultCount_state _ h)
  generalize tickProtected s a = p at h1 ⊢
  unfold loopIsolFault at h1
  by_cases c : OUTDRV_GetFault p.out OUT_ISOL ≠ 0 ∧ p.m.sys_state = ACTIVE
  · rw [if_pos c] at h1
    exact absurd h1 (by decide : KILLING ≠ ACTIVE)
  · rw [if_neg c] at h1
    by_contra k
    exact c ⟨k, h1⟩

theorem loopRelayOCP_ctl (q : Sys) (h : q.m.sys_state ≠ ACTIVE) :
    ctlOf (loopRelayOCP q) = ctlOf q ∧ (loopRelayOCP q).m.kill_act = q.m.kill_act := by
  obtain ⟨f, cd, hh⟩ := IsolatorOCP_fst q.m
  have hm : (IsolatorOCP q.m).1.sys_state = q.m.sys_state ∧
      (IsolatorOCP q.m).1.startup_step = q.m.startup_step ∧
      (IsolatorOCP q.m).1.startup_timeout = q.m.startup_timeout ∧
      (IsolatorOCP q.m).1.kill_step = q.m.kill_step ∧
      (IsolatorOCP q.m).1.kill_act = q.m.kill_act := by
    rw [hh]; exact ⟨rfl, rfl, rfl, rfl, rfl⟩
  obtain ⟨e1, e2, e3, e4, e5⟩ := hm
  clear hh
  unfold loopRelayOCP
  simp only []
  generalize IsolatorOCP q.m = r at e1 e2 e3 e4 e5 ⊢
  have c : ¬ (r.2 ≠ 0 ∧ r.1.relay_ocp_en ≠ 0 ∧ r.1.sys_state = ACTIVE) :=
    fun k => h (e1 ▸ k.2.2)
  rw [if_neg c]
  refine ⟨?_, e5⟩
  unfold ctlOf
  simp only [e1, e2, e3, e4]

theorem loopFaultCount_ctl (q : Sys) (h : q.m.sys_state ≠ ACTIVE) : loopFaultCount q = q := by
  unfold loopFaultCount
  rw [if_neg (fun k => h k.2)]

/-- A tick that starts in ACTIVE and sees an isolator fault: the first
escalation test sets `delay_exec` to 2, forces the kill switch active and
leaves ACTIVE for KILLING; the other two tests then change nothing of the
control part. -/
theorem tickEscalated_fault (s : Sys) (a : Sample) (ha : s.m.sys_state = ACTIVE)
    (hf : OUTDRV_GetFault (tickProtected s a).out OUT_ISOL ≠ 0) :
    ctlOf (tickEscalated s a) = { ctlOf s with sys_state := KILLING, isol_delay := 2 } ∧
    (tickEscalated s a).m.kill_act = 1 := by
  have hp := tickProtected_ctl s a
  have e3 : (tickProtected s a).m.sys_state = s.m.sys_state := (tickProtected_frame s a).1
  unfold tickEscalated
  generalize tickProtected s a = p at hp e3 hf ⊢
  have i : loopIsolFault p =
      { p with
        out := OUTDRV_DelayFaultExecution p.out OUT_ISOL 2
        m := { p.m with sys_state := KILLING, kill_act := 1 } } := by
    unfold loopIsolFault
    rw [if_pos ⟨hf, e3.trans ha⟩]
  have ic : ctlOf (loopIsolFault p) = { ctlOf p with sys_state := KILLING, isol_delay := 2 } := by
    rw [i]; rfl
  have ik : (loopIsolFault p).m.kill_act = 1 := by rw [i]
  have n1 : (loopIsolFault p).m.sys_state ≠ ACTIVE := by
    rw [i]; exact (by decide : KILLING ≠ ACTIVE)
  obtain ⟨o1, o2⟩ := loopRelayOCP_ctl (loopIsolFault p) n1
  have n2 : (loopRelayOCP (loopIsolFault p)).m.sys_state ≠ ACTIVE := by
    have es : ∀ q : Sys, (ctlOf q).sys_state = q.m.sys_state := fun _ => rfl
    rw [← es, o1, ic]
    exact (by decide : KILLING ≠ ACTIVE)
  rw [loopFaultCount_ctl _ n2, o1, o2, ic, ik, hp]
  exact ⟨rfl, rfl⟩

theorem startupCtl_active (c : Ctl) (s : Sys) (h : (startupCtl c s).2 = ACTIVE) :
    OUTDRV_GetFault s.out OUT_ISOL = 0 := by
  have ns : STARTUP ≠ ACTIVE := by decide
  have nl : LOCKOUT ≠ ACTIVE := by decide
  unfold startupCtl at h
  by_cases h0 : c.startup_step = 0
  · rw [if_pos h0] at h
    exact absurd h ns
  rw [if_neg h0] at h
  by_cases h1 : c.startup_step = 1
  · rw [if_pos h1] at h
    exact absurd h ns
  rw [if_neg h1] at h
  by_cases h2 : c.startup_step = 2
  · rw [if_pos h2] at h
    split_ifs at h
    · exact absurd h nl
    · exact absurd h ns
  rw [if_neg h2] at h
  by_cases h3 : c.startup_step = 3
  · rw [if_pos h3] at h
    split_ifs at h
    · exact absurd h nl
    · exact absurd h ns
    · exact absurd h ns
  rw [if_neg h3] at h
  by_cases h4 : c.startup_step = 4
  · rw [if_pos h4] at h
    by_cases a : s.m.master_act = 0 ∨ s.m.kill_act ≠ 0 ∨ OUTDRV_GetFault s.out OUT_ISOL ≠ 0 ∨
        OUTDRV_GetFault s.out OUT_IGNC ≠ 0
    · rw [if_pos a] at h
      exact absurd h nl
    · by_contra k
      exact a (Or.inr (Or.inr (Or.inl k)))
  rw [if_neg h4] at h
  exact absurd h ns

/-- What `Kill_Procedure` does to the control part before its sub-step 3: it
stays in KILLING, advances by at most one sub-step and touches neither the
isolator's hardware level, `real` state and pins nor its `delay_exec`. -/
theorem killCtl_hold (c : Ctl) (s : Sys) (h : c.kill_step ≤ 2) :
    (killCtl c s).2 = KILLING ∧
    (killCtl c s).1.isol.hw = c.isol.hw ∧ (killCtl c s).1.isol.real = c.isol.real ∧
    (killCtl c s).1.PB1 = c.PB1 ∧ (killCtl c s).1.PB7 = c.PB7 ∧
    (killCtl c s).1.isol_delay = c.isol_delay ∧
    c.kill_step ≤ (killCtl c s).1.kill_step ∧ (killCtl c s).1.kill_step ≤ c.kill_step + 1 ∧
    (c.kill_step = 0 → (killCtl c s).1.kill_step = 1) := by
  unfold killCtl
  by_cases k0 : c.kill_step = 0
  · rw [if_pos k0]
    exact ⟨rfl, rfl, rfl, rfl, rfl, rfl, by simp only []; omega, by simp only []; omega,
      fun _ => rfl⟩
  rw [if_neg k0]
  by_cases k1 : c.kill_step = 1
  · rw [if_pos k1]
    split_ifs <;>
      exact ⟨rfl, rfl, rfl, rfl, rfl, rfl, by simp only []; omega, by simp only []; omega,
        fun k => absurd k k0⟩
  rw [if_neg k1]
  have k2 : c.kill_step = 2 := by omega
  rw [if_pos k2]
  exact ⟨rfl, rfl, rfl, rfl, rfl, rfl, by simp only []; omega, by simp only []; omega,
    fun k => absurd k k0⟩

theorem killCtl_next (c : Ctl) (s : Sys) :
    (killCtl c s).2 = KILLING ∨ (killCtl c s).2 = LOCKOUT := by
  unfold killCtl
  split_ifs <;> first | exact Or.inl rfl | exact Or.inr rfl

theorem lockoutCtl_next (c : Ctl) (s : Sys) :
    (lockoutCtl c s).2 = LOCKOUT ∨ (lockoutCtl c s).2 = SLEEP := by
  unfold lockoutCtl
  split_ifs <;> first | exact Or.inl rfl | exact Or.inr rfl

/-- The `switch(sys_state)` ends in ACTIVE only from ACTIVE, or from STARTUP
when the isolator reports no fault. -/
theorem smCtl_active (c : Ctl) (q : Sys) (h4 : c.sys_state ≤ 4)
    (h : (smCtl c q).sys_state = ACTIVE) :
    c.sys_state = ACTIVE ∨ (c.sys_state = STARTUP ∧ OUTDRV_GetFault q.out OUT_ISOL = 0) := by
  unfold smCtl at h
  by_cases s0 : c.sys_state = SLEEP
  · rw [if_pos s0] at h
    by_cases m : q.m.master_act ≠ 0
    · rw [if_pos m] at h
      exact absurd h (by decide : STARTUP ≠ ACTIVE)
    · rw [if_neg m] at h
      exact absurd h (by decide : SLEEP ≠ ACTIVE)
  rw [if_neg s0] at h
  by_cases s1 : c.sys_state = STARTUP
  · rw [if_pos s1] at h
    exact Or.inr ⟨s1, startupCtl_active c q h⟩
  rw [if_neg s1] at h
  by_cases s2 : c.sys_state = ACTIVE
  · exact Or.inl s2
  rw [if_neg s2] at h
  by_cases s3 : c.sys_state = KILLING
  · rw [if_pos s3] at h
    rcases killCtl_next c q with k | k
    · exact absurd (k.symm.trans h) (by decide : KILLING ≠ ACTIVE)
    · exact absurd (k.symm.trans h) (by decide : LOCKOUT ≠ ACTIVE)
  rw [if_neg s3] at h
  by_cases s4 : c.sys_state = LOCKOUT
  · rw [if_pos s4] at h
    rcases lockoutCtl_next c q with k | k
    · exact absurd (k.symm.trans h) (by decide : LOCKOUT ≠ ACTIVE)
    · exact absurd (k.symm.trans h) (by decide : SLEEP ≠ ACTIVE)
  · exfalso
    have a0 : c.sys_state ≠ 0 := s0
    have a1 : c.sys_state ≠ 1 := s1
    have a2 : c.sys_state ≠ 2 := s2
    have a3 : c.sys_state ≠ 3 := s3
    have a4 : c.sys_state ≠ 4 := s4
    omega

/-- A tick that ends in ACTIVE has seen no isolator fault. -/
theorem mainLoop_active (s : Sys) (a : Sample) (hs : SafeInv s)
    (h : (mainLoop s a).m.sys_state = ACTIVE) :
    OUTDRV_GetFault (tickProtected s a).out OUT_ISOL = 0 := by
  have h1 := SafeCtl_tickEscalated s a hs
  obtain ⟨a1, -, a3⟩ := tickEscalated_isolProt s a
  have g : OUTDRV_GetFault (tickEscalated s a).out OUT_ISOL =
      OUTDRV_GetFault (tickProtected s a).out OUT_ISOL := by
    unfold OUTDRV_GetFault
    rw [if_pos rfl, if_pos rfl, a1, a3]
  rw [mainLoop_m] at h
  have h' : (smCtl (ctlOf (tickEscalated s a)) (tickEscalated s a)).sys_state = ACTIVE := by
    rw [← smCtl_eq, ← loopControl_tickEscalated]
    generalize loopControl s a = X at h ⊢
    exact h
  rcases smCtl_active _ _ h1.1 h' with k | ⟨-, k⟩
  · refine tickEscalated_active s a ?_
    generalize tickEscalated s a = q at k ⊢
    exact k
  · rw [← g]
    exact k

theorem FaultInv_loop (s : Sys) (a : Sample) (hs : SafeInv s) (h : FaultInv s) :
    FaultInv (mainLoop s a) := by
  obtain ⟨f1, f2, -⟩ := h
  obtain ⟨m1, m2, m3⟩ := mainLoop_isolProt s a
  obtain ⟨c, x⟩ := isolAfter_core s.out (ADCDRV_GetValue a ADC_BATU) (ADCDRV_GetValue a ADC_ISOL)
  rw [← tickProtected_isolProt] at c x
  have e0 : (tickProtected s a).out.isolProt.ext_fault = 0 := x.trans f1
  unfold FaultInv
  rw [m1, m2, m3]
  refine ⟨e0, fun k => ?_, fun k => ?_⟩
  · rcases c with ⟨c1, -⟩ | ⟨c1, c2⟩
    · rw [k] at c1
      exact absurd c1 (by decide)
    · rw [c2]
      by_cases t : s.out.isolProt.cooldown_timer = 0
      · rw [t]
      · rw [k, if_pos t] at c1
        exact absurd (f2 c1.symm) t
  · have g := mainLoop_active s a hs k
    unfold OUTDRV_GetFault at g
    rw [if_pos rfl] at g
    by_contra n
    rw [if_pos (Or.inl n)] at g
    exact absurd g (by decide)

theorem mainSetup_isolProt (bootstraps : Nat) :
    (mainSetup bootstraps).out.isolProt.fault = 0 ∧
    (mainSetup bootstraps).out.isolProt.cooldown_timer = 0 ∧
    (mainSetup bootstraps).out.isolProt.ext_fault = 0 := by
  unfold mainSetup
  simp only []
  generalize hX : OUTDRV_ResetOutput _ OUT_IGNC = X
  have x0 : X.isolProt = protZero := by rw [← hX]; rfl
  obtain ⟨⟨c1, c2, -, -⟩, -⟩ := ProcessLogic_core X
  obtain ⟨x1, -, -, -⟩ := ProcessLogic_ext_fault X
  rw [c1, c2, x1, x0]
  exact ⟨rfl, rfl, rfl⟩

theorem FaultInv_init (bootstraps : Nat) (samples : List Sample) :
    FaultInv (mainInit bootstraps samples) := by
  have e : (mainInit bootstraps samples).out = (mainSetup bootstraps).out :=
    (DataGathering_frame samples (mainSetup bootstraps)).1
  have hs : (mainInit bootstraps samples).m.sys_state = LOCKOUT ∨
      (mainInit bootstraps samples).m.sys_state = SLEEP := by
    unfold mainInit
    simp only
    split_ifs
    · exact Or.inl rfl
    · exact Or.inr rfl
  obtain ⟨p1, p2, p3⟩ := mainSetup_isolProt bootstraps
  unfold FaultInv
  rw [e]
  refine ⟨p3, fun _ => p2, fun k => p1⟩

theorem Reachable.faultInv {s : Sys} (h : Reachable s) : FaultInv s := by
  induction h with
  | init b l _ => exact FaultInv_init b l
  | loop s a hr ih => exact FaultInv_loop s a hr.safeInv ih
theorem smCtl_killing (c : Ctl) (q : Sys) (h : c.sys_state = KILLING) :
    smCtl c q = { (killCtl c q).1 with sys_state := (killCtl c q).2 } := by
  unfold smCtl
  rw [if_neg (by rw [h]; decide), if_neg (by rw [h]; decide), if_neg (by rw [h]; decide),
    if_pos h]

/-- A tick on which `Kill_Procedure` runs before its sub-step 3 while the
isolator has a pending `delay_exec`, on the control part: `c` is the control
part on which the `switch(sys_state)` runs, `c'` the one at the end of the
tick. -/
theorem kill_tick_ctl (c c1 c' : Ctl) (q : Sys) (hk : c.sys_state = KILLING)
    (h2 : c.kill_step ≤ 2) (hd : c.isol_delay ≠ 0) (e1 : c1 = smCtl c q) (r : PLRel c1 c') :
    c'.sys_state = KILLING ∧ c.kill_step ≤ c'.kill_step ∧ c'.kill_step ≤ c.kill_step + 1 ∧
    (c.kill_step = 0 → c'.kill_step = 1) ∧ c'.isol_delay = c.isol_delay - 1 ∧
    c'.isol.hw = c.isol.hw ∧ c'.isol.real = c.isol.real ∧ c'.PB1 = c.PB1 ∧ c'.PB7 = c.PB7 := by
  obtain ⟨k1, k2, k3, k4, k5, k6, k7, k8, k9⟩ := killCtl_hold c q h2
  rw [smCtl_killing c q hk] at e1
  have b1 : c1.sys_state = KILLING := by rw [e1]; exact k1
  have b2 : c1.kill_step = (killCtl c q).1.kill_step := by rw [e1]
  have b3 : c1.isol = (killCtl c q).1.isol := by rw [e1]
  have b4 : c1.isol_delay = c.isol_delay := by rw [e1]; exact k6
  have b5 : c1.PB1 = c.PB1 := by rw [e1]; exact k4
  have b6 : c1.PB7 = c.PB7 := by rw [e1]; exact k5
  obtain ⟨r1, -, -, r4, ⟨-, -, r5, -⟩, -⟩ := r
  obtain ⟨p1, p2, p3, p4⟩ := r5 (by rw [b4]; exact hd)
  refine ⟨r1.trans b1, ?_, ?_, fun z => ?_, ?_, ?_, ?_, p2.trans b5, p3.trans b6⟩
  · rw [r4, b2]; exact k7
  · rw [r4, b2]; exact k8
  · rw [r4, b2]; exact k9 z
  · rw [p4, b4]
  · rw [p1, b3]; exact k2
  · rw [p1, b3]; exact k3

/-- The tick that starts in ACTIVE and sees an isolator fault: it ends in
KILLING at sub-step 1 of `Kill_Procedure`, with `delay_exec = 1` and the
isolator's hardware level, `real` state and pins as they were. -/
theorem tick_isol_fault (s : Sys) (a : Sample) (hs : SafeInv s) (ha : s.m.sys_state = ACTIVE)
    (hf : OUTDRV_GetFault (tickProtected s a).out OUT_ISOL ≠ 0) :
    (tickEscalated s a).out.isolProt.delay_exec = 2 ∧
    (mainLoop s a).m.sys_state = KILLING ∧ (mainLoop s a).m.kill_step = 1 ∧
    (mainLoop s a).out.isolProt.delay_exec = 1 ∧
    (mainLoop s a).out.isolState.hw = s.out.isolState.hw ∧
    (mainLoop s a).out.isolState.real = s.out.isolState.real ∧
    (mainLoop s a).out.PB1 = s.out.PB1 ∧ (mainLoop s a).out.PB7 = s.out.PB7 := by
  obtain ⟨g, -⟩ := tickEscalated_fault s a ha hf
  have ks : (ctlOf s).kill_step = 0 := (hs.2.2.2.1 (by
    show s.m.sys_state ≠ KILLING
    rw [ha]
    decide)).1
  have r := mainLoop_rel s a
  have e1 : ctlOf (loopControl s a) = smCtl (ctlOf (tickEscalated s a)) (tickEscalated s a) := by
    rw [loopControl_tickEscalated, smCtl_eq]
  have d2 : (tickEscalated s a).out.isolProt.delay_exec = 2 := by
    have : (ctlOf (tickEscalated s a)).isol_delay = 2 := by rw [g]
    generalize tickEscalated s a = q at this ⊢
    exact this
  have hk : (ctlOf (tickEscalated s a)).sys_state = KILLING := by rw [g]
  have h0 : (ctlOf (tickEscalated s a)).kill_step = 0 := by rw [g]; exact ks
  have hd : (ctlOf (tickEscalated s a)).isol_delay ≠ 0 := by
    rw [g]
    exact (by decide : (2 : Nat) ≠ 0)
  obtain ⟨t1, -, -, t4, t5, t6, t7, t8, t9⟩ := kill_tick_ctl _ _ _ _ hk (by rw [h0]; decide) hd e1 r
  have t4' := t4 h0
  rw [g] at t5 t6 t7 t8 t9
  clear r e1 hk h0 hd g
  refine ⟨d2, ?_⟩
  clear d2
  generalize mainLoop s a = t at t1 t4' t5 t6 t7 t8 t9 ⊢
  exact ⟨t1, t4', t5, t6, t7, t8, t9⟩

/-- A tick that starts in KILLING before sub-step 3 of `Kill_Procedure` with a
pending isolator `delay_exec`: the escalation tests do not touch `delay_exec`,
the tick ends in KILLING with `delay_exec` one lower and with the isolator's
hardware level, `real` state and pins as they were. -/
theorem tick_killing_hold (s : Sys) (a : Sample) (hk : s.m.sys_state = KILLING)
    (h2 : s.m.kill_step ≤ 1) (hd : s.out.isolProt.delay_exec ≠ 0) :
    (tickEscalated s a).out.isolProt.delay_exec = s.out.isolProt.delay_exec ∧
    (mainLoop s a).m.sys_state = KILLING ∧ (mainLoop s a).m.kill_step ≤ 2 ∧
    (mainLoop s a).out.isolProt.delay_exec = s.out.isolProt.delay_exec - 1 ∧
    (mainLoop s a).out.isolState.hw = s.out.isolState.hw ∧
    (mainLoop s a).out.isolState.real = s.out.isolState.real ∧
    (mainLoop s a).out.PB1 = s.out.PB1 ∧ (mainLoop s a).out.PB7 = s.out.PB7 := by
  have g := tickEscalated_ctl s a (by rw [hk]; decide)
  have r := mainLoop_rel s a
  have e1 : ctlOf (loopControl s a) = smCtl (ctlOf (tickEscalated s a)) (tickEscalated s a) := by
    rw [loopControl_tickEscalated, smCtl_eq]
  have d2 : (tickEscalated s a).out.isolProt.delay_exec = s.out.isolProt.delay_exec := by
    have : (ctlOf (tickEscalated s a)).isol_delay = (ctlOf s).isol_delay := by rw [g]
    generalize tickEscalated s a = q at this ⊢
    exact this
  rw [g] at e1
  obtain ⟨t1, -, t3, -, t5, t6, t7, t8, t9⟩ :=
    kill_tick_ctl (ctlOf s) _ _ _ hk (Nat.le_succ_of_le h2) hd e1 r
  have t3' : (ctlOf (mainLoop s a)).kill_step ≤ 2 := le_trans t3 (Nat.succ_le_succ h2)
  clear r e1 g t3
  refine ⟨d2, ?_⟩
  clear d2
  generalize mainLoop s a = t at t1 t3' t5 t6 t7 t8 t9 ⊢
  exact ⟨t1, t3', t5, t6, t7, t8, t9⟩

/-- A tick that starts outside ACTIVE without pending isolator `delay_exec`
and whose protection processing leaves the isolator fault set: its
`OUTDRV_ProcessLogic` puts the isolator to HiZ. -/
theorem tick_fault_forces_off (s : Sys) (a : Sample) (hn : s.m.sys_state ≠ ACTIVE)
    (hd : s.out.isolProt.delay_exec = 0)
    (hf : (tickProtected s a).out.isolProt.fault ≠ 0) :
    (mainLoop s a).out.isolState.hw = HWOUT_HIZ ∧ (mainLoop s a).out.isolState.real = 0 ∧
    (mainLoop s a).out.PB1 = false ∧ (mainLoop s a).out.PB7 = false := by
  have g := tickEscalated_ctl s a hn
  obtain ⟨a1, -, -⟩ := tickEscalated_isolProt s a
  obtain ⟨-, -, i3, -⟩ := loopStateMachine_inputs (tickEscalated s a)
  have d0 : (tickEscalated s a).out.isolProt.delay_exec = 0 := by
    have : (ctlOf (tickEscalated s a)).isol_delay = (ctlOf s).isol_delay := by rw [g]
    generalize tickEscalated s a = q at this ⊢
    exact this.trans hd
  rw [mainLoop_out, loopControl_tickEscalated]
  refine ProcessLogic_isol_fault _ ?_ ?_
  · rw [i3]; exact d0
  · rw [i3, a1]; exact hf

/-- A protection step that leaves the fault set when no cooldown was pending
loads the cooldown timer. -/
theorem tick_fault_rising (s : Sys) (a : Sample) (hc : s.out.isolProt.cooldown_timer = 0)
    (hf : (tickProtected s a).out.isolProt.fault ≠ 0) :
    (tickProtected s a).out.isolProt.cooldown_timer = ISOL_FAULT_COOLDOWN_TIME := by
  obtain ⟨c, -⟩ := isolAfter_core s.out (ADCDRV_GetValue a ADC_BATU) (ADCDRV_GetValue a ADC_ISOL)
  rw [← tickProtected_isolProt] at c
  rcases c with ⟨-, c2⟩ | ⟨c1, -⟩
  · rw [c2, if_pos hc]
  · rw [hc] at c1
    exact absurd c1 hf

/-- While the cooldown timer runs, a protection step keeps the fault set and
takes at most one tick off the timer. -/
theorem tick_fault_sticky (s : Sys) (a : Sample) (hf : s.out.isolProt.fault ≠ 0)
    (hc : s.out.isolProt.cooldown_timer ≠ 0) :
    (tickProtected s a).out.isolProt.fault ≠ 0 ∧
    s.out.isolProt.cooldown_timer - 1 ≤ (tickProtected s a).out.isolProt.cooldown_timer := by
  obtain ⟨c, -⟩ := isolAfter_core s.out (ADCDRV_GetValue a ADC_BATU) (ADCDRV_GetValue a ADC_ISOL)
  rw [← tickProtected_isolProt] at c
  rcases c with ⟨c1, c2⟩ | ⟨c1, c2⟩
  · rw [c1, c2, if_neg hc]
    exact ⟨by decide, Nat.sub_le _ _⟩
  · rw [c1, c2, if_pos hc]
    exact ⟨hf, le_refl _⟩

theorem DelayFaultExecution_clamp (d : OutDrv) (cycles : Nat) :
    (OUTDRV_DelayFaultExecution d OUT_ISOL cycles).isolProt.delay_exec =
      min cycles OUT_FAULT_EXEC_DELAY_LIMIT := by
  unfold OUTDRV_DelayFaultExecution
  rw [if_pos rfl]
  show (if cycles > OUT_FAULT_EXEC_DELAY_LIMIT then OUT_FAULT_EXEC_DELAY_LIMIT else cycles) =
    min cycles OUT_FAULT_EXEC_DELAY_LIMIT
  simp only [min_def]
  split_ifs <;> omega

/-- C30: on a tick T of the main loop that starts in a reachable state with
`sys_state = ACTIVE` and whose protection processing leaves
`OUTDRV_GetFault(OUT_ISOL)` nonzero (`samples k` is the sample read by tick
T + k, `tickRun s samples k` the state after `k` ticks): the escalation leaves
the isolator's `delay_exec` at 2, `OUTDRV_DelayFaultExecution` storing its
argument clamped to `OUT_FAULT_EXEC_DELAY_LIMIT`; after tick T and after tick
T + 1 the isolator's hardware level, `real` state and pins are what they were
before tick T, with `delay_exec` at 1 and then at 0; after tick T + 2 the
isolator is at HiZ with `real = 0` and both pins low; ticks T + 1 and T + 2
start in KILLING, and their escalation tests leave `delay_exec` as it is. -/
theorem C30_isolator_fault_executed_after_two_ticks (s : Sys) (samples : Nat → Sample)
    (hr : Reachable s) (ha : s.m.sys_state = ACTIVE)
    (hf : OUTDRV_GetFault (tickProtected s (samples 0)).out OUT_ISOL ≠ 0) :
    ((tickEscalated s (samples 0)).out.isolProt.delay_exec = 2 ∧
      ∀ (d : OutDrv) (cycles : Nat),
        (OUTDRV_DelayFaultExecution d OUT_ISOL cycles).isolProt.delay_exec =
          min cycles OUT_FAULT_EXEC_DELAY_LIMIT) ∧
    ((tickRun s samples 1).out.isolState.hw = s.out.isolState.hw ∧
      (tickRun s samples 1).out.isolState.real = s.out.isolState.real ∧
      (tickRun s samples 1).out.PB1 = s.out.PB1 ∧ (tickRun s samples 1).out.PB7 = s.out.PB7 ∧
      (tickRun s samples 1).out.isolProt.delay_exec = 1) ∧
    ((tickRun s samples 2).out.isolState.hw = s.out.isolState.hw ∧
      (tickRun s samples 2).out.isolState.real = s.out.isolState.real ∧
      (tickRun s samples 2).out.PB1 = s.out.PB1 ∧ (tickRun s samples 2).out.PB7 = s.out.PB7 ∧
      (tickRun s samples 2).out.isolProt.delay_exec = 0) ∧
    ((tickRun s samples 3).out.isolState.hw = HWOUT_HIZ ∧
      (tickRun s samples 3).out.isolState.real = 0 ∧
      (tickRun s samples 3).out.PB1 = false ∧ (tickRun s samples 3).out.PB7 = false) ∧
    ((tickRun s samples 1).m.sys_state = KILLING ∧
      (tickEscalated (tickRun s samples 1) (samples 1)).out.isolProt.delay_exec =
        (tickRun s samples 1).out.isolProt.delay_exec) ∧
    ((tickRun s samples 2).m.sys_state = KILLING ∧
      (tickEscalated (tickRun s samples 2) (samples 2)).out.isolProt.delay_exec =
        (tickRun s samples 2).out.isolProt.delay_exec) := by
  have e1 : tickRun s samples 1 = mainLoop s (samples 0) := rfl
  have e2 : tickRun s samples 2 = mainLoop (tickRun s samples 1) (samples 1) := rfl
  have e3 : tickRun s samples 3 = mainLoop (tickRun s samples 2) (samples 2) := rfl
  obtain ⟨x0, f0, fa⟩ := hr.faultInv
  -- tick T
  obtain ⟨A1, A2, A3, A4, A5, A6, A7, A8⟩ := tick_isol_fault s (samples 0) hr.safeInv ha hf
  obtain ⟨m1, m2, -⟩ := mainLoop_isolProt s (samples 0)
  have px : (tickProtected s (samples 0)).out.isolProt.ext_fault = 0 :=
    (isolAfter_core s.out _ _).2.trans x0
  have pf : (tickProtected s (samples 0)).out.isolProt.fault ≠ 0 := by
    intro z
    apply hf
    unfold OUTDRV_GetFault
    rw [if_pos rfl, if_neg]
    rw [z, px]
    simp
  have pc := tick_fault_rising s (samples 0) (f0 (fa ha)) pf
  rw [← e1] at A2 A3 A4 A5 A6 A7 A8 m1 m2
  have F1 : (tickRun s samples 1).out.isolProt.fault ≠ 0 := by rw [m1]; exact pf
  have C1 : (tickRun s samples 1).out.isolProt.cooldown_timer = 2000 := by rw [m2]; exact pc
  clear m1 m2 pf pc px e1
  generalize tickRun s samples 1 = s1 at e2 A2 A3 A4 A5 A6 A7 A8 F1 C1 ⊢
  -- tick T + 1
  obtain ⟨B1, B2, B3, B4, B5, B6, B7, B8⟩ := tick_killing_hold s1 (samples 1) A2
    (by rw [A3]) (by rw [A4]; decide)
  obtain ⟨n1, n2, -⟩ := mainLoop_isolProt s1 (samples 1)
  obtain ⟨q1, q2⟩ := tick_fault_sticky s1 (samples 1) F1 (by rw [C1]; decide)
  rw [← e2] at B2 B3 B4 B5 B6 B7 B8 n1 n2
  have F2 : (tickRun s samples 2).out.isolProt.fault ≠ 0 := by rw [n1]; exact q1
  have C2 : 1999 ≤ (tickRun s samples 2).out.isolProt.cooldown_timer := by
    rw [n2]
    rw [C1] at q2
    exact q2
  clear n1 n2 q1 q2 e2
  generalize tickRun s samples 2 = s2 at e3 B2 B3 B4 B5 B6 B7 B8 F2 C2 ⊢
  -- tick T + 2
  have D2 : s2.out.isolProt.delay_exec = 0 := by rw [B4, A4]
  obtain ⟨r1, -⟩ := tick_fault_sticky s2 (samples 2) F2 (by omega)
  have G := tick_fault_forces_off s2 (samples 2) (by rw [B2]; decide) D2 r1
  rw [← e3] at G
  have E2 : (tickEscalated s2 (samples 2)).out.isolProt.delay_exec =
      s2.out.isolProt.delay_exec := by
    have g := tickEscalated_ctl s2 (samples 2) (by rw [B2]; decide)
    have : (ctlOf (tickEscalated s2 (samples 2))).isol_delay = (ctlOf s2).isol_delay := by
      rw [g]
    generalize tickEscalated s2 (samples 2) = q at this ⊢
    exact this
  refine ⟨⟨A1, DelayFaultExecution_clamp⟩, ⟨A5, A6, A7, A8, A4⟩,
    ⟨B5.trans A5, B6.trans A6, B7.trans A7, B8.trans A8, D2⟩, G, ⟨A2, B1⟩, ⟨B2, E2⟩⟩

/-- C30 on the example run: from `exActive`, where the isolator is driven high,
three ticks with the isolator output shorted to 0 V. -/
theorem C30_witness :
    Reachable exActive ∧ exActive.m.sys_state = ACTIVE ∧
    exActive.out.isolState.hw = HWOUT_HIGH ∧ exActive.out.isolState.real = 1 ∧
    OUTDRV_GetFault (tickProtected exActive (smpShortRun 0)).out OUT_ISOL ≠ 0 ∧
    (tickEscalated exActive (smpShortRun 0)).out.isolProt.delay_exec = 2 ∧
    ((tickRun exActive smpShortRun 1).out.isolState.hw = HWOUT_HIGH ∧
      (tickRun exActive smpShortRun 1).out.isolState.real = 1 ∧
      (tickRun exActive smpShortRun 1).out.isolProt.delay_exec = 1) ∧
    ((tickRun exActive smpShortRun 2).out.isolState.hw = HWOUT_HIGH ∧
      (tickRun exActive smpShortRun 2).out.isolState.real = 1 ∧
      (tickRun exActive smpShortRun 2).out.isolProt.delay_exec = 0) ∧
    ((tickRun exActive smpShortRun 3).out.isolState.hw = HWOUT_HIZ ∧
      (tickRun exActive smpShortRun 3).out.isolState.real = 0 ∧
      (tickRun exActive smpShortRun 3).out.PB1 = false ∧
      (tickRun exActive smpShortRun 3).out.PB7 = false) :=
  have f : OUTDRV_GetFault (tickProtected exActive (smpShortRun 0)).out OUT_ISOL ≠ 0 := by decide
  have h := C30_isolator_fault_executed_after_two_ticks exActive smpShortRun
    exActive_reachable rfl f
  ⟨exActive_reachable, rfl, rfl, rfl, f, h.1.1,
    ⟨h.2.1.1, h.2.1.2.1, h.2.1.2.2.2.2⟩, ⟨h.2.2.1.1, h.2.2.1.2.1, h.2.2.1.2.2.2.2⟩, h.2.2.2.1⟩

/-! ## A level change right after a commit -/

/-- C31, evaluated on the code: the master channel after `INDRV_Init` with the
configuration of `main` (active low, debounce limit 10, inactive level 1, not
blocked) reads the pin low on 11 samples and high on the 12th.  The 11th
sample latches level 0 and leaves `dbnc_timer` at 11; the 12th sample, the
only one that differs from the latched level 0, counts 12 > 10 and latches
level 1 again, although the 10 samples before it all agree with level 0. -/
theorem C31_single_sample_after_commit_flips_level :
    exIn.mstr_cfg.dbnc_limit = 10 ∧
    (readAllRun exIn pinsBounce 10).mstr.level = 1 ∧
    (readAllRun exIn pinsBounce 11).mstr =
      { level := 0, changed := 1, blocked := 0, dbnc_timer := 11 } ∧
    (∀ j < 11, 1 ≤ j →
      pinLevel (pinsBounce j).1 = (readAllRun exIn pinsBounce 11).mstr.level) ∧
    pinLevel (pinsBounce 11).1 ≠ (readAllRun exIn pinsBounce 11).mstr.level ∧
    (readAllRun exIn pinsBounce 12).mstr.level = 1 := by
  decide

/-! ## The two protection functions as one function of the limits -/

/-- The isolator's protection function is the shared body with the isolator's
limits. -/
theorem ProcessIsolatorProtection_step (d : OutDrv) (vp vo : Nat) :
    ProcessIsolatorProtection d vp vo =
      ({ d with isolProt := (protectionStep isolLimits d.isolState.hw d.isolProt vp vo).1 },
        (protectionStep isolLimits d.isolState.hw d.isolProt vp vo).2) := rfl

/-- The ignition's protection function is the shared body with the limits its
text names. -/
theorem ProcessIgnitionProtection_step (d : OutDrv) (vp vo : Nat) :
    ProcessIgnitionProtection d vp vo =
      ({ d with igncProt := (protectionStep igncLimitsNamed d.igncState.hw d.igncProt vp vo).1 },
        (protectionStep igncLimitsNamed d.igncState.hw d.igncProt vp vo).2) := rfl

/-- The threshold named in the ignition's fault check has the value of the
ignition's own threshold, so the limits named are the ignition's limits. -/
theorem igncLimitsNamed_eq : igncLimitsNamed = igncLimits := by decide

/-- The limits configured for the two channels are equal, field by field. -/
theorem igncLimits_eq : igncLimits = isolLimits := by decide

/-- C33: the two protection functions are one function of the channel's
hardware level, protection state and voltages.  Each is the shared body
`protectionStep` taken with its own channel's limits; and whenever the
ignition channel of a state `e` and the isolator channel of a state `d` have
the same hardware level and the same protection state, the two functions
leave equal protection states and return equal values, for every pair of
voltages.  (The fault check of `ProcessIgnitionProtection` is written with
`ISOL_OCP_DELAY`; it has the value of `IGNC_OCP_DELAY`, so the function is the
shared body with the ignition's own limits.) -/
theorem C33_protection_functions_agree (d e : OutDrv) (vp vo : Nat)
    (hw : e.igncState.hw = d.isolState.hw) (hp : e.igncProt = d.isolProt) :
    (ProcessIsolatorProtection d vp vo).1.isolProt =
        (protectionStep isolLimits d.isolState.hw d.isolProt vp vo).1 ∧
    (ProcessIsolatorProtection d vp vo).2 =
        (protectionStep isolLimits d.isolState.hw d.isolProt vp vo).2 ∧
    (ProcessIgnitionProtection e vp vo).1.igncProt =
        (protectionStep igncLimits e.igncState.hw e.igncProt vp vo).1 ∧
    (ProcessIgnitionProtection e vp vo).2 =
        (protectionStep igncLimits e.igncState.hw e.igncProt vp vo).2 ∧
    igncAfter e vp vo = isolAfter d vp vo ∧
    (ProcessIgnitionProtection e vp vo).2 = (ProcessIsolatorProtection d vp vo).2 := by
  have a := ProcessIsolatorProtection_step d vp vo
  have b := ProcessIgnitionProtection_step e vp vo
  rw [igncLimitsNamed_eq] at b
  have c : protectionStep igncLimits e.igncState.hw e.igncProt vp vo =
      protectionStep isolLimits d.isolState.hw d.isolProt vp vo := by
    rw [hw, hp, igncLimits_eq]
  unfold igncAfter isolAfter
  rw [a, b, c]
  exact ⟨rfl, rfl, rfl, rfl, rfl, rfl⟩

/-- C33 at `exMixed` and its mirror image `exMixedSwap`, with 12000 mV on the
supply and 11000 mV on the output: a drop of 1000 mV on a channel driven high
whose counter stands at 7.  Both functions leave the counter at 9 with the
fault set and return 1. -/
theorem C33_witness :
    (exMixedSwap.igncState.hw = exMixed.isolState.hw ∧
      exMixedSwap.igncProt = exMixed.isolProt) ∧
    igncAfter exMixedSwap 12000 11000 = isolAfter exMixed 12000 11000 ∧
    (isolAfter exMixed 12000 11000).ocp_counter = 9 ∧
    (ProcessIgnitionProtection exMixedSwap 12000 11000).2 = 1 ∧
    (ProcessIsolatorProtection exMixed 12000 11000).2 = 1 := by
  have h := C33_protection_functions_agree exMixed exMixedSwap 12000 11000 rfl rfl
  refine ⟨⟨rfl, rfl⟩, h.2.2.2.2.1, by decide, ?_, by decide⟩
  rw [h.2.2.2.2.2]
  decide

/-! ## The lockout dwell and the ignition's fault history -/

theorem ocpCounterNext_le (ql drop w dt c : Nat) (hc : c ≤ 255) :
    ocpCounterNext ql drop w dt c ≤ 255 := by
  unfold ocpCounterNext
  simp only []
  split_ifs <;> omega

/-- The ignition's protection state after the protection processing of a
tick. -/
theorem tickProtected_igncProt (s : Sys) (a : Sample) :
    (tickProtected s a).out.igncProt =
      igncAfter s.out (ADCDRV_GetValue a ADC_ALTU) (ADCDRV_GetValue a ADC_IGNC) := rfl

theorem igncAfter_checkFault (d : OutDrv) (vp vo : Nat) :
    igncAfter d vp vo =
      checkFault ISOL_OCP_DELAY IGNC_FAULT_COOLDOWN_TIME IGNC_FAULT_RETRY_TIMEOUT
        (igncPre d vp vo) := rfl

/-- A protection step keeps the ignition's counter and timers in range. -/
theorem igncAfter_bounded (d : OutDrv) (vp vo : Nat) (hb : IgncBounded d.igncProt) :
    IgncBounded (igncAfter d vp vo) := by
  obtain ⟨b1, b2, b3⟩ := hb
  have c1 : (igncPre d vp vo).ocp_counter ≤ 255 := ocpCounterNext_le _ _ _ _ _ b1
  have c2 : (igncPre d vp vo).cooldown_timer = d.igncProt.cooldown_timer := rfl
  have c3 : (igncPre d vp vo).retry_timer = d.igncProt.retry_timer := rfl
  unfold IgncBounded
  rw [igncAfter_checkFault, checkFault_ocp_counter, checkFault_cooldown_timer,
    checkFault_retry_timer, c2, c3]
  simp only [IGNC_FAULT_COOLDOWN_TIME, IGNC_FAULT_RETRY_TIMEOUT] at b2 b3 ⊢
  refine ⟨c1, ?_, ?_⟩
  · split_ifs <;> omega
  · split_ifs <;> omega

/-- The state on which the block "Check fault" runs when the ignition's
half-bridge is at HiZ: no warning, and the counter one lower. -/
theorem igncPre_hiz (d : OutDrv) (vp vo : Nat) (hz : d.igncState.hw = HWOUT_HIZ) :
    (igncPre d vp vo).ovp_warning = 0 ∧ (igncPre d vp vo).uvp_warning = 0 ∧
    (igncPre d vp vo).ocp_counter = d.igncProt.ocp_counter - 1 := by
  have hd : mosfetDrop d.igncState.hw vp vo = 0 := by
    rw [hz]
    rfl
  have hw : (checkWarnings IGNC_OVERVOLATGE_LIMIT IGNC_UNDERVOLATGE_LIMIT IGNC_QDROP_LIMIT vp 0
      d.igncProt).ocp_warning = 0 := rfl
  have hc : (checkWarnings IGNC_OVERVOLATGE_LIMIT IGNC_UNDERVOLATGE_LIMIT IGNC_QDROP_LIMIT vp 0
      d.igncProt).ocp_counter = d.igncProt.ocp_counter := rfl
  unfold igncPre
  rw [hd]
  refine ⟨?_, ?_, ?_⟩
  · show (if vp > IGNC_OVERVOLATGE_LIMIT ∧ IGNC_OVERVOLATGE_LIMIT ≠ 0 then 1 else 0) = 0
    exact if_neg (fun k => k.2 rfl)
  · show (if vp < IGNC_UNDERVOLATGE_LIMIT ∧ IGNC_UNDERVOLATGE_LIMIT ≠ 0 then 1 else 0) = 0
    exact if_neg (fun k => k.2 rfl)
  · unfold ocpDelay
    simp only []
    unfold ocpCounterNext
    rw [hw]
    simp only [ne_eq, not_true_eq_false, false_and, if_false]
    generalize checkWarnings IGNC_OVERVOLATGE_LIMIT IGNC_UNDERVOLATGE_LIMIT IGNC_QDROP_LIMIT vp 0
      d.igncProt = q at hc ⊢
    rw [hc]
    split_ifs <;> omega

/-- One protection step on an ignition channel at HiZ: the bound `igncSettle`
drops by one at least. -/
theorem igncAfter_settle (d : OutDrv) (vp vo : Nat) (hz : d.igncState.hw = HWOUT_HIZ)
    (hb : IgncBounded d.igncProt) :
    igncSettle (igncAfter d vp vo) ≤ igncSettle d.igncProt - 1 := by
  obtain ⟨b1, b2, b3⟩ := hb
  obtain ⟨w1, w2, w3⟩ := igncPre_hiz d vp vo hz
  have c1 : (igncPre d vp vo).fault = d.igncProt.fault := rfl
  have c2 : (igncPre d vp vo).cooldown_timer = d.igncProt.cooldown_timer := rfl
  have c3 : (igncPre d vp vo).retry_timer = d.igncProt.retry_timer := rfl
  have c4 : (igncPre d vp vo).fault_cnt = d.igncProt.fault_cnt := rfl
  unfold igncSettle
  rw [igncAfter_checkFault, checkFault_ocp_counter, checkFault_cooldown_timer,
    checkFault_retry_timer, checkFault_fault, checkFault_fault_cnt, w1, w2, w3, c1, c2, c3, c4]
  generalize d.igncProt.ocp_counter = c at b1 ⊢
  generalize d.igncProt.cooldown_timer = cd at b2 ⊢
  generalize d.igncProt.retry_timer = rt at b3 ⊢
  generalize d.igncProt.fault = f
  generalize d.igncProt.fault_cnt = n
  simp only [ISOL_OCP_DELAY, IGNC_FAULT_COOLDOWN_TIME, IGNC_FAULT_RETRY_TIMEOUT] at b2 b3 ⊢
  by_cases h : c - 1 > 2
  · have k : (0 : Nat) ≠ 0 ∨ (0 : Nat) ≠ 0 ∨ c - 1 > 2 := Or.inr (Or.inr h)
    rw [if_pos k, if_pos k, if_pos k, if_pos k]
    split_ifs <;> omega
  · have k : ¬ ((0 : Nat) ≠ 0 ∨ (0 : Nat) ≠ 0 ∨ c - 1 > 2) := fun x =>
      x.elim (fun y => y rfl) (fun x => x.elim (fun y => y rfl) h)
    rw [if_neg k, if_neg k, if_neg k, if_neg k]
    split_ifs <;> omega

/-- With the bound at 0 the episode is forgotten. -/
theorem igncSettle_zero (p : ProtectionDef) (h : igncSettle p = 0) :
    p.fault = 0 ∧ p.fault_cnt = 0 ∧ p.cooldown_timer = 0 ∧ p.retry_timer = 0 ∧
    p.ocp_counter ≤ ISOL_OCP_DELAY + 1 := by
  unfold igncSettle at h
  simp only [ISOL_OCP_DELAY, IGNC_FAULT_COOLDOWN_TIME, IGNC_FAULT_RETRY_TIMEOUT] at h ⊢
  split_ifs at h <;> omega

/-- The bound never exceeds the dwell `LOCKOUT_TIMEOUT` loads. -/
theorem igncSettle_le (p : ProtectionDef) (hb : IgncBounded p) :
    igncSettle p ≤ LOCKOUT_TIMEOUT := by
  obtain ⟨b1, b2, b3⟩ := hb
  unfold igncSettle
  simp only [ISOL_OCP_DELAY, IGNC_FAULT_COOLDOWN_TIME, IGNC_FAULT_RETRY_TIMEOUT,
    LOCKOUT_TIMEOUT] at b2 b3 ⊢
  split_ifs <;> omega

/-- The bound and the ranges read the counter and the four fields of the
block "Check fault" only. -/
theorem igncSettle_congr (p q : ProtectionDef) (hc : q.ocp_counter = p.ocp_counter)
    (h : SameCore p q) :
    igncSettle q = igncSettle p ∧ (IgncBounded p → IgncBounded q) := by
  obtain ⟨h1, h2, h3, h4⟩ := h
  unfold igncSettle IgncBounded
  rw [hc, h1, h2, h3, h4]
  exact ⟨rfl, id⟩

theorem ProcessLogic_ignc_counter (d : OutDrv) :
    (OUTDRV_ProcessLogic d).igncProt.ocp_counter = d.igncProt.ocp_counter := by
  unfold OUTDRV_ProcessLogic
  rw [(ProcessLogicIsolator_ignc _).2.1]
  unfold ProcessLogicIgnition HAL_SetIgnition
  split_ifs <;> rfl

/-- At the end of a tick the ignition's counter and fault history are those
left by the protection processing of that tick. -/
theorem mainLoop_igncProt (s : Sys) (a : Sample) :
    (mainLoop s a).out.igncProt.ocp_counter =
      (igncAfter s.out (ADCDRV_GetValue a ADC_ALTU) (ADCDRV_GetValue a ADC_IGNC)).ocp_counter ∧
    SameCore (igncAfter s.out (ADCDRV_GetValue a ADC_ALTU) (ADCDRV_GetValue a ADC_IGNC))
      (mainLoop s a).out.igncProt := by
  have e : (loopControl s a).out.igncProt =
      igncAfter s.out (ADCDRV_GetValue a ADC_ALTU) (ADCDRV_GetValue a ADC_IGNC) := by
    rw [loopControl_tickEscalated, (loopStateMachine_inputs (tickEscalated s a)).2.2.2]
    unfold tickEscalated
    rw [escalation_out, ← tickProtected_igncProt]
    generalize tickProtected s a = p
    unfold loopIsolFault
    split_ifs <;> rfl
  have c := ProcessLogic_ignc_counter (loopControl s a).out
  have k := (ProcessLogic_core (loopControl s a).out).2
  rw [mainLoop_out]
  generalize OUTDRV_ProcessLogic (loopControl s a).out = r at c k
  rw [e] at c k
  exact ⟨c, k⟩

/-- The procedure `Startup_Procedure` does not return SLEEP and leaves the
static locals of `Lockout_Procedure` alone. -/
theorem Startup_Procedure_dwell (q : Sys) :
    (Startup_Procedure q).2 ≠ SLEEP ∧
    (Startup_Procedure q).1.m.lockout_step = q.m.lockout_step ∧
    (Startup_Procedure q).1.m.lockout_timeout = q.m.lockout_timeout := by
  unfold Startup_Procedure
  by_cases h0 : q.m.startup_step = 0
  · rw [if_pos h0]
    exact ⟨Nat.succ_ne_zero _, rfl, rfl⟩
  rw [if_neg h0]
  by_cases h1 : q.m.startup_step = 1
  · rw [if_pos h1]
    split_ifs <;> exact ⟨Nat.succ_ne_zero _, rfl, rfl⟩
  rw [if_neg h1]
  by_cases h2 : q.m.startup_step = 2
  · rw [if_pos h2]
    split_ifs <;> exact ⟨Nat.succ_ne_zero _, rfl, rfl⟩
  rw [if_neg h2]
  by_cases h3 : q.m.startup_step = 3
  · rw [if_pos h3]
    split_ifs <;> exact ⟨Nat.succ_ne_zero _, rfl, rfl⟩
  rw [if_neg h3]
  by_cases h4 : q.m.startup_step = 4
  · rw [if_pos h4]
    split_ifs <;> exact ⟨Nat.succ_ne_zero _, rfl, rfl⟩
  rw [if_neg h4]
  exact ⟨Nat.succ_ne_zero _, rfl, rfl⟩

/-- The procedure `Kill_Procedure` does not return SLEEP and leaves the static
locals of `Lockout_Procedure` alone. -/
theorem Kill_Procedure_dwell (q : Sys) :
    (Kill_Procedure q).2 ≠ SLEEP ∧
    (Kill_Procedure q).1.m.lockout_step = q.m.lockout_step ∧
    (Kill_Procedure q).1.m.lockout_timeout = q.m.lockout_timeout := by
  unfold Kill_Procedure
  by_cases h0 : q.m.kill_step = 0
  · rw [if_pos h0]
    exact ⟨Nat.succ_ne_zero _, rfl, rfl⟩
  rw [if_neg h0]
  by_cases h1 : q.m.kill_step = 1
  · rw [if_pos h1]
    simp only
    split_ifs <;> exact ⟨Nat.succ_ne_zero _, rfl, rfl⟩
  rw [if_neg h1]
  by_cases h2 : q.m.kill_step = 2
  · rw [if_pos h2]
    exact ⟨Nat.succ_ne_zero _, rfl, rfl⟩
  rw [if_neg h2]
  by_cases h3 : q.m.kill_step = 3
  · rw [if_pos h3]
    split_ifs <;> exact ⟨Nat.succ_ne_zero _, rfl, rfl⟩
  rw [if_neg h3]
  exact ⟨Nat.succ_ne_zero _, rfl, rfl⟩

/-- The `switch(sys_state)` outside LOCKOUT: it leaves the static locals of
`Lockout_Procedure` alone, and it ends in SLEEP only from SLEEP. -/
theorem loopStateMachine_dwell (q : Sys) (h : q.m.sys_state ≠ LOCKOUT) :
    (loopStateMachine q).m.lockout_step = q.m.lockout_step ∧
    (loopStateMachine q).m.lockout_timeout = q.m.lockout_timeout ∧
    ((loopStateMachine q).m.sys_state = SLEEP → q.m.sys_state = SLEEP) := by
  unfold loopStateMachine
  by_cases h0 : q.m.sys_state = SLEEP
  · rw [if_pos h0]
    split_ifs <;> exact ⟨rfl, rfl, fun _ => h0⟩
  rw [if_neg h0]
  by_cases h1 : q.m.sys_state = STARTUP
  · rw [if_pos h1]
    obtain ⟨a1, a2, a3⟩ := Startup_Procedure_dwell q
    exact ⟨a2, a3, fun k => absurd k a1⟩
  rw [if_neg h1]
  by_cases h2 : q.m.sys_state = ACTIVE
  · rw [if_pos h2]
    split_ifs
    · exact ⟨rfl, rfl, fun k => k.elim⟩
    · exact ⟨rfl, rfl, fun k => k.elim⟩
  rw [if_neg h2]
  by_cases h3 : q.m.sys_state = KILLING
  · rw [if_pos h3]
    obtain ⟨a1, a2, a3⟩ := Kill_Procedure_dwell q
    exact ⟨a2, a3, fun k => absurd k a1⟩
  rw [if_neg h3, if_neg h]
  exact ⟨rfl, rfl, fun k => absurd k (by decide : KILLING ≠ SLEEP)⟩

/-- The `switch(sys_state)` in LOCKOUT runs `Lockout_Procedure`. -/
theorem loopStateMachine_lockout (q : Sys) (h : q.m.sys_state = LOCKOUT) :
    (loopStateMachine q).m.sys_state = (Lockout_Procedure q).2 ∧
    (loopStateMachine q).m.lockout_step = (Lockout_Procedure q).1.m.lockout_step ∧
    (loopStateMachine q).m.lockout_timeout = (Lockout_Procedure q).1.m.lockout_timeout := by
  have n : q.m.sys_state ≠ 0 ∧ q.m.sys_state ≠ 1 ∧ q.m.sys_state ≠ 2 ∧ q.m.sys_state ≠ 3 := by
    have k : q.m.sys_state = 4 := h
    omega
  unfold loopStateMachine
  rw [if_neg n.1, if_neg n.2.1, if_neg n.2.2.1, if_neg n.2.2.2, if_pos h]
  exact ⟨rfl, rfl, rfl⟩

/-- Up to the `switch(sys_state)` a tick leaves the static locals of
`Lockout_Procedure` alone. -/
theorem tickEscalated_dwell (s : Sys) (a : Sample) :
    (tickEscalated s a).m.lockout_step = s.m.lockout_step ∧
    (tickEscalated s a).m.lockout_timeout = s.m.lockout_timeout := by
  have f : ∀ q : Sys, (loopFaultCount q).m.lockout_step = q.m.lockout_step ∧
      (loopFaultCount q).m.lockout_timeout = q.m.lockout_timeout := by
    intro q
    unfold loopFaultCount
    split_ifs <;> exact ⟨rfl, rfl⟩
  have o : ∀ q : Sys, (loopRelayOCP q).m.lockout_step = q.m.lockout_step ∧
      (loopRelayOCP q).m.lockout_timeout = q.m.lockout_timeout := by
    intro q
    obtain ⟨x, y, e⟩ := IsolatorOCP_fst q.m
    unfold loopRelayOCP
    simp only []
    generalize IsolatorOCP q.m = r at e
    rw [e]
    split_ifs <;> exact ⟨rfl, rfl⟩
  have g : (tickGuarded s a).m.lockout_step = s.m.lockout_step ∧
      (tickGuarded s a).m.lockout_timeout = s.m.lockout_timeout := by
    unfold tickGuarded loopIsolFault tickProtected loopProtection
    simp only [DataGathering, List.foldl, DataGatheringPass]
    split_ifs <;> exact ⟨rfl, rfl⟩
  have e : tickEscalated s a = loopFaultCount (loopRelayOCP (tickGuarded s a)) := rfl
  rw [e, (f _).1, (f _).2, (o _).1, (o _).2]
  exact g

/-- One tick keeps the dwell invariant. -/
theorem DwellInv_loop (s : Sys) (a : Sample) (hs : SafeInv s) (h : DwellInv s) :
    DwellInv (mainLoop s a) := by
  obtain ⟨hb, h1, h2, h3⟩ := h
  obtain ⟨ic, ik⟩ := mainLoop_igncProt s a
  obtain ⟨ie, ib⟩ := igncSettle_congr _ _ ic ik
  have bP := igncAfter_bounded s.out (ADCDRV_GetValue a ADC_ALTU) (ADCDRV_GetValue a ADC_IGNC) hb
  have hz : s.m.sys_state = SLEEP ∨ s.m.sys_state = LOCKOUT →
      igncSettle (mainLoop s a).out.igncProt ≤ igncSettle s.out.igncProt - 1 := by
    intro k
    have z : s.out.igncState.hw = HWOUT_HIZ := (hs.2.2.2.2.1 k).2.2.2.2.1
    rw [ie]
    exact igncAfter_settle s.out _ _ z hb
  have top := igncSettle_le _ (ib bP)
  obtain ⟨d1, d2⟩ := tickEscalated_dwell s a
  obtain ⟨-, -, ch⟩ := tickEscalated_chan s a
  have em : (mainLoop s a).m = (loopStateMachine (tickEscalated s a)).m := by
    rw [mainLoop_m, loopControl_tickEscalated]
  unfold DwellInv
  rw [em]
  generalize (mainLoop s a).out.igncProt = P at hz top ib ⊢
  refine ⟨ib bP, ?_⟩
  clear ib bP ic ik ie hb hs
  generalize tickEscalated s a = q at d1 d2 ch ⊢
  by_cases hl : s.m.sys_state = LOCKOUT
  · have ql : q.m.sys_state = LOCKOUT := by
      rcases ch with c | c
      · rw [c]; exact hl
      · rw [hl] at c
        exact absurd c.1 (by decide)
    obtain ⟨e1, e2, e3⟩ := loopStateMachine_lockout q ql
    rw [e1, e2, e3]
    have z := hz (Or.inr hl)
    have t := h2 hl
    clear hz h1 h2 h3 e1 e2 e3 ch
    by_cases s0 : q.m.lockout_step = 0
    · obtain ⟨r1, r2, r3, -⟩ := Lockout_Procedure_step0 q s0
      rw [r1, r2, r3]
      exact ⟨fun k => absurd rfl k, fun _ _ => top, fun k => absurd k (by decide)⟩
    · have s0' : s.m.lockout_step ≠ 0 := by rw [← d1]; exact s0
      have t' := t s0'
      by_cases hm : q.m.master_act ≠ 0
      · obtain ⟨r1, r2, r3⟩ := Lockout_Procedure_master q s0 hm
        rw [r1, r2, r3]
        exact ⟨fun k => absurd rfl k, fun _ _ => top, fun k => absurd k (by decide)⟩
      · have hm' : q.m.master_act = 0 := not_not.mp hm
        by_cases ht : q.m.lockout_timeout = 0
        · obtain ⟨r1, r2⟩ := Lockout_Procedure_end q s0 hm' ht
          rw [r1, r2]
          refine ⟨fun _ => rfl, fun k => absurd k (by decide), fun _ => ?_⟩
          rw [← d2, ht] at t'
          omega
        · obtain ⟨r1, r2, r3⟩ := Lockout_Procedure_wait q s0 hm' ht
          rw [r1, r2, r3]
          refine ⟨fun k => absurd rfl k, fun _ _ => ?_, fun k => absurd k (by decide)⟩
          rw [d2]
          omega
  · have ql : q.m.sys_state ≠ LOCKOUT := by
      rcases ch with c | c
      · rw [c]; exact hl
      · rw [c.2]; decide
    obtain ⟨e1, e2, e3⟩ := loopStateMachine_dwell q ql
    have s0 : s.m.lockout_step = 0 := h1 hl
    rw [e1, d1]
    refine ⟨fun _ => s0, fun _ k => absurd s0 k, fun k => ?_⟩
    have qs : q.m.sys_state = SLEEP := e3 k
    have ss : s.m.sys_state = SLEEP := by
      rcases ch with c | c
      · rw [← c]; exact qs
      · rw [c.2] at qs
        exact absurd qs (by decide)
    have z := hz (Or.inl ss)
    have t := h3 ss
    omega

/-- The state left by the initialisation satisfies the dwell invariant. -/
theorem DwellInv_init (bootstraps : Nat) (samples : List Sample) :
    DwellInv (mainInit bootstraps samples) := by
  have e : ∀ (l : List Sample) (t : Sys),
      (DataGathering t l).out = t.out ∧
      (DataGathering t l).m.lockout_step = t.m.lockout_step := by
    intro l
    induction l with
    | nil => intro t; exact ⟨rfl, rfl⟩
    | cons x xs ih =>
      intro t
      obtain ⟨i1, i2⟩ := ih (DataGatheringPass t x)
      exact ⟨i1, i2⟩
  obtain ⟨e1, e2⟩ := e samples (mainSetup bootstraps)
  have o : (mainInit bootstraps samples).out = (mainSetup bootstraps).out := e1
  have l : (mainInit bootstraps samples).m.lockout_step = 0 := e2
  have p : (mainSetup bootstraps).out.igncProt = protZero := by
    show (OUTDRV_ProcessLogic _).igncProt = protZero
    unfold OUTDRV_ProcessLogic
    rw [(ProcessLogicIsolator_ignc _).2.1]
    simp [ProcessLogicIgnition, HAL_SetIgnition, OUTDRV_ResetOutput, OUTDRV_DisableOutput,
      OUTDRV_Init, protZero]
  unfold DwellInv
  rw [o, p, l]
  exact ⟨⟨by decide, by decide, by decide⟩, fun _ => rfl, fun _ k => absurd rfl k,
    fun _ => by decide⟩

/-- Every state at the top of the main loop satisfies the dwell invariant. -/
theorem Reachable.dwellInv {s : Sys} (h : Reachable s) : DwellInv s := by
  induction h with
  | init b samples _ => exact DwellInv_init b samples
  | loop t a ht ih => exact DwellInv_loop t a ht.safeInv ih

/-! ## The example run through the lockout dwell -/

set_option maxRecDepth 100000 in
theorem mainInit_kill : mainInit 15 (List.replicate 100 smpKill) = exBootLock := by
  have h1 : DataGatheringPass (DataGathering (mainSetup 15) (List.replicate 12 smpKill)) smpKill =
      DataGathering (mainSetup 15) (List.replicate 12 smpKill) := by
    decide
  have h2 : DataGathering (mainSetup 15) (List.replicate 100 smpKill) =
      DataGathering (mainSetup 15) (List.replicate 12 smpKill) := by
    rw [show (100 : Nat) = 12 + 88 from rfl, List.replicate_add]
    unfold DataGathering
    rw [List.foldl_append]
    exact DataGathering_fixed _ _ h1 88
  unfold mainInit
  rw [h2]
  decide

theorem tick_lockout0 : mainLoop exBootLock smpOff = exDwell 0 := by
  decide

theorem tick_dwell (t lt tm : Nat) (pb : Bool) (ht : t ≠ 0) (hl : lt ≠ 0) :
    mainLoop (exDwellAt t lt tm pb) smpOff =
      exDwellAt (t - 1) (lt - 1) (if tm ≠ 0 then tm - 1 else 500) (if tm ≠ 0 then pb else !pb) := by
  by_cases h : tm = 0 <;>
  simp [mainLoop, loopControl, DataGathering, DataGatheringPass, loopProtection, loopIsolFault,
    loopRelayOCP, loopFaultCount, loopStateMachine, Lockout_Procedure, IsolatorOCP,
    ocpCounterNext, OUTDRV_ProcessProtection, ProcessIsolatorProtection,
    ProcessIgnitionProtection, mosfetDrop, checkWarnings, ocpDelay, checkFault,
    OUTDRV_ProcessLogic, ProcessLogicIsolator, ProcessLogicIgnition, HAL_SetIsolator,
    HAL_SetIgnition, StateToHWLevel, OUTDRV_GetFault, OUTDRV_GetFaultCount,
    OUTDRV_GetRealOutput, LEDDRV_Process, INDRV_ReadAll, inactiveState, readChannel,
    INDRV_GetInput, ADCDRV_GetValue, exDwellAt, exSys, exMain, chOff, smpOff, protZero, ht, hl, h]

theorem exDwell_tick (k : Nat) (hk : k < 5000) : mainLoop (exDwell k) smpOff = exDwell (k + 1) := by
  have e1 : 5000 - k - 1 = 5000 - (k + 1) := by omega
  have e2 : 30000 - k - 1 = 30000 - (k + 1) := by omega
  have e3 : (if 500 - k % 501 ≠ 0 then 500 - k % 501 - 1 else 500) = 500 - (k + 1) % 501 := by
    split_ifs <;> omega
  have e4 : (if 500 - k % 501 ≠ 0 then decide (k / 501 % 2 = 1)
      else !decide (k / 501 % 2 = 1)) = decide ((k + 1) / 501 % 2 = 1) := by
    by_cases c : 500 - k % 501 ≠ 0
    · rw [if_pos c]
      have : (k + 1) / 501 = k / 501 := by omega
      rw [this]
    · rw [if_neg c]
      have : (k + 1) / 501 = k / 501 + 1 := by omega
      rw [this]
      by_cases p : k / 501 % 2 = 1
      · have q : ¬ ((k / 501 + 1) % 2 = 1) := by omega
        simp [p, q]
      · have q : (k / 501 + 1) % 2 = 1 := by omega
        simp [p, q]
  unfold exDwell
  rw [tick_dwell _ _ _ _ (by omega) (by omega), e1, e2, e3, e4]

theorem exDwell_run : mainLoopRun (exDwell 0) (List.replicate 5000 smpOff) = exDwell 5000 :=
  mainLoopRun_family smpOff exDwell 5000 exDwell_tick

/-- The state at the end of the lockout dwell is reached from boot: 100 samples
with the kill switch active, then 5001 ticks with both switches off. -/
theorem exDwell_reachable : Reachable (exDwell 5000) := by
  rw [← exDwell_run, ← tick_lockout0, ← mainInit_kill]
  exact ((Reachable.init 15 _ (List.length_replicate _ _)).loop _ smpOff).run _

/-! ## Leaving LOCKOUT -/

/-- A tick that starts in LOCKOUT and ends in SLEEP ran `Lockout_Procedure`
past sub-step 0 with the dwell timeout at 0. -/
theorem mainLoop_lockout_sleep (s : Sys) (a : Sample) (hl : s.m.sys_state = LOCKOUT)
    (hs : (mainLoop s a).m.sys_state = SLEEP) :
    s.m.lockout_step ≠ 0 ∧ s.m.lockout_timeout = 0 ∧ (tickEscalated s a).m.master_act = 0 := by
  obtain ⟨d1, d2⟩ := tickEscalated_dwell s a
  obtain ⟨-, -, ch⟩ := tickEscalated_chan s a
  rw [mainLoop_m, loopControl_tickEscalated] at hs
  generalize tickEscalated s a = q at d1 d2 ch hs ⊢
  have ql : q.m.sys_state = LOCKOUT := by
    rcases ch with c | c
    · rw [c]; exact hl
    · rw [hl] at c
      exact absurd c.1 (by decide)
  rw [(loopStateMachine_lockout q ql).1] at hs
  obtain ⟨r1, r2, r3⟩ := Lockout_Procedure_sleep q hs
  rw [d1] at r1
  rw [d2] at r3
  exact ⟨r1, r3, r2⟩

/-- In a reachable state in SLEEP the ignition has no fault history, and the
next tick leaves it so, whether it stays in SLEEP or starts the start-up. -/
theorem sleep_tick_history (s : Sys) (a : Sample) (hr : Reachable s)
    (hs : s.m.sys_state = SLEEP) :
    igncSettle s.out.igncProt = 0 ∧ igncSettle (tickProtected s a).out.igncProt = 0 ∧
    igncSettle (mainLoop s a).out.igncProt = 0 := by
  obtain ⟨hb, -, -, h3⟩ := hr.dwellInv
  have z : s.out.igncState.hw = HWOUT_HIZ := (hr.safeInv.2.2.2.2.1 (Or.inl hs)).2.2.2.2.1
  have t := h3 hs
  have k := igncAfter_settle s.out (ADCDRV_GetValue a ADC_ALTU) (ADCDRV_GetValue a ADC_IGNC) z hb
  obtain ⟨ic, ik⟩ := mainLoop_igncProt s a
  obtain ⟨ie, -⟩ := igncSettle_congr _ _ ic ik
  rw [ie, tickProtected_igncProt]
  refine ⟨t, ?_, ?_⟩ <;> omega

/-- C32: on a tick of the main loop that starts in a reachable state with
`sys_state = LOCKOUT` and ends with `sys_state = SLEEP`, whatever the sample
reads, the ignition's `fault` and `fault_cnt` are 0 at the top of the tick,
after the protection processing of the tick and at the end of the tick; the
fault count read by `OUTDRV_GetFaultCount(OUT_IGNC)` is 0, below the
escalation limit; and after the following tick, which stays in SLEEP or enters
STARTUP, both are still 0.  The tick ran `Lockout_Procedure` with the dwell
timeout at 0, and the dwell of `LOCKOUT_TIMEOUT` ticks covers the bound
`igncSettle` on the steps the ignition needs to forget an episode. -/
theorem C32_lockout_exit_clears_ignition_history (s : Sys) (a : Sample) (hr : Reachable s)
    (hl : s.m.sys_state = LOCKOUT) (hs : (mainLoop s a).m.sys_state = SLEEP) :
    (s.out.igncProt.fault = 0 ∧ s.out.igncProt.fault_cnt = 0) ∧
    ((tickProtected s a).out.igncProt.fault = 0 ∧
      (tickProtected s a).out.igncProt.fault_cnt = 0) ∧
    ((mainLoop s a).out.igncProt.fault = 0 ∧ (mainLoop s a).out.igncProt.fault_cnt = 0) ∧
    OUTDRV_GetFaultCount (mainLoop s a).out OUT_IGNC = 0 ∧
    (∀ b : Sample,
      (mainLoop (mainLoop s a) b).out.igncProt.fault = 0 ∧
      (mainLoop (mainLoop s a) b).out.igncProt.fault_cnt = 0) ∧
    (s.m.lockout_timeout = 0 ∧ igncSettle s.out.igncProt ≤ s.m.lockout_timeout) := by
  obtain ⟨hb, -, h2, -⟩ := hr.dwellInv
  obtain ⟨l1, l2, -⟩ := mainLoop_lockout_sleep s a hl hs
  have t := h2 hl l1
  have z : s.out.igncState.hw = HWOUT_HIZ := (hr.safeInv.2.2.2.2.1 (Or.inr hl)).2.2.2.2.1
  have k := igncAfter_settle s.out (ADCDRV_GetValue a ADC_ALTU) (ADCDRV_GetValue a ADC_IGNC) z hb
  have n := fun b => (sleep_tick_history (mainLoop s a) b (Reachable.loop s a hr) hs)
  have t0 : igncSettle s.out.igncProt = 0 := by omega
  have k0 : igncSettle (tickProtected s a).out.igncProt = 0 := by
    rw [tickProtected_igncProt]
    omega
  obtain ⟨a1, a2, -⟩ := igncSettle_zero _ t0
  obtain ⟨b1, b2, -⟩ := igncSettle_zero _ k0
  obtain ⟨c1, c2, -⟩ := igncSettle_zero _ (n a).1
  refine ⟨⟨a1, a2⟩, ⟨b1, b2⟩, ⟨c1, c2⟩, c2, fun b => ?_, l2, t⟩
  obtain ⟨e1, e2, -⟩ := igncSettle_zero _ (n b).2.2
  exact ⟨e1, e2⟩

/-- C32 at the end of the example dwell: `exDwell 5000` is reached from boot
(kill switch active during the initialisation, then 5001 ticks with both
switches off), it is in LOCKOUT with the dwell timeout at 0, and the next tick
ends in SLEEP with the ignition's `fault` and `fault_cnt` at 0. -/
theorem C32_witness :
    Reachable (exDwell 5000) ∧ (exDwell 5000).m.sys_state = LOCKOUT ∧
    (exDwell 5000).m.lockout_timeout = 0 ∧
    (mainLoop (exDwell 5000) smpOff).m.sys_state = SLEEP ∧
    (mainLoop (exDwell 5000) smpOff).out.igncProt.fault = 0 ∧
    (mainLoop (exDwell 5000) smpOff).out.igncProt.fault_cnt = 0 :=
  have h1 : (exDwell 5000).m.sys_state = LOCKOUT := rfl
  have h2 : (mainLoop (exDwell 5000) smpOff).m.sys_state = SLEEP := by decide
  ⟨exDwell_reachable, h1, by decide, h2,
    (C32_lockout_exit_clears_ignition_history (exDwell 5000) smpOff exDwell_reachable
      h1 h2).2.2.1⟩

end IsolatorController
